import Mathlib

/-!
# ReciptShare API: a shallow embedding of the request handlers

The relational tables of `src/config/schema.js` are lists of rows (insertion order),
SQL statements are list operations, and every Express handler is a pure function from
the database state and the request to a response together with the new state.

Conventions used throughout:
* nullable columns and JSON fields that may be `null`/`undefined` are `Option`s;
* `DECIMAL(p,2)` columns are integers counting hundredths;
* timestamps are natural numbers read from a clock argument `now`;
* values produced outside the repository (`generateUUID`, `bcrypt`, `jsonwebtoken`,
  PostgreSQL `ILIKE`) are arguments of the handlers that use them.
-/

set_option autoImplicit false

namespace ReciptShare

/-! ## JavaScript helpers -/

/-- Truthiness of a JavaScript string: only the empty string is falsy. -/
def truthy (s : String) : Bool := !(s.data.isEmpty)

/-- Truthiness of an optional (possibly `null`/`undefined`) string. -/
def truthyOpt : Option String → Bool
  | none => false
  | some s => truthy s

/-- Truthiness of a nullable boolean column. -/
def truthyBool : Option Bool → Bool
  | some true => true
  | _ => false

/-- The expression `x || null` for a string `x` that may be absent. -/
def orNull : Option String → Option String
  | none => none
  | some s => if truthy s then some s else none

/-- The code points of the white space and line terminators of JavaScript, the class `\s`
of its regular expressions: tab, line feed, vertical tab, form feed, carriage return,
space, no-break space, U+1680, U+2000 to U+200A, U+2028, U+2029, U+202F, U+205F, U+3000
and U+FEFF. -/
def jsWhitespaceCodes : List Nat :=
  [9, 10, 11, 12, 13, 32, 160, 5760, 8192, 8193, 8194, 8195, 8196, 8197, 8198, 8199, 8200,
    8201, 8202, 8232, 8233, 8239, 8287, 12288, 65279]

/-- Whether a character is white space for `String.prototype.trim`, `parseInt` and the
sanitizer `trim` of express-validator. -/
def isJsWhitespace (c : Char) : Bool := jsWhitespaceCodes.contains c.toNat

/-- Drop leading white space from a list of characters. -/
def dropSpaces : List Char → List Char
  | [] => []
  | c :: cs => if isJsWhitespace c then dropSpaces cs else c :: cs

/-- The method `String.prototype.trim`, which is also what the sanitizer `.trim()` of
express-validator computes: white space is removed at both ends. -/
def jsTrim (s : String) : String :=
  String.mk (dropSpaces (dropSpaces s.data).reverse).reverse

/-- The method `String.prototype.toLowerCase` (on the ASCII letters). -/
def toLowerCase (s : String) : String := String.mk (s.data.map Char.toLower)

/-- A template literal slot: `null` is printed as the text `null`. -/
def showNullable : Option String → String
  | none => "null"
  | some s => s

/-! ## Tables (`src/config/schema.js`) -/

/-- A row of `users`. -/
structure UserRow where
  id : String
  username : String
  email : String
  password_hash : String
  first_name : String
  last_name : Option String := none
  bio : Option String := none
  profile_image_url : Option String := none
  location : Option String := none
  website : Option String := none
  is_public_profile : Option Bool := some true
  allow_recipe_notifications : Option Bool := some true
  allow_follower_notifications : Option Bool := some true
  allow_comment_notifications : Option Bool := some true
  is_verified : Option Bool := some false
  is_active : Option Bool := some true
  created_at : Nat := 0
  updated_at : Nat := 0
deriving DecidableEq, Repr

/-- A row of `categories`. -/
structure CategoryRow where
  id : Int
  name : String
  description : Option String := none
  color : Option String := some "#2196F3"
  icon : Option String := none
  is_active : Option Bool := some true
  created_at : Nat := 0
deriving DecidableEq, Repr

/-- The enum type `difficulty_level`; the declaration order is its sort order. -/
inductive Difficulty where
  | Easy | Medium | Hard | Expert
deriving DecidableEq, Repr

/-- Position of a label in the enum declaration. -/
def Difficulty.rank : Difficulty → Nat
  | .Easy => 0
  | .Medium => 1
  | .Hard => 2
  | .Expert => 3

/-- Input conversion of a text parameter to `difficulty_level`; `none` is the
"invalid input value for enum" error. -/
def Difficulty.ofString (s : String) : Option Difficulty :=
  if s = "Easy" then some .Easy
  else if s = "Medium" then some .Medium
  else if s = "Hard" then some .Hard
  else if s = "Expert" then some .Expert
  else none

/-- A row of `recipes`. -/
structure RecipeRow where
  id : String
  title : String
  description : String
  author_id : String
  prep_time_minutes : Int
  cook_time_minutes : Int
  servings : Int
  difficulty : Difficulty := .Easy
  image_url : Option String := none
  instructions : List String
  is_public : Option Bool := some true
  is_featured : Option Bool := some false
  created_at : Nat := 0
  updated_at : Nat := 0
deriving DecidableEq, Repr

/-- A row of `recipe_ingredients`; `quantity` is `DECIMAL(10,2)`, in hundredths. -/
structure IngredientRow where
  id : String
  recipe_id : String
  name : String
  quantity : Int
  unit : String
  notes : Option String := none
  order_index : Int := 1
  created_at : Nat := 0
deriving DecidableEq, Repr

/-- A row of `recipe_categories`. -/
structure RecipeCategoryRow where
  recipe_id : String
  category_id : Int
  created_at : Nat := 0
deriving DecidableEq, Repr

/-- A row of `recipe_ratings`. -/
structure RatingRow where
  id : String
  recipe_id : String
  user_id : String
  rating : Int
  review : Option String := none
  created_at : Nat := 0
  updated_at : Nat := 0
deriving DecidableEq, Repr

/-- A row of `recipe_comments`. -/
structure CommentRow where
  id : String
  recipe_id : String
  user_id : String
  comment : String
  parent_comment_id : Option String := none
  is_edited : Option Bool := some false
  created_at : Nat := 0
  updated_at : Nat := 0
deriving DecidableEq, Repr

/-- A row of `recipe_likes`. -/
structure LikeRow where
  recipe_id : String
  user_id : String
  created_at : Nat := 0
deriving DecidableEq, Repr

/-- A row of `user_followers`. -/
structure FollowRow where
  follower_id : String
  following_id : String
  created_at : Nat := 0
deriving DecidableEq, Repr

/-- A value of a `DECIMAL(10,2)` column that has no `CHECK`: a number, in hundredths, or
the special value `NaN`. -/
inductive Numeric where
  | finite (hundredths : Int)
  | nan
deriving DecidableEq, Repr

/-- A row of `shopping_list_items`. -/
structure ShoppingListItemRow where
  id : String
  user_id : String
  recipe_id : Option String := none
  ingredient_name : String
  quantity : Option Numeric := none
  unit : Option String := none
  notes : Option String := none
  is_completed : Option Bool := some false
  created_at : Nat := 0
  updated_at : Nat := 0
deriving DecidableEq, Repr

/-- The database: one list of rows per table. -/
structure Db where
  users : List UserRow := []
  categories : List CategoryRow := []
  recipes : List RecipeRow := []
  recipe_ingredients : List IngredientRow := []
  recipe_categories : List RecipeCategoryRow := []
  recipe_ratings : List RatingRow := []
  recipe_comments : List CommentRow := []
  recipe_likes : List LikeRow := []
  user_followers : List FollowRow := []
  shopping_list_items : List ShoppingListItemRow := []
deriving DecidableEq, Repr

/-! ## Responses -/

/-- An HTTP response: status code and the JSON body `{error, message, ..., timestamp}`.
The success payload, when there is one, is `data`. -/
structure Response (α : Type) where
  status : Nat
  error : Option String := none
  message : Option String := none
  data : Option α := none
  timestamp : Nat
deriving DecidableEq, Repr

/-- The columns the authentication middleware selects and stores in `req.user`. -/
structure AuthUser where
  id : String
  username : String
  email : String
  first_name : String
  last_name : Option String
  is_active : Option Bool
  is_verified : Option Bool
deriving DecidableEq, Repr

/-- The projection `SELECT id, username, email, first_name, last_name, is_active,
is_verified` of a `users` row. -/
def UserRow.toAuthUser (u : UserRow) : AuthUser :=
  { id := u.id, username := u.username, email := u.email, first_name := u.first_name,
    last_name := u.last_name, is_active := u.is_active, is_verified := u.is_verified }

/-! ## Aggregates and joins shared by the recipe queries -/

/-- The sub-query `SELECT COUNT(*) FROM recipe_likes WHERE recipe_id = r.id`. -/
def likesCountOf (db : Db) (recipeId : String) : Nat :=
  (db.recipe_likes.filter (fun l => l.recipe_id = recipeId)).length

/-- The sub-query `SELECT COUNT(*) FROM recipe_comments WHERE recipe_id = r.id`. -/
def commentsCountOf (db : Db) (recipeId : String) : Nat :=
  (db.recipe_comments.filter (fun c => c.recipe_id = recipeId)).length

/-- The sub-query `SELECT COUNT(*) FROM recipe_ratings WHERE recipe_id = r.id`. -/
def ratingsCountOf (db : Db) (recipeId : String) : Nat :=
  (db.recipe_ratings.filter (fun c => c.recipe_id = recipeId)).length

/-- Division of `a` by a positive `b`, rounded to the nearest integer, ties away
from zero (the rounding of a cast to `DECIMAL`). -/
def roundDiv (a b : Int) : Int :=
  if 0 ≤ a then (2 * a + b) / (2 * b) else -((2 * (-a) + b) / (2 * b))

/-- The aggregate `AVG(rating)::DECIMAL(3,2)` over the ratings of a recipe, in
hundredths; `none` is SQL `NULL` (no rows). -/
def averageRatingOf (db : Db) (recipeId : String) : Option Int :=
  let rows := db.recipe_ratings.filter (fun c => c.recipe_id = recipeId)
  if rows.isEmpty then none
  else some (roundDiv ((rows.map (fun c => c.rating)).sum * 100) rows.length)

/-- The columns `c.id, c.name, c.description, c.color, c.icon` of a category. -/
structure CategoryJson where
  id : Int
  name : String
  description : Option String
  color : Option String
  icon : Option String
deriving DecidableEq, Repr

/-- The query `SELECT c.* FROM categories c JOIN recipe_categories rc
ON c.id = rc.category_id WHERE rc.recipe_id = $1`. -/
def categoriesOf (db : Db) (recipeId : String) : List CategoryJson :=
  (db.recipe_categories.filter (fun rc => rc.recipe_id = recipeId)).flatMap fun rc =>
    (db.categories.filter (fun c => c.id = rc.category_id)).map fun c =>
      { id := c.id, name := c.name, description := c.description, color := c.color,
        icon := c.icon }

/-- The `author` object of a recipe response. -/
structure AuthorJson where
  id : String
  username : String
  firstName : String
  lastName : Option String
  fullName : String
  profileImageUrl : Option String
deriving DecidableEq, Repr

/-- The `author` object built from the joined `users` row. -/
def authorJson (u : UserRow) : AuthorJson :=
  { id := u.id, username := u.username, firstName := u.first_name, lastName := u.last_name,
    fullName := jsTrim (u.first_name ++ " " ++ showNullable u.last_name),
    profileImageUrl := u.profile_image_url }

/-- One element of the `ingredients` array of a recipe response; `quantity` is
`parseFloat` of the stored decimal, in hundredths. -/
structure IngredientJson where
  id : String
  name : String
  quantity : Int
  unit : String
  notes : Option String
  orderIndex : Int
deriving DecidableEq, Repr

/-- The `stats` object of a recipe response; `averageRating` in hundredths. -/
structure StatsJson where
  likesCount : Nat
  commentsCount : Nat
  averageRating : Option Int
  ratingsCount : Nat
deriving DecidableEq, Repr

/-- The object returned by `getCompleteRecipeById`. -/
structure CompleteRecipe where
  id : String
  title : String
  description : String
  prepTimeMinutes : Int
  cookTimeMinutes : Int
  totalTimeMinutes : Int
  servings : Int
  difficulty : Difficulty
  imageUrl : Option String
  instructions : List String
  isPublic : Option Bool
  isFeatured : Option Bool
  createdAt : Nat
  updatedAt : Nat
  author : AuthorJson
  ingredients : List IngredientJson
  categories : List CategoryJson
  stats : StatsJson
  isLikedByUser : Bool
  userRating : Option Int
deriving DecidableEq, Repr

/-- The join `recipes r JOIN users u ON r.author_id = u.id WHERE r.id = $1`. -/
def recipeWithAuthor (db : Db) (recipeId : String) : List (RecipeRow × UserRow) :=
  (db.recipes.filter (fun r => r.id = recipeId)).flatMap fun r =>
    (db.users.filter (fun u => u.id = r.author_id)).map fun u => (r, u)

/-- The query `SELECT ... FROM recipe_ingredients WHERE recipe_id = $1
ORDER BY order_index`. -/
def ingredientsOf (db : Db) (recipeId : String) : List IngredientRow :=
  (db.recipe_ingredients.filter (fun i => i.recipe_id = recipeId)).insertionSort
    (fun a b => a.order_index ≤ b.order_index)

/-- The element `{id, name, quantity: parseFloat(quantity), unit, notes, orderIndex}`. -/
def ingredientJson (i : IngredientRow) : IngredientJson :=
  { id := i.id, name := i.name, quantity := i.quantity, unit := i.unit,
    notes := i.notes, orderIndex := i.order_index }

/-- The helper `getCompleteRecipeById(client, recipeId, requestingUserId)` of
`recipeController.js`: `none` is the JavaScript `null` it returns when no row matches. -/
def getCompleteRecipeById (db : Db) (recipeId : String) (requestingUserId : Option String) :
    Option CompleteRecipe :=
  match recipeWithAuthor db recipeId with
  | [] => none
  | (r, u) :: _ =>
    some
      { id := r.id, title := r.title, description := r.description,
        prepTimeMinutes := r.prep_time_minutes, cookTimeMinutes := r.cook_time_minutes,
        totalTimeMinutes := r.prep_time_minutes + r.cook_time_minutes,
        servings := r.servings, difficulty := r.difficulty, imageUrl := r.image_url,
        instructions := r.instructions, isPublic := r.is_public, isFeatured := r.is_featured,
        createdAt := r.created_at, updatedAt := r.updated_at,
        author := authorJson u,
        ingredients := (ingredientsOf db recipeId).map ingredientJson,
        categories := categoriesOf db recipeId,
        stats :=
          { likesCount := likesCountOf db r.id, commentsCount := commentsCountOf db r.id,
            averageRating := averageRatingOf db r.id, ratingsCount := ratingsCountOf db r.id },
        isLikedByUser :=
          if truthyOpt requestingUserId then
            db.recipe_likes.any fun l => l.recipe_id = r.id ∧ some l.user_id = requestingUserId
          else false,
        userRating :=
          if truthyOpt requestingUserId then
            ((db.recipe_ratings.filter fun c =>
                c.recipe_id = r.id ∧ some c.user_id = requestingUserId).map
              fun c => c.rating).head?
          else none }

/-- The handler `getRecipeById` of `recipeController.js` (`GET /recipes/:id`, behind
`optionalAuth`): `user` is `req.user`. -/
def getRecipeById (db : Db) (now : Nat) (id : String) (user : Option AuthUser) :
    Response CompleteRecipe :=
  let requestingUserId : Option String := user.map fun u => u.id
  match getCompleteRecipeById db id requestingUserId with
  | none => { status := 404, error := some "Recipe not found", timestamp := now }
  | some recipe =>
    if !(truthyBool recipe.isPublic) && decide (some recipe.author.id ≠ requestingUserId) then
      { status := 403, error := some "Access denied",
        message := some "This recipe is private", timestamp := now }
    else { status := 200, data := some recipe, timestamp := now }

/-! ## `getRecipes` (`recipeController.js`) -/

/-- Value of a character as a digit of the given radix. -/
def digitValue (radix : Nat) (c : Char) : Option Nat :=
  let v : Option Nat :=
    if c.isDigit then some (c.toNat - 48)
    else if 97 ≤ c.toNat ∧ c.toNat ≤ 122 then some (c.toNat - 87)
    else if 65 ≤ c.toNat ∧ c.toNat ≤ 90 then some (c.toNat - 55)
    else none
  match v with
  | some d => if d < radix then some d else none
  | none => none

/-- Read the longest prefix of digits; `none` when there is no digit at all. -/
def takeDigits (radix : Nat) : List Char → Option Nat → Option Nat
  | [], acc => acc
  | c :: cs, acc =>
    match digitValue radix c with
    | some d => takeDigits radix cs (some (acc.getD 0 * radix + d))
    | none => acc

/-- The function `parseInt(s)` without a radix: leading white space, an optional sign, an
optional `0x` prefix, then the longest run of digits; `none` is `NaN`. -/
def parseIntJs (s : String) : Option Int :=
  let cs := dropSpaces s.data
  let signed : Bool × List Char :=
    match cs with
    | '-' :: t => (true, t)
    | '+' :: t => (false, t)
    | _ => (false, cs)
  let magnitude : Option Nat :=
    match signed.2 with
    | '0' :: 'x' :: t => takeDigits 16 t none
    | '0' :: 'X' :: t => takeDigits 16 t none
    | t => takeDigits 10 t none
  magnitude.map fun m => if signed.1 then -(m : Int) else (m : Int)

/-- The query string `req.query` of `GET /recipes`; an absent key is `none`. -/
structure RecipesQuery where
  page : Option String := none
  limit : Option String := none
  search : Option String := none
  category : Option String := none
  difficulty : Option String := none
  authorId : Option String := none
  featured : Option String := none
  sort : Option String := none
  order : Option String := none
deriving DecidableEq, Repr

/-- A bound parameter of a query: a text, or a JavaScript number (`none` is `NaN`). -/
inductive SqlValue where
  | text (s : String)
  | number (n : Option Int)
deriving DecidableEq, Repr

/-- The fragments `getRecipes` pushes on `conditions`; the argument is the index of the
placeholder `$n` the fragment mentions. -/
inductive WhereCond where
  /-- `(r.is_public = true OR r.author_id = $n)` -/
  | publicOrAuthor (n : Nat)
  /-- `r.is_public = true` -/
  | isPublic
  /-- `(r.title ILIKE $n OR r.description ILIKE $n)` -/
  | searchText (n : Nat)
  /-- `EXISTS (SELECT 1 FROM recipe_categories rc JOIN categories c ... c.name ILIKE $n)` -/
  | categoryName (n : Nat)
  /-- `r.difficulty = $n` -/
  | difficultyIs (n : Nat)
  /-- `r.author_id = $n` -/
  | authorIs (n : Nat)
  /-- `r.is_featured = true` -/
  | isFeatured
deriving DecidableEq, Repr

/-- The three mutable variables of the WHERE builder. -/
structure WhereState where
  conditions : List WhereCond := []
  values : List SqlValue := []
  paramCount : Nat := 1
deriving DecidableEq, Repr

/-- One step `conditions.push(f(paramCount)); values.push(v); paramCount++`. -/
def WhereState.pushParam (w : WhereState) (f : Nat → WhereCond) (v : SqlValue) : WhereState :=
  { conditions := w.conditions ++ [f w.paramCount], values := w.values ++ [v],
    paramCount := w.paramCount + 1 }

/-- One step `conditions.push(c)` for a fragment without placeholder. -/
def WhereState.pushCond (w : WhereState) (c : WhereCond) : WhereState :=
  { w with conditions := w.conditions ++ [c] }

/-- First step of the block "Build WHERE clause" of `getRecipes`: the comment
"Always include public recipes or user's own recipes". -/
def whereVisibility (requestingUserId : Option String) : WhereState :=
  let w0 : WhereState := {}
  if truthyOpt requestingUserId then
    w0.pushParam .publicOrAuthor (.text (requestingUserId.getD ""))
  else w0.pushCond .isPublic

/-- The remaining steps of the block: one `if` per filter, in source order. -/
def whereFilters (q : RecipesQuery) (w1 : WhereState) : WhereState :=
  let search := q.search.getD ""
  let w2 := if truthy search then w1.pushParam .searchText (.text ("%" ++ search ++ "%")) else w1
  let category := q.category.getD ""
  let w3 :=
    if truthy category then w2.pushParam .categoryName (.text ("%" ++ category ++ "%")) else w2
  let difficulty := q.difficulty.getD ""
  let w4 := if truthy difficulty then w3.pushParam .difficultyIs (.text difficulty) else w3
  let authorId := q.authorId.getD ""
  let w5 := if truthy authorId then w4.pushParam .authorIs (.text authorId) else w4
  if q.featured.getD "" = "true" then w5.pushCond .isFeatured else w5

/-- The block "Build WHERE clause" of `getRecipes`. -/
def buildWhere (q : RecipesQuery) (requestingUserId : Option String) : WhereState :=
  whereFilters q (whereVisibility requestingUserId)

/-- The placeholder a fragment mentions, if any. -/
def WhereCond.placeholder : WhereCond → Option Nat
  | .publicOrAuthor n => some n
  | .isPublic => none
  | .searchText n => some n
  | .categoryName n => some n
  | .difficultyIs n => some n
  | .authorIs n => some n
  | .isFeatured => none

/-- Consistency of the builder state: `paramCount` is the next free placeholder and every
placeholder in `conditions` has a bound value. -/
def WhereState.Consistent (w : WhereState) : Prop :=
  w.paramCount = w.values.length + 1 ∧
  ∀ c ∈ w.conditions, ∀ n, c.placeholder = some n → 1 ≤ n ∧ n ≤ w.values.length

/-- The visibility fragment `getRecipes` pushes first. -/
def visibilityCond (requestingUserId : Option String) : WhereCond :=
  if truthyOpt requestingUserId then .publicOrAuthor 1 else .isPublic

/-- The text bound to placeholder `$n`. -/
def textParam (values : List SqlValue) (n : Nat) : Option String :=
  match values[n - 1]? with
  | some (.text s) => if n = 0 then none else some s
  | _ => none

/-- The number bound to placeholder `$n`, accepted as a non-negative `bigint`
(`LIMIT`/`OFFSET` reject `NaN`, negative and out-of-range values). -/
def countParam (values : List SqlValue) (n : Nat) : Option Nat :=
  match values[n - 1]? with
  | some (.number (some k)) => if n ≠ 0 ∧ 0 ≤ k ∧ k < 2 ^ 63 then some k.toNat else none
  | _ => none

/-- Whether the fragment can be bound: its placeholder has a text value, and the value
compared with the enum column is one of the enum labels. -/
def WhereCond.bindable (values : List SqlValue) : WhereCond → Bool
  | .publicOrAuthor n => (textParam values n).isSome
  | .isPublic => true
  | .searchText n => (textParam values n).isSome
  | .categoryName n => (textParam values n).isSome
  | .difficultyIs n => ((textParam values n).bind Difficulty.ofString).isSome
  | .authorIs n => (textParam values n).isSome
  | .isFeatured => true

/-- Whether a row of `recipes` passes the fragment. A comparison with SQL `NULL` is
not true, and no fragment is negated, so `NULL` counts as false. -/
def WhereCond.holds (ilike : String → String → Bool) (db : Db) (values : List SqlValue)
    (r : RecipeRow) : WhereCond → Bool
  | .publicOrAuthor n =>
    decide (r.is_public = some true) || decide (some r.author_id = textParam values n)
  | .isPublic => decide (r.is_public = some true)
  | .searchText n =>
    match textParam values n with
    | some pat => ilike r.title pat || ilike r.description pat
    | none => false
  | .categoryName n =>
    match textParam values n with
    | some pat =>
      db.recipe_categories.any fun rc =>
        db.categories.any fun c =>
          decide (rc.category_id = c.id) && decide (rc.recipe_id = r.id) && ilike c.name pat
    | none => false
  | .difficultyIs n =>
    decide (some r.difficulty = (textParam values n).bind Difficulty.ofString)
  | .authorIs n => decide (some r.author_id = textParam values n)
  | .isFeatured => decide (r.is_featured = some true)

/-- The clause `WHERE ${conditions.join(' AND ')}` on one row (no clause when the list
is empty). -/
def whereHolds (ilike : String → String → Bool) (db : Db) (values : List SqlValue)
    (conditions : List WhereCond) (r : RecipeRow) : Bool :=
  conditions.all fun c => c.holds ilike db values r

/-- The join `FROM recipes r JOIN users u ON r.author_id = u.id`. -/
def recipesJoinUsers (db : Db) : List (RecipeRow × UserRow) :=
  db.recipes.flatMap fun r => (db.users.filter (fun u => u.id = r.author_id)).map fun u => (r, u)

/-- The columns `getRecipes` may sort by. -/
inductive SortColumn where
  | created_at | title | prep_time_minutes | cook_time_minutes | difficulty
deriving DecidableEq, Repr

/-- The line `allowedSortColumns.includes(sort) ? sort : 'created_at'`. -/
def sortColumnOf (sort : String) : SortColumn :=
  if sort = "created_at" then .created_at
  else if sort = "title" then .title
  else if sort = "prep_time_minutes" then .prep_time_minutes
  else if sort = "cook_time_minutes" then .cook_time_minutes
  else if sort = "difficulty" then .difficulty
  else .created_at

/-- Ascending order of two rows on a column (texts in code point order). -/
def SortColumn.le : SortColumn → RecipeRow → RecipeRow → Bool
  | .created_at, a, b => decide (a.created_at ≤ b.created_at)
  | .title, a, b => !decide (b.title < a.title)
  | .prep_time_minutes, a, b => decide (a.prep_time_minutes ≤ b.prep_time_minutes)
  | .cook_time_minutes, a, b => decide (a.cook_time_minutes ≤ b.cook_time_minutes)
  | .difficulty, a, b => decide (a.difficulty.rank ≤ b.difficulty.rank)

/-- The clause `ORDER BY r.${sortColumn} ${sortOrder}` on joined rows. -/
def orderRecipes (col : SortColumn) (asc : Bool) (rows : List (RecipeRow × UserRow)) :
    List (RecipeRow × UserRow) :=
  rows.insertionSort fun a b =>
    (if asc then col.le a.1 b.1 else col.le b.1 a.1) = true

/-- The count query `SELECT COUNT(*) ... ${whereClause}`; `none` when the statement
raises an error. -/
def countRecipes (ilike : String → String → Bool) (db : Db) (w : WhereState) : Option Nat :=
  if w.conditions.all (fun c => c.bindable w.values) then
    some ((recipesJoinUsers db).filter fun p => whereHolds ilike db w.values w.conditions p.1).length
  else none

/-- The text bound to the placeholder of `is_liked_by_user`; the anonymous variant selects
the constant `false` and has no such placeholder (`some none`). -/
def likedParam (values : List SqlValue) : Option Nat → Option (Option String)
  | none => some none
  | some n => (textParam values n).map some

/-- The rows of one page: filter by the WHERE clause, order, skip `off`, keep `lim`, and
compute `is_liked_by_user` for each row. -/
def pageRows (ilike : String → String → Bool) (db : Db) (conditions : List WhereCond)
    (values : List SqlValue) (col : SortColumn) (asc : Bool) (lim off : Nat)
    (likedBy : Option String) : List (RecipeRow × UserRow × Bool) :=
  let rows := (recipesJoinUsers db).filter fun p => whereHolds ilike db values conditions p.1
  ((orderRecipes col asc rows).drop off).take lim |>.map fun p =>
    (p.1, p.2,
      match likedBy with
      | none => false
      | some v => db.recipe_likes.any fun l => l.recipe_id = p.1.id ∧ l.user_id = v)

/-- The page query `SELECT ... ${whereClause} ORDER BY ... LIMIT $l OFFSET $o` with the
bound `values`; `liked` is the placeholder of `is_liked_by_user`, absent in the anonymous
variant. Each result row carries `is_liked_by_user`. `none` when the statement raises an
error. -/
def selectRecipes (ilike : String → String → Bool) (db : Db) (conditions : List WhereCond)
    (values : List SqlValue) (liked : Option Nat) (limitParam offsetParam : Nat)
    (col : SortColumn) (asc : Bool) : Option (List (RecipeRow × UserRow × Bool)) :=
  if conditions.all (fun c => c.bindable values) then
    (countParam values limitParam).bind fun lim =>
      (countParam values offsetParam).bind fun off =>
        (likedParam values liked).map fun likedBy =>
          pageRows ilike db conditions values col asc lim off likedBy
  else none

/-- The columns `c.id, c.name, c.color, c.icon` selected for each listed recipe. -/
structure CategoryTag where
  id : Int
  name : String
  color : Option String
  icon : Option String
deriving DecidableEq, Repr

/-- The per-recipe query `SELECT c.id, c.name, c.color, c.icon FROM categories c JOIN
recipe_categories rc ON c.id = rc.category_id WHERE rc.recipe_id = $1`. -/
def categoryTagsOf (db : Db) (recipeId : String) : List CategoryTag :=
  (db.recipe_categories.filter (fun rc => rc.recipe_id = recipeId)).flatMap fun rc =>
    (db.categories.filter (fun c => c.id = rc.category_id)).map fun c =>
      { id := c.id, name := c.name, color := c.color, icon := c.icon }

/-- One element of the `recipes` array returned by `getRecipes`. -/
structure RecipeListItem where
  id : String
  title : String
  description : String
  prepTimeMinutes : Int
  cookTimeMinutes : Int
  totalTimeMinutes : Int
  servings : Int
  difficulty : Difficulty
  imageUrl : Option String
  isPublic : Option Bool
  isFeatured : Option Bool
  createdAt : Nat
  updatedAt : Nat
  author : AuthorJson
  categories : List CategoryTag
  stats : StatsJson
  isLikedByUser : Bool
deriving DecidableEq, Repr

/-- The mapping of a result row to its JSON element. -/
def recipeListItem (db : Db) (row : RecipeRow × UserRow × Bool) : RecipeListItem :=
  let r := row.1
  { id := r.id, title := r.title, description := r.description,
    prepTimeMinutes := r.prep_time_minutes, cookTimeMinutes := r.cook_time_minutes,
    totalTimeMinutes := r.prep_time_minutes + r.cook_time_minutes, servings := r.servings,
    difficulty := r.difficulty, imageUrl := r.image_url, isPublic := r.is_public,
    isFeatured := r.is_featured, createdAt := r.created_at, updatedAt := r.updated_at,
    author := authorJson row.2.1, categories := categoryTagsOf db r.id,
    stats :=
      { likesCount := likesCountOf db r.id, commentsCount := commentsCountOf db r.id,
        averageRating := averageRatingOf db r.id, ratingsCount := ratingsCountOf db r.id },
    isLikedByUser := row.2.2 }

/-- The body of a successful `getRecipes`: the `recipes` array and, of the `pagination`
object, `totalRecipes`, `currentPage` and `limit`. The derived `totalPages`,
`hasNextPage`, `hasPrevPage` and the echo `filters` are left out. -/
structure RecipeListBody where
  recipes : List RecipeListItem
  totalRecipes : Nat
  currentPage : Option Int
  limit : Option Int
deriving DecidableEq, Repr

/-- The handler `getRecipes` of `recipeController.js` (`GET /recipes`, behind
`optionalAuth`; the handler does not consult `validationResult`). A statement that raises
an error is caught by the outer `catch` and answered with 500. -/
def getRecipes (ilike : String → String → Bool) (db : Db) (now : Nat) (q : RecipesQuery)
    (user : Option AuthUser) : Response RecipeListBody :=
  let page := parseIntJs (q.page.getD "1")
  let limit := parseIntJs (q.limit.getD "10")
  let offset : Option Int :=
    match page, limit with
    | some p, some l => some ((p - 1) * l)
    | _, _ => none
  let requestingUserId : Option String := user.map fun u => u.id
  let w := buildWhere q requestingUserId
  let sortColumn := sortColumnOf (q.sort.getD "created_at")
  let asc : Bool := toLowerCase (q.order.getD "desc") = "asc"
  let failure : Response RecipeListBody :=
    { status := 500, error := some "Failed to get recipes",
      message := some "Internal server error", timestamp := now }
  match countRecipes ilike db w with
  | none => failure
  | some totalRecipes =>
    let page? :=
      if truthyOpt requestingUserId then
        selectRecipes ilike db w.conditions
          (w.values ++ [.text (requestingUserId.getD ""), .number limit, .number offset])
          (some w.paramCount) (w.paramCount + 1) (w.paramCount + 2) sortColumn asc
      else
        selectRecipes ilike db w.conditions (w.values ++ [.number limit, .number offset])
          none w.paramCount (w.paramCount + 1) sortColumn asc
    match page? with
    | none => failure
    | some rows =>
      { status := 200,
        data := some
          { recipes := rows.map (recipeListItem db), totalRecipes := totalRecipes,
            currentPage := page, limit := limit },
        timestamp := now }

/-! ## `register` and `login` (`authController.js`) -/

/-- The fields `register` reads from `req.body` once validation has passed. -/
structure RegisterBody where
  username : String
  email : String
  password : String
  firstName : String
  lastName : Option String := none
  bio : Option String := none
  profileImageUrl : Option String := none
deriving DecidableEq, Repr

/-- The `user` object of the register and login responses. -/
structure UserJson where
  id : String
  username : String
  email : String
  firstName : String
  lastName : Option String
  fullName : String
  bio : Option String
  profileImageUrl : Option String
  isPublicProfile : Option Bool
  isVerified : Option Bool
deriving DecidableEq, Repr

/-- The success body of `register` and `login`. -/
structure SessionJson where
  user : UserJson
  token : String
  expiresIn : String
deriving DecidableEq, Repr

/-- The `user` object built from a `users` row. -/
def userJson (u : UserRow) : UserJson :=
  { id := u.id, username := u.username, email := u.email, firstName := u.first_name,
    lastName := u.last_name,
    fullName := jsTrim (u.first_name ++ " " ++ showNullable u.last_name), bio := u.bio,
    profileImageUrl := u.profile_image_url, isPublicProfile := u.is_public_profile,
    isVerified := u.is_verified }

/-- Whether `INSERT INTO users` accepts the row: primary key, the two `UNIQUE` columns and
the `VARCHAR` lengths. -/
def usersInsertOk (db : Db) (u : UserRow) : Bool :=
  db.users.all (fun v => v.id ≠ u.id ∧ v.username ≠ u.username ∧ v.email ≠ u.email) &&
    decide (u.username.length ≤ 50) && decide (u.email.length ≤ 255) &&
    decide (u.password_hash.length ≤ 255) && decide (u.first_name.length ≤ 100) &&
    decide ((u.last_name.getD "").length ≤ 100)

/-- The handler `register` of `authController.js`. `valid` is `errors.isEmpty()` for the
`validateRegistration` chain, `bcryptHash` is `bcrypt.hash(_, 12)`, `userId` the value of
`generateUUID()`, `sign` is `generateToken` and `expiresIn` the text
`process.env.JWT_EXPIRES_IN || '7d'`. -/
def register (bcryptHash : String → String) (sign : String → String) (expiresIn : String)
    (userId : String) (db : Db) (now : Nat) (valid : Bool) (body : RegisterBody) :
    Response SessionJson × Db :=
  if !valid then ({ status := 400, error := some "Validation failed", timestamp := now }, db)
  else
    let existingUser := db.users.filter fun u =>
      u.email = toLowerCase body.email ∨ u.username = toLowerCase body.username
    if existingUser.length > 0 then
      ({ status := 409, error := some "User already exists",
         message := some "Email or username is already taken", timestamp := now }, db)
    else
      let newUser : UserRow :=
        { id := userId, username := toLowerCase body.username, email := toLowerCase body.email,
          password_hash := bcryptHash body.password, first_name := body.firstName,
          last_name := some ((orNull body.lastName).getD ""),
          bio := some (body.bio.getD ""),
          profile_image_url := some (body.profileImageUrl.getD ""),
          created_at := now, updated_at := now }
      if usersInsertOk db newUser then
        ({ status := 201, message := some "User registered successfully",
           data := some { user := userJson newUser, token := sign newUser.id,
                          expiresIn := expiresIn },
           timestamp := now },
         { db with users := db.users ++ [newUser] })
      else
        ({ status := 500, error := some "Registration failed",
           message := some "Internal server error", timestamp := now }, db)

/-- The member `password` of the body of `POST /auth/login`: a JSON string, or a value
that is not a string (a number, a boolean, an object). The chain `validateLogin` checks
`isLength({ min: 1 })` on the text of the value, so a number such as `12345` passes it;
`shown` is that text. -/
inductive PasswordInput where
  | string (s : String)
  | other (shown : String)
deriving DecidableEq, Repr

/-- The fields `login` reads from `req.body` once validation has passed: `emailOrUsername`
is the string the sanitizer `trim` of the chain has left there, `password` is the value
the client sent. -/
structure LoginBody where
  emailOrUsername : String
  password : PasswordInput
deriving DecidableEq, Repr

/-- The query of `login`: `SELECT ... FROM users WHERE (email = $1 OR username = $1)
AND is_active = true`. -/
def loginCandidates (db : Db) (key : String) : List UserRow :=
  db.users.filter fun u => (u.email = key ∨ u.username = key) ∧ u.is_active = some true

/-- The handler `login` of `authController.js`. `valid` is `errors.isEmpty()` for the
`validateLogin` chain and `bcryptCompare` is `bcrypt.compare` on two strings. Called with
a first argument that is not a string, `bcrypt.compare` rejects with the error `Illegal
arguments`, which the outer `catch` answers with 500; this happens only once the query has
returned a row. -/
def login (bcryptCompare : String → String → Bool) (sign : String → String)
    (expiresIn : String) (db : Db) (now : Nat) (valid : Bool) (body : LoginBody) :
    Response SessionJson :=
  if !valid then { status := 400, error := some "Validation failed", timestamp := now }
  else
    match loginCandidates db (toLowerCase body.emailOrUsername) with
    | [] =>
      { status := 401, error := some "Invalid credentials",
        message := some "Email/username or password is incorrect", timestamp := now }
    | user :: _ =>
      match body.password with
      | .other _ =>
        { status := 500, error := some "Login failed", message := some "Internal server error",
          timestamp := now }
      | .string password =>
        if !(bcryptCompare password user.password_hash) then
          { status := 401, error := some "Invalid credentials",
            message := some "Email/username or password is incorrect", timestamp := now }
        else
          { status := 200, message := some "Login successful",
            data := some { user := userJson user, token := sign user.id,
                           expiresIn := expiresIn },
            timestamp := now }

/-- Why a valid login request with a string password is refused. -/
inductive LoginFailure where
  | unknownUser | inactiveUser | wrongPassword
deriving DecidableEq, Repr

/-- The situation each refusal stands for, in terms of the stored users; a wrong password
is a string that `bcrypt.compare` does not accept for the stored hash. -/
def LoginFailure.occurs (bcryptCompare : String → String → Bool) (db : Db) (body : LoginBody) :
    LoginFailure → Prop
  | .unknownUser =>
    ∀ u ∈ db.users, u.email ≠ toLowerCase body.emailOrUsername ∧
      u.username ≠ toLowerCase body.emailOrUsername
  | .inactiveUser =>
    (∃ u ∈ db.users, u.email = toLowerCase body.emailOrUsername ∨
      u.username = toLowerCase body.emailOrUsername) ∧
    ∀ u ∈ db.users, (u.email = toLowerCase body.emailOrUsername ∨
      u.username = toLowerCase body.emailOrUsername) → u.is_active ≠ some true
  | .wrongPassword =>
    ∃ u rest password, loginCandidates db (toLowerCase body.emailOrUsername) = u :: rest ∧
      body.password = .string password ∧ bcryptCompare password u.password_hash = false

/-- The application invariant on `users`: `username` and `email` are stored in lower case
(the only `INSERT INTO users` is the one of `register`, and no `UPDATE` sets them). -/
def UsersLowercase (db : Db) : Prop :=
  ∀ u ∈ db.users, toLowerCase u.username = u.username ∧ toLowerCase u.email = u.email

instance (db : Db) : Decidable (UsersLowercase db) :=
  inferInstanceAs (Decidable (∀ u ∈ db.users, _))

/-! ## Authentication middleware (`middleware/auth.js`) -/

/-- The method `split(' ')` on the characters of a string. -/
def splitOnSpace : List Char → List (List Char)
  | [] => [[]]
  | c :: cs =>
    if c = ' ' then [] :: splitOnSpace cs
    else
      match splitOnSpace cs with
      | [] => [[c]]
      | h :: t => (c :: h) :: t

/-- The expression `authHeader && authHeader.split(' ')[1]`. -/
def bearerToken (authHeader : Option String) : Option String :=
  match authHeader with
  | none => none
  | some h => if truthy h then ((splitOnSpace h.data)[1]?).map String.mk else some h

/-- Outcome of `jwt.verify(token, process.env.JWT_SECRET)`: the decoded payload with its
`userId` member (absent when the payload has none), or a thrown error with its `name`
(`jsonwebtoken` throws `JsonWebTokenError`, `TokenExpiredError` and `NotBeforeError`). -/
inductive VerifyResult where
  | payload (userId : Option String)
  | error (name : String)
deriving DecidableEq, Repr

/-- What a middleware did: the response it sent (if any), the value it left in `req.user`
(`none` is `null` or not set) and how many times it called `next()`. -/
structure MiddlewareResult where
  response : Option (Response Unit) := none
  user : Option AuthUser := none
  nextCalls : Nat := 0
deriving DecidableEq, Repr

/-- The 401 responses of `authenticateToken`. -/
def accessDenied (now : Nat) (message : String) : MiddlewareResult :=
  { response := some { status := 401, error := some "Access denied", message := some message,
                       timestamp := now } }

/-- The lookup `SELECT ... FROM users WHERE id = $1` with `decoded.userId`. -/
def usersById (db : Db) (userId : Option String) : List UserRow :=
  db.users.filter fun u => some u.id = userId

/-- The middleware `authenticateToken`. `db` is `none` when `pool.connect()` or the lookup
throws; any error that is not one of the two named token errors reaches the final 500. -/
def authenticateToken (jwtVerify : String → VerifyResult) (db : Option Db) (now : Nat)
    (authHeader : Option String) : MiddlewareResult :=
  let token := bearerToken authHeader
  let failed : MiddlewareResult :=
    { response := some { status := 500, error := some "Internal server error",
                         message := some "Authentication failed", timestamp := now } }
  if !truthyOpt token then accessDenied now "No token provided"
  else
    match jwtVerify (token.getD "") with
    | .error name =>
      if name = "JsonWebTokenError" then accessDenied now "Invalid token"
      else if name = "TokenExpiredError" then accessDenied now "Token expired"
      else failed
    | .payload userId =>
      match db with
      | none => failed
      | some db =>
        match usersById db userId with
        | [] => accessDenied now "User not found"
        | user :: _ =>
          if !truthyBool user.is_active then accessDenied now "Account is deactivated"
          else { user := some user.toAuthUser, nextCalls := 1 }

/-- The middleware `optionalAuth`: the early `return next()` without token, otherwise the
`try` block, the `catch` that sets `req.user = null`, and the final `next()`. -/
def optionalAuth (jwtVerify : String → VerifyResult) (db : Option Db)
    (authHeader : Option String) : MiddlewareResult :=
  let token := bearerToken authHeader
  if !truthyOpt token then { user := none, nextCalls := 1 }
  else
    match jwtVerify (token.getD "") with
    | .error _ => { user := none, nextCalls := 1 }
    | .payload userId =>
      match db with
      | none => { user := none, nextCalls := 1 }
      | some db =>
        match usersById db userId with
        | [] => { user := none, nextCalls := 1 }
        | user :: _ =>
          if truthyBool user.is_active then { user := some user.toAuthUser, nextCalls := 1 }
          else { user := none, nextCalls := 1 }

/-- The condition under which both middlewares accept a request: the header carries a
token, the token verifies, the lookup succeeds and its first row is an active user. -/
def Authenticates (jwtVerify : String → VerifyResult) (db : Option Db)
    (authHeader : Option String) (u : UserRow) : Prop :=
  ∃ token userId d rest, bearerToken authHeader = some token ∧ truthy token = true ∧
    jwtVerify token = .payload userId ∧ db = some d ∧ usersById d userId = u :: rest ∧
    u.is_active = some true

/-! ## Likes and ratings (`recipeInteractionController.js`) -/

/-- The query `SELECT id, title, author_id, is_public FROM recipes WHERE id = $1`. -/
def recipesById (db : Db) (recipeId : String) : List RecipeRow :=
  db.recipes.filter fun r => r.id = recipeId

/-- The object `recipe: { id, title }` of the like response. -/
structure RecipeRef where
  id : String
  title : String
deriving DecidableEq, Repr

/-- The success body of `toggleRecipeLike`. -/
structure LikeJson where
  recipe : RecipeRef
  isLiked : Bool
  likesCount : Nat
deriving DecidableEq, Repr

/-- The handler `toggleRecipeLike` (`POST /recipes/:id/like`, behind `authenticateToken`). -/
def toggleRecipeLike (db : Db) (now : Nat) (recipeId : String) (user : AuthUser) :
    Response LikeJson × Db :=
  let userId := user.id
  match recipesById db recipeId with
  | [] => ({ status := 404, error := some "Recipe not found", timestamp := now }, db)
  | recipe :: _ =>
    if !(truthyBool recipe.is_public) && decide (recipe.author_id ≠ userId) then
      ({ status := 403, error := some "Access denied",
         message := some "Cannot like a private recipe", timestamp := now }, db)
    else
      let existingLike := db.recipe_likes.filter fun l =>
        l.recipe_id = recipeId ∧ l.user_id = userId
      if existingLike.length > 0 then
        let db' : Db :=
          { db with recipe_likes := db.recipe_likes.filter fun l =>
              !decide (l.recipe_id = recipeId ∧ l.user_id = userId) }
        ({ status := 200, message := some "Recipe unliked successfully",
           data := some { recipe := { id := recipeId, title := recipe.title }, isLiked := false,
                          likesCount := likesCountOf db' recipeId },
           timestamp := now }, db')
      else
        let db' : Db :=
          { db with recipe_likes :=
              db.recipe_likes ++ [{ recipe_id := recipeId, user_id := userId, created_at := now }] }
        ({ status := 200, message := some "Recipe liked successfully",
           data := some { recipe := { id := recipeId, title := recipe.title }, isLiked := true,
                          likesCount := likesCountOf db' recipeId },
           timestamp := now }, db')

/-- The member `rating` of the body of `POST /recipes/:id/rate` as the validator sees it:
absent, an integer (a JSON integer or a string of digits), or anything else. -/
inductive RatingInput where
  | missing
  | integer (n : Int)
  | other
deriving DecidableEq, Repr

/-- The body of `POST /recipes/:id/rate`. -/
structure RateBody where
  rating : RatingInput
  review : Option String := none
deriving DecidableEq, Repr

/-- The chain `validateRating`: `rating` is an integer between 1 and 5, and `review`,
when present, has at most 1000 characters. The result is `errors.isEmpty()`. -/
def validateRating (body : RateBody) : Bool :=
  (match body.rating with
    | .integer n => decide (1 ≤ n ∧ n ≤ 5)
    | _ => false) &&
  (match body.review with
    | none => true
    | some r => decide (r.length ≤ 1000))

/-- The value of `rating` passed to the statements (read after validation). -/
def RatingInput.value : RatingInput → Int
  | .integer n => n
  | _ => 0

/-- The object `rating: { id, rating, review, createdAt, updatedAt }` of the response. -/
structure RatingJson where
  id : String
  rating : Int
  review : Option String
  createdAt : Nat
  updatedAt : Nat
deriving DecidableEq, Repr

/-- The object `recipe: { id, title, averageRating, ratingsCount }` of the response;
`averageRating` in hundredths. -/
structure RatedRecipeJson where
  id : String
  title : String
  averageRating : Option Int
  ratingsCount : Nat
deriving DecidableEq, Repr

/-- The success body of `rateRecipe`. -/
structure RateJson where
  rating : RatingJson
  recipe : RatedRecipeJson
deriving DecidableEq, Repr

/-- The columns `RETURNING id, rating, review, created_at, updated_at`. -/
def ratingJson (row : RatingRow) : RatingJson :=
  { id := row.id, rating := row.rating, review := row.review, createdAt := row.created_at,
    updatedAt := row.updated_at }

/-- The second half of `rateRecipe`, from "Check if user has already rated this recipe"
to the response: `UPDATE ... RETURNING` when a row of (recipe, user) exists, `INSERT ...
RETURNING` otherwise, then the statistics query. A thrown error (a primary key clash of the
new id, or `ratingData` undefined) is answered with 500; there is no transaction. -/
def upsertRating (ratingId : String) (db : Db) (now : Nat) (recipeId userId title : String)
    (rating : Int) (review : Option String) : Response RateJson × Db :=
  let failure : Response RateJson :=
    { status := 500, error := some "Failed to rate recipe",
      message := some "Internal server error", timestamp := now }
  let ok (message : String) (ratingData : RatingRow) (db' : Db) : Response RateJson × Db :=
    ({ status := 200, message := some message,
       data := some
         { rating := ratingJson ratingData,
           recipe := { id := recipeId, title := title,
                       averageRating := averageRatingOf db' recipeId,
                       ratingsCount := ratingsCountOf db' recipeId } },
       timestamp := now }, db')
  let existingRating := db.recipe_ratings.filter fun c =>
    c.recipe_id = recipeId ∧ c.user_id = userId
  if existingRating.length > 0 then
    let updated (c : RatingRow) : RatingRow :=
      { c with rating := rating, review := review, updated_at := now }
    let db' : Db :=
      { db with recipe_ratings := db.recipe_ratings.map fun c =>
          if c.recipe_id = recipeId ∧ c.user_id = userId then updated c else c }
    match existingRating.map updated with
    | [] => (failure, db')
    | ratingData :: _ => ok "Rating updated successfully" ratingData db'
  else
    let row : RatingRow :=
      { id := ratingId, recipe_id := recipeId, user_id := userId, rating := rating,
        review := review, created_at := now, updated_at := now }
    if db.recipe_ratings.any (fun c => c.id = ratingId) then (failure, db)
    else ok "Rating created successfully" row { db with recipe_ratings := db.recipe_ratings ++ [row] }

/-- The handler `rateRecipe` (`POST /recipes/:id/rate`, behind `authenticateToken` and
`validateRating`, whose `trim` sanitizer has been applied to `review` when the handler
reads it). `ratingId` is the value of `generateUUID()`. -/
def rateRecipe (ratingId : String) (db : Db) (now : Nat) (recipeId : String) (user : AuthUser)
    (body : RateBody) : Response RateJson × Db :=
  let userId := user.id
  if !validateRating body then
    ({ status := 400, error := some "Validation failed", timestamp := now }, db)
  else
    let rating := body.rating.value
    let review := orNull (body.review.map jsTrim)
    match recipesById db recipeId with
    | [] => ({ status := 404, error := some "Recipe not found", timestamp := now }, db)
    | recipe :: _ =>
      if !(truthyBool recipe.is_public) && decide (recipe.author_id ≠ userId) then
        ({ status := 403, error := some "Access denied",
           message := some "Cannot rate a private recipe", timestamp := now }, db)
      else if recipe.author_id = userId then
        ({ status := 400, error := some "Invalid operation",
           message := some "You cannot rate your own recipe", timestamp := now }, db)
      else upsertRating ratingId db now recipeId userId recipe.title rating review

/-! ## `updateRecipe` (`recipeController.js`) -/

/-- A number in decimal notation: `mantissa / 10 ^ scale`. -/
structure Decimal where
  mantissa : Int
  scale : Nat
deriving DecidableEq, Repr

/-- The rational value of a decimal. -/
def Decimal.value (d : Decimal) : ℚ := (d.mantissa : ℚ) / (10 : ℚ) ^ d.scale

/-- Input conversion to `DECIMAL(10,2)` of the numeral PostgreSQL receives as the text of
a parameter: the value rounded to two decimal places (ties away from zero), in hundredths.
For which numeral reaches PostgreSQL see `QuantityJson.sent`. -/
def Decimal.toHundredths (d : Decimal) : Int := roundDiv (d.mantissa * 100) (10 ^ d.scale)

/-- One element of `ingredients` as `updateRecipe` reads it from `req.body`, that is after
the sanitizers of `validateRecipe` have rewritten `name`, `unit` and `notes`; `quantity`
is the numeral node-postgres sends for the member. `readIngredient` gives this element
from the one in the request. -/
structure IngredientInput where
  name : String
  quantity : Decimal
  unit : String
  notes : Option String := none
deriving DecidableEq, Repr

/-- The fields `updateRecipe` reads from `req.body` once the chain `validateRecipe` has
run (`readRecipeBody` gives them from the request); `ingredients`, `categoryIds`,
`imageUrl` and `isPublic` may be `undefined`. -/
structure RecipeBody where
  title : String
  description : String
  prepTimeMinutes : Int
  cookTimeMinutes : Int
  servings : Int
  difficulty : String
  imageUrl : Option String := none
  instructions : List String
  ingredients : Option (List IngredientInput) := none
  categoryIds : Option (List Int) := none
  isPublic : Option Bool := none
deriving DecidableEq, Repr

/-- Whether `UPDATE recipes SET ...` accepts the new column values: `VARCHAR(255)`, the
three `CHECK (... > 0)` on `INTEGER` columns. -/
def recipeColumnsOk (body : RecipeBody) : Bool :=
  decide (body.title.length ≤ 255) &&
    decide (0 < body.prepTimeMinutes ∧ body.prepTimeMinutes < 2 ^ 31) &&
    decide (0 < body.cookTimeMinutes ∧ body.cookTimeMinutes < 2 ^ 31) &&
    decide (0 < body.servings ∧ body.servings < 2 ^ 31)

/-- Whether `INSERT INTO recipe_ingredients` accepts the row: primary key, `VARCHAR`
lengths, `CHECK (quantity > 0)` and the precision of `DECIMAL(10,2)`. -/
def ingredientInsertOk (table : List IngredientRow) (row : IngredientRow) : Bool :=
  table.all (fun i => i.id ≠ row.id) && decide (row.name.length ≤ 255) &&
    decide (row.unit.length ≤ 50) && decide (0 < row.quantity ∧ row.quantity < 10 ^ 10)

/-- The row inserted for `ingredients[i]`; `ingredientId` is the value of
`generateUUID()`. `ingredient` is the element the handler finds in `req.body`, whose
`name`, `unit` and `notes` the chain `validateRecipe` has already trimmed
(`readIngredient`); the numeral sent for `quantity` is rounded by the column type. -/
def ingredientRow (ingredientId recipeId : String) (now : Nat) (i : Nat)
    (ingredient : IngredientInput) : IngredientRow :=
  { id := ingredientId, recipe_id := recipeId, name := ingredient.name,
    quantity := ingredient.quantity.toHundredths, unit := ingredient.unit,
    notes := orNull ingredient.notes, order_index := (i : Int) + 1, created_at := now }

/-- The loop `for (let i = 0; i < ingredients.length; i++)` from index `i` on; `uuid k`
is the value of the `k`-th call of `generateUUID()` in the request. `none` when an
`INSERT` raises an error. -/
def insertIngredients (uuid : Nat → String) (recipeId : String) (now : Nat) :
    Nat → List IngredientInput → List IngredientRow → Option (List IngredientRow)
  | _, [], table => some table
  | i, ingredient :: rest, table =>
    if ingredientInsertOk table (ingredientRow (uuid i) recipeId now i ingredient) then
      insertIngredients uuid recipeId now (i + 1) rest
        (table ++ [ingredientRow (uuid i) recipeId now i ingredient])
    else none

/-- The loop `for (const categoryId of categoryIds)` with `INSERT ... ON CONFLICT DO
NOTHING`; `none` when the foreign key to `categories` is violated. -/
def insertCategories (categories : List CategoryRow) (recipeId : String) (now : Nat) :
    List Int → List RecipeCategoryRow → Option (List RecipeCategoryRow)
  | [], table => some table
  | categoryId :: rest, table =>
    if categories.any (fun c => c.id = categoryId) then
      if table.any (fun rc => rc.recipe_id = recipeId ∧ rc.category_id = categoryId) then
        insertCategories categories recipeId now rest table
      else
        insertCategories categories recipeId now rest
          (table ++ [{ recipe_id := recipeId, category_id := categoryId, created_at := now }])
    else none

/-- The statements of `updateRecipe` between `BEGIN` and `COMMIT`: `UPDATE recipes`,
then, when `ingredients` is given, `DELETE` and re-insert, then the same for
`categoryIds`. `none` when a statement raises an error (the handler then issues
`ROLLBACK`). -/
def updateRecipeStatements (uuid : Nat → String) (db : Db) (now : Nat) (id : String)
    (body : RecipeBody) : Option Db :=
  match Difficulty.ofString body.difficulty with
  | none => none
  | some difficulty =>
    if !recipeColumnsOk body then none
    else
      let db1 : Db :=
        { db with recipes := db.recipes.map fun r =>
            if r.id = id then
              { r with title := body.title, description := body.description,
                       prep_time_minutes := body.prepTimeMinutes,
                       cook_time_minutes := body.cookTimeMinutes, servings := body.servings,
                       difficulty := difficulty, image_url := orNull body.imageUrl,
                       instructions := body.instructions, is_public := body.isPublic,
                       updated_at := now }
            else r }
      let db2? : Option Db :=
        match body.ingredients with
        | none => some db1
        | some ingredients =>
          (insertIngredients uuid id now 0 ingredients
              (db1.recipe_ingredients.filter fun i => i.recipe_id ≠ id)).map
            fun table => { db1 with recipe_ingredients := table }
      db2?.bind fun db2 =>
        match body.categoryIds with
        | none => some db2
        | some categoryIds =>
          (insertCategories db2.categories id now categoryIds
              (db2.recipe_categories.filter fun rc => rc.recipe_id ≠ id)).map
            fun table => { db2 with recipe_categories := table }

/-- The handler `updateRecipe` (`PUT /recipes/:id`, behind `authenticateToken` and
`validateRecipe`). `valid` is `errors.isEmpty()` and `body` is `req.body` as the chain has
left it (`putRecipe` runs the chain first); the body of the 200 response is the value of
`getCompleteRecipeById` after the commit. -/
def updateRecipe (uuid : Nat → String) (db : Db) (now : Nat) (valid : Bool) (id : String)
    (user : AuthUser) (body : RecipeBody) : Response (Option CompleteRecipe) × Db :=
  let userId := user.id
  if !valid then ({ status := 400, error := some "Validation failed", timestamp := now }, db)
  else
    match recipesById db id with
    | [] => ({ status := 404, error := some "Recipe not found", timestamp := now }, db)
    | existingRecipe :: _ =>
      if existingRecipe.author_id ≠ userId then
        ({ status := 403, error := some "Access denied",
           message := some "You can only update your own recipes", timestamp := now }, db)
      else
        match updateRecipeStatements uuid db now id body with
        | none =>
          ({ status := 500, error := some "Failed to update recipe",
             message := some "Internal server error", timestamp := now }, db)
        | some db' =>
          ({ status := 200, message := some "Recipe updated successfully",
             data := some (getCompleteRecipeById db' id (some userId)), timestamp := now }, db')

/-- The `ingredients` array a reader expects after an update with the given array: one
element per supplied ingredient, from index `i` on, with the generated id, the order index
`i + 1`, the quantity rounded to hundredths and empty notes turned into `null`. -/
def expectedIngredients (uuid : Nat → String) : Nat → List IngredientInput → List IngredientJson
  | _, [] => []
  | i, ingredient :: rest =>
    { id := uuid i, name := ingredient.name, quantity := ingredient.quantity.toHundredths,
      unit := ingredient.unit, notes := orNull ingredient.notes, orderIndex := (i : Int) + 1 } ::
      expectedIngredients uuid (i + 1) rest

/-- The rows the insert loop appends for the ingredients from index `i` on. -/
def ingredientRows (uuid : Nat → String) (recipeId : String) (now : Nat) :
    Nat → List IngredientInput → List IngredientRow
  | _, [] => []
  | i, ingredient :: rest =>
    ingredientRow (uuid i) recipeId now i ingredient :: ingredientRows uuid recipeId now (i + 1) rest

/-! ## The route `PUT /recipes/:id`: what `validateRecipe` leaves in `req.body` -/

/-- The member `quantity` of an ingredient in the request: a JSON number, given by the
numeral written in the request, or a JSON string holding a numeral (`isFloat` accepts
both, and the chain has no sanitizer for the member). -/
inductive QuantityJson where
  | number (literal : Decimal)
  | text (numeral : Decimal)
deriving DecidableEq, Repr

/-- The numeral node-postgres sends for `ingredient.quantity`. A string is sent as it is.
A number is the double that `express.json()` has read from the literal, and it is sent as
`String(quantity)`, the shortest numeral that reads back as that double: this numeral is
`numberText literal`, so `numberText` stands for `JSON.parse` followed by
`Number.prototype.toString`. -/
def QuantityJson.sent (numberText : Decimal → Decimal) : QuantityJson → Decimal
  | .number literal => numberText literal
  | .text numeral => numeral

/-- One element of `ingredients` in the body of the request `PUT /recipes/:id`; absent
`notes` are `none`. -/
structure IngredientRequest where
  name : String
  quantity : QuantityJson
  unit : String
  notes : Option String := none
deriving DecidableEq, Repr

/-- The body of the request `PUT /recipes/:id` as the client sent it. -/
structure RecipeRequest where
  title : String
  description : String
  prepTimeMinutes : Int
  cookTimeMinutes : Int
  servings : Int
  difficulty : String
  imageUrl : Option String := none
  instructions : List String
  ingredients : Option (List IngredientRequest) := none
  categoryIds : Option (List Int) := none
  isPublic : Option Bool := none
deriving DecidableEq, Repr

/-- An ingredient after the chain `validateRecipe`: the sanitizer `.trim()` of
`ingredients.*.name`, `ingredients.*.unit` and `ingredients.*.notes` has rewritten the
three members (absent `notes` are skipped by `optional()`), and `quantity` is untouched. -/
def readIngredient (numberText : Decimal → Decimal) (i : IngredientRequest) :
    IngredientInput :=
  { name := jsTrim i.name, quantity := i.quantity.sent numberText, unit := jsTrim i.unit,
    notes := i.notes.map jsTrim }

/-- The object `req.body` after the chain `validateRecipe`: `title`, `description`, each
element of `instructions` and the text members of each ingredient are trimmed; the other
members have no sanitizer. -/
def readRecipeBody (numberText : Decimal → Decimal) (request : RecipeRequest) : RecipeBody :=
  { title := jsTrim request.title, description := jsTrim request.description,
    prepTimeMinutes := request.prepTimeMinutes, cookTimeMinutes := request.cookTimeMinutes,
    servings := request.servings, difficulty := request.difficulty,
    imageUrl := request.imageUrl, instructions := request.instructions.map jsTrim,
    ingredients := request.ingredients.map fun l => l.map (readIngredient numberText),
    categoryIds := request.categoryIds, isPublic := request.isPublic }

/-- The route `router.put('/:id', authenticateToken, validateRecipe, updateRecipe)` for an
authenticated requester: the chain rewrites `req.body`, then the handler runs. `valid` is
`errors.isEmpty()`. -/
def putRecipe (numberText : Decimal → Decimal) (uuid : Nat → String) (db : Db) (now : Nat)
    (valid : Bool) (id : String) (user : AuthUser) (request : RecipeRequest) :
    Response (Option CompleteRecipe) × Db :=
  updateRecipe uuid db now valid id user (readRecipeBody numberText request)

/-! ## Cascading deletes (`ON DELETE CASCADE`, `ON DELETE SET NULL`) -/

/-- Whether a comment is a reply to one of the comments with the given ids. -/
def repliesTo (ids : List String) (c : CommentRow) : Bool :=
  match c.parent_comment_id with
  | some p => decide (p ∈ ids)
  | none => false

/-- One round of the cascade on `recipe_comments.parent_comment_id`: to the ids being
deleted, add the ids of the rows that reply to one of them. -/
def cascadeStep (comments : List CommentRow) (ids : List String) : List String :=
  ids ++ (comments.filter fun c => decide (c.id ∉ ids) && repliesTo ids c).map fun c => c.id

/-- The cascade repeated `n` times. -/
def cascadeClosure (comments : List CommentRow) : Nat → List String → List String
  | 0, ids => ids
  | n + 1, ids => cascadeClosure comments n (cascadeStep comments ids)

/-- The statement `DELETE FROM recipe_comments` of the rows with the given ids, with the
cascade `parent_comment_id REFERENCES recipe_comments(id) ON DELETE CASCADE` to replies,
replies to replies, and so on (one round per row of the table is enough). -/
def deleteCommentsCascade (comments : List CommentRow) (ids : List String) : List CommentRow :=
  comments.filter fun c => decide (c.id ∉ cascadeClosure comments comments.length ids)

/-- The ids reached by the cascade from `ids`: the ids themselves, and the id of every
row whose parent is reached. -/
inductive CascadeReach (comments : List CommentRow) (ids : List String) : String → Prop where
  | root (x : String) : x ∈ ids → CascadeReach comments ids x
  | reply (c : CommentRow) (p : String) : c ∈ comments → c.parent_comment_id = some p →
      CascadeReach comments ids p → CascadeReach comments ids c.id

/-- The statement `DELETE FROM recipes WHERE id = $1` with the referential actions of
`schema.js`: rows of `recipe_ingredients`, `recipe_categories`, `recipe_ratings`,
`recipe_likes` and `recipe_comments` that reference the recipe are deleted (comments
with their replies), and `shopping_list_items.recipe_id` is set to `NULL`, an update on
which the trigger `update_shopping_list_items_updated_at` sets `updated_at`. -/
def deleteRecipeCascade (db : Db) (now : Nat) (id : String) : Db :=
  { db with
    recipes := db.recipes.filter fun r => decide (r.id ≠ id),
    recipe_ingredients := db.recipe_ingredients.filter fun i => decide (i.recipe_id ≠ id),
    recipe_categories := db.recipe_categories.filter fun rc => decide (rc.recipe_id ≠ id),
    recipe_ratings := db.recipe_ratings.filter fun c => decide (c.recipe_id ≠ id),
    recipe_likes := db.recipe_likes.filter fun l => decide (l.recipe_id ≠ id),
    recipe_comments :=
      deleteCommentsCascade db.recipe_comments
        ((db.recipe_comments.filter fun c => decide (c.recipe_id = id)).map fun c => c.id),
    shopping_list_items := db.shopping_list_items.map fun i =>
      if i.recipe_id = some id then { i with recipe_id := none, updated_at := now } else i }

/-- The handler `deleteRecipe` (`DELETE /recipes/:id`, behind `authenticateToken`); the
success body carries `deletedRecipe: { id, title }`. -/
def deleteRecipe (db : Db) (now : Nat) (id : String) (user : AuthUser) :
    Response RecipeRef × Db :=
  let userId := user.id
  match recipesById db id with
  | [] => ({ status := 404, error := some "Recipe not found", timestamp := now }, db)
  | existingRecipe :: _ =>
    if existingRecipe.author_id ≠ userId then
      ({ status := 403, error := some "Access denied",
         message := some "You can only delete your own recipes", timestamp := now }, db)
    else
      ({ status := 200, message := some "Recipe deleted successfully",
         data := some { id := id, title := existingRecipe.title }, timestamp := now },
       deleteRecipeCascade db now id)

/-! ## `updateRecipe` with a failing database -/

/-- The number of statements `updateRecipe` sends from `BEGIN` to `COMMIT`, both
included: `BEGIN`, `UPDATE recipes`, the `DELETE` and the `INSERT`s for `ingredients` and
for `categoryIds` when given, `COMMIT`. -/
def updateStatementCount (body : RecipeBody) : Nat :=
  2 +
    (match body.ingredients with
      | none => 0
      | some ingredients => 1 + ingredients.length) +
    (match body.categoryIds with
      | none => 0
      | some categoryIds => 1 + categoryIds.length) + 1

/-- The handler `updateRecipe` when the database may fail: `fault = some k` makes the
`k`-th `client.query` after the ownership check throw (`BEGIN` is number 0), whatever the
statement. An error up to `COMMIT` reaches the inner `catch`, whose `ROLLBACK` undoes the
transaction; the three queries of `getCompleteRecipeById` run after `COMMIT` inside the
same `try`, so an error there reaches the same `catch`, whose `ROLLBACK` then has nothing
to undo. Every error ends in the 500 of the outer `catch`. -/
def updateRecipeWithFault (uuid : Nat → String) (db : Db) (now : Nat) (valid : Bool)
    (id : String) (user : AuthUser) (body : RecipeBody) (fault : Option Nat) :
    Response (Option CompleteRecipe) × Db :=
  let userId := user.id
  let failure : Response (Option CompleteRecipe) :=
    { status := 500, error := some "Failed to update recipe",
      message := some "Internal server error", timestamp := now }
  if !valid then ({ status := 400, error := some "Validation failed", timestamp := now }, db)
  else
    match recipesById db id with
    | [] => ({ status := 404, error := some "Recipe not found", timestamp := now }, db)
    | existingRecipe :: _ =>
      if existingRecipe.author_id ≠ userId then
        ({ status := 403, error := some "Access denied",
           message := some "You can only update your own recipes", timestamp := now }, db)
      else if (match fault with
          | some k => decide (k < updateStatementCount body)
          | none => false) then (failure, db)
      else
        match updateRecipeStatements uuid db now id body with
        | none => (failure, db)
        | some db' =>
          if (match fault with
              | some k => decide (k < updateStatementCount body + 3)
              | none => false) then (failure, db')
          else
            ({ status := 200, message := some "Recipe updated successfully",
               data := some (getCompleteRecipeById db' id (some userId)), timestamp := now },
             db')

/-! ## Comments (`commentController.js`, `commentValidation.js`) -/

/-- The member `parentCommentId` of the body of `POST /recipes/:id/comments`: absent
(`undefined`) or a JSON scalar. For a number, `isZero` says whether it is `0` and `text` is
what `String` prints for it (`0` is `.number true "0"`). -/
inductive ParentIdInput where
  | absent
  | null
  | string (s : String)
  | number (isZero : Bool) (text : String)
  | bool (b : Bool)
deriving DecidableEq, Repr

/-- Truthiness of the value in JavaScript, as tested by `if (parentCommentId)` and by
`parentCommentId || null`: the empty string, `0`, `false`, `null` and `undefined` are
falsy. -/
def ParentIdInput.truthy : ParentIdInput → Bool
  | .string s => ReciptShare.truthy s
  | .number isZero _ => !isZero
  | .bool b => b
  | .absent => false
  | .null => false

/-- The text of the value: what the validators of express-validator are applied to
(`null` and `undefined` give the empty text) and what node-postgres sends for a value that
is not `null`. -/
def ParentIdInput.shown : ParentIdInput → String
  | .string s => s
  | .number _ text => text
  | .bool b => if b then "true" else "false"
  | .absent => ""
  | .null => ""

/-- The query parameter node-postgres sends for the value: its text, and `NULL` for
`undefined` and `null`. -/
def ParentIdInput.sent : ParentIdInput → Option String
  | .absent => none
  | .null => none
  | p => some p.shown

/-- The body of `POST /recipes/:id/comments`; an absent `comment` is `none`. -/
structure CommentBody where
  comment : Option String := none
  parentCommentId : ParentIdInput := .absent
deriving DecidableEq, Repr

/-- The chain `validateComment`: `comment` has 1 to 1000 characters, and
`parentCommentId`, unless it is `undefined` (`optional()`), has a text of at least one
character, which holds for every number and boolean. The result is `errors.isEmpty()`. -/
def validateComment (body : CommentBody) : Bool :=
  (match body.comment with
    | some s => decide (1 ≤ s.length ∧ s.length ≤ 1000)
    | none => false) &&
  (match body.parentCommentId with
    | .absent => true
    | p => decide (1 ≤ p.shown.length))

/-- The `user` object of a comment response. -/
structure CommentUserJson where
  id : String
  username : String
  firstName : String
  lastName : Option String
  fullName : String
  profileImageUrl : Option String
deriving DecidableEq, Repr

/-- The `comment` object of the response of `createComment` (its `replies` array is
always empty). -/
structure CommentJson where
  id : String
  comment : String
  parentCommentId : Option String
  isEdited : Option Bool
  createdAt : Nat
  updatedAt : Nat
  user : CommentUserJson
  recipe : RecipeRef
deriving DecidableEq, Repr

/-- The block "If it's a reply, check if parent comment exists" of `createComment`: the
response it returns, or `none` when the handler goes on. -/
def checkParentComment (db : Db) (now : Nat) (recipeId : String)
    (parentCommentId : ParentIdInput) : Option (Response CommentJson) :=
  if parentCommentId.truthy then
    match db.recipe_comments.filter fun c => some c.id = parentCommentId.sent with
    | [] => some { status := 404, error := some "Parent comment not found", timestamp := now }
    | parent :: _ =>
      if parent.recipe_id ≠ recipeId then
        some { status := 400, error := some "Parent comment does not belong to this recipe",
               timestamp := now }
      else none
  else none

/-- The handler `createComment` (`POST /recipes/:id/comments`, behind `authenticateToken`
and `validateComment`, whose `trim` sanitizer has been applied to `comment` when the
handler reads it). `commentId` is the value of `generateUUID()`. A primary key clash of
the new id, or a missing row for the requester in the query for the response, ends in the
500 of the outer `catch`; there is no transaction. -/
def createComment (commentId : String) (db : Db) (now : Nat) (recipeId : String)
    (user : AuthUser) (body : CommentBody) : Response CommentJson × Db :=
  let userId := user.id
  let failure : Response CommentJson :=
    { status := 500, error := some "Failed to create comment",
      message := some "Internal server error", timestamp := now }
  if !validateComment body then
    ({ status := 400, error := some "Validation failed", timestamp := now }, db)
  else
    let comment := jsTrim (body.comment.getD "")
    match recipesById db recipeId with
    | [] => ({ status := 404, error := some "Recipe not found", timestamp := now }, db)
    | recipe :: _ =>
      if !(truthyBool recipe.is_public) && decide (recipe.author_id ≠ userId) then
        ({ status := 403, error := some "Access denied",
           message := some "Cannot comment on a private recipe", timestamp := now }, db)
      else
        match checkParentComment db now recipeId body.parentCommentId with
        | some response => (response, db)
        | none =>
          if db.recipe_comments.any (fun c => c.id = commentId) then (failure, db)
          else
            let newComment : CommentRow :=
              { id := commentId, recipe_id := recipeId, user_id := userId, comment := comment,
                parent_comment_id :=
                  if body.parentCommentId.truthy then body.parentCommentId.sent else none,
                created_at := now, updated_at := now }
            let db' : Db := { db with recipe_comments := db.recipe_comments ++ [newComment] }
            match db.users.filter fun u => u.id = userId with
            | [] => (failure, db')
            | u :: _ =>
              ({ status := 201, message := some "Comment created successfully",
                 data := some
                   { id := newComment.id, comment := newComment.comment,
                     parentCommentId := newComment.parent_comment_id,
                     isEdited := newComment.is_edited, createdAt := newComment.created_at,
                     updatedAt := newComment.updated_at,
                     user :=
                       { id := userId, username := u.username, firstName := u.first_name,
                         lastName := u.last_name,
                         fullName := jsTrim (u.first_name ++ " " ++ showNullable u.last_name),
                         profileImageUrl := u.profile_image_url },
                     recipe := { id := recipeId, title := recipe.title } },
                 timestamp := now }, db')

/-- The object `deletedComment: { id, preview, recipe }` of the response of
`deleteComment`. -/
structure DeletedCommentJson where
  id : String
  preview : String
  recipe : RecipeRef
deriving DecidableEq, Repr

/-- The expression `comment.substring(0, 50) + (comment.length > 50 ? '...' : '')`. -/
def commentPreview (comment : String) : String :=
  String.mk (comment.data.take 50 ++ if comment.data.length > 50 then ['.', '.', '.'] else [])

/-- The query of `deleteComment`: `recipe_comments c JOIN recipes r ON c.recipe_id = r.id
WHERE c.id = $1`. -/
def commentWithRecipe (db : Db) (commentId : String) : List (CommentRow × RecipeRow) :=
  (db.recipe_comments.filter fun c => c.id = commentId).flatMap fun c =>
    (db.recipes.filter fun r => r.id = c.recipe_id).map fun r => (c, r)

/-- The handler `deleteComment` (`DELETE /comments/:commentId`, behind
`authenticateToken`). -/
def deleteComment (db : Db) (now : Nat) (commentId : String) (user : AuthUser) :
    Response DeletedCommentJson × Db :=
  let userId := user.id
  match commentWithRecipe db commentId with
  | [] => ({ status := 404, error := some "Comment not found", timestamp := now }, db)
  | (c, r) :: _ =>
    if c.user_id ≠ userId ∧ r.author_id ≠ userId then
      ({ status := 403, error := some "Access denied",
         message := some "You can only delete your own comments or comments on your recipes",
         timestamp := now }, db)
    else
      ({ status := 200, message := some "Comment deleted successfully",
         data := some
           { id := commentId, preview := commentPreview c.comment,
             recipe := { id := c.recipe_id, title := r.title } },
         timestamp := now },
       { db with recipe_comments := deleteCommentsCascade db.recipe_comments [commentId] })

/-! ## Shopping list (`shoppingListController.js`, `shoppingListValidation.js`) -/

/-- The member `servingMultiplier` of the body of `POST /shopping-list/recipes/:id`:
absent (`undefined`), a JSON number, or a value that is not a number. -/
inductive MultiplierInput where
  | absent
  | number (d : Decimal)
  | notANumber
deriving DecidableEq, Repr

/-- The chain `validateAddRecipeToShoppingList`:
`body('servingMultiplier').optional().isFloat({ min: 0.1, max: 10 })`. The result is
`errors.isEmpty()`. -/
def validateAddRecipeToShoppingList : MultiplierInput → Bool
  | .absent => true
  | .number d => decide (10 ^ d.scale ≤ 10 * d.mantissa ∧ d.mantissa ≤ 10 * 10 ^ d.scale)
  | .notANumber => false

/-- The value `parseFloat(servingMultiplier)` with the default `servingMultiplier = 1` of
the destructuring; `none` is `NaN`. -/
def parseMultiplier : MultiplierInput → Option Decimal
  | .absent => some ⟨1, 0⟩
  | .number d => some d
  | .notANumber => none

/-- The value stored for `ingredient.quantity * multiplier` in the `DECIMAL(10,2)` column:
the product rounded to hundredths (`ingredient.quantity` is a non-empty string, hence
truthy). The product is taken exactly; JavaScript takes it in binary floating point, which
gives the same stored value for an integer multiplier. -/
def adjustedQuantity (quantity : Int) (multiplier : Option Decimal) : Numeric :=
  match multiplier with
  | none => .nan
  | some d => .finite (roundDiv (quantity * d.mantissa) (10 ^ d.scale))

/-- Whether a value fits the precision of `DECIMAL(10,2)` (`NULL` and `NaN` do). -/
def numericFits : Option Numeric → Bool
  | some (.finite hundredths) => decide (-(10 ^ 10) < hundredths ∧ hundredths < 10 ^ 10)
  | _ => true

/-- Whether the `VARCHAR(50)` column `unit` accepts the value. -/
def unitFits : Option String → Bool
  | some u => decide (u.length ≤ 50)
  | none => true

/-- Whether `INSERT INTO shopping_list_items` accepts the row: primary key, `VARCHAR`
lengths and the precision of `DECIMAL(10,2)`. -/
def shoppingItemInsertOk (table : List ShoppingListItemRow) (row : ShoppingListItemRow) : Bool :=
  table.all (fun i => i.id ≠ row.id) && decide (row.ingredient_name.length ≤ 255) &&
    unitFits row.unit && numericFits row.quantity

/-- The row `addRecipeToShoppingList` inserts for one ingredient; `itemId` is the value of
`generateUUID()`. -/
def recipeItemRow (itemId userId recipeId : String) (now : Nat) (multiplier : Option Decimal)
    (ingredient : IngredientRow) : ShoppingListItemRow :=
  { id := itemId, user_id := userId, recipe_id := some recipeId,
    ingredient_name := ingredient.name,
    quantity := some (adjustedQuantity ingredient.quantity multiplier),
    unit := some ingredient.unit, notes := ingredient.notes, created_at := now,
    updated_at := now }

/-- The value `quantity ? parseFloat(quantity) : null` of a response, in hundredths; `NaN`
is written `null` by `JSON.stringify`. -/
def jsonQuantity : Option Numeric → Option Int
  | some (.finite hundredths) => some hundredths
  | _ => none

/-- An element of `addedItems`, and the item fields of the other shopping-list responses. -/
structure ShoppingItemJson where
  id : String
  ingredientName : String
  quantity : Option Int
  unit : Option String
  notes : Option String
  isCompleted : Option Bool
  createdAt : Nat
  updatedAt : Nat
deriving DecidableEq, Repr

/-- The object pushed on `addedItems` for the row returned by the `INSERT`. -/
def shoppingItemJson (newItem : ShoppingListItemRow) : ShoppingItemJson :=
  { id := newItem.id, ingredientName := newItem.ingredient_name,
    quantity := jsonQuantity newItem.quantity, unit := newItem.unit, notes := newItem.notes,
    isCompleted := newItem.is_completed, createdAt := newItem.created_at,
    updatedAt := newItem.updated_at }

/-- The loop `for (const ingredient of ingredientsResult.rows)`: `uuid k` is the value of
the `k`-th call of `generateUUID()` in the request, `table` the rows of
`shopping_list_items` and `addedItems` the array built so far. The loop runs outside any
transaction: when an `INSERT` raises an error the result is the table with the rows
inserted before it, and `none`. -/
def insertRecipeItems (uuid : Nat → String) (userId recipeId : String) (now : Nat)
    (multiplier : Option Decimal) :
    Nat → List IngredientRow → List ShoppingListItemRow → List ShoppingItemJson →
      List ShoppingListItemRow × Option (List ShoppingItemJson)
  | _, [], table, addedItems => (table, some addedItems)
  | k, ingredient :: rest, table, addedItems =>
    if shoppingItemInsertOk table (recipeItemRow (uuid k) userId recipeId now multiplier ingredient)
    then
      insertRecipeItems uuid userId recipeId now multiplier (k + 1) rest
        (table ++ [recipeItemRow (uuid k) userId recipeId now multiplier ingredient])
        (addedItems ++
          [shoppingItemJson (recipeItemRow (uuid k) userId recipeId now multiplier ingredient)])
    else (table, none)

/-- The object `recipe` of the response of `addRecipeToShoppingList`; `adjustedServings`
is `recipe.servings * multiplier` (`none` for `NaN`). -/
structure AdjustedRecipeJson where
  id : String
  title : String
  originalServings : Int
  adjustedServings : Option Decimal
deriving DecidableEq, Repr

/-- The members `recipe`, `addedItems` and `servingMultiplier` of the 201 response of
`addRecipeToShoppingList`. -/
structure AddRecipeJson where
  recipe : AdjustedRecipeJson
  addedItems : List ShoppingItemJson
  servingMultiplier : Option Decimal
deriving DecidableEq, Repr

/-- The handler `addRecipeToShoppingList` (`POST /shopping-list/recipes/:id`, behind
`authenticateToken` and the chain `validateAddRecipeToShoppingList`). The handler does not
read `validationResult(req)`, so the outcome of the chain has no effect on it. -/
def addRecipeToShoppingList (uuid : Nat → String) (db : Db) (now : Nat) (recipeId : String)
    (user : AuthUser) (servingMultiplier : MultiplierInput) : Response AddRecipeJson × Db :=
  let userId := user.id
  match recipesById db recipeId with
  | [] => ({ status := 404, error := some "Recipe not found", timestamp := now }, db)
  | recipe :: _ =>
    if !(truthyBool recipe.is_public) && decide (recipe.author_id ≠ userId) then
      ({ status := 403, error := some "Access denied",
         message := some "Cannot add ingredients from a private recipe", timestamp := now }, db)
    else
      match ingredientsOf db recipeId with
      | [] =>
        ({ status := 400, error := some "No ingredients found",
           message := some "This recipe has no ingredients to add", timestamp := now }, db)
      | ingredient :: rest =>
        let multiplier := parseMultiplier servingMultiplier
        match insertRecipeItems uuid userId recipeId now multiplier 0 (ingredient :: rest)
            db.shopping_list_items [] with
        | (table, none) =>
          ({ status := 500, error := some "Failed to add recipe to shopping list",
             message := some "Internal server error", timestamp := now },
           { db with shopping_list_items := table })
        | (table, some addedItems) =>
          ({ status := 201,
             message := some ("Added " ++ toString addedItems.length ++ " ingredients from \x22" ++
               recipe.title ++ "\x22 to shopping list"),
             data := some
               { recipe :=
                   { id := recipe.id, title := recipe.title, originalServings := recipe.servings,
                     adjustedServings :=
                       multiplier.map fun d => ⟨recipe.servings * d.mantissa, d.scale⟩ },
                 addedItems := addedItems, servingMultiplier := multiplier },
             timestamp := now },
           { db with shopping_list_items := table })

/-- The members of the body of `PUT /shopping-list/items/:itemId`; an absent member
(`undefined`) is `none`. -/
structure ShoppingItemBody where
  ingredientName : Option String := none
  quantity : Option Decimal := none
  unit : Option String := none
  notes : Option String := none
  recipeId : Option String := none
  isCompleted : Option Bool := none
deriving DecidableEq, Repr

/-- The chain `validateShoppingListItem`: `ingredientName` has 1 to 255 characters (the
check is not `optional()`), and, each only when present, `quantity` is at least 0.01,
`unit` has at most 50 characters, `notes` at most 255, `recipeId` at least 1. The result
is `errors.isEmpty()`. -/
def validateShoppingListItem (body : ShoppingItemBody) : Bool :=
  (match body.ingredientName with
    | some s => decide (1 ≤ s.length ∧ s.length ≤ 255)
    | none => false) &&
  (match body.quantity with
    | some d => decide (10 ^ d.scale ≤ 100 * d.mantissa)
    | none => true) &&
  (match body.unit with
    | some s => decide (s.length ≤ 50)
    | none => true) &&
  (match body.notes with
    | some s => decide (s.length ≤ 255)
    | none => true) &&
  (match body.recipeId with
    | some s => decide (1 ≤ s.length)
    | none => true)

/-- The row the dynamic `UPDATE shopping_list_items SET ...` of `updateShoppingListItem`
leaves: each member of the body that is not `undefined` sets its column (the strings after
the `trim` sanitizer of the chain, `unit || ''`, `notes || null`), and `updated_at` is
set. -/
def patchShoppingItem (item : ShoppingListItemRow) (now : Nat) (body : ShoppingItemBody) :
    ShoppingListItemRow :=
  { item with
    ingredient_name :=
      match body.ingredientName with
      | some ingredientName => jsTrim ingredientName
      | none => item.ingredient_name,
    quantity :=
      match body.quantity with
      | some quantity => some (.finite quantity.toHundredths)
      | none => item.quantity,
    unit :=
      match body.unit with
      | some unit => some (if truthy (jsTrim unit) then jsTrim unit else "")
      | none => item.unit,
    notes :=
      match body.notes with
      | some notes => if truthy (jsTrim notes) then some (jsTrim notes) else none
      | none => item.notes,
    is_completed :=
      match body.isCompleted with
      | some isCompleted => some isCompleted
      | none => item.is_completed,
    updated_at := now }

/-- The object `recipe: { id, title, imageUrl }` of a shopping-list item response. -/
structure ItemRecipeJson where
  id : String
  title : String
  imageUrl : Option String
deriving DecidableEq, Repr

/-- The object `item` of the response of `updateShoppingListItem`. -/
structure UpdatedItemJson where
  item : ShoppingItemJson
  recipe : Option ItemRecipeJson
deriving DecidableEq, Repr

/-- The handler `updateShoppingListItem` behind the chain `validateShoppingListItem`
(`PUT /shopping-list/items/:itemId`, after `authenticateToken`). -/
def updateShoppingListItem (db : Db) (now : Nat) (itemId : String) (user : AuthUser)
    (body : ShoppingItemBody) : Response UpdatedItemJson × Db :=
  let userId := user.id
  if !validateShoppingListItem body then
    ({ status := 400, error := some "Validation failed", timestamp := now }, db)
  else
    match db.shopping_list_items.filter fun i => i.id = itemId with
    | [] => ({ status := 404, error := some "Shopping list item not found", timestamp := now }, db)
    | existingItem :: _ =>
      if existingItem.user_id ≠ userId then
        ({ status := 403, error := some "Access denied",
           message := some "You can only update your own shopping list items",
           timestamp := now }, db)
      else if body.ingredientName = none ∧ body.quantity = none ∧ body.unit = none ∧
          body.notes = none ∧ body.isCompleted = none then
        ({ status := 400, error := some "No fields to update", timestamp := now }, db)
      else if !numericFits (patchShoppingItem existingItem now body).quantity then
        ({ status := 500, error := some "Failed to update shopping list item",
           message := some "Internal server error", timestamp := now }, db)
      else
        let updatedItem := patchShoppingItem existingItem now body
        let recipe : Option RecipeRow :=
          match updatedItem.recipe_id with
          | some recipeId => if truthy recipeId then (recipesById db recipeId).head? else none
          | none => none
        ({ status := 200, message := some "Shopping list item updated successfully",
           data := some
             { item := shoppingItemJson updatedItem,
               recipe := recipe.map fun r => { id := r.id, title := r.title, imageUrl := r.image_url } },
           timestamp := now },
         { db with
           shopping_list_items := db.shopping_list_items.map fun i =>
             if i.id = itemId then patchShoppingItem i now body else i })

/-- The member `deletedCount` of the responses of `clearCompletedItems` and
`clearShoppingList`. -/
structure ClearJson where
  deletedCount : Nat
deriving DecidableEq, Repr

/-- The handler `clearCompletedItems` (`DELETE /shopping-list/completed`, behind
`authenticateToken`): `DELETE FROM shopping_list_items WHERE user_id = $1 AND
is_completed = true`; `deletedCount` is the `rowCount` of the statement. -/
def clearCompletedItems (db : Db) (now : Nat) (user : AuthUser) : Response ClearJson × Db :=
  let userId := user.id
  let deleted := db.shopping_list_items.filter fun i =>
    decide (i.user_id = userId) && decide (i.is_completed = some true)
  let deletedCount := deleted.length
  ({ status := 200,
     message := some ("Cleared " ++ toString deletedCount ++ " completed items from shopping list"),
     data := some { deletedCount := deletedCount }, timestamp := now },
   { db with
     shopping_list_items := db.shopping_list_items.filter fun i =>
       !(decide (i.user_id = userId) && decide (i.is_completed = some true)) })

/-- The handler `clearShoppingList` (`DELETE /shopping-list/clear`, behind
`authenticateToken`): `DELETE FROM shopping_list_items WHERE user_id = $1`. -/
def clearShoppingList (db : Db) (now : Nat) (user : AuthUser) : Response ClearJson × Db :=
  let userId := user.id
  let deleted := db.shopping_list_items.filter fun i => decide (i.user_id = userId)
  let deletedCount := deleted.length
  ({ status := 200,
     message := some ("Cleared all " ++ toString deletedCount ++ " items from shopping list"),
     data := some { deletedCount := deletedCount }, timestamp := now },
   { db with
     shopping_list_items := db.shopping_list_items.filter fun i => !decide (i.user_id = userId) })

/-! ## Following (`followController.js`) -/

/-- The object `user` of the response of `toggleFollow`. -/
structure FollowUserJson where
  id : String
  username : String
  firstName : String
  lastName : Option String
  fullName : String
deriving DecidableEq, Repr

/-- The object `stats` of the response of `toggleFollow`. -/
structure FollowStatsJson where
  followersCount : Nat
  followingCount : Nat
deriving DecidableEq, Repr

/-- The members `user`, `isFollowing` and `stats` of the response of `toggleFollow`. -/
structure FollowJson where
  user : FollowUserJson
  isFollowing : Bool
  stats : FollowStatsJson
deriving DecidableEq, Repr

/-- The subquery `SELECT COUNT(*) FROM user_followers WHERE following_id = $1`. -/
def followersCountOf (db : Db) (userId : String) : Nat :=
  (db.user_followers.filter fun f => f.following_id = userId).length

/-- The subquery `SELECT COUNT(*) FROM user_followers WHERE follower_id = $1`. -/
def followingCountOf (db : Db) (userId : String) : Nat :=
  (db.user_followers.filter fun f => f.follower_id = userId).length

/-- The handler `toggleFollow` (`POST /users/:username/follow`, behind
`authenticateToken`). -/
def toggleFollow (db : Db) (now : Nat) (username : String) (user : AuthUser) :
    Response FollowJson × Db :=
  let followerId := user.id
  match db.users.filter fun u =>
      decide (u.username = toLowerCase username) && decide (u.is_active = some true) with
  | [] => ({ status := 404, error := some "User not found", timestamp := now }, db)
  | userToFollow :: _ =>
    if userToFollow.id = followerId then
      ({ status := 400, error := some "Invalid operation",
         message := some "You cannot follow yourself", timestamp := now }, db)
    else
      let existingFollow := db.user_followers.filter fun f =>
        decide (f.follower_id = followerId) && decide (f.following_id = userToFollow.id)
      let isFollowing := !decide (existingFollow.length > 0)
      let message :=
        if existingFollow.length > 0 then "You are no longer following " ++ userToFollow.username
        else "You are now following " ++ userToFollow.username
      let db' : Db :=
        if existingFollow.length > 0 then
          { db with
            user_followers := db.user_followers.filter fun f =>
              !(decide (f.follower_id = followerId) && decide (f.following_id = userToFollow.id)) }
        else
          { db with
            user_followers := db.user_followers ++
              [{ follower_id := followerId, following_id := userToFollow.id, created_at := now }] }
      ({ status := 200, message := some message,
         data := some
           { user :=
               { id := userToFollow.id, username := userToFollow.username,
                 firstName := userToFollow.first_name, lastName := userToFollow.last_name,
                 fullName :=
                   jsTrim (userToFollow.first_name ++ " " ++ showNullable userToFollow.last_name) },
             isFollowing := isFollowing,
             stats :=
               { followersCount := followersCountOf db' userToFollow.id,
                 followingCount := followingCountOf db' userToFollow.id } },
         timestamp := now }, db')

/-! ## The `ORDER BY` clause and the pagination block of `getRecipes` -/

/-- The array `allowedSortColumns` of `getRecipes`. -/
def allowedSortColumns : List String :=
  ["created_at", "title", "prep_time_minutes", "cook_time_minutes", "difficulty"]

/-- The text `allowedSortColumns.includes(sort) ? sort : 'created_at'`. -/
def sortColumnText (sort : String) : String :=
  if allowedSortColumns.contains sort then sort else "created_at"

/-- The text `order.toLowerCase() === 'asc' ? 'ASC' : 'DESC'`. -/
def sortOrderText (order : String) : String :=
  if toLowerCase order = "asc" then "ASC" else "DESC"

/-- The line `ORDER BY r.${sortColumn} ${sortOrder}` of both page queries of `getRecipes`;
an absent `sort` is `'created_at'` and an absent `order` is `'desc'`. -/
def orderByText (sort order : Option String) : String :=
  "ORDER BY r." ++ sortColumnText (sort.getD "created_at") ++ " " ++
    sortOrderText (order.getD "desc")

/-- The name of a sort column in the SQL text. -/
def SortColumn.text : SortColumn → String
  | .created_at => "created_at"
  | .title => "title"
  | .prep_time_minutes => "prep_time_minutes"
  | .cook_time_minutes => "cook_time_minutes"
  | .difficulty => "difficulty"

/-- The line `const offset = (parseInt(page) - 1) * parseInt(limit)`; `none` is `NaN`. -/
def pageOffset (page limit : Option Int) : Option Int :=
  match page, limit with
  | some p, some l => some ((p - 1) * l)
  | _, _ => none

/-- A JavaScript number that is an integer, `Infinity` or `NaN` (the last two are written
`null` in JSON). -/
inductive JsCount where
  | finite (n : Int)
  | infinity
  | nan
deriving DecidableEq, Repr

/-- The value `Math.ceil(total / parseInt(limit))` for a count `total`. A count is far
below `2 ^ 53`, where the floating-point quotient has the same ceiling as the exact one. -/
def totalPagesOf (total : Nat) (limit : Option Int) : JsCount :=
  match limit with
  | none => .nan
  | some l =>
    if l = 0 then (if total = 0 then .nan else .infinity)
    else if 0 < l then .finite (-(-(total : Int) / l))
    else .finite (-((total : Int) / (-l)))

/-- The comparison `parseInt(page) < totalPages`. -/
def pageBelow (page : Option Int) : JsCount → Bool
  | .finite n =>
    match page with
    | some p => decide (p < n)
    | none => false
  | .infinity => page.isSome
  | .nan => false

/-- The object `pagination` of a listing; `total` is the member `totalRecipes`,
`totalFollowers`, ... of the handler. -/
structure PaginationJson where
  currentPage : Option Int
  totalPages : JsCount
  total : Nat
  limit : Option Int
  hasNextPage : Bool
  hasPrevPage : Bool
deriving DecidableEq, Repr

/-- The block `pagination: { currentPage: parseInt(page), totalPages, total...,
limit: parseInt(limit), hasNextPage: parseInt(page) < totalPages, hasPrevPage:
parseInt(page) > 1 }`, where `page` and `limit` are the values of `parseInt`. -/
def paginationOf (page limit : Option Int) (total : Nat) : PaginationJson :=
  { currentPage := page, totalPages := totalPagesOf total limit, total := total, limit := limit,
    hasNextPage := pageBelow page (totalPagesOf total limit),
    hasPrevPage :=
      match page with
      | some p => decide (p > 1)
      | none => false }

/-- The object `pagination` of the response of `getRecipes`, from the members of the body
it is computed from. -/
def RecipeListBody.pagination (body : RecipeListBody) : PaginationJson :=
  paginationOf body.currentPage body.limit body.totalRecipes

/-- A `LIMIT` or `OFFSET` value the database accepts: a non-negative `bigint`; `none` for
`NaN`, a negative or an out-of-range number, on which the statement raises an error. -/
def sqlCount : Option Int → Option Nat
  | some k => if 0 ≤ k ∧ k < 2 ^ 63 then some k.toNat else none
  | none => none

/-! ## The global error handler (`server.js`) -/

/-- The members of the error object the global error handler reads; a member that is
absent is `none`. -/
structure ErrorValue where
  type : Option String := none
  status : Option Nat := none
  statusCode : Option Nat := none
  message : Option String := none
  stack : Option String := none
deriving DecidableEq, Repr

/-- The members `stack` and `details` the handler adds in development. -/
structure ErrorDebugJson where
  stack : Option String
  details : ErrorValue
deriving DecidableEq, Repr

/-- The expression `err.status || err.statusCode || 500`: a number is truthy unless it is
zero. -/
def errorStatus (err : ErrorValue) : Nat :=
  match err.status with
  | some (n + 1) => n + 1
  | _ =>
    match err.statusCode with
    | some (n + 1) => n + 1
    | _ => 500

/-- The global error handler `app.use((err, req, res, next) => ...)`; `nodeEnv` is
`process.env.NODE_ENV`. The payload `data` holds the members spread into the body in
development. -/
def globalErrorHandler (nodeEnv : Option String) (now : Nat) (err : ErrorValue) :
    Response ErrorDebugJson :=
  if err.type = some "entity.parse.failed" then
    { status := 400, error := some "Invalid JSON",
      message := some "Request body contains invalid JSON", timestamp := now }
  else if err.type = some "entity.too.large" then
    { status := 413, error := some "Payload too large",
      message := some "Request body exceeds size limit", timestamp := now }
  else
    let status := errorStatus err
    let message :=
      if nodeEnv = some "production" then
        (if status < 500 then err.message else some "Internal server error")
      else err.message
    { status := status, error := some (if status < 500 then "Client error" else "Server error"),
      message := message,
      data := if nodeEnv = some "development" then some { stack := err.stack, details := err }
        else none,
      timestamp := now }

/-! ## The followers listing (`followController.js`) -/

/-- The object `user: { id, username }` of the followers listing. -/
structure UserRef where
  id : String
  username : String
deriving DecidableEq, Repr

/-- One element of the array `followers`. -/
structure FollowerJson where
  id : String
  username : String
  firstName : String
  lastName : Option String
  fullName : String
  profileImageUrl : Option String
  bio : Option String
  isVerified : Option Bool
  followedAt : Nat
  isFollowingBack : Bool
deriving DecidableEq, Repr

/-- The rows of the followers query before `LIMIT` and `OFFSET`: `user_followers uf JOIN
users u ON uf.follower_id = u.id WHERE uf.following_id = $1 AND u.is_active = true ORDER BY
uf.created_at DESC`. -/
def followerRows (db : Db) (userId : String) : List (FollowRow × UserRow) :=
  ((db.user_followers.filter fun uf => uf.following_id = userId).flatMap fun uf =>
      (db.users.filter fun u =>
        decide (u.id = uf.follower_id) && decide (u.is_active = some true)).map fun u =>
          (uf, u)).insertionSort
    fun a b => b.1.created_at ≤ a.1.created_at

/-- The column `is_following_back`: `CASE WHEN $3 IS NOT NULL THEN EXISTS(SELECT 1 FROM
user_followers WHERE follower_id = $3 AND following_id = u.id) ELSE false END`, where `$3`
is `requestingUserId`. -/
def isFollowingBack (db : Db) (requestingUserId : Option String) (followerId : String) : Bool :=
  match requestingUserId with
  | some v =>
    db.user_followers.any fun f =>
      decide (f.follower_id = v) && decide (f.following_id = followerId)
  | none => false

/-- The mapping of a row of the followers query to its JSON element. -/
def followerJson (db : Db) (requestingUserId : Option String) (row : FollowRow × UserRow) :
    FollowerJson :=
  { id := row.2.id, username := row.2.username, firstName := row.2.first_name,
    lastName := row.2.last_name,
    fullName := jsTrim (row.2.first_name ++ " " ++ showNullable row.2.last_name),
    profileImageUrl := row.2.profile_image_url, bio := row.2.bio,
    isVerified := row.2.is_verified, followedAt := row.1.created_at,
    isFollowingBack := isFollowingBack db requestingUserId row.2.id }

/-- The body of a successful `getUserFollowers`. -/
structure FollowersBody where
  user : UserRef
  followers : List FollowerJson
  pagination : PaginationJson
deriving DecidableEq, Repr

/-- The handler `getUserFollowers` (`GET /users/:username/followers`, behind
`optionalAuth`; the handler does not consult `validationResult`). A `LIMIT` or `OFFSET`
the database rejects ends in the 500 of the outer `catch`. -/
def getUserFollowers (db : Db) (now : Nat) (username : String) (page limit : Option String)
    (reqUser : Option AuthUser) : Response FollowersBody :=
  let pageNumber := parseIntJs (page.getD "1")
  let limitNumber := parseIntJs (limit.getD "20")
  let offset := pageOffset pageNumber limitNumber
  let requestingUserId : Option String := reqUser.map fun u => u.id
  match db.users.filter fun u =>
      decide (u.username = toLowerCase username) && decide (u.is_active = some true) with
  | [] => { status := 404, error := some "User not found", timestamp := now }
  | user :: _ =>
    if !(truthyBool user.is_public_profile) && decide (some user.id ≠ requestingUserId) then
      { status := 403, error := some "Profile is private", timestamp := now }
    else
      match sqlCount limitNumber, sqlCount offset with
      | some lim, some off =>
        { status := 200,
          data := some
            { user := { id := user.id, username := user.username },
              followers :=
                (((followerRows db user.id).drop off).take lim).map
                  (followerJson db requestingUserId),
              pagination := paginationOf pageNumber limitNumber (followerRows db user.id).length },
          timestamp := now }
      | _, _ =>
        { status := 500, error := some "Failed to get followers",
          message := some "Internal server error", timestamp := now }

/-! ## The personal feed (`feedController.js`) -/

/-- The clause `WHERE r.is_public = true AND (r.author_id = $1 OR EXISTS (SELECT 1 FROM
user_followers WHERE follower_id = $1 AND following_id = r.author_id))` on one row. -/
def feedVisible (db : Db) (userId : String) (r : RecipeRow) : Bool :=
  decide (r.is_public = some true) &&
    (decide (r.author_id = userId) ||
      db.user_followers.any fun f =>
        decide (f.follower_id = userId) && decide (f.following_id = r.author_id))

/-- The rows of the feed query before `LIMIT` and `OFFSET`: `recipes r JOIN users u ON
r.author_id = u.id` under the feed clause, `ORDER BY r.created_at DESC`. -/
def feedRows (db : Db) (userId : String) : List (RecipeRow × UserRow) :=
  ((recipesJoinUsers db).filter fun p => feedVisible db userId p.1).insertionSort
    fun a b => b.1.created_at ≤ a.1.created_at

/-- The body of a successful `getUserFeed`. -/
structure FeedBody where
  feed : List RecipeListItem
  pagination : PaginationJson
deriving DecidableEq, Repr

/-- The JSON element of a feed row, with `is_liked_by_user` computed for the requester. -/
def feedItem (db : Db) (userId : String) (p : RecipeRow × UserRow) : RecipeListItem :=
  recipeListItem db
    (p.1, p.2, db.recipe_likes.any fun l => decide (l.recipe_id = p.1.id ∧ l.user_id = userId))

/-- The body of `getUserFeed` once `page` and `limit` are parsed: `pageNumber` and
`limitNumber` are the values of `parseInt(page)` and `parseInt(limit)` (`none` is `NaN`).
The count query reads `recipes` without the join. A `LIMIT` or `OFFSET` the database
rejects ends in the 500 of the outer `catch`. -/
def getUserFeedPage (db : Db) (now : Nat) (pageNumber limitNumber : Option Int)
    (user : AuthUser) : Response FeedBody :=
  let offset := pageOffset pageNumber limitNumber
  let userId := user.id
  match sqlCount limitNumber, sqlCount offset with
  | some lim, some off =>
    let totalRecipes := (db.recipes.filter fun r => feedVisible db userId r).length
    { status := 200,
      data := some
        { feed := (((feedRows db userId).drop off).take lim).map (feedItem db userId),
          pagination := paginationOf pageNumber limitNumber totalRecipes },
      timestamp := now }
  | _, _ =>
    { status := 500, error := some "Failed to get feed",
      message := some "Internal server error", timestamp := now }

/-- The handler `getUserFeed` (`GET /feed`, behind `authenticateToken`; the handler does
not consult `validationResult`): `page` and `limit` are the members of `req.query`, with
the defaults 1 and 10. -/
def getUserFeed (db : Db) (now : Nat) (page limit : Option String) (user : AuthUser) :
    Response FeedBody :=
  getUserFeedPage db now (parseIntJs (page.getD "1")) (parseIntJs (limit.getD "10")) user

/-! ## Statistics (`statisticsController.js`) -/

/-- The object `recipeStats` of `getUserStatistics`. -/
structure RecipeStatsJson where
  totalRecipes : Nat
  publicRecipes : Nat
  privateRecipes : Nat
  featuredRecipes : Nat
  averageTotalTime : Option Int
deriving DecidableEq, Repr

/-- The object `engagementStats` of `getUserStatistics`; `averageRating` is in
hundredths. -/
structure EngagementStatsJson where
  likesReceived : Nat
  commentsReceived : Nat
  ratingsReceived : Nat
  averageRating : Option Int
  followersCount : Nat
  followingCount : Nat
deriving DecidableEq, Repr

/-- The object `activityStats` of `getUserStatistics`. -/
structure ActivityStatsJson where
  likesGiven : Nat
  commentsMade : Nat
  ratingsGiven : Nat
  shoppingListItems : Nat
deriving DecidableEq, Repr

/-- The body of `getUserStatistics`, without `topRecipe` and `categoryBreakdown`. -/
structure UserStatisticsBody where
  recipeStats : RecipeStatsJson
  engagementStats : EngagementStatsJson
  activityStats : ActivityStatsJson
deriving DecidableEq, Repr

/-- The join `... x JOIN recipes r ON x.recipe_id = r.id WHERE r.author_id = $1` for one
row `x` with the given `recipe_id`: the matching rows of `recipes`. -/
def authoredRecipe (db : Db) (userId recipeId : String) : List RecipeRow :=
  db.recipes.filter fun r => decide (r.id = recipeId) && decide (r.author_id = userId)

/-- The rows of `recipe_likes rl JOIN recipes r ON rl.recipe_id = r.id WHERE
r.author_id = $1`, each given by its row of `recipe_likes`. -/
def likesReceivedRows (db : Db) (userId : String) : List LikeRow :=
  db.recipe_likes.flatMap fun rl => (authoredRecipe db userId rl.recipe_id).map fun _ => rl

/-- The rows of `recipe_ratings rr JOIN recipes r ON rr.recipe_id = r.id WHERE
r.author_id = $1`, each given by its row of `recipe_ratings`. -/
def ratingsReceivedRows (db : Db) (userId : String) : List RatingRow :=
  db.recipe_ratings.flatMap fun rr => (authoredRecipe db userId rr.recipe_id).map fun _ => rr

/-- The rows of `recipe_comments rc JOIN recipes r ON rc.recipe_id = r.id WHERE
r.author_id = $1 AND rc.user_id != $1`. -/
def commentsReceivedRows (db : Db) (userId : String) : List CommentRow :=
  (db.recipe_comments.filter fun rc => decide (rc.user_id ≠ userId)).flatMap fun rc =>
    (authoredRecipe db userId rc.recipe_id).map fun _ => rc

/-- The aggregate `AVG(rating)::DECIMAL(3,2)` over rows of `recipe_ratings`, in hundredths;
`none` is SQL `NULL` (no rows). A rating is between 1 and 5, so the cast does not
overflow. -/
def averageOfRatings (rows : List RatingRow) : Option Int :=
  if rows.isEmpty then none
  else some (roundDiv ((rows.map fun c => c.rating).sum * 100) rows.length)

/-- The value `avg_total_time ? Math.round(parseFloat(avg_total_time)) : null` for
`AVG(prep_time_minutes + cook_time_minutes)`: the mean rounded to the nearest integer,
ties upwards. -/
def averageTotalTime (rows : List RecipeRow) : Option Int :=
  if rows.isEmpty then none
  else
    some ((2 * (rows.map fun r => r.prep_time_minutes + r.cook_time_minutes).sum + rows.length) /
      (2 * rows.length))

/-- The handler `getUserStatistics` (`GET /statistics/user`, behind `authenticateToken`),
without the queries for `topRecipe` and `categoryBreakdown`. -/
def getUserStatistics (db : Db) (now : Nat) (user : AuthUser) : Response UserStatisticsBody :=
  let userId := user.id
  let own := db.recipes.filter fun r => decide (r.author_id = userId)
  { status := 200,
    data := some
      { recipeStats :=
          { totalRecipes := own.length,
            publicRecipes := (own.filter fun r => decide (r.is_public = some true)).length,
            privateRecipes := (own.filter fun r => decide (r.is_public = some false)).length,
            featuredRecipes := (own.filter fun r => decide (r.is_featured = some true)).length,
            averageTotalTime := averageTotalTime own },
        engagementStats :=
          { likesReceived := (likesReceivedRows db userId).length,
            commentsReceived := (commentsReceivedRows db userId).length,
            ratingsReceived := (ratingsReceivedRows db userId).length,
            averageRating := averageOfRatings (ratingsReceivedRows db userId),
            followersCount := followersCountOf db userId,
            followingCount := followingCountOf db userId },
        activityStats :=
          { likesGiven := (db.recipe_likes.filter fun l => decide (l.user_id = userId)).length,
            commentsMade :=
              (db.recipe_comments.filter fun c => decide (c.user_id = userId)).length,
            ratingsGiven :=
              (db.recipe_ratings.filter fun c => decide (c.user_id = userId)).length,
            shoppingListItems :=
              (db.shopping_list_items.filter fun i => decide (i.user_id = userId)).length } },
    timestamp := now }

/-! ## History (`collectionController.js`) -/

/-- The column `interaction_type` of the history queries. -/
inductive InteractionType where
  | rated
  | commented
deriving DecidableEq, Repr

/-- The text of `interaction_type`. -/
def InteractionType.text : InteractionType → String
  | .rated => "rated"
  | .commented => "commented"

/-- A result row of a history query: the joined rows of `recipes` and `users` and the
columns `user_rating`, `interaction_date` and `interaction_type` (the other selected
columns are functions of the recipe and of the requester). -/
structure HistoryRow where
  recipe : RecipeRow
  author : UserRow
  user_rating : Option Int
  interaction_date : Nat
  interaction_type : InteractionType
deriving DecidableEq, Repr

/-- The clause `(r.is_public = true OR r.author_id = $1)` of the history queries. -/
def historyVisible (userId : String) (r : RecipeRow) : Bool :=
  decide (r.is_public = some true) || decide (r.author_id = userId)

/-- The select `SELECT DISTINCT ... 'rated' as interaction_type FROM recipe_ratings rr JOIN
recipes r ON rr.recipe_id = r.id JOIN users u ON r.author_id = u.id WHERE rr.user_id = $1
AND (r.is_public = true OR r.author_id = $1)`. -/
def ratedHistory (db : Db) (userId : String) : List HistoryRow :=
  ((db.recipe_ratings.filter fun rr => decide (rr.user_id = userId)).flatMap fun rr =>
    ((recipesJoinUsers db).filter fun p =>
      decide (p.1.id = rr.recipe_id) && historyVisible userId p.1).map fun p =>
        { recipe := p.1, author := p.2, user_rating := some rr.rating,
          interaction_date := rr.created_at, interaction_type := .rated }).dedup

/-- The comments of the requester on a recipe. -/
def ownComments (db : Db) (userId recipeId : String) : List CommentRow :=
  db.recipe_comments.filter fun rc =>
    decide (rc.user_id = userId) && decide (rc.recipe_id = recipeId)

/-- The aggregate `MAX(rc.created_at)` over a group that is not empty. -/
def latestOf (dates : List Nat) : Nat := dates.foldl max 0

/-- The select `SELECT DISTINCT ... MAX(rc.created_at) as interaction_date, 'commented' as
interaction_type FROM recipe_comments rc JOIN recipes r ON rc.recipe_id = r.id JOIN users u
ON r.author_id = u.id WHERE rc.user_id = $1 AND (r.is_public = true OR r.author_id = $1)
GROUP BY r.id, u.id`: one row per joined recipe that has a comment of the requester.
`withRating` tells the variant of the column `user_rating`: the sub-query `(SELECT rating
FROM recipe_ratings WHERE recipe_id = r.id AND user_id = $1)` in the query for all
interactions, `null` in the query for comments only. -/
def commentedHistory (db : Db) (userId : String) (withRating : Bool) : List HistoryRow :=
  (((recipesJoinUsers db).filter fun p =>
      historyVisible userId p.1 && !(ownComments db userId p.1.id).isEmpty).map fun p =>
    { recipe := p.1, author := p.2,
      user_rating :=
        if withRating then
          ((db.recipe_ratings.filter fun c =>
            decide (c.recipe_id = p.1.id) && decide (c.user_id = userId)).head?).map
              fun c => c.rating
        else none,
      interaction_date := latestOf ((ownComments db userId p.1.id).map fun rc => rc.created_at),
      interaction_type := .commented }).dedup

/-- The rows of the history query for the given `type`, before `LIMIT` and `OFFSET`: the
rated select, the commented select, or for any other `type` their `UNION`; ordered by
`interaction_date DESC`. -/
def historyRows (db : Db) (userId : String) (type : String) : List HistoryRow :=
  (if type = "rated" then ratedHistory db userId
    else if type = "commented" then commentedHistory db userId false
    else (ratedHistory db userId ++ commentedHistory db userId true).dedup).insertionSort
    fun a b => b.interaction_date ≤ a.interaction_date

/-- One element of `recipeHistory`: the members of a listed recipe, and `interactionDate`,
`interactionType` and `userRating`. -/
structure HistoryItem where
  recipe : RecipeListItem
  interactionDate : Nat
  interactionType : String
  userRating : Option Int
deriving DecidableEq, Repr

/-- The mapping of a history row to its JSON element. -/
def historyItem (db : Db) (userId : String) (h : HistoryRow) : HistoryItem :=
  { recipe :=
      recipeListItem db
        (h.recipe, h.author,
          db.recipe_likes.any fun l => decide (l.recipe_id = h.recipe.id ∧ l.user_id = userId)),
    interactionDate := h.interaction_date, interactionType := h.interaction_type.text,
    userRating := h.user_rating }

/-- The body of a successful `getRecipeHistory`. -/
structure HistoryBody where
  recipeHistory : List HistoryItem
  currentPage : Option Int
  limit : Option Int
  hasNextPage : Bool
  filterType : String
deriving DecidableEq, Repr

/-- The handler `getRecipeHistory` (`GET /collections/history`, behind
`authenticateToken`; the handler does not consult `validationResult`). A `LIMIT` or
`OFFSET` the database rejects ends in the 500 of the outer `catch`. -/
def getRecipeHistory (db : Db) (now : Nat) (page limit type : Option String)
    (user : AuthUser) : Response HistoryBody :=
  let pageNumber := parseIntJs (page.getD "1")
  let limitNumber := parseIntJs (limit.getD "10")
  let offset := pageOffset pageNumber limitNumber
  let userId := user.id
  match sqlCount limitNumber, sqlCount offset with
  | some lim, some off =>
    let history :=
      (((historyRows db userId (type.getD "all")).drop off).take lim).map (historyItem db userId)
    { status := 200,
      data := some
        { recipeHistory := history, currentPage := pageNumber, limit := limitNumber,
          hasNextPage := decide (some (history.length : Int) = limitNumber),
          filterType := type.getD "all" },
      timestamp := now }
  | _, _ =>
    { status := 500, error := some "Failed to get recipe history",
      message := some "Internal server error", timestamp := now }

/-! ## The statement of `searchRecipes` (`searchController.js`) -/

/-- The method `split(sep)` on the characters of a string. -/
def splitOnChar (sep : Char) : List Char → List (List Char)
  | [] => [[]]
  | c :: cs =>
    if c = sep then [] :: splitOnChar sep cs
    else
      match splitOnChar sep cs with
      | [] => [[c]]
      | h :: t => (c :: h) :: t

/-- The expression `s.split(',').map(x => x.trim())`. -/
def splitTrim (s : String) : List String :=
  (splitOnChar ',' s.data).map fun cs => jsTrim (String.mk cs)

/-- The query string `req.query` of `GET /search/recipes`; an absent key is `none`. -/
structure SearchQuery where
  q : Option String := none
  ingredients : Option String := none
  categories : Option String := none
  difficulty : Option String := none
  maxPrepTime : Option String := none
  maxCookTime : Option String := none
  minRating : Option String := none
  page : Option String := none
  limit : Option String := none
  sort : Option String := none
deriving DecidableEq, Repr

/-- A bound parameter of the search statement: a text, the value of `parseInt` or the
value of `parseFloat` (`none` is `NaN`). -/
inductive SearchValue where
  | text (s : String)
  | int (n : Option Int)
  | float (d : Option Decimal)
deriving DecidableEq, Repr

/-- The fragments `searchRecipes` pushes on `conditions`, each with the indices of the
placeholders `$n` it mentions. -/
inductive SearchCond where
  /-- `(r.is_public = true OR r.author_id = $n)` -/
  | publicOrAuthor (n : Nat)
  /-- `r.is_public = true` -/
  | isPublic
  /-- `(r.title ILIKE $n OR r.description ILIKE $n)` -/
  | searchText (n : Nat)
  /-- `EXISTS (SELECT 1 FROM recipe_ingredients ri WHERE ri.recipe_id = r.id AND
  (ri.name ILIKE $n1 OR ri.name ILIKE $n2 ...))` -/
  | ingredientNames (ns : List Nat)
  /-- `EXISTS (SELECT 1 FROM recipe_categories rc JOIN categories c ... AND c.name IN
  ($n1, $n2, ...))` -/
  | categoryNames (ns : List Nat)
  /-- `r.difficulty = $n` -/
  | difficultyIs (n : Nat)
  /-- `r.prep_time_minutes <= $n` -/
  | maxPrepTime (n : Nat)
  /-- `r.cook_time_minutes <= $n` -/
  | maxCookTime (n : Nat)
  /-- `(SELECT AVG(rating) FROM recipe_ratings WHERE recipe_id = r.id) >= $n` -/
  | minRating (n : Nat)
deriving DecidableEq, Repr

/-- The text `orderBy` of `searchRecipes`; only the relevance order with a search text
mentions a placeholder. -/
inductive SearchOrder where
  /-- `r.created_at DESC` -/
  | newest
  /-- `r.created_at ASC` -/
  | oldest
  /-- `(SELECT COUNT(*) FROM recipe_likes WHERE recipe_id = r.id) DESC` -/
  | popular
  /-- `(SELECT AVG(rating) FROM recipe_ratings WHERE recipe_id = r.id) DESC NULLS LAST` -/
  | rating
  /-- `r.prep_time_minutes ASC` -/
  | prepTime
  /-- `r.cook_time_minutes ASC` -/
  | cookTime
  /-- `(r.prep_time_minutes + r.cook_time_minutes) ASC` -/
  | totalTime
  /-- `CASE WHEN r.title ILIKE $n THEN 1 ELSE 2 END, r.created_at DESC` -/
  | relevance (n : Nat)
deriving DecidableEq, Repr

/-- The three mutable variables `conditions`, `values` and `paramCount`. -/
structure SearchState where
  conditions : List SearchCond := []
  values : List SearchValue := []
  paramCount : Nat := 1
deriving DecidableEq, Repr

/-- One step `conditions.push(fragment(paramCount))` followed by `values.push(v);
paramCount++` for each `v` of `vs`. -/
def SearchState.push (st : SearchState) (fragment : Nat → SearchCond) (vs : List SearchValue) :
    SearchState :=
  { conditions := st.conditions ++ [fragment st.paramCount], values := st.values ++ vs,
    paramCount := st.paramCount + vs.length }

/-- The indices `list.map((_, i) => paramCount + i)` of a list of `len` placeholders. -/
def placeholdersFrom (paramCount len : Nat) : List Nat :=
  (List.range len).map fun i => paramCount + i

/-- The block "Base condition for public recipes or user's own recipes". -/
def searchBase (requestingUserId : Option String) : SearchState :=
  let st : SearchState := {}
  if truthyOpt requestingUserId then
    st.push .publicOrAuthor [.text (requestingUserId.getD "")]
  else { st with conditions := st.conditions ++ [.isPublic] }

/-- The block "Text search". -/
def searchTextStep (q : SearchQuery) (st : SearchState) : SearchState :=
  let query := q.q.getD ""
  if truthy (jsTrim query) then st.push .searchText [.text ("%" ++ jsTrim query ++ "%")]
  else st

/-- The block "Ingredient search". -/
def searchIngredientsStep (q : SearchQuery) (st : SearchState) : SearchState :=
  let ingredients := q.ingredients.getD ""
  if truthy (jsTrim ingredients) then
    let ingredientList := splitTrim ingredients
    st.push (fun paramCount => .ingredientNames (placeholdersFrom paramCount ingredientList.length))
      (ingredientList.map fun ingredient => .text ("%" ++ ingredient ++ "%"))
  else st

/-- The block "Category filter". -/
def searchCategoriesStep (q : SearchQuery) (st : SearchState) : SearchState :=
  let categories := q.categories.getD ""
  if truthy (jsTrim categories) then
    let categoryList := splitTrim categories
    st.push (fun paramCount => .categoryNames (placeholdersFrom paramCount categoryList.length))
      (categoryList.map fun category => .text category)
  else st

/-- The block "Difficulty filter". -/
def searchDifficultyStep (q : SearchQuery) (st : SearchState) : SearchState :=
  let difficulty := q.difficulty.getD ""
  if truthy (jsTrim difficulty) then st.push .difficultyIs [.text difficulty] else st

/-- The block "Time filters". -/
def searchTimesStep (q : SearchQuery) (st : SearchState) : SearchState :=
  let maxPrepTime := q.maxPrepTime.getD ""
  let st1 :=
    if truthy maxPrepTime then st.push .maxPrepTime [.int (parseIntJs maxPrepTime)] else st
  let maxCookTime := q.maxCookTime.getD ""
  if truthy maxCookTime then st1.push .maxCookTime [.int (parseIntJs maxCookTime)] else st1

/-- The block "Rating filter"; `parseFloat` is the JavaScript function. -/
def searchRatingStep (parseFloat : String → Option Decimal) (q : SearchQuery)
    (st : SearchState) : SearchState :=
  let minRating := q.minRating.getD ""
  if truthy minRating then st.push .minRating [.float (parseFloat minRating)] else st

/-- The block "Build WHERE conditions" of `searchRecipes`. -/
def searchWhere (parseFloat : String → Option Decimal) (q : SearchQuery)
    (requestingUserId : Option String) : SearchState :=
  searchRatingStep parseFloat q (searchTimesStep q (searchDifficultyStep q
    (searchCategoriesStep q (searchIngredientsStep q (searchTextStep q
      (searchBase requestingUserId))))))

/-- The block "Build ORDER BY clause": the order, and the state after the `default` case
has pushed the relevance pattern. -/
def searchOrder (q : SearchQuery) (st : SearchState) : SearchOrder × SearchState :=
  let sort := q.sort.getD "relevance"
  let query := q.q.getD ""
  if sort = "newest" then (.newest, st)
  else if sort = "oldest" then (.oldest, st)
  else if sort = "popular" then (.popular, st)
  else if sort = "rating" then (.rating, st)
  else if sort = "prep_time" then (.prepTime, st)
  else if sort = "cook_time" then (.cookTime, st)
  else if sort = "total_time" then (.totalTime, st)
  else if truthy (jsTrim query) then
    (.relevance st.paramCount,
      { st with values := st.values ++ [.text ("%" ++ jsTrim query ++ "%")],
                paramCount := st.paramCount + 1 })
  else (.newest, st)

/-- The statement `searchRecipes` sends: the placeholder of `is_liked_by_user` (`$1` in
the authenticated variant, none in the anonymous one), the fragments of the `WHERE`
clause, the order, the placeholders of `LIMIT` and `OFFSET`, and the bound values. -/
structure SearchStatement where
  liked : Option Nat
  conditions : List SearchCond
  orderBy : SearchOrder
  limitParam : Nat
  offsetParam : Nat
  values : List SearchValue
deriving DecidableEq, Repr

/-- The statement built by `searchRecipes` (`GET /search/recipes`, behind `optionalAuth`)
from the query string and `req.user`. -/
def searchRecipesStatement (parseFloat : String → Option Decimal) (q : SearchQuery)
    (reqUser : Option AuthUser) : SearchStatement :=
  let limit := parseIntJs (q.limit.getD "10")
  let offset := pageOffset (parseIntJs (q.page.getD "1")) limit
  let requestingUserId : Option String := reqUser.map fun u => u.id
  let ordered := searchOrder q (searchWhere parseFloat q requestingUserId)
  { liked := if truthyOpt requestingUserId then some 1 else none,
    conditions := ordered.2.conditions, orderBy := ordered.1,
    limitParam := ordered.2.paramCount, offsetParam := ordered.2.paramCount + 1,
    values := ordered.2.values ++ [.int limit, .int offset] }

/-- The placeholders of a fragment, in the order of the values pushed for it. -/
def SearchCond.placeholders : SearchCond → List Nat
  | .publicOrAuthor n => [n]
  | .isPublic => []
  | .searchText n => [n]
  | .ingredientNames ns => ns
  | .categoryNames ns => ns
  | .difficultyIs n => [n]
  | .maxPrepTime n => [n]
  | .maxCookTime n => [n]
  | .minRating n => [n]

/-- The placeholders of the order. -/
def SearchOrder.placeholders : SearchOrder → List Nat
  | .relevance n => [n]
  | _ => []

/-- The values a fragment stands for, from the request: the requester id, the text
pattern, each ingredient pattern, each category name, the difficulty, the two times and the
rating. -/
def SearchCond.expected (parseFloat : String → Option Decimal) (q : SearchQuery)
    (requestingUserId : Option String) : SearchCond → List SearchValue
  | .publicOrAuthor _ => [.text (requestingUserId.getD "")]
  | .isPublic => []
  | .searchText _ => [.text ("%" ++ jsTrim (q.q.getD "") ++ "%")]
  | .ingredientNames _ =>
    (splitTrim (q.ingredients.getD "")).map fun ingredient => .text ("%" ++ ingredient ++ "%")
  | .categoryNames _ => (splitTrim (q.categories.getD "")).map fun category => .text category
  | .difficultyIs _ => [.text (q.difficulty.getD "")]
  | .maxPrepTime _ => [.int (parseIntJs (q.maxPrepTime.getD ""))]
  | .maxCookTime _ => [.int (parseIntJs (q.maxCookTime.getD ""))]
  | .minRating _ => [.float (parseFloat (q.minRating.getD ""))]

/-- The value the order stands for: the relevance pattern. -/
def SearchOrder.expected (q : SearchQuery) : SearchOrder → List SearchValue
  | .relevance _ => [.text ("%" ++ jsTrim (q.q.getD "") ++ "%")]
  | _ => []

/-- Alignment of a builder state with the request: `paramCount` is the next free
placeholder, the placeholders of the fragments are `$1, $2, ...` in the order of `values`,
and the values are, in that order, the values the fragments stand for. -/
def SearchState.Aligned (parseFloat : String → Option Decimal) (q : SearchQuery)
    (requestingUserId : Option String) (st : SearchState) : Prop :=
  st.paramCount = st.values.length + 1 ∧
  st.conditions.flatMap SearchCond.placeholders = List.range' 1 st.values.length ∧
  st.conditions.flatMap (SearchCond.expected parseFloat q requestingUserId) = st.values ∧
  ∀ c ∈ st.conditions,
    c.placeholders.length = (c.expected parseFloat q requestingUserId).length

/-! ## `globalSearch` (`searchController.js`) -/

/-- The property `length` of a JavaScript string: the number of UTF-16 code units. -/
def jsLength (s : String) : Nat :=
  (s.data.map fun c => if c.toNat < 65536 then 1 else 2).sum

/-- What a handler does with the connection pool, in order. -/
inductive DbCall where
  /-- `pool.connect()` -/
  | connect
  /-- `client.query(...)` -/
  | query
  /-- `client.release()` -/
  | release
deriving DecidableEq, Repr

/-- One element of `results.users`. -/
structure UserSearchJson where
  id : String
  username : String
  firstName : String
  lastName : Option String
  fullName : String
  bio : Option String
  profileImageUrl : Option String
  isVerified : Option Bool
  createdAt : Nat
  recipeCount : Nat
  followersCount : Nat
  isFollowing : Bool
deriving DecidableEq, Repr

/-- One element of `results.ingredients`. -/
structure IngredientCountJson where
  name : String
  recipeCount : Nat
deriving DecidableEq, Repr

/-- The object `results.results`; a member that was not searched is absent. -/
structure SearchResultsJson where
  recipes : Option (List RecipeListItem) := none
  users : Option (List UserSearchJson) := none
  ingredients : Option (List IngredientCountJson) := none
deriving DecidableEq, Repr

/-- The body of a successful `globalSearch`. -/
structure SearchBody where
  query : String
  type : String
  results : SearchResultsJson
  currentPage : Option Int
  limit : Option Int
deriving DecidableEq, Repr

/-- An `ILIKE` on a nullable column: not true on `NULL`. -/
def ilikeOpt (ilike : String → String → Bool) (value : Option String) (pattern : String) : Bool :=
  match value with
  | some v => ilike v pattern
  | none => false

/-- The rows of the recipe query of `globalSearch` before `LIMIT` and `OFFSET`: visible
recipes whose title or description matches, `ORDER BY CASE WHEN r.title ILIKE $1 THEN 1
ELSE 2 END, r.created_at DESC`. -/
def searchRecipeRows (ilike : String → String → Bool) (db : Db) (searchTerm : String)
    (requestingUserId : Option String) : List (RecipeRow × UserRow) :=
  ((recipesJoinUsers db).filter fun p =>
      (decide (p.1.is_public = some true) ||
        (truthyOpt requestingUserId && decide (some p.1.author_id = requestingUserId))) &&
      (ilike p.1.title searchTerm || ilike p.1.description searchTerm)).insertionSort
    fun a b =>
      (ilike a.1.title searchTerm = true ∧ ilike b.1.title searchTerm = false) ∨
      (ilike a.1.title searchTerm = ilike b.1.title searchTerm ∧ b.1.created_at ≤ a.1.created_at)

/-- The rows of the user query of `globalSearch` before `LIMIT` and `OFFSET`: active
public profiles whose username, first name or last name matches, `ORDER BY CASE WHEN
u.username ILIKE $1 THEN 1 ELSE 2 END, followers DESC`. -/
def searchUserRows (ilike : String → String → Bool) (db : Db) (searchTerm : String) :
    List UserRow :=
  (db.users.filter fun u =>
      decide (u.is_active = some true) && decide (u.is_public_profile = some true) &&
      (ilike u.username searchTerm || ilike u.first_name searchTerm ||
        ilikeOpt ilike u.last_name searchTerm)).insertionSort
    fun a b =>
      (ilike a.username searchTerm = true ∧ ilike b.username searchTerm = false) ∨
      (ilike a.username searchTerm = ilike b.username searchTerm ∧
        followersCountOf db b.id ≤ followersCountOf db a.id)

/-- The mapping of a row of the user query to its JSON element. -/
def userSearchJson (db : Db) (requestingUserId : Option String) (u : UserRow) :
    UserSearchJson :=
  { id := u.id, username := u.username, firstName := u.first_name, lastName := u.last_name,
    fullName := jsTrim (u.first_name ++ " " ++ showNullable u.last_name), bio := u.bio,
    profileImageUrl := u.profile_image_url, isVerified := u.is_verified,
    createdAt := u.created_at,
    recipeCount :=
      (db.recipes.filter fun r =>
        decide (r.author_id = u.id) && decide (r.is_public = some true)).length,
    followersCount := followersCountOf db u.id,
    isFollowing :=
      truthyOpt requestingUserId &&
        db.user_followers.any fun f =>
          decide (some f.follower_id = requestingUserId) && decide (f.following_id = u.id) }

/-- The names of the rows of `recipe_ingredients ri JOIN recipes r ON ri.recipe_id = r.id
WHERE r.is_public = true AND ri.name ILIKE $1`. -/
def matchingIngredientNames (ilike : String → String → Bool) (db : Db) (searchTerm : String) :
    List String :=
  (db.recipe_ingredients.filter fun ri => ilike ri.name searchTerm).flatMap fun ri =>
    (db.recipes.filter fun r =>
      decide (r.id = ri.recipe_id) && decide (r.is_public = some true)).map fun _ => ri.name

/-- The rows of the ingredient query of `globalSearch` before `LIMIT`: `GROUP BY ri.name`
with `COUNT(*)`, `ORDER BY recipe_count DESC, ri.name`. -/
def searchIngredientRows (ilike : String → String → Bool) (db : Db) (searchTerm : String) :
    List IngredientCountJson :=
  (((matchingIngredientNames ilike db searchTerm).dedup.map fun name =>
      ({ name := name,
         recipeCount := (matchingIngredientNames ilike db searchTerm).count name } :
        IngredientCountJson)).insertionSort
    fun a b => b.recipeCount < a.recipeCount ∨ (a.recipeCount = b.recipeCount ∧ a.name ≤ b.name))

/-- The JSON element of a row of the recipe query. -/
def searchRecipeItem (db : Db) (requestingUserId : Option String) (p : RecipeRow × UserRow) :
    RecipeListItem :=
  recipeListItem db
    (p.1, p.2,
      truthyOpt requestingUserId &&
        db.recipe_likes.any fun l =>
          decide (l.recipe_id = p.1.id) && decide (some l.user_id = requestingUserId))

/-- The block "Search recipes": the member `recipes`, or `none` when the query raises an
error, and the queries sent (the page query, then one category query per row). -/
def searchRecipesBlock (ilike : String → String → Bool) (db : Db) (searchTerm : String)
    (requestingUserId : Option String) (lim off : Option Nat) :
    Option (List RecipeListItem) × List DbCall :=
  match lim, off with
  | some l, some o =>
    let rows := ((searchRecipeRows ilike db searchTerm requestingUserId).drop o).take l
    (some (rows.map (searchRecipeItem db requestingUserId)),
      DbCall.query :: rows.map fun _ => DbCall.query)
  | _, _ => (none, [DbCall.query])

/-- The block "Search users": the member `users`, or `none` when the query raises an
error, and the query sent. -/
def searchUsersBlock (ilike : String → String → Bool) (db : Db) (searchTerm : String)
    (requestingUserId : Option String) (lim off : Option Nat) :
    Option (List UserSearchJson) × List DbCall :=
  match lim, off with
  | some l, some o =>
    (some ((((searchUserRows ilike db searchTerm).drop o).take l).map
      (userSearchJson db requestingUserId)), [DbCall.query])
  | _, _ => (none, [DbCall.query])

/-- The block "Search ingredients": the member `ingredients`, or `none` when the query
raises an error, and the query sent. -/
def searchIngredientsBlock (ilike : String → String → Bool) (db : Db) (searchTerm : String)
    (lim : Option Nat) : Option (List IngredientCountJson) × List DbCall :=
  match lim with
  | some l => (some ((searchIngredientRows ilike db searchTerm).take l), [DbCall.query])
  | none => (none, [DbCall.query])

/-- The handler `globalSearch` (`GET /search`, behind `optionalAuth` and the chain
`validateSearch`, whose result the handler does not read): the response, and what the
handler does with the connection pool. `q`, `type`, `page` and `limit` are the members of
`req.query`. -/
def globalSearch (ilike : String → String → Bool) (db : Db) (now : Nat)
    (q type page limit : Option String) (reqUser : Option AuthUser) :
    Response SearchBody × List DbCall :=
  if !(truthyOpt q) || decide (jsLength (jsTrim (q.getD "")) < 2) then
    ({ status := 400, error := some "Search query must be at least 2 characters long",
       timestamp := now }, [])
  else
    let query := q.getD ""
    let searchType := type.getD "all"
    let pageNumber := parseIntJs (page.getD "1")
    let limitNumber := parseIntJs (limit.getD "10")
    let offset := pageOffset pageNumber limitNumber
    let searchTerm := "%" ++ jsTrim query ++ "%"
    let requestingUserId : Option String := reqUser.map fun u => u.id
    let failure : Response SearchBody :=
      { status := 500, error := some "Search failed", message := some "Internal server error",
        timestamp := now }
    let recipes : Option (Option (List RecipeListItem)) × List DbCall :=
      if searchType = "all" ∨ searchType = "recipes" then
        ((searchRecipesBlock ilike db searchTerm requestingUserId (sqlCount limitNumber)
            (sqlCount offset)).1.map some,
         (searchRecipesBlock ilike db searchTerm requestingUserId (sqlCount limitNumber)
            (sqlCount offset)).2)
      else (some none, [])
    match recipes.1 with
    | none => (failure, DbCall.connect :: recipes.2 ++ [DbCall.release])
    | some recipesMember =>
      let users : Option (Option (List UserSearchJson)) × List DbCall :=
        if searchType = "all" ∨ searchType = "users" then
          ((searchUsersBlock ilike db searchTerm requestingUserId (sqlCount limitNumber)
              (sqlCount offset)).1.map some,
           (searchUsersBlock ilike db searchTerm requestingUserId (sqlCount limitNumber)
              (sqlCount offset)).2)
        else (some none, [])
      match users.1 with
      | none => (failure, DbCall.connect :: recipes.2 ++ users.2 ++ [DbCall.release])
      | some usersMember =>
        let ingredients : Option (Option (List IngredientCountJson)) × List DbCall :=
          if searchType = "all" ∨ searchType = "ingredients" then
            ((searchIngredientsBlock ilike db searchTerm (sqlCount limitNumber)).1.map some,
             (searchIngredientsBlock ilike db searchTerm (sqlCount limitNumber)).2)
          else (some none, [])
        match ingredients.1 with
        | none =>
          (failure, DbCall.connect :: recipes.2 ++ users.2 ++ ingredients.2 ++ [DbCall.release])
        | some ingredientsMember =>
          ({ status := 200,
             data := some
               { query := jsTrim query, type := searchType,
                 results :=
                   { recipes := recipesMember, users := usersMember,
                     ingredients := ingredientsMember },
                 currentPage := pageNumber, limit := limitNumber },
             timestamp := now },
           DbCall.connect :: recipes.2 ++ users.2 ++ ingredients.2 ++ [DbCall.release])

/-! ## The route `GET /search` (`routes/search.js`) -/

/-- What `optionalAuth` does with the connection pool when the database answers: nothing
without a token and nothing when `jwt.verify` throws; for a token that verifies,
`pool.connect()`, the lookup in `users` and `client.release()`. -/
def optionalAuthCalls (jwtVerify : String → VerifyResult) (authHeader : Option String) :
    List DbCall :=
  let token := bearerToken authHeader
  if !truthyOpt token then []
  else
    match jwtVerify (token.getD "") with
    | .error _ => []
    | .payload _ => [DbCall.connect, DbCall.query, DbCall.release]

/-- The route `router.get('/', optionalAuth, validateSearch, globalSearch)`: the response
and, in order, everything the request does with the connection pool. `optionalAuth` sets
`req.user`; the chain `validateSearch` touches no database and its sanitizer `.trim()`
rewrites `q`; the handler does not read the result of the chain. `q` is the text of the
key when the query string has it once (a repeated key, which Express parses to an array,
is outside this type). -/
def searchRoute (jwtVerify : String → VerifyResult) (ilike : String → String → Bool) (db : Db)
    (now : Nat) (authHeader q type page limit : Option String) :
    Response SearchBody × List DbCall :=
  let reqUser := (optionalAuth jwtVerify (some db) authHeader).user
  let handled := globalSearch ilike db now (q.map jsTrim) type page limit reqUser
  (handled.1, optionalAuthCalls jwtVerify authHeader ++ handled.2)

/-! ## Schema constraints used as hypotheses -/

/-- The constraint `recipes.id PRIMARY KEY`. -/
def RecipesPK (db : Db) : Prop :=
  ∀ a ∈ db.recipes, ∀ b ∈ db.recipes, a.id = b.id → a = b

/-- The constraint `recipes.author_id REFERENCES users(id)`. -/
def RecipesAuthorFK (db : Db) : Prop :=
  ∀ r ∈ db.recipes, ∃ u ∈ db.users, u.id = r.author_id

instance (db : Db) : Decidable (RecipesPK db) :=
  inferInstanceAs (Decidable (∀ a ∈ db.recipes, ∀ b ∈ db.recipes, a.id = b.id → a = b))

instance (db : Db) : Decidable (RecipesAuthorFK db) :=
  inferInstanceAs (Decidable (∀ r ∈ db.recipes, ∃ u ∈ db.users, u.id = r.author_id))

/-- The constraint `recipe_likes PRIMARY KEY (recipe_id, user_id)`. -/
def LikesPK (db : Db) : Prop :=
  (db.recipe_likes.map fun l => (l.recipe_id, l.user_id)).Nodup

/-- The constraint `recipe_ratings UNIQUE(recipe_id, user_id)`: at most one row per
(recipe, user). -/
def RatingsUnique (db : Db) : Prop :=
  (db.recipe_ratings.map fun c => (c.recipe_id, c.user_id)).Nodup

instance (db : Db) : Decidable (LikesPK db) :=
  inferInstanceAs (Decidable (List.Nodup _))

instance (db : Db) : Decidable (RatingsUnique db) :=
  inferInstanceAs (Decidable (List.Nodup _))

/-- The constraint `recipe_comments.id PRIMARY KEY`. -/
def CommentsPK (db : Db) : Prop :=
  ∀ a ∈ db.recipe_comments, ∀ b ∈ db.recipe_comments, a.id = b.id → a = b

/-- The application invariant on `recipe_comments`: a reply is on the recipe of its parent
(`createComment` refuses any other parent, and no statement changes `recipe_id` or
`parent_comment_id`). -/
def RepliesSameRecipe (db : Db) : Prop :=
  ∀ c ∈ db.recipe_comments, ∀ p ∈ db.recipe_comments,
    c.parent_comment_id = some p.id → c.recipe_id = p.recipe_id

instance (db : Db) : Decidable (CommentsPK db) :=
  inferInstanceAs (Decidable (∀ a ∈ db.recipe_comments, _))

instance (db : Db) : Decidable (RepliesSameRecipe db) :=
  inferInstanceAs (Decidable (∀ c ∈ db.recipe_comments, _))

/-- The constraint `users.username UNIQUE`. -/
def UsernamesUnique (db : Db) : Prop :=
  ∀ a ∈ db.users, ∀ b ∈ db.users, a.username = b.username → a = b

/-- The column types of `recipe_ingredients`: `name VARCHAR(255)`, `unit VARCHAR(50)` and
`quantity DECIMAL(10,2) CHECK (quantity > 0)`. -/
def IngredientColumns (db : Db) : Prop :=
  ∀ i ∈ db.recipe_ingredients,
    i.name.length ≤ 255 ∧ i.unit.length ≤ 50 ∧ 0 < i.quantity ∧ i.quantity < 10 ^ 10

/-- The constraint `shopping_list_items.id PRIMARY KEY`. -/
def ShoppingItemsPK (db : Db) : Prop :=
  ∀ a ∈ db.shopping_list_items, ∀ b ∈ db.shopping_list_items, a.id = b.id → a = b

instance (db : Db) : Decidable (UsernamesUnique db) :=
  inferInstanceAs (Decidable (∀ a ∈ db.users, _))

instance (db : Db) : Decidable (IngredientColumns db) :=
  inferInstanceAs (Decidable (∀ i ∈ db.recipe_ingredients, _))

instance (db : Db) : Decidable (ShoppingItemsPK db) :=
  inferInstanceAs (Decidable (∀ a ∈ db.shopping_list_items, _))

/-- The constraint `recipe_comments.parent_comment_id REFERENCES recipe_comments(id)`. -/
def CommentsParentFK (db : Db) : Prop :=
  ∀ c ∈ db.recipe_comments, ∀ p, c.parent_comment_id = some p →
    ∃ q ∈ db.recipe_comments, q.id = p

/-- The constraint `users.id PRIMARY KEY`: no two rows of `users` have the same id. -/
def UsersPK (db : Db) : Prop :=
  (db.users.map fun u => u.id).Nodup

instance (db : Db) : Decidable (UsersPK db) :=
  inferInstanceAs (Decidable (List.Nodup _))

/-- The constraint `recipes.id PRIMARY KEY`: no two rows of `recipes` have the same id. -/
def RecipeIdsNodup (db : Db) : Prop :=
  (db.recipes.map fun r => r.id).Nodup

instance (db : Db) : Decidable (RecipeIdsNodup db) :=
  inferInstanceAs (Decidable (List.Nodup _))

/-! ## Sample data -/

/-- Three accounts: `alice` and `bob` (active) and `carol` (deactivated). -/
def sampleUsers : List UserRow :=
  [ { id := "u1", username := "alice", email := "alice@example.com", password_hash := "h1",
      first_name := "Alice" },
    { id := "u2", username := "bob", email := "bob@example.com", password_hash := "h2",
      first_name := "Bob", last_name := some "Baker" },
    { id := "u3", username := "carol", email := "carol@example.com", password_hash := "h3",
      first_name := "Carol", is_active := some false } ]

/-- A stand-in for `jwt.verify`: the token `t-<id>` decodes to the user id `<id>`, the
token `expired` has expired, the token `early` is not yet valid, anything else is
malformed. -/
def sampleVerify (token : String) : VerifyResult :=
  if token = "t-u1" then .payload (some "u1")
  else if token = "t-u2" then .payload (some "u2")
  else if token = "t-u3" then .payload (some "u3")
  else if token = "t-u4" then .payload (some "u4")
  else if token = "expired" then .error "TokenExpiredError"
  else if token = "early" then .error "NotBeforeError"
  else .error "JsonWebTokenError"

/-- A private recipe of `alice`. -/
def samplePrivateRecipe : RecipeRow :=
  { id := "r1", title := "Soup", description := "A simple soup", author_id := "u1",
    prep_time_minutes := 10, cook_time_minutes := 20, servings := 2,
    instructions := ["Boil"], is_public := some false }

/-- A public recipe of `alice`. -/
def samplePublicRecipe : RecipeRow :=
  { id := "r2", title := "Bread", description := "A simple bread", author_id := "u1",
    prep_time_minutes := 15, cook_time_minutes := 40, servings := 4,
    instructions := ["Knead", "Bake"] }

/-- A database with the two sample accounts and the two sample recipes. -/
def sampleDb : Db :=
  { users := sampleUsers, recipes := [samplePrivateRecipe, samplePublicRecipe] }

/-- The record `req.user` of `bob`. -/
def sampleBob : AuthUser :=
  { id := "u2", username := "bob", email := "bob@example.com", first_name := "Bob",
    last_name := some "Baker", is_active := some true, is_verified := some false }

/-- The record `req.user` of `alice`. -/
def sampleAlice : AuthUser :=
  { id := "u1", username := "alice", email := "alice@example.com", first_name := "Alice",
    last_name := none, is_active := some true, is_verified := some false }

/-- The sample database after `bob` liked the public recipe at time 1. -/
def sampleLikedDb : Db :=
  { sampleDb with recipe_likes := [{ recipe_id := "r2", user_id := "u2", created_at := 1 }] }

/-- The sample database after `bob` rated the public recipe 5 at time 2. -/
def sampleRatedDb : Db :=
  { sampleDb with
    recipe_ratings :=
      [{ id := "g1", recipe_id := "r2", user_id := "u2", rating := 5,
         review := some "Excellent", created_at := 2, updated_at := 2 }] }

/-- A stand-in for `generateUUID`: the `k`-th id is `i` repeated `k + 1` times. -/
def sampleUuid (k : Nat) : String := String.mk (List.replicate (k + 1) 'i')

/-- The sample database with one stored ingredient for the public recipe. -/
def sampleIngredientDb : Db :=
  { sampleDb with
    recipe_ingredients :=
      [{ id := "old", recipe_id := "r2", name := "Yeast", quantity := 700, unit := "g" }] }

/-- An update of the public recipe with two ingredients: `0.125 kg` of flour with empty
notes, and `2.5 dl` of water. -/
def sampleUpdateBody : RecipeBody :=
  { title := "Bread", description := "A simple bread", prepTimeMinutes := 15,
    cookTimeMinutes := 40, servings := 4, difficulty := "Easy",
    instructions := ["Knead", "Bake"],
    ingredients := some
      [ { name := "Flour", quantity := { mantissa := 125, scale := 3 }, unit := "kg",
          notes := some "" },
        { name := "Water", quantity := { mantissa := 25, scale := 1 }, unit := "dl",
          notes := some "warm" } ],
    isPublic := some true }

/-- A populated database: `alice`'s two recipes with ingredients, a category link, a
rating, a like, a thread of three comments on the public recipe (`c1`, its reply `c2`,
and `c3`, a reply to `c2`) and one comment on the private recipe, and four shopping-list
items. -/
def sampleFullDb : Db :=
  { users := sampleUsers,
    categories := [{ id := 1, name := "Dinner" }],
    recipes := [samplePrivateRecipe, samplePublicRecipe],
    recipe_ingredients :=
      [ { id := "a1", recipe_id := "r2", name := "Flour", quantity := 50000, unit := "g",
          order_index := 1 },
        { id := "a2", recipe_id := "r1", name := "Water", quantity := 150, unit := "l",
          order_index := 1 },
        { id := "a3", recipe_id := "r2", name := "Salt", quantity := 7, unit := "g",
          notes := some "fine", order_index := 2 } ],
    recipe_categories := [{ recipe_id := "r2", category_id := 1 }],
    recipe_ratings := [{ id := "g1", recipe_id := "r2", user_id := "u2", rating := 5 }],
    recipe_likes := [{ recipe_id := "r2", user_id := "u2", created_at := 1 }],
    recipe_comments :=
      [ { id := "c1", recipe_id := "r2", user_id := "u2", comment := "Nice" },
        { id := "c2", recipe_id := "r2", user_id := "u1", comment := "Thanks",
          parent_comment_id := some "c1" },
        { id := "c3", recipe_id := "r2", user_id := "u2", comment := "Welcome",
          parent_comment_id := some "c2" },
        { id := "c4", recipe_id := "r1", user_id := "u1", comment := "Note to self" } ],
    user_followers := [{ follower_id := "u2", following_id := "u1", created_at := 1 }],
    shopping_list_items :=
      [ { id := "s1", user_id := "u2", recipe_id := some "r2", ingredient_name := "Flour",
          quantity := some (.finite 50000), unit := some "g", created_at := 1,
          updated_at := 1 },
        { id := "s2", user_id := "u2", ingredient_name := "Milk", is_completed := some true,
          created_at := 2, updated_at := 2 },
        { id := "s3", user_id := "u1", recipe_id := some "r1", ingredient_name := "Water",
          is_completed := some true, created_at := 3, updated_at := 3 },
        { id := "s4", user_id := "u2", ingredient_name := "Eggs", created_at := 4,
          updated_at := 4 } ] }

/-- The populated database where the second ingredient of the public recipe is
60,000,000.00 g of salt. -/
def sampleBulkDb : Db :=
  { sampleFullDb with
    recipe_ingredients :=
      [ { id := "a1", recipe_id := "r2", name := "Flour", quantity := 50000, unit := "g",
          order_index := 1 },
        { id := "a3", recipe_id := "r2", name := "Salt", quantity := 6000000000, unit := "g",
          order_index := 2 } ] }

/-- The populated database where `alice` and `bob` follow each other and the deactivated
`carol` follows `alice`; `bob` has a public recipe `r3`, newer than `alice`'s. -/
def sampleMutualDb : Db :=
  { sampleFullDb with
    recipes :=
      [ samplePrivateRecipe, samplePublicRecipe,
        { id := "r3", title := "Cake", description := "A simple cake", author_id := "u2",
          prep_time_minutes := 20, cook_time_minutes := 30, servings := 8,
          instructions := ["Mix", "Bake"], created_at := 5, updated_at := 5 } ],
    user_followers :=
      [ { follower_id := "u2", following_id := "u1", created_at := 1 },
        { follower_id := "u1", following_id := "u2", created_at := 2 },
        { follower_id := "u3", following_id := "u1", created_at := 3 } ] }

/-- The scenario of the statistics: `alice` has one public recipe, which `bob` liked once
and rated 4. -/
def sampleStatsDb : Db :=
  { users := sampleUsers, recipes := [samplePublicRecipe],
    recipe_likes := [{ recipe_id := "r2", user_id := "u2", created_at := 1 }],
    recipe_ratings :=
      [{ id := "g1", recipe_id := "r2", user_id := "u2", rating := 4, created_at := 2,
         updated_at := 2 }],
    recipe_comments :=
      [{ id := "c1", recipe_id := "r2", user_id := "u2", comment := "Nice", created_at := 3,
         updated_at := 3 }] }

/-- Whether a list of characters contains another as a contiguous part. -/
def containsChars (part : List Char) : List Char → Bool
  | [] => part.isEmpty
  | c :: cs => (part.zip (c :: cs)).all (fun p => p.1 = p.2) && decide (part.length ≤ (c :: cs).length)
    || containsChars part cs

/-- A stand-in for `ILIKE` on patterns of the form `%text%`: the value contains the text,
letter case ignored. -/
def sampleIlike (value pattern : String) : Bool :=
  containsChars ((toLowerCase pattern).data.filter fun c => c ≠ '%') (toLowerCase value).data

/-- A stand-in for the printing of JSON numbers. The number literals of the sample
requests, `0.125` and `2.5`, are binary fractions: a double holds them exactly and
`String` prints them as they are written. -/
def sampleNumberText (literal : Decimal) : Decimal := literal

/-- A request to update the public recipe with two ingredients: the number `0.125` of
` Flour ` (with a space on each side) and notes made of two spaces, and the number `2.5`
of water. -/
def sampleUpdateRequest : RecipeRequest :=
  { title := "Bread", description := "A simple bread", prepTimeMinutes := 15,
    cookTimeMinutes := 40, servings := 4, difficulty := "Easy",
    instructions := ["Knead", "Bake"],
    ingredients := some
      [ { name := " Flour ", quantity := .number { mantissa := 125, scale := 3 }, unit := "kg",
          notes := some "  " },
        { name := "Water", quantity := .number { mantissa := 25, scale := 1 }, unit := "dl",
          notes := some "warm" } ],
    isPublic := some true }

/-- A query of one character, U+1F600, which is two UTF-16 code units. -/
def sampleEmojiQuery : String := String.mk [Char.ofNat 128512]

/-! # Theorems -/

/-! ## Read path lemmas -/

theorem recipeWithAuthor_eq_nil_of_absent (db : Db) (id : String)
    (h : ∀ r ∈ db.recipes, r.id ≠ id) : recipeWithAuthor db id = [] := by
  have : db.recipes.filter (fun r => decide (r.id = id)) = [] := by
    rw [List.filter_eq_nil_iff]
    intro r hr
    simpa using h r hr
  simp [recipeWithAuthor, this]

theorem recipeWithAuthor_mem (db : Db) (id : String) (p : RecipeRow × UserRow)
    (h : p ∈ recipeWithAuthor db id) :
    p.1 ∈ db.recipes ∧ p.1.id = id ∧ p.2 ∈ db.users ∧ p.2.id = p.1.author_id := by
  simp only [recipeWithAuthor, List.mem_flatMap, List.mem_filter, List.mem_map,
    decide_eq_true_eq] at h
  obtain ⟨r, ⟨hr, hid⟩, u, ⟨hu, huid⟩, rfl⟩ := h
  exact ⟨hr, hid, hu, huid⟩

theorem recipeWithAuthor_ne_nil (db : Db) (r : RecipeRow) (hr : r ∈ db.recipes)
    (hfk : RecipesAuthorFK db) : recipeWithAuthor db r.id ≠ [] := by
  obtain ⟨u, hu, huid⟩ := hfk r hr
  intro hnil
  have hmem : (r, u) ∈ recipeWithAuthor db r.id := by
    simp only [recipeWithAuthor, List.mem_flatMap, List.mem_filter, List.mem_map,
      decide_eq_true_eq]
    exact ⟨r, ⟨hr, rfl⟩, u, ⟨hu, huid⟩, rfl⟩
  rw [hnil] at hmem
  exact List.not_mem_nil _ hmem

/-- Under the primary key and the author foreign key, the joined row found for the id of
a stored recipe is that recipe together with a user whose id is its author. -/
theorem recipeWithAuthor_head (db : Db) (r : RecipeRow) (hr : r ∈ db.recipes)
    (hpk : RecipesPK db) (hfk : RecipesAuthorFK db) :
    ∃ u rest, recipeWithAuthor db r.id = (r, u) :: rest ∧ u.id = r.author_id := by
  cases hrows : recipeWithAuthor db r.id with
  | nil => exact absurd hrows (recipeWithAuthor_ne_nil db r hr hfk)
  | cons p rest =>
    have hp : p ∈ recipeWithAuthor db r.id := by rw [hrows]; exact List.mem_cons_self _ _
    obtain ⟨h1, h2, _, h4⟩ := recipeWithAuthor_mem db r.id p hp
    have hpr : p.1 = r := hpk p.1 h1 r hr h2
    obtain ⟨p1, p2⟩ := p
    simp only at hpr h4
    subst hpr
    exact ⟨p2, rest, rfl, h4⟩

/-! ## C1: visibility of a single recipe -/

/-- C1: under the primary key of `recipes` and the author foreign key, `getRecipeById`
answers 403 with no recipe data for every stored private recipe and every requester
(anonymous included) that is not its author, and answers 404 with no recipe data when no
stored recipe has the requested id. -/
theorem getRecipeById_private_403_absent_404 (db : Db) (now : Nat) (user : Option AuthUser)
    (hpk : RecipesPK db) (hfk : RecipesAuthorFK db) :
    (∀ r ∈ db.recipes, r.is_public = some false →
        (user.map fun u => u.id) ≠ some r.author_id →
        getRecipeById db now r.id user =
          { status := 403, error := some "Access denied",
            message := some "This recipe is private", data := none, timestamp := now }) ∧
    (∀ id : String, (∀ r ∈ db.recipes, r.id ≠ id) →
        getRecipeById db now id user =
          { status := 404, error := some "Recipe not found", message := none, data := none,
            timestamp := now }) := by
  refine ⟨?_, ?_⟩
  · intro r hr hpriv hreq
    obtain ⟨u, rest, hrows, hu⟩ := recipeWithAuthor_head db r hr hpk hfk
    have hne : ¬ (some u.id = Option.map (fun u => u.id) user) := by
      rw [hu]
      exact fun h => hreq h.symm
    simp [getRecipeById, getCompleteRecipeById, hrows, hpriv, truthyBool, authorJson, hne]
  · intro id habs
    simp [getRecipeById, getCompleteRecipeById, recipeWithAuthor_eq_nil_of_absent db id habs]

/-- C1 at the sample database: `bob` and an anonymous requester are refused `alice`'s
private recipe, and an unknown id is not found. -/
theorem getRecipeById_private_403_absent_404_witness :
    RecipesPK sampleDb ∧ RecipesAuthorFK sampleDb ∧
    getRecipeById sampleDb 7 "r1" (some sampleBob) =
      { status := 403, error := some "Access denied",
        message := some "This recipe is private", data := none, timestamp := 7 } ∧
    getRecipeById sampleDb 7 "r1" none =
      { status := 403, error := some "Access denied",
        message := some "This recipe is private", data := none, timestamp := 7 } ∧
    getRecipeById sampleDb 7 "non-existent-id" (some sampleBob) =
      { status := 404, error := some "Recipe not found", message := none, data := none,
        timestamp := 7 } := by
  have hpk : RecipesPK sampleDb := by decide
  have hfk : RecipesAuthorFK sampleDb := by decide
  have h := getRecipeById_private_403_absent_404 sampleDb 7 (some sampleBob) hpk hfk
  have h' := getRecipeById_private_403_absent_404 sampleDb 7 none hpk hfk
  refine ⟨hpk, hfk, ?_, ?_, ?_⟩
  · exact h.1 samplePrivateRecipe (by decide) rfl (by decide)
  · exact h'.1 samplePrivateRecipe (by decide) rfl (by decide)
  · exact h.2 "non-existent-id" (by decide)

/-! ## C2: the WHERE clause of `getRecipes` -/

theorem WhereState.consistent_pushParam (w : WhereState) (f : Nat → WhereCond) (v : SqlValue)
    (hf : ∀ n, (f n).placeholder = some n) (h : w.Consistent) : (w.pushParam f v).Consistent := by
  obtain ⟨hc, hp⟩ := h
  refine ⟨by simp [WhereState.pushParam, hc], ?_⟩
  intro c hcmem n hn
  simp only [WhereState.pushParam, List.mem_append, List.mem_singleton, List.length_append,
    List.length_singleton] at hcmem ⊢
  rcases hcmem with hold | rfl
  · have := hp c hold n hn
    omega
  · rw [hf] at hn
    cases hn
    omega

theorem WhereState.consistent_pushCond (w : WhereState) (c : WhereCond)
    (hc : c.placeholder = none) (h : w.Consistent) : (w.pushCond c).Consistent := by
  obtain ⟨hcount, hp⟩ := h
  refine ⟨by simpa [WhereState.pushCond] using hcount, ?_⟩
  intro d hd n hn
  simp only [WhereState.pushCond, List.mem_append, List.mem_singleton] at hd ⊢
  rcases hd with hold | rfl
  · exact hp d hold n hn
  · rw [hc] at hn
    cases hn

theorem whereFilters_consistent (q : RecipesQuery) (w : WhereState) (h : w.Consistent) :
    (whereFilters q w).Consistent := by
  unfold whereFilters
  simp only
  split_ifs <;>
    (repeat' first
      | exact h
      | apply WhereState.consistent_pushParam
      | apply WhereState.consistent_pushCond
      | (intro n; rfl)
      | rfl)

/-- Every placeholder of the assembled WHERE clause has a bound value. -/
theorem buildWhere_consistent (q : RecipesQuery) (uid : Option String) :
    (buildWhere q uid).Consistent := by
  have h0 : ({} : WhereState).Consistent := by
    refine ⟨rfl, ?_⟩
    intro c hc
    cases hc
  apply whereFilters_consistent
  unfold whereVisibility
  simp only
  split_ifs
  · exact WhereState.consistent_pushParam _ _ _ (fun n => rfl) h0
  · exact WhereState.consistent_pushCond _ _ rfl h0

/-- The property "the first fragment is `c`, and `$1` is bound to `v` when `v` is
given" of a builder state. -/
theorem WhereState.head_pushParam (w : WhereState) (f : Nat → WhereCond) (v : SqlValue)
    (c : WhereCond) (o : Option SqlValue)
    (h : (∃ rest, w.conditions = c :: rest) ∧ ∀ u, o = some u → ∃ vs, w.values = u :: vs) :
    (∃ rest, (w.pushParam f v).conditions = c :: rest) ∧
      ∀ u, o = some u → ∃ vs, (w.pushParam f v).values = u :: vs := by
  obtain ⟨⟨rest, hrest⟩, hv⟩ := h
  refine ⟨⟨rest ++ [f w.paramCount], by simp [WhereState.pushParam, hrest]⟩, ?_⟩
  intro u hu
  obtain ⟨vs, hvs⟩ := hv u hu
  exact ⟨vs ++ [v], by simp [WhereState.pushParam, hvs]⟩

theorem WhereState.head_pushCond (w : WhereState) (d : WhereCond)
    (c : WhereCond) (o : Option SqlValue)
    (h : (∃ rest, w.conditions = c :: rest) ∧ ∀ u, o = some u → ∃ vs, w.values = u :: vs) :
    (∃ rest, (w.pushCond d).conditions = c :: rest) ∧
      ∀ u, o = some u → ∃ vs, (w.pushCond d).values = u :: vs := by
  obtain ⟨⟨rest, hrest⟩, hv⟩ := h
  exact ⟨⟨rest ++ [d], by simp [WhereState.pushCond, hrest]⟩, hv⟩

theorem whereFilters_head (q : RecipesQuery) (w : WhereState) (c : WhereCond)
    (o : Option SqlValue)
    (h : (∃ rest, w.conditions = c :: rest) ∧ ∀ u, o = some u → ∃ vs, w.values = u :: vs) :
    (∃ rest, (whereFilters q w).conditions = c :: rest) ∧
      ∀ u, o = some u → ∃ vs, (whereFilters q w).values = u :: vs := by
  unfold whereFilters
  simp only
  split_ifs <;>
    (repeat' first
      | exact h
      | apply WhereState.head_pushParam
      | apply WhereState.head_pushCond)

/-- The first fragment of the assembled clause is the visibility fragment, and in the
authenticated variant its placeholder `$1` is bound to the requester id. -/
theorem buildWhere_head (q : RecipesQuery) (uid : Option String) :
    (∃ rest, (buildWhere q uid).conditions = visibilityCond uid :: rest) ∧
      ∀ u, (if truthyOpt uid then some (SqlValue.text (uid.getD "")) else none) = some u →
        ∃ vs, (buildWhere q uid).values = u :: vs := by
  apply whereFilters_head
  unfold whereVisibility visibilityCond
  by_cases hu : truthyOpt uid = true
  · simp only [hu, if_true]
    exact ⟨⟨[], rfl⟩, fun u hu => ⟨[], by cases hu; rfl⟩⟩
  · simp only [hu]
    exact ⟨⟨[], rfl⟩, fun u hu => by simp at hu⟩

theorem textParam_append (vs ex : List SqlValue) (n : Nat) (h1 : 1 ≤ n) (h2 : n ≤ vs.length) :
    textParam (vs ++ ex) n = textParam vs n := by
  unfold textParam
  rw [List.getElem?_append_left (by omega)]

theorem WhereCond.holds_append (ilike : String → String → Bool) (db : Db)
    (vs ex : List SqlValue) (r : RecipeRow) (c : WhereCond)
    (h : ∀ n, c.placeholder = some n → 1 ≤ n ∧ n ≤ vs.length) :
    c.holds ilike db (vs ++ ex) r = c.holds ilike db vs r := by
  cases c with
  | isPublic => rfl
  | isFeatured => rfl
  | publicOrAuthor n =>
    obtain ⟨h1, h2⟩ := h n rfl
    simp only [WhereCond.holds, textParam_append vs ex n h1 h2]
  | searchText n =>
    obtain ⟨h1, h2⟩ := h n rfl
    simp only [WhereCond.holds, textParam_append vs ex n h1 h2]
  | categoryName n =>
    obtain ⟨h1, h2⟩ := h n rfl
    simp only [WhereCond.holds, textParam_append vs ex n h1 h2]
  | difficultyIs n =>
    obtain ⟨h1, h2⟩ := h n rfl
    simp only [WhereCond.holds, textParam_append vs ex n h1 h2]
  | authorIs n =>
    obtain ⟨h1, h2⟩ := h n rfl
    simp only [WhereCond.holds, textParam_append vs ex n h1 h2]

theorem recipesJoinUsers_mem (db : Db) (p : RecipeRow × UserRow)
    (h : p ∈ recipesJoinUsers db) : p.1 ∈ db.recipes ∧ p.2.id = p.1.author_id := by
  simp only [recipesJoinUsers, List.mem_flatMap, List.mem_filter, List.mem_map,
    decide_eq_true_eq] at h
  obtain ⟨r, hr, u, ⟨_, hu⟩, rfl⟩ := h
  exact ⟨hr, hu⟩

theorem pageRows_mem (ilike : String → String → Bool) (db : Db) (conditions : List WhereCond)
    (values : List SqlValue) (col : SortColumn) (asc : Bool) (lim off : Nat)
    (likedBy : Option String) (row : RecipeRow × UserRow × Bool)
    (hrow : row ∈ pageRows ilike db conditions values col asc lim off likedBy) :
    (row.1, row.2.1) ∈ recipesJoinUsers db ∧
      whereHolds ilike db values conditions row.1 = true := by
  simp only [pageRows, List.mem_map] at hrow
  obtain ⟨p, hp, rfl⟩ := hrow
  have hp1 := List.mem_of_mem_take hp
  have hp2 := List.mem_of_mem_drop hp1
  have hp3 : p ∈ (recipesJoinUsers db).filter
      (fun p => whereHolds ilike db values conditions p.1) := by
    unfold orderRecipes at hp2
    exact (List.perm_insertionSort _ _).subset hp2
  rw [List.mem_filter] at hp3
  exact hp3

/-- A row of the page query is a joined row that passes the WHERE clause. -/
theorem selectRecipes_mem (ilike : String → String → Bool) (db : Db)
    (conditions : List WhereCond) (values : List SqlValue) (liked : Option Nat)
    (limitParam offsetParam : Nat) (col : SortColumn) (asc : Bool)
    (rows : List (RecipeRow × UserRow × Bool))
    (h : selectRecipes ilike db conditions values liked limitParam offsetParam col asc = some rows)
    (row : RecipeRow × UserRow × Bool) (hrow : row ∈ rows) :
    (row.1, row.2.1) ∈ recipesJoinUsers db ∧
      whereHolds ilike db values conditions row.1 = true := by
  unfold selectRecipes at h
  split_ifs at h
  simp only [Option.bind_eq_some, Option.map_eq_some'] at h
  obtain ⟨lim, _, off, _, likedBy, _, hrows⟩ := h
  subst hrows
  exact pageRows_mem ilike db conditions values col asc lim off likedBy row hrow

/-- A successful `getRecipes` lists the rows of one page query over the assembled clause,
whose bound values extend those of the clause. -/
theorem getRecipes_data (ilike : String → String → Bool) (db : Db) (now : Nat)
    (q : RecipesQuery) (user : Option AuthUser) (body : RecipeListBody)
    (h : (getRecipes ilike db now q user).data = some body) :
    ∃ extra liked lp op col asc rows,
      selectRecipes ilike db (buildWhere q (user.map fun u => u.id)).conditions
        ((buildWhere q (user.map fun u => u.id)).values ++ extra) liked lp op col asc = some rows ∧
      body.recipes = rows.map (recipeListItem db) := by
  unfold getRecipes at h
  simp only at h
  split at h
  · cases h
  · split at h
    · cases h
    · rename_i rows hsel
      simp only [Option.some.injEq] at h
      subst h
      split_ifs at hsel
      · exact ⟨_, _, _, _, _, _, rows, hsel, rfl⟩
      · exact ⟨_, _, _, _, _, _, rows, hsel, rfl⟩

/-- C2: in `getRecipes` the visibility fragment is the first element of `conditions`
whatever the filters, the fragments are conjoined (every listed recipe is a stored recipe
that passes every fragment of the assembled clause), hence every listed recipe is public or
authored by the requester, and for an anonymous requester every listed recipe is public. -/
theorem getRecipes_visibility_first_and_conjoined (ilike : String → String → Bool) (db : Db)
    (now : Nat) (q : RecipesQuery) (user : Option AuthUser) :
    (∃ rest, (buildWhere q (user.map fun u => u.id)).conditions =
        visibilityCond (user.map fun u => u.id) :: rest) ∧
    ∀ body, (getRecipes ilike db now q user).data = some body →
      ∀ item ∈ body.recipes,
        (∃ r ∈ db.recipes, item.id = r.id ∧ item.isPublic = r.is_public ∧
          item.author.id = r.author_id ∧
          ∀ c ∈ (buildWhere q (user.map fun u => u.id)).conditions,
            c.holds ilike db (buildWhere q (user.map fun u => u.id)).values r = true) ∧
        (item.isPublic = some true ∨ some item.author.id = user.map fun u => u.id) ∧
        (user = none → item.isPublic = some true) := by
  have hhead := buildWhere_head q (user.map fun u => u.id)
  have hcons := (buildWhere_consistent q (user.map fun u => u.id)).2
  have hdata := getRecipes_data ilike db now q user
  generalize getRecipes ilike db now q user = resp at hdata ⊢
  generalize buildWhere q (user.map fun u => u.id) = w at hhead hcons hdata ⊢
  obtain ⟨⟨rest, hrest⟩, hvals⟩ := hhead
  refine ⟨⟨rest, hrest⟩, ?_⟩
  intro body hbody item hitem
  obtain ⟨extra, liked, lp, op, col, asc, rows, hsel, hrec⟩ := hdata body hbody
  rw [hrec, List.mem_map] at hitem
  obtain ⟨row, hrow, rfl⟩ := hitem
  obtain ⟨hjoin, hwhere⟩ :=
    selectRecipes_mem ilike db w.conditions (w.values ++ extra) liked lp op col asc rows hsel
      row hrow
  obtain ⟨hmem, hauthor⟩ := recipesJoinUsers_mem db _ hjoin
  simp only at hmem hauthor
  have hall : ∀ c ∈ w.conditions, c.holds ilike db w.values row.1 = true := by
    intro c hc
    unfold whereHolds at hwhere
    rw [List.all_eq_true] at hwhere
    have := hwhere c hc
    rwa [WhereCond.holds_append ilike db w.values extra row.1 c (hcons c hc)] at this
  have hvis := hall (visibilityCond (user.map fun u => u.id))
    (by rw [hrest]; exact List.mem_cons_self _ _)
  have hid : (recipeListItem db row).author.id = row.1.author_id := by
    simp only [recipeListItem, authorJson, hauthor]
  have hpub : (recipeListItem db row).isPublic = row.1.is_public := rfl
  refine ⟨⟨row.1, hmem, rfl, rfl, hid, hall⟩, ?_, ?_⟩
  · rw [hid, hpub]
    unfold visibilityCond at hvis
    by_cases hu : truthyOpt (user.map fun u => u.id) = true
    · simp only [hu, if_true] at hvis
      obtain ⟨vs, hvs⟩ := hvals (SqlValue.text ((user.map fun u => u.id).getD ""))
        (by simp only [hu, if_true])
      cases user with
      | none => simp [truthyOpt] at hu
      | some u =>
        simp only [WhereCond.holds, hvs, textParam, Bool.or_eq_true, decide_eq_true_eq] at hvis
        simpa using hvis
    · simp only [hu] at hvis
      left
      simpa [WhereCond.holds] using hvis
  · intro hnone
    subst hnone
    have : visibilityCond (Option.map (fun u : AuthUser => u.id) none) = WhereCond.isPublic := rfl
    rw [this] at hvis
    rw [hpub]
    simpa [WhereCond.holds] using hvis

/-- C2 at the sample database: `bob` lists recipes without filters and gets `alice`'s
public recipe only, not her private one. -/
theorem getRecipes_visibility_first_and_conjoined_witness :
    ∃ body, (getRecipes (fun _ _ => false) sampleDb 1 {} (some sampleBob)).data = some body ∧
      body.recipes.map (fun item => item.id) = ["r2"] ∧
      ∀ item ∈ body.recipes, item.isPublic = some true ∨ some item.author.id = some "u2" := by
  have h := getRecipes_visibility_first_and_conjoined (fun _ _ => false) sampleDb 1 {}
    (some sampleBob)
  have hids : (getRecipes (fun _ _ => false) sampleDb 1 {} (some sampleBob)).data.map
      (fun body => body.recipes.map fun item => item.id) = some ["r2"] := by decide
  cases hd : (getRecipes (fun _ _ => false) sampleDb 1 {} (some sampleBob)).data with
  | none =>
    rw [hd] at hids
    cases hids
  | some body =>
    rw [hd] at hids
    refine ⟨body, rfl, by simpa using hids, ?_⟩
    intro item hitem
    exact (h.2 body hd item hitem).2.1

/-! ## C3: duplicate registration -/

theorem charOfNat_toNat (n : Nat) (h : n < 55296) : (Char.ofNat n).toNat = n := by
  unfold Char.ofNat
  have hv : n.isValidChar := Or.inl h
  rw [dif_pos hv]
  simp only [Char.ofNatAux, Char.toNat]
  rfl

theorem charToLower_idem (c : Char) : c.toLower.toLower = c.toLower := by
  by_cases h : c.toNat ≥ 65 ∧ c.toNat ≤ 90
  · have h1 : c.toLower = Char.ofNat (c.toNat + 32) := by
      unfold Char.toLower
      simp only
      rw [if_pos h]
    have h2 : (Char.ofNat (c.toNat + 32)).toNat = c.toNat + 32 :=
      charOfNat_toNat _ (by omega)
    rw [h1]
    unfold Char.toLower
    simp only
    rw [if_neg (by rw [h2]; omega)]
  · have h1 : c.toLower = c := by
      unfold Char.toLower
      simp only
      rw [if_neg h]
    rw [h1, h1]

theorem toLowerCase_idem (s : String) : toLowerCase (toLowerCase s) = toLowerCase s := by
  unfold toLowerCase
  simp only [List.map_map]
  congr 1
  apply List.map_congr_left
  intro c _
  exact charToLower_idem c

/-- The invariant `UsersLowercase` is kept by `register`, the only writer of
`users.username` and `users.email`. -/
theorem register_preserves_usersLowercase (bcryptHash : String → String)
    (sign : String → String) (expiresIn userId : String) (db : Db) (now : Nat) (valid : Bool)
    (body : RegisterBody) (h : UsersLowercase db) :
    UsersLowercase (register bcryptHash sign expiresIn userId db now valid body).2 := by
  unfold register
  simp only
  split_ifs
  · exact h
  · exact h
  · intro u hu
    simp only [List.mem_append, List.mem_singleton] at hu
    rcases hu with hu | rfl
    · exact h u hu
    · exact ⟨toLowerCase_idem _, toLowerCase_idem _⟩
  · exact h

/-- A stored row whose email or username is the lower-cased email or username of the
request makes `register` answer 409 without writing. -/
theorem register_conflict (bcryptHash : String → String) (sign : String → String)
    (expiresIn userId : String) (db : Db) (now : Nat) (body : RegisterBody) (u : UserRow)
    (hu : u ∈ db.users)
    (hmatch : u.email = toLowerCase body.email ∨ u.username = toLowerCase body.username) :
    register bcryptHash sign expiresIn userId db now true body =
      ({ status := 409, error := some "User already exists",
         message := some "Email or username is already taken", data := none,
         timestamp := now }, db) := by
  have hmem : u ∈ db.users.filter fun v =>
      decide (v.email = toLowerCase body.email ∨ v.username = toLowerCase body.username) := by
    rw [List.mem_filter, decide_eq_true_eq]
    exact ⟨hu, hmatch⟩
  have hpos : (db.users.filter fun v =>
      decide (v.email = toLowerCase body.email ∨ v.username = toLowerCase body.username)).length
        > 0 := List.length_pos_of_mem hmem
  unfold register
  simp only [Bool.not_true, Bool.false_eq_true, if_false]
  rw [if_pos hpos]

/-- A 201 from `register` means the new row, with lower-cased username and email, was
appended to `users`. -/
theorem register_created (bcryptHash : String → String) (sign : String → String)
    (expiresIn userId : String) (db : Db) (now : Nat) (valid : Bool) (body : RegisterBody)
    (h : (register bcryptHash sign expiresIn userId db now valid body).1.status = 201) :
    ∃ u ∈ (register bcryptHash sign expiresIn userId db now valid body).2.users,
      u.username = toLowerCase body.username ∧ u.email = toLowerCase body.email := by
  unfold register at h ⊢
  simp only at h ⊢
  split_ifs at h ⊢
  · simp at h
  · simp at h
  · exact ⟨_, List.mem_append_right _ (List.mem_singleton.mpr rfl), rfl, rfl⟩
  · simp at h

/-- C3: a valid register request whose username or email equals, up to letter case, that
of a user already in the table is answered 409 and leaves the database unchanged: for a
user stored in lower case (as every row written by `register` is), and in particular for
the user created by an earlier successful `register` on any database. -/
theorem register_duplicate_409 (bcryptHash : String → String) (sign : String → String)
    (expiresIn userId : String) (db : Db) (now : Nat) (body : RegisterBody) :
    (∀ u ∈ db.users, UsersLowercase db →
      (toLowerCase body.username = toLowerCase u.username ∨
        toLowerCase body.email = toLowerCase u.email) →
      register bcryptHash sign expiresIn userId db now true body =
        ({ status := 409, error := some "User already exists",
           message := some "Email or username is already taken", data := none,
           timestamp := now }, db)) ∧
    (∀ (userId₀ : String) (now₀ : Nat) (body₀ : RegisterBody),
      (register bcryptHash sign expiresIn userId₀ db now₀ true body₀).1.status = 201 →
      (toLowerCase body.username = toLowerCase body₀.username ∨
        toLowerCase body.email = toLowerCase body₀.email) →
      register bcryptHash sign expiresIn userId
          (register bcryptHash sign expiresIn userId₀ db now₀ true body₀).2 now true body =
        ({ status := 409, error := some "User already exists",
           message := some "Email or username is already taken", data := none,
           timestamp := now },
         (register bcryptHash sign expiresIn userId₀ db now₀ true body₀).2)) := by
  constructor
  · intro u hu hlow hdup
    obtain ⟨hname, hmail⟩ := hlow u hu
    apply register_conflict bcryptHash sign expiresIn userId db now body u hu
    rcases hdup with h | h
    · right
      rw [h, hname]
    · left
      rw [h, hmail]
  · intro userId₀ now₀ body₀ hcreated hdup
    obtain ⟨u, hu, hname, hmail⟩ :=
      register_created bcryptHash sign expiresIn userId₀ db now₀ true body₀ hcreated
    apply register_conflict bcryptHash sign expiresIn userId _ now body u hu
    rcases hdup with h | h
    · right
      rw [h, hname]
    · left
      rw [h, hmail]

/-- C3 at the sample database: registering `Alice` (any letter case) again is refused,
and so is registering `DAVE` after `dave` has just been registered. -/
theorem register_duplicate_409_witness :
    register (fun p => p) (fun i => i) "7d" "u9" sampleDb 3 true
        { username := "Alice", email := "new@example.com", password := "Secret1!",
          firstName := "Al" } =
      ({ status := 409, error := some "User already exists",
         message := some "Email or username is already taken", data := none,
         timestamp := 3 }, sampleDb) ∧
    (register (fun p => p) (fun i => i) "7d" "u8" sampleDb 2 true
        { username := "dave", email := "dave@example.com", password := "Secret1!",
          firstName := "Dave" }).1.status = 201 ∧
    (register (fun p => p) (fun i => i) "7d" "u9"
        (register (fun p => p) (fun i => i) "7d" "u8" sampleDb 2 true
          { username := "dave", email := "dave@example.com", password := "Secret1!",
            firstName := "Dave" }).2 3 true
        { username := "DAVE", email := "other@example.com", password := "Secret1!",
          firstName := "D" }).1.status = 409 := by
  have h1 := (register_duplicate_409 (fun p => p) (fun i => i) "7d" "u9" sampleDb 3
    { username := "Alice", email := "new@example.com", password := "Secret1!",
      firstName := "Al" }).1
    { id := "u1", username := "alice", email := "alice@example.com", password_hash := "h1",
      first_name := "Alice" }
    (by decide) (by decide) (Or.inl (by decide))
  have hcreated : (register (fun p => p) (fun i => i) "7d" "u8" sampleDb 2 true
      { username := "dave", email := "dave@example.com", password := "Secret1!",
        firstName := "Dave" }).1.status = 201 := by decide
  have h2 := (register_duplicate_409 (fun p => p) (fun i => i) "7d" "u9" sampleDb 3
    { username := "DAVE", email := "other@example.com", password := "Secret1!",
      firstName := "D" }).2 "u8" 2
    { username := "dave", email := "dave@example.com", password := "Secret1!",
      firstName := "Dave" } hcreated (Or.inl (by decide))
  exact ⟨h1, hcreated, by rw [h2]⟩

/-! ## C4: refused logins -/

theorem loginCandidates_eq_nil_of_unknown (db : Db) (key : String)
    (h : ∀ u ∈ db.users, (u.email = key ∨ u.username = key) → u.is_active ≠ some true) :
    loginCandidates db key = [] := by
  unfold loginCandidates
  rw [List.filter_eq_nil_iff]
  intro u hu
  rw [decide_eq_true_eq]
  rintro ⟨hkey, hact⟩
  exact h u hu hkey hact

/-- Each of the three refusals of a request with a string password produces the same 401
body. -/
theorem login_refused (bcryptCompare : String → String → Bool) (sign : String → String)
    (expiresIn : String) (db : Db) (now : Nat) (body : LoginBody) (why : LoginFailure)
    (h : why.occurs bcryptCompare db body) :
    login bcryptCompare sign expiresIn db now true body =
      { status := 401, error := some "Invalid credentials",
        message := some "Email/username or password is incorrect", data := none,
        timestamp := now } := by
  cases why with
  | unknownUser =>
    have hnil := loginCandidates_eq_nil_of_unknown db (toLowerCase body.emailOrUsername)
      (fun u hu hkey => by
        have := h u hu
        rcases hkey with hk | hk
        · exact absurd hk this.1
        · exact absurd hk this.2)
    simp [login, hnil]
  | inactiveUser =>
    have hnil := loginCandidates_eq_nil_of_unknown db (toLowerCase body.emailOrUsername) h.2
    simp [login, hnil]
  | wrongPassword =>
    obtain ⟨u, rest, password, hrows, hpw, hcmp⟩ := h
    simp [login, hrows, hpw, hcmp]

/-- Once the query of `login` has returned a row, a password that is not a string is
answered with the 500 of the outer `catch`, whatever the stored hash. -/
theorem login_other_password_known (bcryptCompare : String → String → Bool)
    (sign : String → String) (expiresIn : String) (db : Db) (now : Nat) (key shown : String)
    (u : UserRow) (rest : List UserRow)
    (hrows : loginCandidates db (toLowerCase key) = u :: rest) :
    login bcryptCompare sign expiresIn db now true
        { emailOrUsername := key, password := .other shown } =
      { status := 500, error := some "Login failed", message := some "Internal server error",
        timestamp := now } := by
  simp [login, hrows]

/-- When the query of `login` returns no row, the answer is the 401 of an unknown account,
whatever the password is. -/
theorem login_unknown_any_password (bcryptCompare : String → String → Bool)
    (sign : String → String) (expiresIn : String) (db : Db) (now : Nat) (body : LoginBody)
    (hrows : loginCandidates db (toLowerCase body.emailOrUsername) = []) :
    login bcryptCompare sign expiresIn db now true body =
      { status := 401, error := some "Invalid credentials",
        message := some "Email/username or password is incorrect", timestamp := now } := by
  simp [login, hrows]

/-- C4 fails on the code: the request `{ emailOrUsername, password: 12345 }` passes
`validateLogin` and is refused with 500 "Login failed" for the active account `alice`,
but with 401 "Invalid credentials" for an unknown name and for the deactivated `carol`,
so the response tells whether an active account exists. With a string password the three
refusals are the same 401. -/
theorem login_non_string_password_reveals_account :
    (login (fun p h => p = h) (fun i => i) "7d" sampleDb 5 true
        { emailOrUsername := "alice", password := .other "12345" }).status = 500 ∧
    (login (fun p h => p = h) (fun i => i) "7d" sampleDb 5 true
        { emailOrUsername := "alice", password := .other "12345" }).error =
      some "Login failed" ∧
    login (fun p h => p = h) (fun i => i) "7d" sampleDb 5 true
        { emailOrUsername := "nobody", password := .other "12345" } =
      { status := 401, error := some "Invalid credentials",
        message := some "Email/username or password is incorrect", timestamp := 5 } ∧
    login (fun p h => p = h) (fun i => i) "7d" sampleDb 5 true
        { emailOrUsername := "carol", password := .other "12345" } =
      { status := 401, error := some "Invalid credentials",
        message := some "Email/username or password is incorrect", timestamp := 5 } ∧
    login (fun p h => p = h) (fun i => i) "7d" sampleDb 5 true
        { emailOrUsername := "alice", password := .string "wrongpassword" } =
      { status := 401, error := some "Invalid credentials",
        message := some "Email/username or password is incorrect", timestamp := 5 } := by
  decide

/-- Two valid login requests with string passwords that are refused, for whatever pair of
reasons (unknown user, inactive user, wrong password), get responses that are identical
apart from the timestamp: status 401 with the same `error` and `message` and no data. -/
theorem login_string_failures_alike (bcryptCompare : String → String → Bool)
    (sign : String → String) (expiresIn : String) (db₁ db₂ : Db) (now₁ now₂ : Nat)
    (body₁ body₂ : LoginBody) (why₁ why₂ : LoginFailure)
    (h₁ : why₁.occurs bcryptCompare db₁ body₁) (h₂ : why₂.occurs bcryptCompare db₂ body₂) :
    (login bcryptCompare sign expiresIn db₁ now₁ true body₁).status = 401 ∧
    (login bcryptCompare sign expiresIn db₂ now₂ true body₂).status = 401 ∧
    { login bcryptCompare sign expiresIn db₁ now₁ true body₁ with timestamp := 0 } =
      { login bcryptCompare sign expiresIn db₂ now₂ true body₂ with timestamp := 0 } := by
  rw [login_refused bcryptCompare sign expiresIn db₁ now₁ body₁ why₁ h₁,
    login_refused bcryptCompare sign expiresIn db₂ now₂ body₂ why₂ h₂]
  exact ⟨rfl, rfl, rfl⟩

/-- The deactivated `carol` and a wrong string password for `alice` are answered alike at
the sample database. -/
theorem login_string_failures_alike_sample :
    (login (fun p h => p = h) (fun i => i) "7d" sampleDb 5 true
        { emailOrUsername := "Carol", password := .string "h3" }).status = 401 ∧
    (login (fun p h => p = h) (fun i => i) "7d" sampleDb 9 true
        { emailOrUsername := "alice", password := .string "wrongpassword" }).status = 401 ∧
    { login (fun p h => p = h) (fun i => i) "7d" sampleDb 5 true
        { emailOrUsername := "Carol", password := .string "h3" } with timestamp := 0 } =
      { login (fun p h => p = h) (fun i => i) "7d" sampleDb 9 true
        { emailOrUsername := "alice", password := .string "wrongpassword" }
        with timestamp := 0 } :=
  login_string_failures_alike (fun p h => p = h) (fun i => i) "7d" sampleDb sampleDb 5 9
    { emailOrUsername := "Carol", password := .string "h3" }
    { emailOrUsername := "alice", password := .string "wrongpassword" }
    .inactiveUser .wrongPassword
    (show (∃ u ∈ sampleDb.users, _) ∧ ∀ u ∈ sampleDb.users, _ from by decide)
    ⟨{ id := "u1", username := "alice", email := "alice@example.com", password_hash := "h1",
       first_name := "Alice" }, [], "wrongpassword", by decide, rfl, by decide⟩

/-! ## C5 and C6: the authentication middlewares -/

theorem authenticates_unique (jwtVerify : String → VerifyResult) (db : Option Db) (now : Nat)
    (authHeader : Option String) (u : UserRow) (h : Authenticates jwtVerify db authHeader u) :
    authenticateToken jwtVerify db now authHeader =
        { user := some u.toAuthUser, nextCalls := 1 } ∧
    optionalAuth jwtVerify db authHeader = { user := some u.toAuthUser, nextCalls := 1 } := by
  obtain ⟨token, userId, d, rest, htok, htruthy, hver, hdb, hrows, hact⟩ := h
  subst hdb
  constructor
  · simp [authenticateToken, htok, truthyOpt, htruthy, hver, hrows, hact, truthyBool]
  · simp [optionalAuth, htok, truthyOpt, htruthy, hver, hrows, hact, truthyBool]

theorem truthyOpt_eq_true (o : Option String) (h : truthyOpt o = true) :
    ∃ t, o = some t ∧ truthy t = true ∧ o.getD "" = t := by
  cases o with
  | none => simp [truthyOpt] at h
  | some t => exact ⟨t, rfl, by simpa [truthyOpt] using h, rfl⟩

theorem truthyBool_ne (b : Option Bool) (h : b ≠ some true) : truthyBool b = false := by
  cases b with
  | none => rfl
  | some v =>
    cases v with
    | true => exact absurd rfl h
    | false => rfl

/-- The seven ways through `authenticateToken` when the lookup succeeds. -/
theorem authenticateToken_cases (jwtVerify : String → VerifyResult) (db : Db) (now : Nat)
    (authHeader : Option String) :
    (∃ u, Authenticates jwtVerify (some db) authHeader u) ∨
    ((authenticateToken jwtVerify (some db) now authHeader).nextCalls = 0 ∧
      (authenticateToken jwtVerify (some db) now authHeader).user = none ∧
      ((truthyOpt (bearerToken authHeader) = false ∧
          authenticateToken jwtVerify (some db) now authHeader =
            accessDenied now "No token provided") ∨
        (truthyOpt (bearerToken authHeader) = true ∧
          jwtVerify ((bearerToken authHeader).getD "") = .error "JsonWebTokenError" ∧
          authenticateToken jwtVerify (some db) now authHeader =
            accessDenied now "Invalid token") ∨
        (truthyOpt (bearerToken authHeader) = true ∧
          jwtVerify ((bearerToken authHeader).getD "") = .error "TokenExpiredError" ∧
          authenticateToken jwtVerify (some db) now authHeader =
            accessDenied now "Token expired") ∨
        (truthyOpt (bearerToken authHeader) = true ∧
          (∃ name, jwtVerify ((bearerToken authHeader).getD "") = .error name ∧
            name ≠ "JsonWebTokenError" ∧ name ≠ "TokenExpiredError") ∧
          authenticateToken jwtVerify (some db) now authHeader =
            { response := some { status := 500, error := some "Internal server error",
                                 message := some "Authentication failed", timestamp := now } }) ∨
        (truthyOpt (bearerToken authHeader) = true ∧
          (∃ userId, jwtVerify ((bearerToken authHeader).getD "") = .payload userId ∧
            usersById db userId = []) ∧
          authenticateToken jwtVerify (some db) now authHeader =
            accessDenied now "User not found") ∨
        (truthyOpt (bearerToken authHeader) = true ∧
          (∃ userId u rest, jwtVerify ((bearerToken authHeader).getD "") = .payload userId ∧
            usersById db userId = u :: rest ∧ u.is_active ≠ some true) ∧
          authenticateToken jwtVerify (some db) now authHeader =
            accessDenied now "Account is deactivated"))) := by
  by_cases ht : truthyOpt (bearerToken authHeader) = true
  · obtain ⟨tok, htok, htruthy, hget⟩ := truthyOpt_eq_true _ ht
    cases hv : jwtVerify ((bearerToken authHeader).getD "") with
    | error name =>
      right
      by_cases h1 : name = "JsonWebTokenError"
      · subst h1
        have hres : authenticateToken jwtVerify (some db) now authHeader =
            accessDenied now "Invalid token" := by
          simp [authenticateToken, ht, hv]
        rw [hres]
        exact ⟨rfl, rfl, Or.inr (Or.inl ⟨ht, rfl, rfl⟩)⟩
      · by_cases h2 : name = "TokenExpiredError"
        · subst h2
          have hres : authenticateToken jwtVerify (some db) now authHeader =
              accessDenied now "Token expired" := by
            simp [authenticateToken, ht, hv]
          rw [hres]
          exact ⟨rfl, rfl, Or.inr (Or.inr (Or.inl ⟨ht, rfl, rfl⟩))⟩
        · have hres : authenticateToken jwtVerify (some db) now authHeader =
              { response := some { status := 500, error := some "Internal server error",
                                   message := some "Authentication failed",
                                   timestamp := now } } := by
            simp [authenticateToken, ht, hv, h1, h2]
          rw [hres]
          exact ⟨rfl, rfl, Or.inr (Or.inr (Or.inr (Or.inl ⟨ht, ⟨name, rfl, h1, h2⟩, rfl⟩)))⟩
    | payload userId =>
      cases hrows : usersById db userId with
      | nil =>
        right
        have hres : authenticateToken jwtVerify (some db) now authHeader =
            accessDenied now "User not found" := by
          simp [authenticateToken, ht, hv, hrows]
        rw [hres]
        exact ⟨rfl, rfl,
          Or.inr (Or.inr (Or.inr (Or.inr (Or.inl ⟨ht, ⟨userId, rfl, hrows⟩, rfl⟩))))⟩
      | cons u rest =>
        by_cases hact : u.is_active = some true
        · left
          exact ⟨u, tok, userId, db, rest, htok, htruthy, by rw [← hget]; exact hv, rfl, hrows,
            hact⟩
        · right
          have hres : authenticateToken jwtVerify (some db) now authHeader =
              accessDenied now "Account is deactivated" := by
            simp [authenticateToken, ht, hv, hrows, truthyBool_ne _ hact]
          rw [hres]
          exact ⟨rfl, rfl,
            Or.inr (Or.inr (Or.inr (Or.inr (Or.inr
              ⟨ht, ⟨userId, u, rest, rfl, hrows, hact⟩, rfl⟩))))⟩
  · right
    have ht' : truthyOpt (bearerToken authHeader) = false := by simpa using ht
    have hres : authenticateToken jwtVerify (some db) now authHeader =
        accessDenied now "No token provided" := by
      simp [authenticateToken, ht']
    rw [hres]
    exact ⟨rfl, rfl, Or.inl ⟨ht', rfl⟩⟩

/-- C5 as stated fails: a token that `jwt.verify` rejects with an error other than the
two named ones (here `NotBeforeError`) is not accepted, the lookup is never reached, and
the response is 500 rather than 401. -/
theorem authenticateToken_other_error_not_401 :
    (¬ ∃ u, Authenticates sampleVerify (some sampleDb) (some "Bearer early") u) ∧
    authenticateToken sampleVerify (some sampleDb) 7 (some "Bearer early") =
      { response := some { status := 500, error := some "Internal server error",
                           message := some "Authentication failed", timestamp := 7 },
        user := none, nextCalls := 0 } := by
  have hres : authenticateToken sampleVerify (some sampleDb) 7 (some "Bearer early") =
      { response := some { status := 500, error := some "Internal server error",
                           message := some "Authentication failed", timestamp := 7 },
        user := none, nextCalls := 0 } := by decide
  refine ⟨?_, hres⟩
  rintro ⟨u, hu⟩
  have h := (authenticates_unique sampleVerify (some sampleDb) 7 (some "Bearer early") u hu).1
  rw [hres] at h
  have hn := congrArg MiddlewareResult.nextCalls h
  simp at hn

/-- C5, amended: when the user lookup succeeds, `authenticateToken` calls `next()` exactly
when the header carries a token that verifies and names an existing active user, and then
`req.user` is that user's record and no response is sent; otherwise `next()` is not
called, `req.user` is not set, and the response is 401 "No token provided" (no token),
401 "Invalid token" (`JsonWebTokenError`), 401 "Token expired" (`TokenExpiredError`),
500 (any other verification error), 401 "User not found" or 401 "Account is
deactivated". -/
theorem authenticateToken_next_iff_and_refusals (jwtVerify : String → VerifyResult) (db : Db)
    (now : Nat) (authHeader : Option String) :
    ((authenticateToken jwtVerify (some db) now authHeader).nextCalls = 1 ↔
      ∃ u, Authenticates jwtVerify (some db) authHeader u) ∧
    (∀ u, Authenticates jwtVerify (some db) authHeader u →
      authenticateToken jwtVerify (some db) now authHeader =
        { response := none, user := some u.toAuthUser, nextCalls := 1 }) ∧
    ((¬ ∃ u, Authenticates jwtVerify (some db) authHeader u) →
      (authenticateToken jwtVerify (some db) now authHeader).nextCalls = 0 ∧
      (authenticateToken jwtVerify (some db) now authHeader).user = none ∧
      ((truthyOpt (bearerToken authHeader) = false ∧
          authenticateToken jwtVerify (some db) now authHeader =
            accessDenied now "No token provided") ∨
        (truthyOpt (bearerToken authHeader) = true ∧
          jwtVerify ((bearerToken authHeader).getD "") = .error "JsonWebTokenError" ∧
          authenticateToken jwtVerify (some db) now authHeader =
            accessDenied now "Invalid token") ∨
        (truthyOpt (bearerToken authHeader) = true ∧
          jwtVerify ((bearerToken authHeader).getD "") = .error "TokenExpiredError" ∧
          authenticateToken jwtVerify (some db) now authHeader =
            accessDenied now "Token expired") ∨
        (truthyOpt (bearerToken authHeader) = true ∧
          (∃ name, jwtVerify ((bearerToken authHeader).getD "") = .error name ∧
            name ≠ "JsonWebTokenError" ∧ name ≠ "TokenExpiredError") ∧
          authenticateToken jwtVerify (some db) now authHeader =
            { response := some { status := 500, error := some "Internal server error",
                                 message := some "Authentication failed", timestamp := now } }) ∨
        (truthyOpt (bearerToken authHeader) = true ∧
          (∃ userId, jwtVerify ((bearerToken authHeader).getD "") = .payload userId ∧
            usersById db userId = []) ∧
          authenticateToken jwtVerify (some db) now authHeader =
            accessDenied now "User not found") ∨
        (truthyOpt (bearerToken authHeader) = true ∧
          (∃ userId u rest, jwtVerify ((bearerToken authHeader).getD "") = .payload userId ∧
            usersById db userId = u :: rest ∧ u.is_active ≠ some true) ∧
          authenticateToken jwtVerify (some db) now authHeader =
            accessDenied now "Account is deactivated"))) := by
  have hcases := authenticateToken_cases jwtVerify db now authHeader
  have hacc := fun u h => (authenticates_unique jwtVerify (some db) now authHeader u h).1
  refine ⟨⟨?_, ?_⟩, hacc, ?_⟩
  · intro hnext
    rcases hcases with h | ⟨h0, _⟩
    · exact h
    · rw [h0] at hnext
      cases hnext
  · rintro ⟨u, hu⟩
    rw [hacc u hu]
  · intro hno
    rcases hcases with h | h
    · exact absurd h hno
    · exact h

/-- C5 (amended) at the sample database: `bob`'s token is accepted and `next()` is
called with his record; `carol`'s token, an expired token and no header are refused with
401 and their own messages. -/
theorem authenticateToken_next_iff_and_refusals_witness :
    authenticateToken sampleVerify (some sampleDb) 7 (some "Bearer t-u2") =
      { response := none, user := some sampleBob, nextCalls := 1 } ∧
    authenticateToken sampleVerify (some sampleDb) 7 (some "Bearer t-u3") =
      accessDenied 7 "Account is deactivated" ∧
    authenticateToken sampleVerify (some sampleDb) 7 (some "Bearer t-u4") =
      accessDenied 7 "User not found" ∧
    authenticateToken sampleVerify (some sampleDb) 7 (some "Bearer expired") =
      accessDenied 7 "Token expired" ∧
    authenticateToken sampleVerify (some sampleDb) 7 (some "Bearer x.y.z") =
      accessDenied 7 "Invalid token" ∧
    authenticateToken sampleVerify (some sampleDb) 7 none =
      accessDenied 7 "No token provided" := by
  have h := (authenticateToken_next_iff_and_refusals sampleVerify sampleDb 7
    (some "Bearer t-u2")).2.1
    { id := "u2", username := "bob", email := "bob@example.com", password_hash := "h2",
      first_name := "Bob", last_name := some "Baker" }
    ⟨"t-u2", some "u2", sampleDb, [], by decide, by decide, by decide, rfl, by decide, rfl⟩
  exact ⟨h, by decide, by decide, by decide, by decide, by decide⟩

/-- C6: `optionalAuth` never sends a response and calls `next()` exactly once, whatever
the header, the verification outcome and the outcome of the lookup (`db = none` is a
failed lookup); `req.user` is the user record when the token verifies and names an
existing active user, and `null` in every other case. -/
theorem optionalAuth_always_next (jwtVerify : String → VerifyResult) (db : Option Db)
    (authHeader : Option String) :
    (optionalAuth jwtVerify db authHeader).response = none ∧
    (optionalAuth jwtVerify db authHeader).nextCalls = 1 ∧
    (∀ u, Authenticates jwtVerify db authHeader u →
      (optionalAuth jwtVerify db authHeader).user = some u.toAuthUser) ∧
    ((¬ ∃ u, Authenticates jwtVerify db authHeader u) →
      (optionalAuth jwtVerify db authHeader).user = none) := by
  have hacc := fun u h => (authenticates_unique jwtVerify db 0 authHeader u h).2
  refine ⟨?_, ?_, fun u hu => by rw [hacc u hu], ?_⟩
  · unfold optionalAuth
    simp only
    split_ifs
    · rfl
    · split
      · rfl
      · split
        · rfl
        · split
          · rfl
          · split_ifs <;> rfl
  · unfold optionalAuth
    simp only
    split_ifs
    · rfl
    · split
      · rfl
      · split
        · rfl
        · split
          · rfl
          · split_ifs <;> rfl
  · intro hno
    by_cases ht : truthyOpt (bearerToken authHeader) = true
    · obtain ⟨tok, htok, htruthy, hget⟩ := truthyOpt_eq_true _ ht
      cases hv : jwtVerify ((bearerToken authHeader).getD "") with
      | error name => simp [optionalAuth, ht, hv]
      | payload userId =>
        cases db with
        | none => simp [optionalAuth, ht, hv]
        | some d =>
          cases hrows : usersById d userId with
          | nil => simp [optionalAuth, ht, hv, hrows]
          | cons u rest =>
            by_cases hact : u.is_active = some true
            · exact absurd ⟨u, tok, userId, d, rest, htok, htruthy, by rw [← hget]; exact hv,
                rfl, hrows, hact⟩ hno
            · simp [optionalAuth, ht, hv, hrows, truthyBool_ne _ hact]
    · have ht' : truthyOpt (bearerToken authHeader) = false := by simpa using ht
      simp [optionalAuth, ht']

/-- C6 at the sample database: with `bob`'s token the request continues as `bob`; with
`carol`'s token (deactivated), a malformed header, or a failed lookup it continues
anonymously. -/
theorem optionalAuth_always_next_witness :
    optionalAuth sampleVerify (some sampleDb) (some "Bearer t-u2") =
      { response := none, user := some sampleBob, nextCalls := 1 } ∧
    optionalAuth sampleVerify (some sampleDb) (some "Bearer t-u3") =
      { response := none, user := none, nextCalls := 1 } ∧
    optionalAuth sampleVerify (some sampleDb) (some "Bearer") =
      { response := none, user := none, nextCalls := 1 } ∧
    (optionalAuth sampleVerify none (some "Bearer t-u2")).nextCalls = 1 ∧
    (optionalAuth sampleVerify none (some "Bearer t-u2")).user = none := by
  have h := optionalAuth_always_next sampleVerify none (some "Bearer t-u2")
  have hno : ¬ ∃ u, Authenticates sampleVerify none (some "Bearer t-u2") u := by
    rintro ⟨u, _, _, d, _, _, _, _, hdb, _⟩
    cases hdb
  exact ⟨by decide, by decide, by decide, h.2.1, h.2.2.2 hno⟩

/-! ## Keyed tables -/

/-- In a table whose keys are pairwise distinct, a predicate that determines the key
selects at most one row. -/
theorem filter_length_le_one {α κ : Type} (key : α → κ) (p : α → Bool) (l : List α)
    (hnd : (l.map key).Nodup) (hp : ∀ a b, p a = true → p b = true → key a = key b) :
    (l.filter p).length ≤ 1 := by
  induction l with
  | nil => simp
  | cons a t ih =>
    rw [List.map_cons, List.nodup_cons] at hnd
    by_cases hpa : p a = true
    · have hnil : t.filter p = [] := by
        rw [List.filter_eq_nil_iff]
        intro b hb hpb
        exact hnd.1 (List.mem_map.mpr ⟨b, hb, hp b a hpb hpa⟩)
      simp [List.filter_cons, hpa, hnil]
    · simp only [List.filter_cons, hpa]
      exact ih hnd.2

/-- Counting the rows that pass `q`: those that also pass `p`, plus those among the rows
failing `p`. -/
theorem filter_length_split {α : Type} (p q : α → Bool) (l : List α)
    (hpq : ∀ a, p a = true → q a = true) :
    (l.filter q).length = (l.filter p).length + ((l.filter fun a => !p a).filter q).length := by
  induction l with
  | nil => simp
  | cons a t ih =>
    by_cases hpa : p a = true
    · have hqa := hpq a hpa
      simp only [List.filter_cons, hpa, hqa, if_true, List.length_cons, Bool.not_true,
        Bool.false_eq_true, if_false, ih]
      omega
    · have hpa' : p a = false := by simpa using hpa
      by_cases hqa : q a = true
      · simp only [List.filter_cons, hpa', hqa, if_true, List.length_cons, Bool.not_false,
          Bool.false_eq_true, if_false, ih]
        omega
      · simp only [List.filter_cons, hpa', hqa, if_true, Bool.not_false,
          Bool.false_eq_true, if_false, ih]

theorem recipesById_head (db : Db) (r : RecipeRow) (hr : r ∈ db.recipes) (hpk : RecipesPK db) :
    ∃ rest, recipesById db r.id = r :: rest := by
  cases hrows : recipesById db r.id with
  | nil =>
    have : r ∈ recipesById db r.id := by
      unfold recipesById
      rw [List.mem_filter]
      exact ⟨hr, by simp⟩
    rw [hrows] at this
    exact absurd this (List.not_mem_nil _)
  | cons a rest =>
    have ha : a ∈ recipesById db r.id := by rw [hrows]; exact List.mem_cons_self _ _
    unfold recipesById at ha
    rw [List.mem_filter, decide_eq_true_eq] at ha
    have := hpk a ha.1 r hr ha.2
    subst this
    exact ⟨rest, rfl⟩

theorem recipesById_eq_nil (db : Db) (id : String) (h : ∀ r ∈ db.recipes, r.id ≠ id) :
    recipesById db id = [] := by
  unfold recipesById
  rw [List.filter_eq_nil_iff]
  intro r hr
  simpa using h r hr

/-! ## C7: liking twice -/

/-- One call of `toggleRecipeLike` on an accessible recipe. -/
theorem toggleRecipeLike_accessible (db : Db) (now : Nat) (r : RecipeRow) (user : AuthUser)
    (rest : List RecipeRow) (hhead : recipesById db r.id = r :: rest)
    (hacc : r.is_public = some true ∨ r.author_id = user.id) :
    toggleRecipeLike db now r.id user =
      if (db.recipe_likes.filter fun l =>
          decide (l.recipe_id = r.id ∧ l.user_id = user.id)).length > 0 then
        ({ status := 200, message := some "Recipe unliked successfully",
           data := some
             { recipe := { id := r.id, title := r.title }, isLiked := false,
               likesCount := likesCountOf
                 { db with recipe_likes := db.recipe_likes.filter fun l =>
                     !decide (l.recipe_id = r.id ∧ l.user_id = user.id) } r.id },
           timestamp := now },
         { db with recipe_likes := db.recipe_likes.filter fun l =>
             !decide (l.recipe_id = r.id ∧ l.user_id = user.id) })
      else
        ({ status := 200, message := some "Recipe liked successfully",
           data := some
             { recipe := { id := r.id, title := r.title }, isLiked := true,
               likesCount := likesCountOf
                 { db with recipe_likes := db.recipe_likes ++
                     [{ recipe_id := r.id, user_id := user.id, created_at := now }] } r.id },
           timestamp := now },
         { db with recipe_likes := db.recipe_likes ++
             [{ recipe_id := r.id, user_id := user.id, created_at := now }] }) := by
  have hgate : (!(truthyBool r.is_public) && decide (r.author_id ≠ user.id)) = false := by
    rcases hacc with h | h
    · simp [h, truthyBool]
    · simp [h]
  unfold toggleRecipeLike
  simp only [hhead, hgate, Bool.false_eq_true, if_false]

/-- C7 as stated fails: when the recipe was already liked, unliking and liking again
deletes the like row and inserts a new one whose `created_at` is the time of the second
call, so the row stored before the first call is no longer in the table. -/
theorem toggleRecipeLike_twice_replaces_row :
    RecipesPK sampleLikedDb ∧ LikesPK sampleLikedDb ∧
    ({ recipe_id := "r2", user_id := "u2", created_at := 1 } : LikeRow) ∈
      sampleLikedDb.recipe_likes ∧
    ({ recipe_id := "r2", user_id := "u2", created_at := 1 } : LikeRow) ∉
      (toggleRecipeLike (toggleRecipeLike sampleLikedDb 5 "r2" sampleBob).2 6 "r2"
        sampleBob).2.recipe_likes ∧
    (toggleRecipeLike (toggleRecipeLike sampleLikedDb 5 "r2" sampleBob).2 6 "r2"
        sampleBob).2.recipe_likes = [{ recipe_id := "r2", user_id := "u2", created_at := 6 }] := by
  decide

/-- C7, amended: for a stored recipe `r` that `u` may access, two successive
`toggleRecipeLike` calls by `u` both succeed, return opposite `isLiked` values, the second
returns the like count `r` had before the first, and the set of (recipe, user) pairs with
a like row is the same as before. Rows of other pairs are untouched; if `u` had not liked
`r` the database is exactly as before, and if `u` had liked `r` the row of (`r`, `u`) is
replaced by a new row whose `created_at` is the time of the second call. -/
theorem toggleRecipeLike_twice (db : Db) (now₁ now₂ : Nat) (r : RecipeRow) (user : AuthUser)
    (hr : r ∈ db.recipes) (hpk : RecipesPK db) (hlikes : LikesPK db)
    (hacc : r.is_public = some true ∨ r.author_id = user.id) :
    ∃ d₁ d₂ : LikeJson,
      (toggleRecipeLike db now₁ r.id user).1.status = 200 ∧
      (toggleRecipeLike db now₁ r.id user).1.data = some d₁ ∧
      (toggleRecipeLike (toggleRecipeLike db now₁ r.id user).2 now₂ r.id user).1.status = 200 ∧
      (toggleRecipeLike (toggleRecipeLike db now₁ r.id user).2 now₂ r.id user).1.data = some d₂ ∧
      d₂.isLiked = !d₁.isLiked ∧
      d₂.likesCount = likesCountOf db r.id ∧
      (∀ rid uid,
        (∃ l ∈ (toggleRecipeLike (toggleRecipeLike db now₁ r.id user).2 now₂ r.id
            user).2.recipe_likes, l.recipe_id = rid ∧ l.user_id = uid) ↔
        ∃ l ∈ db.recipe_likes, l.recipe_id = rid ∧ l.user_id = uid) ∧
      (∀ l ∈ db.recipe_likes, ¬ (l.recipe_id = r.id ∧ l.user_id = user.id) →
        l ∈ (toggleRecipeLike (toggleRecipeLike db now₁ r.id user).2 now₂ r.id
          user).2.recipe_likes) ∧
      (d₁.isLiked = true →
        (toggleRecipeLike (toggleRecipeLike db now₁ r.id user).2 now₂ r.id user).2 = db) ∧
      (d₁.isLiked = false →
        (toggleRecipeLike (toggleRecipeLike db now₁ r.id user).2 now₂ r.id user).2 =
          { db with recipe_likes :=
              (db.recipe_likes.filter fun l =>
                !decide (l.recipe_id = r.id ∧ l.user_id = user.id)) ++
              [{ recipe_id := r.id, user_id := user.id, created_at := now₂ }] }) := by
  obtain ⟨rest, hhead⟩ := recipesById_head db r hr hpk
  have h1 := toggleRecipeLike_accessible db now₁ r user rest hhead hacc
  by_cases hex : (db.recipe_likes.filter fun l =>
      decide (l.recipe_id = r.id ∧ l.user_id = user.id)).length > 0
  · -- liked before: unlike, then like again
    rw [if_pos hex] at h1
    have h2 := toggleRecipeLike_accessible
      { db with recipe_likes := db.recipe_likes.filter fun l =>
          !decide (l.recipe_id = r.id ∧ l.user_id = user.id) } now₂ r user rest hhead hacc
    have hnone : ¬ ((db.recipe_likes.filter fun l =>
        !decide (l.recipe_id = r.id ∧ l.user_id = user.id)).filter fun l =>
          decide (l.recipe_id = r.id ∧ l.user_id = user.id)).length > 0 := by
      simp [List.filter_filter]
    rw [if_neg hnone] at h2
    have hone : (db.recipe_likes.filter fun l =>
        decide (l.recipe_id = r.id ∧ l.user_id = user.id)).length = 1 := by
      have hle := filter_length_le_one (fun l : LikeRow => (l.recipe_id, l.user_id))
        (fun l => decide (l.recipe_id = r.id ∧ l.user_id = user.id)) db.recipe_likes hlikes
        (by
          intro a b ha hb
          rw [decide_eq_true_eq] at ha hb
          show (a.recipe_id, a.user_id) = (b.recipe_id, b.user_id)
          rw [ha.1, ha.2, hb.1, hb.2])
      omega
    have hsplit := filter_length_split
      (fun l : LikeRow => decide (l.recipe_id = r.id ∧ l.user_id = user.id))
      (fun l : LikeRow => decide (l.recipe_id = r.id)) db.recipe_likes
      (by
        intro a ha
        rw [decide_eq_true_eq] at ha ⊢
        exact ha.1)
    obtain ⟨l₀, hl₀⟩ := List.exists_mem_of_length_pos hex
    rw [List.mem_filter, decide_eq_true_eq] at hl₀
    rw [h1, h2]
    refine ⟨_, _, rfl, rfl, rfl, rfl, rfl, ?_, ?_, ?_, ?_, ?_⟩
    · simp only [likesCountOf, List.filter_append, List.length_append]
      rw [hsplit, hone]
      simp
      omega
    · intro rid uid
      simp only [List.mem_append, List.mem_filter, List.mem_singleton]
      constructor
      · rintro ⟨l, hl | hl, hrid, huid⟩
        · exact ⟨l, hl.1, hrid, huid⟩
        · subst hl
          exact ⟨l₀, hl₀.1, by rw [hl₀.2.1, ← hrid], by rw [hl₀.2.2, ← huid]⟩
      · rintro ⟨l, hl, hrid, huid⟩
        by_cases hm : l.recipe_id = r.id ∧ l.user_id = user.id
        · exact ⟨{ recipe_id := r.id, user_id := user.id, created_at := now₂ }, Or.inr rfl,
            by rw [← hrid, hm.1], by rw [← huid, hm.2]⟩
        · exact ⟨l, Or.inl ⟨hl, by rw [Bool.not_eq_true', decide_eq_false_iff_not]; exact hm⟩, hrid, huid⟩
    · intro l hl hm
      simp only [List.mem_append, List.mem_filter, List.mem_singleton]
      exact Or.inl ⟨hl, by rw [Bool.not_eq_true', decide_eq_false_iff_not]; exact hm⟩
    · intro h
      cases h
    · intro _
      rfl
  · -- not liked before: like, then unlike
    rw [if_neg hex] at h1
    have h2 := toggleRecipeLike_accessible
      { db with recipe_likes := db.recipe_likes ++
          [{ recipe_id := r.id, user_id := user.id, created_at := now₁ }] } now₂ r user rest
      hhead hacc
    have hsome : ((db.recipe_likes ++
        [({ recipe_id := r.id, user_id := user.id, created_at := now₁ } : LikeRow)]).filter
          fun l : LikeRow => decide (l.recipe_id = r.id ∧ l.user_id = user.id)).length > 0 := by
      simp [List.filter_append]
    rw [if_pos hsome] at h2
    have hnil : (db.recipe_likes.filter fun l =>
        decide (l.recipe_id = r.id ∧ l.user_id = user.id)) = [] := by
      apply List.eq_nil_of_length_eq_zero
      omega
    have hself : ((db.recipe_likes ++
        [({ recipe_id := r.id, user_id := user.id, created_at := now₁ } : LikeRow)]).filter
          fun l : LikeRow => !decide (l.recipe_id = r.id ∧ l.user_id = user.id)) =
        db.recipe_likes := by
      rw [List.filter_append]
      have : (db.recipe_likes.filter fun l =>
          !decide (l.recipe_id = r.id ∧ l.user_id = user.id)) = db.recipe_likes := by
        rw [List.filter_eq_self]
        intro a ha
        rw [List.filter_eq_nil_iff] at hnil
        rw [Bool.not_eq_true']
        exact Bool.eq_false_iff.mpr (hnil a ha)
      rw [this]
      simp
    simp only [hself] at h2
    rw [h1, h2]
    refine ⟨_, _, rfl, rfl, rfl, rfl, rfl, rfl, ?_, ?_, ?_, ?_⟩
    · intro rid uid
      exact Iff.rfl
    · intro l hl _
      exact hl
    · intro _
      rfl
    · intro h
      cases h

/-- C7 (amended) at the sample database, where `bob` has liked `alice`'s public recipe. -/
theorem toggleRecipeLike_twice_witness :
    ∃ d₁ d₂ : LikeJson,
      (toggleRecipeLike sampleLikedDb 5 "r2" sampleBob).1.data = some d₁ ∧
      (toggleRecipeLike (toggleRecipeLike sampleLikedDb 5 "r2" sampleBob).2 6 "r2"
        sampleBob).1.data = some d₂ ∧
      d₂.isLiked = !d₁.isLiked ∧ d₂.likesCount = likesCountOf sampleLikedDb "r2" := by
  obtain ⟨d₁, d₂, _, h1, _, h2, h3, h4, _⟩ :=
    toggleRecipeLike_twice sampleLikedDb 5 6 samplePublicRecipe sampleBob (by decide) (by decide)
      (by decide) (Or.inl rfl)
  exact ⟨d₁, d₂, h1, h2, h3, h4⟩

/-! ## C8: rating one's own recipe -/

/-- C8: for every stored recipe (public or private) and every body, `rateRecipe` called
by the author answers 400 without data, whatever the rating value, and leaves the database
(in particular `recipe_ratings`) unchanged. -/
theorem rateRecipe_own_recipe_400 (ratingId : String) (db : Db) (now : Nat) (r : RecipeRow)
    (user : AuthUser) (body : RateBody) (hr : r ∈ db.recipes) (hpk : RecipesPK db)
    (hown : r.author_id = user.id) :
    (rateRecipe ratingId db now r.id user body).1.status = 400 ∧
    (rateRecipe ratingId db now r.id user body).1.data = none ∧
    (rateRecipe ratingId db now r.id user body).2 = db := by
  obtain ⟨rest, hhead⟩ := recipesById_head db r hr hpk
  unfold rateRecipe
  by_cases hv : validateRating body = true
  · simp [hv, hhead, hown]
  · simp [hv]

/-- C8 at the sample database: `alice` rating her own private recipe, with a valid and
with an invalid rating. -/
theorem rateRecipe_own_recipe_400_witness :
    (rateRecipe "x1" sampleDb 4 "r1" sampleAlice { rating := .integer 5 }).1.status = 400 ∧
    (rateRecipe "x1" sampleDb 4 "r1" sampleAlice { rating := .integer 5 }).2 = sampleDb ∧
    (rateRecipe "x1" sampleDb 4 "r1" sampleAlice { rating := .integer 9 }).1.status = 400 ∧
    (rateRecipe "x1" sampleDb 4 "r1" sampleAlice { rating := .integer 9 }).2 = sampleDb := by
  have h5 := rateRecipe_own_recipe_400 "x1" sampleDb 4 samplePrivateRecipe sampleAlice
    { rating := .integer 5 } (by decide) (by decide) rfl
  have h9 := rateRecipe_own_recipe_400 "x1" sampleDb 4 samplePrivateRecipe sampleAlice
    { rating := .integer 9 } (by decide) (by decide) rfl
  exact ⟨h5.1, h5.2.2, h9.1, h9.2.2⟩

/-! ## C9: rating is an upsert -/

theorem ratings_map_update_keys (l : List RatingRow) (p : RatingRow → Prop) [DecidablePred p]
    (f : RatingRow → RatingRow)
    (hf : ∀ c, (f c).recipe_id = c.recipe_id ∧ (f c).user_id = c.user_id) :
    (l.map fun c => if p c then f c else c).map (fun c => (c.recipe_id, c.user_id)) =
      l.map fun c => (c.recipe_id, c.user_id) := by
  rw [List.map_map]
  apply List.map_congr_left
  intro c _
  by_cases hp : p c
  · simp [hp, (hf c).1, (hf c).2]
  · simp [hp]

theorem upsertRating_preserves_unique (ratingId : String) (db : Db) (now : Nat)
    (recipeId userId title : String) (rating : Int) (review : Option String)
    (h : RatingsUnique db) :
    RatingsUnique (upsertRating ratingId db now recipeId userId title rating review).2 := by
  have hkeys : RatingsUnique
      { db with recipe_ratings := db.recipe_ratings.map fun c =>
          if c.recipe_id = recipeId ∧ c.user_id = userId then
            { c with rating := rating, review := review, updated_at := now }
          else c } := by
    unfold RatingsUnique
    simp only
    rw [ratings_map_update_keys db.recipe_ratings
      (fun c => c.recipe_id = recipeId ∧ c.user_id = userId)
      (fun c => { c with rating := rating, review := review, updated_at := now })
      (fun c => ⟨rfl, rfl⟩)]
    exact h
  unfold upsertRating
  simp only
  split_ifs with hex hid
  · split
    · exact hkeys
    · exact hkeys
  · exact h
  · unfold RatingsUnique
    simp only [List.map_append, List.map_cons, List.map_nil]
    rw [List.nodup_append]
    refine ⟨h, List.nodup_singleton _, ?_⟩
    intro k hk hk'
    rw [List.mem_singleton] at hk'
    subst hk'
    rw [List.mem_map] at hk
    obtain ⟨c, hc, hkey⟩ := hk
    apply hex
    apply List.length_pos_of_mem (a := c)
    rw [List.mem_filter, decide_eq_true_eq]
    simp only [Prod.mk.injEq] at hkey
    exact ⟨hc, hkey⟩

/-- Every path of `rateRecipe` keeps "at most one rating row per (recipe, user)". -/
theorem rateRecipe_preserves_unique (ratingId : String) (db : Db) (now : Nat)
    (recipeId : String) (user : AuthUser) (body : RateBody) (h : RatingsUnique db) :
    RatingsUnique (rateRecipe ratingId db now recipeId user body).2 := by
  unfold rateRecipe
  simp only
  split_ifs
  · exact h
  · split
    · exact h
    · split_ifs
      · exact h
      · exact h
      · exact upsertRating_preserves_unique _ _ _ _ _ _ _ _ h

theorem validateRating_integer (body : RateBody) (h : validateRating body = true) :
    body.rating = .integer body.rating.value ∧ 1 ≤ body.rating.value ∧ body.rating.value ≤ 5 := by
  unfold validateRating at h
  cases hr : body.rating with
  | missing => simp [hr] at h
  | other => simp [hr] at h
  | integer n =>
    simp only [hr, Bool.and_eq_true, decide_eq_true_eq] at h
    exact ⟨rfl, h.1.1, h.1.2⟩

/-- The update branch of `upsertRating`. -/
theorem upsertRating_existing (ratingId : String) (db : Db) (now : Nat)
    (recipeId userId title : String) (rating : Int) (review : Option String)
    (hex : ∃ c ∈ db.recipe_ratings, c.recipe_id = recipeId ∧ c.user_id = userId) :
    ∃ data,
      (upsertRating ratingId db now recipeId userId title rating review).1.status = 200 ∧
      (upsertRating ratingId db now recipeId userId title rating review).1.data = some data ∧
      data.rating.rating = rating ∧ data.rating.review = review ∧
      data.recipe.ratingsCount = ratingsCountOf
        (upsertRating ratingId db now recipeId userId title rating review).2 recipeId ∧
      (upsertRating ratingId db now recipeId userId title rating review).2 =
        { db with recipe_ratings := db.recipe_ratings.map fun c =>
            if c.recipe_id = recipeId ∧ c.user_id = userId then
              { c with rating := rating, review := review, updated_at := now }
            else c } := by
  obtain ⟨c₀, hc₀, hkey⟩ := hex
  have hpos : (db.recipe_ratings.filter fun c =>
      decide (c.recipe_id = recipeId ∧ c.user_id = userId)).length > 0 := by
    apply List.length_pos_of_mem (a := c₀)
    rw [List.mem_filter, decide_eq_true_eq]
    exact ⟨hc₀, hkey⟩
  unfold upsertRating
  simp only [hpos, if_true]
  cases hf : db.recipe_ratings.filter fun c =>
      decide (c.recipe_id = recipeId ∧ c.user_id = userId) with
  | nil =>
    rw [hf] at hpos
    exact absurd hpos (Nat.lt_irrefl 0)
  | cons a t => exact ⟨_, rfl, rfl, rfl, rfl, rfl, rfl⟩

/-- The insert branch of `upsertRating`. -/
theorem upsertRating_new (ratingId : String) (db : Db) (now : Nat)
    (recipeId userId title : String) (rating : Int) (review : Option String)
    (hnone : ∀ c ∈ db.recipe_ratings, ¬ (c.recipe_id = recipeId ∧ c.user_id = userId))
    (hfresh : ∀ c ∈ db.recipe_ratings, c.id ≠ ratingId) :
    ∃ data,
      (upsertRating ratingId db now recipeId userId title rating review).1.status = 200 ∧
      (upsertRating ratingId db now recipeId userId title rating review).1.data = some data ∧
      data.rating.rating = rating ∧ data.rating.review = review ∧
      data.recipe.ratingsCount = ratingsCountOf
        (upsertRating ratingId db now recipeId userId title rating review).2 recipeId ∧
      (upsertRating ratingId db now recipeId userId title rating review).2 =
        { db with recipe_ratings := db.recipe_ratings ++
            [{ id := ratingId, recipe_id := recipeId, user_id := userId, rating := rating,
               review := review, created_at := now, updated_at := now }] } := by
  have hnil : (db.recipe_ratings.filter fun c =>
      decide (c.recipe_id = recipeId ∧ c.user_id = userId)) = [] := by
    rw [List.filter_eq_nil_iff]
    intro c hc
    rw [decide_eq_true_eq]
    exact hnone c hc
  have hany : (db.recipe_ratings.any fun c => decide (c.id = ratingId)) = false := by
    rw [List.any_eq_false]
    intro c hc
    rw [decide_eq_true_eq]
    exact hfresh c hc
  unfold upsertRating
  simp only
  split_ifs with h1 h2
  · rw [hnil] at h1
    exact absurd h1 (Nat.lt_irrefl 0)
  · rw [hany] at h2
    cases h2
  · exact ⟨_, rfl, rfl, rfl, rfl, rfl, rfl⟩

/-- C9: `rateRecipe` keeps "at most one rating row per (recipe, user)" on every path. For
a valid request on a stored public recipe by a user other than its author: when the user
has no rating for the recipe exactly one row is appended (given a fresh id); when a rating
exists its `rating` and `review` are overwritten and the number of rows is unchanged; in
both cases the response is 200, the returned `ratingsCount` is the number of rating rows of
the recipe afterwards and the returned rating is the submitted one. -/
theorem rateRecipe_upsert (ratingId : String) (db : Db) (now : Nat) (recipeId : String)
    (user : AuthUser) (body : RateBody) (huniq : RatingsUnique db) :
    RatingsUnique (rateRecipe ratingId db now recipeId user body).2 ∧
    ∀ r ∈ db.recipes, r.id = recipeId → RecipesPK db → validateRating body = true →
      r.is_public = some true → r.author_id ≠ user.id →
      ((∀ c ∈ db.recipe_ratings, ¬ (c.recipe_id = recipeId ∧ c.user_id = user.id)) →
        (∀ c ∈ db.recipe_ratings, c.id ≠ ratingId) →
        (rateRecipe ratingId db now recipeId user body).2 =
          { db with recipe_ratings := db.recipe_ratings ++
              [{ id := ratingId, recipe_id := recipeId, user_id := user.id,
                 rating := body.rating.value, review := orNull (body.review.map jsTrim),
                 created_at := now, updated_at := now }] } ∧
        ∃ data, (rateRecipe ratingId db now recipeId user body).1.status = 200 ∧
          (rateRecipe ratingId db now recipeId user body).1.data = some data ∧
          body.rating = .integer data.rating.rating ∧
          data.recipe.ratingsCount =
            ratingsCountOf (rateRecipe ratingId db now recipeId user body).2 recipeId) ∧
      ((∃ c ∈ db.recipe_ratings, c.recipe_id = recipeId ∧ c.user_id = user.id) →
        (rateRecipe ratingId db now recipeId user body).2 =
          { db with recipe_ratings := db.recipe_ratings.map fun c =>
              if c.recipe_id = recipeId ∧ c.user_id = user.id then
                { c with rating := body.rating.value,
                         review := orNull (body.review.map jsTrim), updated_at := now }
              else c } ∧
        (rateRecipe ratingId db now recipeId user body).2.recipe_ratings.length =
          db.recipe_ratings.length ∧
        ∃ data, (rateRecipe ratingId db now recipeId user body).1.status = 200 ∧
          (rateRecipe ratingId db now recipeId user body).1.data = some data ∧
          body.rating = .integer data.rating.rating ∧
          data.rating.review = orNull (body.review.map jsTrim) ∧
          data.recipe.ratingsCount =
            ratingsCountOf (rateRecipe ratingId db now recipeId user body).2 recipeId) := by
  refine ⟨rateRecipe_preserves_unique ratingId db now recipeId user body huniq, ?_⟩
  intro r hr hid hpk hvalid hpub hother
  subst hid
  obtain ⟨rest, hhead⟩ := recipesById_head db r hr hpk
  obtain ⟨hint, _, _⟩ := validateRating_integer body hvalid
  have hres : rateRecipe ratingId db now r.id user body =
      upsertRating ratingId db now r.id user.id r.title body.rating.value
        (orNull (body.review.map jsTrim)) := by
    unfold rateRecipe
    simp [hvalid, hhead, hpub, truthyBool, hother]
  rw [hres]
  constructor
  · intro hnone hfresh
    obtain ⟨data, hs, hd, hrat, _, hcount, hdb⟩ :=
      upsertRating_new ratingId db now r.id user.id r.title body.rating.value
        (orNull (body.review.map jsTrim)) hnone hfresh
    exact ⟨hdb, data, hs, hd, by rw [hrat]; exact hint, hcount⟩
  · intro hex
    obtain ⟨data, hs, hd, hrat, hrev, hcount, hdb⟩ :=
      upsertRating_existing ratingId db now r.id user.id r.title body.rating.value
        (orNull (body.review.map jsTrim)) hex
    refine ⟨hdb, ?_, data, hs, hd, by rw [hrat]; exact hint, hrev, hcount⟩
    rw [hdb]
    simp

/-- C9 at the sample database: `bob`, who rated the public recipe 5, rates it 4; the one
row is overwritten and the count stays 1. -/
theorem rateRecipe_upsert_witness :
    RatingsUnique sampleRatedDb ∧
    RatingsUnique (rateRecipe "g2" sampleRatedDb 8 "r2" sampleBob
      { rating := .integer 4, review := some " Very good " }).2 ∧
    (rateRecipe "g2" sampleRatedDb 8 "r2" sampleBob
      { rating := .integer 4, review := some " Very good " }).2.recipe_ratings =
      [{ id := "g1", recipe_id := "r2", user_id := "u2", rating := 4,
         review := some "Very good", created_at := 2, updated_at := 8 }] := by
  have huniq : RatingsUnique sampleRatedDb := by decide
  have h := rateRecipe_upsert "g2" sampleRatedDb 8 "r2" sampleBob
    { rating := .integer 4, review := some " Very good " } huniq
  refine ⟨huniq, h.1, ?_⟩
  have h2 := (h.2 samplePublicRecipe (by decide) rfl (by decide) (by decide) rfl
    (by decide)).2 ⟨_, List.mem_singleton.mpr rfl, rfl, rfl⟩
  rw [h2.1]
  decide

/-! ## C10: replacing the ingredients -/

theorem roundDiv_mul (k b : Int) (hb : 0 < b) : roundDiv (k * b) b = k := by
  unfold roundDiv
  have h2b : (2 * b) ≠ 0 := by omega
  by_cases hk : 0 ≤ k * b
  · rw [if_pos hk]
    have : 2 * (k * b) + b = b + 2 * b * k := by ring
    rw [this, Int.add_mul_ediv_left _ _ h2b, Int.ediv_eq_zero_of_lt (by omega) (by omega)]
    simp
  · rw [if_neg hk]
    have : 2 * -(k * b) + b = b + 2 * b * (-k) := by ring
    rw [this, Int.add_mul_ediv_left _ _ h2b, Int.ediv_eq_zero_of_lt (by omega) (by omega)]
    simp

/-- A quantity written with at most two decimal places is stored exactly. -/
theorem toHundredths_exact (d : Decimal) (h : d.scale ≤ 2) :
    ((d.toHundredths : Int) : ℚ) / 100 = d.value := by
  obtain ⟨m, s⟩ := d
  simp only at h
  have hs : m * 100 = (m * 10 ^ (2 - s)) * 10 ^ s := by
    rw [mul_assoc, ← pow_add, Nat.sub_add_cancel h]
    norm_num
  unfold Decimal.toHundredths Decimal.value
  simp only
  rw [hs, roundDiv_mul _ _ (by positivity)]
  have h10 : ((10 : ℚ) ^ s) ≠ 0 := by positivity
  field_simp
  rw [mul_assoc, ← pow_add, Nat.sub_add_cancel h]
  norm_num

theorem insertIngredients_eq (uuid : Nat → String) (recipeId : String) (now : Nat)
    (ings : List IngredientInput) :
    ∀ (i : Nat) (base table : List IngredientRow),
      insertIngredients uuid recipeId now i ings base = some table →
      table = base ++ ingredientRows uuid recipeId now i ings := by
  induction ings with
  | nil =>
    intro i base table h
    simp only [insertIngredients, Option.some.injEq] at h
    simp [ingredientRows, h]
  | cons a t ih =>
    intro i base table h
    unfold insertIngredients at h
    split_ifs at h
    have := ih (i + 1) _ table h
    rw [this]
    simp [ingredientRows]

theorem ingredientRows_recipe_id (uuid : Nat → String) (recipeId : String) (now : Nat)
    (ings : List IngredientInput) :
    ∀ i, ∀ row ∈ ingredientRows uuid recipeId now i ings,
      row.recipe_id = recipeId ∧ (i : Int) + 1 ≤ row.order_index := by
  induction ings with
  | nil =>
    intro i row h
    simp [ingredientRows] at h
  | cons a t ih =>
    intro i row h
    simp only [ingredientRows, List.mem_cons] at h
    rcases h with rfl | h
    · exact ⟨rfl, le_refl _⟩
    · obtain ⟨h1, h2⟩ := ih (i + 1) row h
      refine ⟨h1, ?_⟩
      omega

theorem ingredientRows_sorted (uuid : Nat → String) (recipeId : String) (now : Nat)
    (ings : List IngredientInput) :
    ∀ i, List.Sorted (fun a b : IngredientRow => a.order_index ≤ b.order_index)
      (ingredientRows uuid recipeId now i ings) := by
  induction ings with
  | nil =>
    intro i
    simp [ingredientRows]
  | cons a t ih =>
    intro i
    simp only [ingredientRows, List.sorted_cons]
    refine ⟨?_, ih (i + 1)⟩
    intro b hb
    have := (ingredientRows_recipe_id uuid recipeId now t (i + 1) b hb).2
    simp only [ingredientRow]
    push_cast at this
    omega

theorem ingredientRows_json (uuid : Nat → String) (recipeId : String) (now : Nat)
    (ings : List IngredientInput) :
    ∀ i, (ingredientRows uuid recipeId now i ings).map ingredientJson =
      expectedIngredients uuid i ings := by
  induction ings with
  | nil =>
    intro i
    rfl
  | cons a t ih =>
    intro i
    simp only [ingredientRows, expectedIngredients, List.map_cons, ih (i + 1)]
    rfl

/-- After a successful insert loop on a table without rows of the recipe, the ingredient
query returns the new rows in array order. -/
theorem ingredientsOf_after_insert (uuid : Nat → String) (db : Db) (recipeId : String)
    (now : Nat) (ings : List IngredientInput) (base : List IngredientRow)
    (hbase : ∀ row ∈ base, row.recipe_id ≠ recipeId)
    (htable : db.recipe_ingredients = base ++ ingredientRows uuid recipeId now 0 ings) :
    (ingredientsOf db recipeId).map ingredientJson = expectedIngredients uuid 0 ings := by
  have hfilter : db.recipe_ingredients.filter (fun i => decide (i.recipe_id = recipeId)) =
      ingredientRows uuid recipeId now 0 ings := by
    rw [htable, List.filter_append]
    have h1 : base.filter (fun i => decide (i.recipe_id = recipeId)) = [] := by
      rw [List.filter_eq_nil_iff]
      intro row hrow
      simpa using hbase row hrow
    have h2 : (ingredientRows uuid recipeId now 0 ings).filter
        (fun i => decide (i.recipe_id = recipeId)) = ingredientRows uuid recipeId now 0 ings := by
      rw [List.filter_eq_self]
      intro row hrow
      simpa using (ingredientRows_recipe_id uuid recipeId now ings 0 row hrow).1
    rw [h1, h2, List.nil_append]
  unfold ingredientsOf
  rw [hfilter, List.Sorted.insertionSort_eq (ingredientRows_sorted uuid recipeId now ings 0)]
  exact ingredientRows_json uuid recipeId now ings 0

/-- What a successful run of the update statements leaves: `users` untouched, the rows of
`recipes` rewritten without change of `id` and `author_id`, and, when `ingredients` is
given, the ingredient table produced by the insert loop on the other recipes' rows. -/
theorem updateRecipeStatements_some (uuid : Nat → String) (db db' : Db) (now : Nat)
    (id : String) (body : RecipeBody)
    (h : updateRecipeStatements uuid db now id body = some db') :
    db'.users = db.users ∧
    (∃ f : RecipeRow → RecipeRow, (∀ r, (f r).id = r.id ∧ (f r).author_id = r.author_id) ∧
      db'.recipes = db.recipes.map f) ∧
    ∀ ings, body.ingredients = some ings →
      insertIngredients uuid id now 0 ings
        (db.recipe_ingredients.filter fun i => decide (i.recipe_id ≠ id)) =
        some db'.recipe_ingredients := by
  unfold updateRecipeStatements at h
  split at h
  · cases h
  · rename_i difficulty _
    split_ifs at h
    simp only [Option.bind_eq_some] at h
    obtain ⟨db2, hdb2, hcat⟩ := h
    have hframe : db'.users = db2.users ∧ db'.recipes = db2.recipes ∧
        db'.recipe_ingredients = db2.recipe_ingredients := by
      split at hcat
      · cases hcat
        exact ⟨rfl, rfl, rfl⟩
      · simp only [Option.map_eq_some'] at hcat
        obtain ⟨table, _, rfl⟩ := hcat
        exact ⟨rfl, rfl, rfl⟩
    obtain ⟨hu, hr, hi⟩ := hframe
    rw [hu, hr, hi]
    have hf : ∀ r : RecipeRow,
        (if r.id = id then
          { r with title := body.title, description := body.description,
                   prep_time_minutes := body.prepTimeMinutes,
                   cook_time_minutes := body.cookTimeMinutes, servings := body.servings,
                   difficulty := difficulty, image_url := orNull body.imageUrl,
                   instructions := body.instructions, is_public := body.isPublic,
                   updated_at := now }
          else r).id = r.id ∧
        (if r.id = id then
          { r with title := body.title, description := body.description,
                   prep_time_minutes := body.prepTimeMinutes,
                   cook_time_minutes := body.cookTimeMinutes, servings := body.servings,
                   difficulty := difficulty, image_url := orNull body.imageUrl,
                   instructions := body.instructions, is_public := body.isPublic,
                   updated_at := now }
          else r).author_id = r.author_id := by
      intro r
      split_ifs <;> exact ⟨rfl, rfl⟩
    cases hing : body.ingredients with
    | none =>
      simp only [hing, Option.some.injEq] at hdb2
      subst hdb2
      exact ⟨rfl, ⟨_, hf, rfl⟩, fun ings h => by cases h⟩
    | some ings =>
      simp only [hing, Option.map_eq_some'] at hdb2
      obtain ⟨table, htable, rfl⟩ := hdb2
      refine ⟨rfl, ⟨_, hf, rfl⟩, ?_⟩
      intro ings' h
      cases h
      exact htable

/-- A 200 from `updateRecipe` means: the stored recipe is owned by the requester, the
statements succeeded, and the new state is their result. -/
theorem updateRecipe_ok (uuid : Nat → String) (db : Db) (now : Nat) (valid : Bool)
    (id : String) (user : AuthUser) (body : RecipeBody)
    (h : (updateRecipe uuid db now valid id user body).1.status = 200) :
    ∃ existing rest, recipesById db id = existing :: rest ∧ existing.author_id = user.id ∧
      updateRecipeStatements uuid db now id body =
        some (updateRecipe uuid db now valid id user body).2 := by
  unfold updateRecipe at h ⊢
  simp only at h ⊢
  split_ifs at h ⊢ with hv
  · simp at h
  · cases hrows : recipesById db id with
    | nil => simp [hrows] at h
    | cons existing rest =>
      simp only [hrows] at h ⊢
      split_ifs at h ⊢ with hown
      · simp at h
      · cases hst : updateRecipeStatements uuid db now id body with
        | none => simp [hst] at h
        | some db' =>
          refine ⟨existing, rest, rfl, ?_, rfl⟩
          simpa using hown

theorem expectedIngredients_length (uuid : Nat → String) (ings : List IngredientInput) :
    ∀ i, (expectedIngredients uuid i ings).length = ings.length := by
  induction ings with
  | nil =>
    intro i
    rfl
  | cons a t ih =>
    intro i
    simp [expectedIngredients, ih (i + 1)]

theorem expectedIngredients_getElem? (uuid : Nat → String) (ings : List IngredientInput) :
    ∀ (i k : Nat) (ing : IngredientInput), ings[k]? = some ing →
      (expectedIngredients uuid i ings)[k]? =
        some { id := uuid (i + k), name := ing.name, quantity := ing.quantity.toHundredths,
               unit := ing.unit, notes := orNull ing.notes,
               orderIndex := ((i + k : Nat) : Int) + 1 } := by
  induction ings with
  | nil =>
    intro i k ing h
    simp at h
  | cons a t ih =>
    intro i k ing h
    cases k with
    | zero =>
      simp only [List.getElem?_cons_zero, Option.some.injEq] at h
      subst h
      simp [expectedIngredients]
    | succ k =>
      simp only [List.getElem?_cons_succ] at h
      have := ih (i + 1) k ing h
      simp only [expectedIngredients, List.getElem?_cons_succ, this]
      have hik : i + 1 + k = i + (k + 1) := by omega
      rw [hik]

/-- What `getRecipeById` returns after a successful `updateRecipe`, in terms of the body
the handler reads: exactly the ingredients of the body, newly inserted, in array order
with `orderIndex` 1..n, each with the name and unit of the body, its quantity rounded to
two decimal places and its notes, where absent or empty notes are `null`. -/
theorem updateRecipe_ingredients_of_body (uuid : Nat → String) (db : Db) (now now' : Nat)
    (id : String) (user : AuthUser) (body : RecipeBody) (ings : List IngredientInput)
    (hpk : RecipesPK db) (hfk : RecipesAuthorFK db) (hing : body.ingredients = some ings)
    (hok : (updateRecipe uuid db now true id user body).1.status = 200) :
    ∃ recipe,
      getRecipeById (updateRecipe uuid db now true id user body).2 now' id (some user) =
        { status := 200, data := some recipe, timestamp := now' } ∧
      recipe.ingredients = expectedIngredients uuid 0 ings ∧
      recipe.ingredients.length = ings.length ∧
      ∀ (k : Nat) (ing : IngredientInput), ings[k]? = some ing →
        ∃ j, recipe.ingredients[k]? = some j ∧ j.id = uuid k ∧ j.orderIndex = (k : Int) + 1 ∧
          j.name = ing.name ∧ j.unit = ing.unit ∧ j.notes = orNull ing.notes ∧
          j.quantity = ing.quantity.toHundredths ∧
          (ing.quantity.scale ≤ 2 → ((j.quantity : Int) : ℚ) / 100 = ing.quantity.value) := by
  obtain ⟨existing, rest, hrows, hown, hst⟩ := updateRecipe_ok uuid db now true id user body hok
  generalize (updateRecipe uuid db now true id user body).2 = db' at hst ⊢
  obtain ⟨husers, ⟨f, hf, hrecipes⟩, hins⟩ := updateRecipeStatements_some uuid db db' now id body hst
  have htable := insertIngredients_eq uuid id now ings 0 _ _ (hins ings hing)
  have hjson := ingredientsOf_after_insert uuid db' id now ings _
    (by
      intro row hrow
      rw [List.mem_filter, decide_eq_true_eq] at hrow
      exact hrow.2) htable
  -- the stored recipe and its author
  have hex : existing ∈ db.recipes ∧ existing.id = id := by
    have : existing ∈ recipesById db id := by rw [hrows]; exact List.mem_cons_self _ _
    unfold recipesById at this
    rw [List.mem_filter, decide_eq_true_eq] at this
    exact this
  obtain ⟨u₀, hu₀, hu₀id⟩ := hfk existing hex.1
  have hmem : (f existing, u₀) ∈ recipeWithAuthor db' id := by
    simp only [recipeWithAuthor, List.mem_flatMap, List.mem_filter, List.mem_map,
      decide_eq_true_eq]
    refine ⟨f existing, ⟨?_, ?_⟩, u₀, ⟨?_, ?_⟩, rfl⟩
    · rw [hrecipes]
      exact List.mem_map_of_mem f hex.1
    · rw [(hf existing).1]
      exact hex.2
    · rw [husers]
      exact hu₀
    · rw [(hf existing).2]
      exact hu₀id
  cases hrw : recipeWithAuthor db' id with
  | nil =>
    rw [hrw] at hmem
    exact absurd hmem (List.not_mem_nil _)
  | cons p tail =>
    have hp : p ∈ recipeWithAuthor db' id := by rw [hrw]; exact List.mem_cons_self _ _
    obtain ⟨hp1, hp2, _, hp4⟩ := recipeWithAuthor_mem db' id p hp
    rw [hrecipes, List.mem_map] at hp1
    obtain ⟨r₀, hr₀, hfr₀⟩ := hp1
    have hr₀id : r₀.id = existing.id := by
      rw [← (hf r₀).1, hfr₀, hp2, hex.2]
    have hr₀eq : r₀ = existing := hpk r₀ hr₀ existing hex.1 hr₀id
    have hauthor : p.2.id = user.id := by
      rw [hp4, ← hfr₀, (hf r₀).2, hr₀eq, hown]
    obtain ⟨p1, p2⟩ := p
    simp only at hauthor
    have hcomplete : ∃ recipe, getCompleteRecipeById db' id (some user.id) = some recipe ∧
        recipe.ingredients = (ingredientsOf db' id).map ingredientJson ∧
        recipe.author.id = user.id := by
      unfold getCompleteRecipeById
      rw [hrw]
      exact ⟨_, rfl, rfl, hauthor⟩
    obtain ⟨recipe, hrecipe, hingr, hauth⟩ := hcomplete
    rw [hjson] at hingr
    refine ⟨recipe, ?_, hingr, ?_, ?_⟩
    · simp [getRecipeById, hrecipe, hauth]
    · rw [hingr]
      exact expectedIngredients_length uuid ings 0
    · intro k ing hk
      have hget := expectedIngredients_getElem? uuid ings 0 k ing hk
      rw [hingr, hget]
      simp only [Nat.zero_add]
      exact ⟨_, rfl, rfl, rfl, rfl, rfl, rfl, rfl, fun hs => toHundredths_exact ing.quantity hs⟩

/-- C10 as stated fails: after a successful update that supplies the name ` Flour `, the
number `0.125` and notes of two spaces, `getRecipeById` returns the name `Flour` (the
chain `validateRecipe` trims it), the quantity `0.13` (the column is `DECIMAL(10,2)`) and
the notes `null` (the trimmed notes are empty and the handler stores `notes || null`). -/
theorem putRecipe_trims_and_rounds :
    (putRecipe sampleNumberText sampleUuid sampleIngredientDb 3 true "r2" sampleAlice
      sampleUpdateRequest).1.status = 200 ∧
    (getRecipeById (putRecipe sampleNumberText sampleUuid sampleIngredientDb 3 true "r2"
        sampleAlice sampleUpdateRequest).2 4 "r2" (some sampleAlice)).data.map
      (fun recipe => recipe.ingredients.map fun i => (i.name, i.quantity, i.notes)) =
      some [("Flour", 13, none), ("Water", 250, some "warm")] ∧
    "Flour" ≠ " Flour " ∧
    ((13 : Int) : ℚ) / 100 ≠ Decimal.value { mantissa := 125, scale := 3 } ∧
    (none : Option String) ≠ some "  " := by
  refine ⟨by decide, by decide, by decide, ?_, by decide⟩
  unfold Decimal.value
  norm_num

/-- C10, amended: after a successful `PUT /recipes/:id` whose body carries the ingredients
`[i1..in]`, `getRecipeById` by the owner answers 200 with exactly `n` ingredients, the
newly inserted ones, in array order with `orderIndex` 1..n. Each has the supplied name and
unit with the white space at both ends removed; the supplied notes trimmed in the same
way, where absent notes and notes that are empty once trimmed are returned as `null`; and
the supplied quantity, as it reaches the database (a JSON number as JavaScript prints the
double read from it, a numeric string as it is written), rounded to two decimal places,
which is that numeral itself when it has at most two decimals. -/
theorem putRecipe_replaces_ingredients (numberText : Decimal → Decimal) (uuid : Nat → String)
    (db : Db) (now now' : Nat) (id : String) (user : AuthUser) (request : RecipeRequest)
    (ings : List IngredientRequest)
    (hpk : RecipesPK db) (hfk : RecipesAuthorFK db) (hing : request.ingredients = some ings)
    (hok : (putRecipe numberText uuid db now true id user request).1.status = 200) :
    ∃ recipe,
      getRecipeById (putRecipe numberText uuid db now true id user request).2 now' id
          (some user) =
        { status := 200, data := some recipe, timestamp := now' } ∧
      recipe.ingredients.length = ings.length ∧
      ∀ (k : Nat) (ing : IngredientRequest), ings[k]? = some ing →
        ∃ j, recipe.ingredients[k]? = some j ∧ j.id = uuid k ∧ j.orderIndex = (k : Int) + 1 ∧
          j.name = jsTrim ing.name ∧ j.unit = jsTrim ing.unit ∧
          j.notes = orNull (ing.notes.map jsTrim) ∧
          j.quantity = (ing.quantity.sent numberText).toHundredths ∧
          ((ing.quantity.sent numberText).scale ≤ 2 →
            ((j.quantity : Int) : ℚ) / 100 = (ing.quantity.sent numberText).value) := by
  have hing' : (readRecipeBody numberText request).ingredients =
      some (ings.map (readIngredient numberText)) := by
    unfold readRecipeBody
    simp only [hing, Option.map_some']
  unfold putRecipe at hok ⊢
  obtain ⟨recipe, hget, _, hlen, hall⟩ :=
    updateRecipe_ingredients_of_body uuid db now now' id user
      (readRecipeBody numberText request) (ings.map (readIngredient numberText)) hpk hfk hing' hok
  refine ⟨recipe, hget, ?_, ?_⟩
  · rw [hlen, List.length_map]
  · intro k ing hk
    have hk' : (ings.map (readIngredient numberText))[k]? =
        some (readIngredient numberText ing) := by
      rw [List.getElem?_map, hk]
      rfl
    obtain ⟨j, hj, hid, hidx, hname, hunit, hnotes, hq, hexact⟩ := hall k _ hk'
    exact ⟨j, hj, hid, hidx, hname, hunit, hnotes, hq, hexact⟩

/-- C10 (amended) at the sample database: `alice` replaces the single stored ingredient
of her public recipe by two. -/
theorem putRecipe_replaces_ingredients_witness :
    ∃ recipe,
      getRecipeById (putRecipe sampleNumberText sampleUuid sampleIngredientDb 3 true "r2"
        sampleAlice sampleUpdateRequest).2 4 "r2" (some sampleAlice) =
        { status := 200, data := some recipe, timestamp := 4 } ∧
      recipe.ingredients.length = 2 ∧
      (recipe.ingredients[0]?).map (fun j => (j.id, j.orderIndex, j.name, j.unit, j.notes,
        j.quantity)) = some ("i", 1, "Flour", "kg", none, 13) := by
  obtain ⟨recipe, h1, h2, h3⟩ :=
    putRecipe_replaces_ingredients sampleNumberText sampleUuid sampleIngredientDb 3 4 "r2"
      sampleAlice sampleUpdateRequest
      [ { name := " Flour ", quantity := .number { mantissa := 125, scale := 3 }, unit := "kg",
          notes := some "  " },
        { name := "Water", quantity := .number { mantissa := 25, scale := 1 }, unit := "dl",
          notes := some "warm" } ]
      (by decide) (by decide) rfl (by decide)
  obtain ⟨j, hj, hid, hidx, hname, hunit, hnotes, hq, _⟩ := h3 0 _ rfl
  refine ⟨recipe, h1, h2, ?_⟩
  rw [hj, Option.map_some', hid, hidx, hname, hunit, hnotes, hq]
  rfl

/-! ## C11: atomicity of `updateRecipe` -/

/-- Without a fault the handler is `updateRecipe`. -/
theorem updateRecipeWithFault_none (uuid : Nat → String) (db : Db) (now : Nat) (valid : Bool)
    (id : String) (user : AuthUser) (body : RecipeBody) :
    updateRecipeWithFault uuid db now valid id user body none =
      updateRecipe uuid db now valid id user body := by
  unfold updateRecipeWithFault updateRecipe
  simp only [Bool.false_eq_true, if_false]

/-- A failure inside the transaction (a rejected statement, or a fault up to `COMMIT`) is
rolled back: the response is 500 and the database is what it was. -/
theorem updateRecipeWithFault_rollback (uuid : Nat → String) (db : Db) (now : Nat)
    (id : String) (user : AuthUser) (body : RecipeBody) (fault : Option Nat)
    (existing : RecipeRow) (rest : List RecipeRow) (hrows : recipesById db id = existing :: rest)
    (hown : existing.author_id = user.id)
    (hfail : (∃ k, fault = some k ∧ k < updateStatementCount body) ∨
      updateRecipeStatements uuid db now id body = none) :
    updateRecipeWithFault uuid db now true id user body fault =
      ({ status := 500, error := some "Failed to update recipe",
         message := some "Internal server error", data := none, timestamp := now }, db) := by
  unfold updateRecipeWithFault
  simp only [Bool.not_true, Bool.false_eq_true, if_false, hrows, hown, ne_eq, not_true_eq_false]
  rcases hfail with ⟨k, rfl, hk⟩ | hnone
  · simp [hk]
  · rw [hnone]
    split_ifs <;> rfl

/-- C11 fails on the code: the owner's update of the sample recipe runs six statements
(`BEGIN` .. `COMMIT`); when the next query, the first one of `getCompleteRecipeById`,
throws, the response is the 500 of a failed update although the transaction is committed:
the stored ingredient is gone and the two new ones are in the table. -/
theorem updateRecipeWithFault_after_commit_keeps_write :
    updateStatementCount sampleUpdateBody = 6 ∧
    (updateRecipeWithFault sampleUuid sampleIngredientDb 3 true "r2" sampleAlice
      sampleUpdateBody (some 6)).1 =
      { status := 500, error := some "Failed to update recipe",
        message := some "Internal server error", data := none, timestamp := 3 } ∧
    (updateRecipeWithFault sampleUuid sampleIngredientDb 3 true "r2" sampleAlice
      sampleUpdateBody (some 6)).2 ≠ sampleIngredientDb ∧
    (updateRecipeWithFault sampleUuid sampleIngredientDb 3 true "r2" sampleAlice
      sampleUpdateBody (some 6)).2.recipe_ingredients.map (fun i => i.name) =
      ["Flour", "Water"] ∧
    sampleIngredientDb.recipe_ingredients.map (fun i => i.name) = ["Yeast"] := by
  decide

/-! ## C12: only the owner updates or deletes -/

/-- C12: for a stored recipe and a requester who is not its author, `updateRecipe` (with a
valid body) and `deleteRecipe` answer 403 and return the database unchanged; for an id
that no recipe has, both answer 404 and return the database unchanged. -/
theorem updateRecipe_deleteRecipe_owner_only (uuid : Nat → String) (db : Db) (now : Nat)
    (user : AuthUser) (body : RecipeBody) (hpk : RecipesPK db) :
    (∀ r ∈ db.recipes, r.author_id ≠ user.id →
      updateRecipe uuid db now true r.id user body =
        ({ status := 403, error := some "Access denied",
           message := some "You can only update your own recipes", data := none,
           timestamp := now }, db) ∧
      deleteRecipe db now r.id user =
        ({ status := 403, error := some "Access denied",
           message := some "You can only delete your own recipes", data := none,
           timestamp := now }, db)) ∧
    (∀ id : String, (∀ r ∈ db.recipes, r.id ≠ id) →
      updateRecipe uuid db now true id user body =
        ({ status := 404, error := some "Recipe not found", message := none, data := none,
           timestamp := now }, db) ∧
      deleteRecipe db now id user =
        ({ status := 404, error := some "Recipe not found", message := none, data := none,
           timestamp := now }, db)) := by
  constructor
  · intro r hr hother
    obtain ⟨rest, hhead⟩ := recipesById_head db r hr hpk
    constructor
    · unfold updateRecipe
      simp [hhead, hother]
    · unfold deleteRecipe
      simp [hhead, hother]
  · intro id habs
    have hnil := recipesById_eq_nil db id habs
    constructor
    · unfold updateRecipe
      simp [hnil]
    · unfold deleteRecipe
      simp [hnil]

/-- C12 at the sample database: `bob` may neither update nor delete `alice`'s recipe,
and an unknown id is not found. -/
theorem updateRecipe_deleteRecipe_owner_only_witness :
    (updateRecipe sampleUuid sampleIngredientDb 3 true "r2" sampleBob sampleUpdateBody).1.status
      = 403 ∧
    (updateRecipe sampleUuid sampleIngredientDb 3 true "r2" sampleBob sampleUpdateBody).2 =
      sampleIngredientDb ∧
    (deleteRecipe sampleIngredientDb 3 "r2" sampleBob).1.status = 403 ∧
    (deleteRecipe sampleIngredientDb 3 "r2" sampleBob).2 = sampleIngredientDb ∧
    (deleteRecipe sampleIngredientDb 3 "r9" sampleBob).1.status = 404 ∧
    (updateRecipe sampleUuid sampleIngredientDb 3 true "r9" sampleBob sampleUpdateBody).1.status
      = 404 := by
  have h := updateRecipe_deleteRecipe_owner_only sampleUuid sampleIngredientDb 3 sampleBob
    sampleUpdateBody (by decide)
  have h403 := h.1 samplePublicRecipe (by decide) (by decide)
  have h404 := h.2 "r9" (by decide)
  refine ⟨?_, ?_, ?_, ?_, ?_, ?_⟩
  · rw [show (samplePublicRecipe.id = "r2") from rfl] at h403
    rw [h403.1]
  · rw [show (samplePublicRecipe.id = "r2") from rfl] at h403
    rw [h403.1]
  · rw [show (samplePublicRecipe.id = "r2") from rfl] at h403
    rw [h403.2]
  · rw [show (samplePublicRecipe.id = "r2") from rfl] at h403
    rw [h403.2]
  · rw [h404.2]
  · rw [h404.1]

/-! ## The cascade on replies -/

theorem repliesTo_iff (ids : List String) (c : CommentRow) :
    repliesTo ids c = true ↔ ∃ p, c.parent_comment_id = some p ∧ p ∈ ids := by
  unfold repliesTo
  cases h : c.parent_comment_id with
  | none => simp
  | some p => simp

theorem mem_cascadeStep (comments : List CommentRow) (ids : List String) (x : String) :
    x ∈ cascadeStep comments ids ↔
      x ∈ ids ∨ ∃ c ∈ comments, c.id = x ∧ c.id ∉ ids ∧
        ∃ p, c.parent_comment_id = some p ∧ p ∈ ids := by
  unfold cascadeStep
  simp only [List.mem_append, List.mem_map, List.mem_filter, Bool.and_eq_true,
    decide_eq_true_eq, repliesTo_iff]
  constructor
  · rintro (h | ⟨c, ⟨hc, hnot, hrep⟩, rfl⟩)
    · exact Or.inl h
    · exact Or.inr ⟨c, hc, rfl, hnot, hrep⟩
  · rintro (h | ⟨c, hc, rfl, hnot, hrep⟩)
    · exact Or.inl h
    · exact Or.inr ⟨c, ⟨hc, hnot, hrep⟩, rfl⟩

/-- A set of ids is closed when it contains the id of every reply to one of its
members. -/
theorem cascadeStep_eq_self (comments : List CommentRow) (ids : List String)
    (hclosed : ∀ c ∈ comments, ∀ p, c.parent_comment_id = some p → p ∈ ids → c.id ∈ ids) :
    cascadeStep comments ids = ids := by
  unfold cascadeStep
  have : (comments.filter fun c => decide (c.id ∉ ids) && repliesTo ids c) = [] := by
    rw [List.filter_eq_nil_iff]
    intro c hc
    simp only [Bool.and_eq_true, decide_eq_true_eq, repliesTo_iff, not_and]
    rintro hnot ⟨p, hp, hmem⟩
    exact hnot (hclosed c hc p hp hmem)
  rw [this]
  simp

theorem cascadeClosure_eq_self (comments : List CommentRow) (n : Nat) (ids : List String)
    (hclosed : ∀ c ∈ comments, ∀ p, c.parent_comment_id = some p → p ∈ ids → c.id ∈ ids) :
    cascadeClosure comments n ids = ids := by
  induction n with
  | zero => rfl
  | succ n ih =>
    unfold cascadeClosure
    rw [cascadeStep_eq_self comments ids hclosed]
    exact ih

theorem subset_cascadeClosure (comments : List CommentRow) :
    ∀ (n : Nat) (ids : List String), ∀ x ∈ ids, x ∈ cascadeClosure comments n ids := by
  intro n
  induction n with
  | zero =>
    intro ids x hx
    exact hx
  | succ n ih =>
    intro ids x hx
    unfold cascadeClosure
    apply ih
    rw [mem_cascadeStep]
    exact Or.inl hx

/-- A round that is not idle takes at least one row out of the rows still standing. -/
theorem cascadeStep_measure (comments : List CommentRow) (ids : List String)
    (hopen : ¬ ∀ c ∈ comments, ∀ p, c.parent_comment_id = some p → p ∈ ids → c.id ∈ ids) :
    (comments.filter fun c => decide (c.id ∉ cascadeStep comments ids)).length <
      (comments.filter fun c => decide (c.id ∉ ids)).length := by
  push_neg at hopen
  obtain ⟨c, hc, p, hp, hmem, hnot⟩ := hopen
  have hsub : List.Sublist (comments.filter fun c => decide (c.id ∉ cascadeStep comments ids))
      (comments.filter fun c => decide (c.id ∉ ids)) := by
    apply List.monotone_filter_right
    intro d hd
    simp only [decide_eq_true_eq] at hd ⊢
    intro hin
    exact hd ((mem_cascadeStep comments ids d.id).mpr (Or.inl hin))
  rcases Nat.lt_or_ge
      (comments.filter fun c => decide (c.id ∉ cascadeStep comments ids)).length
      (comments.filter fun c => decide (c.id ∉ ids)).length with hlt | hge
  · exact hlt
  · exfalso
    have heq := hsub.eq_of_length_le hge
    have h1 : c ∈ comments.filter fun c => decide (c.id ∉ ids) := by
      rw [List.mem_filter, decide_eq_true_eq]
      exact ⟨hc, hnot⟩
    rw [← heq, List.mem_filter, decide_eq_true_eq] at h1
    exact h1.2 ((mem_cascadeStep comments ids c.id).mpr
      (Or.inr ⟨c, hc, rfl, hnot, p, hp, hmem⟩))

theorem cascadeClosure_closed (comments : List CommentRow) :
    ∀ (n : Nat) (ids : List String),
      (comments.filter fun c => decide (c.id ∉ ids)).length ≤ n →
      ∀ c ∈ comments, ∀ p, c.parent_comment_id = some p →
        p ∈ cascadeClosure comments n ids → c.id ∈ cascadeClosure comments n ids := by
  intro n
  induction n with
  | zero =>
    intro ids hm c hc p _ _
    have hnil : (comments.filter fun c => decide (c.id ∉ ids)) = [] :=
      List.eq_nil_of_length_eq_zero (Nat.le_zero.mp hm)
    rw [List.filter_eq_nil_iff] at hnil
    have := hnil c hc
    simp only [decide_eq_true_eq, not_not] at this
    exact this
  | succ n ih =>
    intro ids hm
    by_cases hclosed : ∀ c ∈ comments, ∀ p, c.parent_comment_id = some p → p ∈ ids → c.id ∈ ids
    · rw [cascadeClosure_eq_self comments (n + 1) ids hclosed]
      exact hclosed
    · have hlt := cascadeStep_measure comments ids hclosed
      unfold cascadeClosure
      exact ih (cascadeStep comments ids) (by omega)

theorem cascadeClosure_sound (comments : List CommentRow) :
    ∀ (n : Nat) (ids : List String) (roots : List String),
      (∀ x ∈ ids, CascadeReach comments roots x) →
      ∀ x ∈ cascadeClosure comments n ids, CascadeReach comments roots x := by
  intro n
  induction n with
  | zero =>
    intro ids roots h x hx
    exact h x hx
  | succ n ih =>
    intro ids roots h x hx
    unfold cascadeClosure at hx
    apply ih (cascadeStep comments ids) roots _ x hx
    intro y hy
    rw [mem_cascadeStep] at hy
    rcases hy with hy | ⟨c, hc, rfl, _, p, hp, hmem⟩
    · exact h y hy
    · exact CascadeReach.reply c p hc hp (h p hmem)

/-- The ids deleted by the cascade are exactly the ids reached from the given ones
through `parent_comment_id`. -/
theorem mem_cascadeClosure_iff (comments : List CommentRow) (ids : List String) (x : String) :
    x ∈ cascadeClosure comments comments.length ids ↔ CascadeReach comments ids x := by
  constructor
  · intro hx
    exact cascadeClosure_sound comments comments.length ids ids
      (fun y hy => CascadeReach.root y hy) x hx
  · intro hx
    induction hx with
    | root y hy => exact subset_cascadeClosure comments comments.length ids y hy
    | reply c p hc hp _ ih =>
      exact cascadeClosure_closed comments comments.length ids
        (List.length_filter_le _ _) c hc p hp ih

theorem mem_deleteCommentsCascade (comments : List CommentRow) (ids : List String)
    (c : CommentRow) :
    c ∈ deleteCommentsCascade comments ids ↔
      c ∈ comments ∧ ¬ CascadeReach comments ids c.id := by
  unfold deleteCommentsCascade
  rw [List.mem_filter, decide_eq_true_eq, mem_cascadeClosure_iff]

/-! ## C13: what deleting a recipe removes -/

theorem deleteRecipe_ok (db : Db) (now : Nat) (id : String) (user : AuthUser)
    (h : (deleteRecipe db now id user).1.status = 200) :
    (deleteRecipe db now id user).2 = deleteRecipeCascade db now id := by
  unfold deleteRecipe at h ⊢
  simp only at h ⊢
  cases hrows : recipesById db id with
  | nil => simp [hrows] at h
  | cons existing rest =>
    simp only [hrows] at h ⊢
    split_ifs at h ⊢
    · simp at h
    · rfl

/-- Under the invariant on replies, everything the cascade reaches from the comments of
a recipe is the id of a comment of that recipe. -/
theorem cascadeReach_same_recipe (db : Db) (id : String) (hsame : RepliesSameRecipe db)
    (x : String)
    (h : CascadeReach db.recipe_comments
      ((db.recipe_comments.filter fun c => decide (c.recipe_id = id)).map fun c => c.id) x) :
    ∃ c ∈ db.recipe_comments, c.id = x ∧ c.recipe_id = id := by
  induction h with
  | root y hy =>
    simp only [List.mem_map, List.mem_filter, decide_eq_true_eq] at hy
    obtain ⟨c, ⟨hc, hrec⟩, rfl⟩ := hy
    exact ⟨c, hc, rfl, hrec⟩
  | reply c p hc hp _ ih =>
    obtain ⟨q, hq, hqid, hqrec⟩ := ih
    refine ⟨c, hc, rfl, ?_⟩
    rw [hsame c hc q hq (by rw [hp, hqid]), hqrec]

/-- Under the primary key and the invariant on replies, deleting the comments of a recipe
with the cascade removes exactly the comments of that recipe. -/
theorem deleteCommentsCascade_recipe (db : Db) (id : String) (hpk : CommentsPK db)
    (hsame : RepliesSameRecipe db) :
    deleteCommentsCascade db.recipe_comments
        ((db.recipe_comments.filter fun c => decide (c.recipe_id = id)).map fun c => c.id) =
      db.recipe_comments.filter fun c => decide (c.recipe_id ≠ id) := by
  unfold deleteCommentsCascade
  apply List.filter_congr
  intro c hc
  rw [decide_eq_decide, mem_cascadeClosure_iff]
  constructor
  · intro hnot hrec
    apply hnot
    apply CascadeReach.root
    simp only [List.mem_map, List.mem_filter, decide_eq_true_eq]
    exact ⟨c, ⟨hc, hrec⟩, rfl⟩
  · intro hne hreach
    obtain ⟨c', hc', hid, hrec⟩ := cascadeReach_same_recipe db id hsame c.id hreach
    have := hpk c' hc' c hc hid
    subst this
    exact hne hrec

/-- C13 as stated fails: the shopping-list item linked to the deleted recipe survives
with its link set to `NULL`, but not with its other fields unchanged: the update fires
the `updated_at` trigger, so the row with the old `updated_at` is not in the table. -/
theorem deleteRecipe_item_updated_at_changes :
    (deleteRecipe sampleFullDb 9 "r2" sampleAlice).1.status = 200 ∧
    ({ id := "s1", user_id := "u2", recipe_id := some "r2", ingredient_name := "Flour",
       quantity := some (.finite 50000), unit := some "g", created_at := 1,
       updated_at := 1 } : ShoppingListItemRow) ∈ sampleFullDb.shopping_list_items ∧
    ({ id := "s1", user_id := "u2", recipe_id := none, ingredient_name := "Flour",
       quantity := some (.finite 50000), unit := some "g", created_at := 1,
       updated_at := 1 } : ShoppingListItemRow) ∉
      (deleteRecipe sampleFullDb 9 "r2" sampleAlice).2.shopping_list_items ∧
    ({ id := "s1", user_id := "u2", recipe_id := none, ingredient_name := "Flour",
       quantity := some (.finite 50000), unit := some "g", created_at := 1,
       updated_at := 9 } : ShoppingListItemRow) ∈
      (deleteRecipe sampleFullDb 9 "r2" sampleAlice).2.shopping_list_items := by
  decide

/-- C13, amended: after a successful `deleteRecipe` of the recipe `id` (on a database
with the comment primary key, where replies are on the recipe of their parent), the new
state is the old one without the recipe row and without the ingredient, category-link,
rating, like and comment rows of that recipe, all rows of other recipes being kept as they
were; every shopping-list item is still there, and an item that was linked to the recipe
has its link set to `NULL`, its `updated_at` set to the time of the deletion, and its
other fields unchanged. -/
theorem deleteRecipe_cascade (db : Db) (now : Nat) (id : String) (user : AuthUser)
    (hpk : CommentsPK db) (hsame : RepliesSameRecipe db)
    (hok : (deleteRecipe db now id user).1.status = 200) :
    (deleteRecipe db now id user).2 =
      { db with
        recipes := db.recipes.filter fun r => decide (r.id ≠ id),
        recipe_ingredients := db.recipe_ingredients.filter fun i => decide (i.recipe_id ≠ id),
        recipe_categories := db.recipe_categories.filter fun rc => decide (rc.recipe_id ≠ id),
        recipe_ratings := db.recipe_ratings.filter fun c => decide (c.recipe_id ≠ id),
        recipe_likes := db.recipe_likes.filter fun l => decide (l.recipe_id ≠ id),
        recipe_comments := db.recipe_comments.filter fun c => decide (c.recipe_id ≠ id),
        shopping_list_items := db.shopping_list_items.map fun i =>
          if i.recipe_id = some id then { i with recipe_id := none, updated_at := now }
          else i } ∧
    (∀ i ∈ (deleteRecipe db now id user).2.recipe_ingredients, i.recipe_id ≠ id) ∧
    (∀ rc ∈ (deleteRecipe db now id user).2.recipe_categories, rc.recipe_id ≠ id) ∧
    (∀ l ∈ (deleteRecipe db now id user).2.recipe_likes, l.recipe_id ≠ id) ∧
    (∀ c ∈ (deleteRecipe db now id user).2.recipe_ratings, c.recipe_id ≠ id) ∧
    (∀ c ∈ (deleteRecipe db now id user).2.recipe_comments, c.recipe_id ≠ id) ∧
    (∀ i ∈ (deleteRecipe db now id user).2.shopping_list_items, i.recipe_id ≠ some id) ∧
    (∀ i ∈ db.shopping_list_items, i.recipe_id = some id →
      { i with recipe_id := none, updated_at := now } ∈
        (deleteRecipe db now id user).2.shopping_list_items) ∧
    (∀ i ∈ db.shopping_list_items, i.recipe_id ≠ some id →
      i ∈ (deleteRecipe db now id user).2.shopping_list_items) ∧
    (deleteRecipe db now id user).2.shopping_list_items.length =
      db.shopping_list_items.length := by
  have hdb : (deleteRecipe db now id user).2 =
      { db with
        recipes := db.recipes.filter fun r => decide (r.id ≠ id),
        recipe_ingredients := db.recipe_ingredients.filter fun i => decide (i.recipe_id ≠ id),
        recipe_categories := db.recipe_categories.filter fun rc => decide (rc.recipe_id ≠ id),
        recipe_ratings := db.recipe_ratings.filter fun c => decide (c.recipe_id ≠ id),
        recipe_likes := db.recipe_likes.filter fun l => decide (l.recipe_id ≠ id),
        recipe_comments := db.recipe_comments.filter fun c => decide (c.recipe_id ≠ id),
        shopping_list_items := db.shopping_list_items.map fun i =>
          if i.recipe_id = some id then { i with recipe_id := none, updated_at := now }
          else i } := by
    rw [deleteRecipe_ok db now id user hok]
    unfold deleteRecipeCascade
    rw [deleteCommentsCascade_recipe db id hpk hsame]
  rw [hdb]
  refine ⟨rfl, ?_, ?_, ?_, ?_, ?_, ?_, ?_, ?_, ?_⟩
  · intro i hi
    simp only [List.mem_filter, decide_eq_true_eq] at hi
    exact hi.2
  · intro i hi
    simp only [List.mem_filter, decide_eq_true_eq] at hi
    exact hi.2
  · intro i hi
    simp only [List.mem_filter, decide_eq_true_eq] at hi
    exact hi.2
  · intro i hi
    simp only [List.mem_filter, decide_eq_true_eq] at hi
    exact hi.2
  · intro i hi
    simp only [List.mem_filter, decide_eq_true_eq] at hi
    exact hi.2
  · intro i hi
    simp only [List.mem_map] at hi
    obtain ⟨j, _, rfl⟩ := hi
    split_ifs with h
    · simp
    · exact h
  · intro i hi hlink
    simp only [List.mem_map]
    exact ⟨i, hi, by rw [if_pos hlink]⟩
  · intro i hi hlink
    simp only [List.mem_map]
    exact ⟨i, hi, by rw [if_neg hlink]⟩
  · simp

/-- C13 (amended) at the populated sample database: `alice` deletes her public recipe. -/
theorem deleteRecipe_cascade_witness :
    (deleteRecipe sampleFullDb 9 "r2" sampleAlice).2.recipe_comments.map (fun c => c.id) =
      ["c4"] ∧
    (deleteRecipe sampleFullDb 9 "r2" sampleAlice).2.recipe_ingredients.map (fun i => i.id) =
      ["a2"] ∧
    (deleteRecipe sampleFullDb 9 "r2" sampleAlice).2.shopping_list_items.map
      (fun i => (i.id, i.recipe_id, i.updated_at)) =
      [("s1", none, 9), ("s2", none, 2), ("s3", some "r1", 3), ("s4", none, 4)] := by
  have h := (deleteRecipe_cascade sampleFullDb 9 "r2" sampleAlice (by decide) (by decide)
    (by decide)).1
  rw [h]
  decide

/-! ## Lemmas on the shopping list -/

theorem mem_ingredientsOf (db : Db) (recipeId : String) (i : IngredientRow) :
    i ∈ ingredientsOf db recipeId ↔ i ∈ db.recipe_ingredients ∧ i.recipe_id = recipeId := by
  unfold ingredientsOf
  rw [(List.perm_insertionSort _ _).mem_iff, List.mem_filter, decide_eq_true_eq]

theorem adjustedQuantity_double (q : Int) (d : Decimal) (hd : d.mantissa = 2 * 10 ^ d.scale) :
    adjustedQuantity q (some d) = .finite (2 * q) := by
  unfold adjustedQuantity
  have h : q * d.mantissa = (2 * q) * 10 ^ d.scale := by rw [hd]; ring
  simp only [h]
  rw [roundDiv_mul (2 * q) (10 ^ d.scale) (by positivity)]

/-- The insert loop when every `INSERT` is accepted: one row per ingredient is appended, in
the order of the ingredients, the `j`-th with the `j`-th identifier. -/
theorem insertRecipeItems_ok (uuid : Nat → String) (userId recipeId : String) (now : Nat)
    (multiplier : Option Decimal) (ingredients : List IngredientRow) :
    ∀ (k : Nat) (table : List ShoppingListItemRow) (addedItems : List ShoppingItemJson),
    (∀ i ∈ ingredients, i.name.length ≤ 255 ∧ i.unit.length ≤ 50 ∧
      numericFits (some (adjustedQuantity i.quantity multiplier)) = true) →
    (∀ j, j < ingredients.length → ∀ item ∈ table, item.id ≠ uuid (k + j)) →
    (∀ i j, i < j → j < ingredients.length → uuid (k + i) ≠ uuid (k + j)) →
    insertRecipeItems uuid userId recipeId now multiplier k ingredients table addedItems =
      (table ++ (ingredients.enumFrom k).map fun p =>
          recipeItemRow (uuid p.1) userId recipeId now multiplier p.2,
       some (addedItems ++ (ingredients.enumFrom k).map fun p =>
          shoppingItemJson (recipeItemRow (uuid p.1) userId recipeId now multiplier p.2))) := by
  induction ingredients with
  | nil =>
    intro k table addedItems _ _ _
    simp [insertRecipeItems]
  | cons ingredient rest ih =>
    intro k table addedItems hfit hfresh hinj
    have hok : shoppingItemInsertOk table
        (recipeItemRow (uuid k) userId recipeId now multiplier ingredient) = true := by
      obtain ⟨h1, h2, h3⟩ := hfit ingredient (List.mem_cons_self _ _)
      unfold shoppingItemInsertOk
      simp only [Bool.and_eq_true, List.all_eq_true, decide_eq_true_eq]
      refine ⟨⟨⟨?_, h1⟩, ?_⟩, h3⟩
      · intro item hitem
        have := hfresh 0 (by simp) item hitem
        simpa [recipeItemRow] using this
      · simpa [recipeItemRow, unitFits] using h2
    rw [insertRecipeItems, if_pos hok]
    rw [ih (k + 1) _ _ (fun i hi => hfit i (List.mem_cons_of_mem _ hi))]
    · simp [List.enumFrom_cons, List.append_assoc]
    · intro j hj item hitem
      rcases List.mem_append.mp hitem with h | h
      · have := hfresh (j + 1) (by simpa using hj) item h
        rwa [show k + 1 + j = k + (j + 1) by omega]
      · rw [List.mem_singleton.mp h]
        have := hinj 0 (j + 1) (by omega) (by simpa using hj)
        rw [show k + 1 + j = k + (j + 1) by omega]
        simpa [recipeItemRow] using this
    · intro i j hij hj
      have := hinj (i + 1) (j + 1) (by omega) (by simpa using hj)
      rwa [show k + 1 + i = k + (i + 1) by omega, show k + 1 + j = k + (j + 1) by omega]

theorem filter_length_add {α : Type} (p : α → Bool) (l : List α) :
    (l.filter p).length + (l.filter fun a => !p a).length = l.length := by
  induction l with
  | nil => rfl
  | cons a t ih =>
    cases hpa : p a <;> simp [List.filter_cons, hpa] <;> omega

/-! ## C14: a recipe added with `servingMultiplier = 2` -/

/-- C14 as stated fails: the recipe `r2` is public and has two ingredients, yet adding it
with `servingMultiplier = 2` ends in 500, because twice 60,000,000.00 does not fit
`DECIMAL(10,2)`; the item of the first ingredient has been added by then. -/
theorem addRecipeToShoppingList_double_overflow :
    (recipesById sampleBulkDb "r2").map (fun r => r.is_public) = [some true] ∧
    (ingredientsOf sampleBulkDb "r2").map (fun i => (i.name, i.quantity)) =
      [("Flour", 50000), ("Salt", 6000000000)] ∧
    (addRecipeToShoppingList sampleUuid sampleBulkDb 9 "r2" sampleBob
      (.number ⟨2, 0⟩)).1.status = 500 ∧
    (addRecipeToShoppingList sampleUuid sampleBulkDb 9 "r2" sampleBob
      (.number ⟨2, 0⟩)).2.shopping_list_items.map (fun i => (i.id, i.ingredient_name)) =
      [("s1", "Flour"), ("s2", "Milk"), ("s3", "Water"), ("s4", "Eggs"), ("i", "Flour")] := by
  decide

/-- C14, amended: for a stored recipe `r` the requester may access, with at least one
ingredient, each of a quantity whose double is below 100,000,000 (the precision of
`DECIMAL(10,2)`), and identifiers from `generateUUID()` that are new and distinct,
`addRecipeToShoppingList` with `servingMultiplier = 2` responds 201 and appends to
`shopping_list_items` exactly one row per ingredient, in the order of the ingredients
(`ORDER BY order_index`): owned by the requester, linked to `r`, with the name, unit and
notes of the ingredient and exactly twice its quantity; `addedItems` lists the same
items. Nothing else changes. (No quantity is null: `recipe_ingredients.quantity` is
`NOT NULL`.) -/
theorem addRecipeToShoppingList_doubles (uuid : Nat → String) (db : Db) (now : Nat)
    (r : RecipeRow) (user : AuthUser) (d : Decimal)
    (hr : r ∈ db.recipes) (hrpk : RecipesPK db)
    (hacc : r.is_public = some true ∨ r.author_id = user.id)
    (hd : d.mantissa = 2 * 10 ^ d.scale)
    (hcols : IngredientColumns db)
    (hne : ingredientsOf db r.id ≠ [])
    (hfit : ∀ i ∈ ingredientsOf db r.id, 2 * i.quantity < 10 ^ 10)
    (hfresh : ∀ k, k < (ingredientsOf db r.id).length →
      ∀ item ∈ db.shopping_list_items, item.id ≠ uuid k)
    (hinj : ∀ k, k < (ingredientsOf db r.id).length → ∀ j, j < k → uuid j ≠ uuid k) :
    (addRecipeToShoppingList uuid db now r.id user (.number d)).1.status = 201 ∧
    (addRecipeToShoppingList uuid db now r.id user (.number d)).2 =
      { db with
        shopping_list_items := db.shopping_list_items ++
          (ingredientsOf db r.id).enum.map fun p =>
            { id := uuid p.1, user_id := user.id, recipe_id := some r.id,
              ingredient_name := p.2.name, quantity := some (.finite (2 * p.2.quantity)),
              unit := some p.2.unit, notes := p.2.notes, created_at := now,
              updated_at := now } } ∧
    ∃ data, (addRecipeToShoppingList uuid db now r.id user (.number d)).1.data = some data ∧
      data.addedItems =
        (ingredientsOf db r.id).enum.map fun p =>
          { id := uuid p.1, ingredientName := p.2.name, quantity := some (2 * p.2.quantity),
            unit := some p.2.unit, notes := p.2.notes, isCompleted := some false,
            createdAt := now, updatedAt := now } := by
  obtain ⟨rest, hhead⟩ := recipesById_head db r hr hrpk
  have hgate : (!(truthyBool r.is_public) && decide (r.author_id ≠ user.id)) = false := by
    cases hacc with
    | inl h => rw [h]; rfl
    | inr h => simp [h]
  have hloop := insertRecipeItems_ok uuid user.id r.id now (some d) (ingredientsOf db r.id) 0
    db.shopping_list_items []
    (fun i hi => by
      obtain ⟨h1, h2, h3, _⟩ := hcols i ((mem_ingredientsOf db r.id i).mp hi).1
      refine ⟨h1, h2, ?_⟩
      rw [adjustedQuantity_double i.quantity d hd]
      have := hfit i hi
      simp only [numericFits, decide_eq_true_eq]
      omega)
    (fun j hj item hitem => by simpa using hfresh j hj item hitem)
    (fun i j hij hj => by simpa using hinj j hj i hij)
  have hrows : ∀ p ∈ (ingredientsOf db r.id).enumFrom 0,
      recipeItemRow (uuid p.1) user.id r.id now (some d) p.2 =
        { id := uuid p.1, user_id := user.id, recipe_id := some r.id,
          ingredient_name := p.2.name, quantity := some (.finite (2 * p.2.quantity)),
          unit := some p.2.unit, notes := p.2.notes, created_at := now,
          updated_at := now } := by
    intro p _
    unfold recipeItemRow
    rw [adjustedQuantity_double p.2.quantity d hd]
  have hjson : ∀ p ∈ (ingredientsOf db r.id).enumFrom 0,
      shoppingItemJson (recipeItemRow (uuid p.1) user.id r.id now (some d) p.2) =
        { id := uuid p.1, ingredientName := p.2.name, quantity := some (2 * p.2.quantity),
          unit := some p.2.unit, notes := p.2.notes, isCompleted := some false,
          createdAt := now, updatedAt := now } := by
    intro p hp
    rw [hrows p hp]
    rfl
  rw [List.map_congr_left hrows, List.map_congr_left hjson] at hloop
  cases hing : ingredientsOf db r.id with
  | nil => exact absurd hing hne
  | cons ingredient others =>
    rw [hing] at hloop
    unfold addRecipeToShoppingList
    simp only [hhead, hgate, Bool.false_eq_true, if_false, hing, parseMultiplier, hloop,
      List.nil_append, List.enum]
    exact ⟨trivial, trivial, _, rfl, rfl⟩

/-- C14 (amended) at the sample database: `bob` adds the public recipe `r2` (500.00 g of
flour, 0.07 g of salt) with `servingMultiplier = 2`. -/
theorem addRecipeToShoppingList_doubles_witness :
    (addRecipeToShoppingList sampleUuid sampleFullDb 9 "r2" sampleBob
      (.number ⟨2, 0⟩)).1.status = 201 ∧
    (addRecipeToShoppingList sampleUuid sampleFullDb 9 "r2" sampleBob
      (.number ⟨2, 0⟩)).2.shopping_list_items.map
      (fun i => (i.id, i.user_id, i.recipe_id, i.ingredient_name, i.quantity, i.notes)) =
      [ ("s1", "u2", some "r2", "Flour", some (.finite 50000), none),
        ("s2", "u2", none, "Milk", none, none),
        ("s3", "u1", some "r1", "Water", none, none),
        ("s4", "u2", none, "Eggs", none, none),
        ("i", "u2", some "r2", "Flour", some (.finite 100000), none),
        ("ii", "u2", some "r2", "Salt", some (.finite 14), some "fine") ] := by
  have h := addRecipeToShoppingList_doubles sampleUuid sampleFullDb 9 samplePublicRecipe
    sampleBob ⟨2, 0⟩ (by decide) (by decide) (by decide) (by decide) (by decide) (by decide)
    (by decide) (by decide) (by decide)
  refine ⟨h.1, ?_⟩
  rw [show samplePublicRecipe.id = "r2" from rfl] at h
  rw [h.2.1]
  rfl

/-! ## C15: the range of `servingMultiplier` -/

/-- C15 at the failing inputs: the chain `validateAddRecipeToShoppingList` rejects the
multiplier 20 and a multiplier that is not a number, but the handler, which never reads
the validation result, responds 201 and adds the items: with 20 times the quantities
(10,000.00 g of flour and 1.40 g of salt for 500.00 g and 0.07 g), and with the quantity
`NaN` when the multiplier is not a number. -/
theorem addRecipeToShoppingList_ignores_validation :
    validateAddRecipeToShoppingList (.number ⟨20, 0⟩) = false ∧
    (addRecipeToShoppingList sampleUuid sampleFullDb 9 "r2" sampleBob
      (.number ⟨20, 0⟩)).1.status = 201 ∧
    ((addRecipeToShoppingList sampleUuid sampleFullDb 9 "r2" sampleBob
      (.number ⟨20, 0⟩)).2.shopping_list_items.drop 4).map
      (fun i => (i.id, i.ingredient_name, i.quantity)) =
      [("i", "Flour", some (.finite 1000000)), ("ii", "Salt", some (.finite 140))] ∧
    validateAddRecipeToShoppingList .notANumber = false ∧
    (addRecipeToShoppingList sampleUuid sampleFullDb 9 "r2" sampleBob
      .notANumber).1.status = 201 ∧
    ((addRecipeToShoppingList sampleUuid sampleFullDb 9 "r2" sampleBob
      .notANumber).2.shopping_list_items.drop 4).map
      (fun i => (i.id, i.ingredient_name, i.quantity)) =
      [("i", "Flour", some .nan), ("ii", "Salt", some .nan)] := by
  decide

/-! ## C16: updating a shopping-list item -/

/-- C16 at the failing input: `bob` updates his item `s4` with the body of the test
"Update shopping list item" (`isCompleted` and `notes`, no `ingredientName`): the chain
`validateShoppingListItem` requires `ingredientName`, so the response is 400 and the item
is unchanged. The same body with an `ingredientName` gets 200. -/
theorem updateShoppingListItem_needs_ingredientName :
    validateShoppingListItem
      { isCompleted := some true, notes := some "Updated by API test" } = false ∧
    updateShoppingListItem sampleFullDb 9 "s4" sampleBob
        { isCompleted := some true, notes := some "Updated by API test" } =
      ({ status := 400, error := some "Validation failed", timestamp := 9 }, sampleFullDb) ∧
    (updateShoppingListItem sampleFullDb 9 "s4" sampleBob
      { ingredientName := some "Eggs", isCompleted := some true,
        notes := some "Updated by API test" }).1.status = 200 := by
  decide

/-! ## C17: clearing the shopping list -/

/-- C17: `clearCompletedItems` removes exactly the items of the requester whose
`is_completed` is true, and `clearShoppingList` exactly the items of the requester: an
item is in the table afterwards exactly when it was there and is not one of those, the
remaining items are unchanged and in their order (in particular every item of another
user remains), no other table changes, the response is 200 and `deletedCount` is the
number of items removed. -/
theorem clear_removes_exactly_own_items (db : Db) (now : Nat) (user : AuthUser) :
    ((∀ i, i ∈ (clearCompletedItems db now user).2.shopping_list_items ↔
        i ∈ db.shopping_list_items ∧ ¬ (i.user_id = user.id ∧ i.is_completed = some true)) ∧
      (clearCompletedItems db now user).2.shopping_list_items.Sublist db.shopping_list_items ∧
      (∀ i ∈ db.shopping_list_items, i.user_id ≠ user.id →
        i ∈ (clearCompletedItems db now user).2.shopping_list_items) ∧
      (clearCompletedItems db now user).2 =
        { db with
          shopping_list_items := (clearCompletedItems db now user).2.shopping_list_items } ∧
      (clearCompletedItems db now user).1.status = 200 ∧
      ∃ data, (clearCompletedItems db now user).1.data = some data ∧
        data.deletedCount + (clearCompletedItems db now user).2.shopping_list_items.length =
          db.shopping_list_items.length) ∧
    ((∀ i, i ∈ (clearShoppingList db now user).2.shopping_list_items ↔
        i ∈ db.shopping_list_items ∧ i.user_id ≠ user.id) ∧
      (clearShoppingList db now user).2.shopping_list_items.Sublist db.shopping_list_items ∧
      (clearShoppingList db now user).2 =
        { db with
          shopping_list_items := (clearShoppingList db now user).2.shopping_list_items } ∧
      (clearShoppingList db now user).1.status = 200 ∧
      ∃ data, (clearShoppingList db now user).1.data = some data ∧
        data.deletedCount + (clearShoppingList db now user).2.shopping_list_items.length =
          db.shopping_list_items.length) := by
  refine ⟨⟨?_, List.filter_sublist _, ?_, rfl, rfl, _, rfl, ?_⟩,
    ⟨?_, List.filter_sublist _, rfl, rfl, _, rfl, ?_⟩⟩
  · intro i
    simp only [clearCompletedItems, List.mem_filter, Bool.not_eq_true', Bool.and_eq_false_imp,
      Bool.and_eq_true, decide_eq_true_eq, Bool.not_eq_eq_eq_not, Bool.not_true,
      Bool.and_eq_false_iff, decide_eq_false_iff_not]
    tauto
  · intro i hi hne
    simp [clearCompletedItems, List.mem_filter, hi, hne]
  · exact filter_length_add _ db.shopping_list_items
  · intro i
    simp [clearShoppingList, List.mem_filter]
  · exact filter_length_add _ db.shopping_list_items

/-! ## Lemmas on comments -/

/-- The first row of a selection by a key that identifies one row. -/
theorem filter_head_of_unique {α : Type} (l : List α) (p : α → Bool) (a : α) (ha : a ∈ l)
    (hp : p a = true) (huniq : ∀ x ∈ l, p x = true → x = a) :
    ∃ rest, l.filter p = a :: rest := by
  cases h : l.filter p with
  | nil =>
    have hmem : a ∈ l.filter p := List.mem_filter.mpr ⟨ha, hp⟩
    rw [h] at hmem
    exact absurd hmem (List.not_mem_nil _)
  | cons b rest =>
    have hb : b ∈ l.filter p := by rw [h]; exact List.mem_cons_self _ _
    rw [List.mem_filter] at hb
    have hba := huniq b hb.1 hb.2
    subst hba
    exact ⟨rest, rfl⟩

theorem truthy_of_length_pos (s : String) (h : 1 ≤ s.length) : truthy s = true := by
  obtain ⟨data⟩ := s
  cases data with
  | nil => simp [String.length] at h
  | cons c cs => rfl

theorem commentWithRecipe_head (db : Db) (c : CommentRow) (r : RecipeRow)
    (hc : c ∈ db.recipe_comments) (hr : r ∈ db.recipes) (hrec : r.id = c.recipe_id)
    (hcpk : CommentsPK db) (hrpk : RecipesPK db) :
    ∃ rest, commentWithRecipe db c.id = (c, r) :: rest := by
  obtain ⟨rest1, h1⟩ := filter_head_of_unique db.recipe_comments
    (fun x => decide (x.id = c.id)) c hc (by simp)
    (fun x hx hpx => hcpk x hx c hc (by simpa using hpx))
  obtain ⟨rest2, h2⟩ := recipesById_head db r hr hrpk
  unfold recipesById at h2
  rw [hrec] at h2
  unfold commentWithRecipe
  rw [h1, List.flatMap_cons, h2]
  exact ⟨_, rfl⟩

theorem deleteComment_eq (db : Db) (now : Nat) (c : CommentRow) (r : RecipeRow)
    (user : AuthUser) (hc : c ∈ db.recipe_comments) (hr : r ∈ db.recipes)
    (hrec : r.id = c.recipe_id) (hcpk : CommentsPK db) (hrpk : RecipesPK db) :
    deleteComment db now c.id user =
      if c.user_id ≠ user.id ∧ r.author_id ≠ user.id then
        ({ status := 403, error := some "Access denied",
           message := some "You can only delete your own comments or comments on your recipes",
           timestamp := now }, db)
      else
        ({ status := 200, message := some "Comment deleted successfully",
           data := some
             { id := c.id, preview := commentPreview c.comment,
               recipe := { id := c.recipe_id, title := r.title } },
           timestamp := now },
         { db with recipe_comments := deleteCommentsCascade db.recipe_comments [c.id] }) := by
  obtain ⟨rest, hhead⟩ := commentWithRecipe_head db c r hc hr hrec hcpk hrpk
  unfold deleteComment
  simp only [hhead]

/-! ## C18: the parent of a reply -/

/-- A string `parentCommentId` that passes `validateComment` is truthy, so the parent check
is made for every valid request that declares the parent as a string. -/
theorem validateComment_string_truthy (body : CommentBody) (pid : String)
    (hvalid : validateComment body = true) (hpid : body.parentCommentId = .string pid) :
    body.parentCommentId.truthy = true ∧ body.parentCommentId.sent = some pid := by
  unfold validateComment at hvalid
  rw [hpid] at hvalid ⊢
  simp only [Bool.and_eq_true, decide_eq_true_eq, ParentIdInput.shown] at hvalid
  exact ⟨truthy_of_length_pos pid hvalid.2, rfl⟩

/-- C18 as stated fails: a reply to a comment id that does not exist is refused with 404,
not 400 (`bob` replies on the public recipe to the unknown comment `c9`); and a request
that declares the parent `0` passes `validateComment`, is not checked against the stored
comments and creates a top-level comment with 201. -/
theorem createComment_missing_parent_404 :
    validateComment { comment := some "Hi", parentCommentId := .string "c9" } = true ∧
    (∀ c ∈ sampleFullDb.recipe_comments, c.id ≠ "c9") ∧
    createComment "n1" sampleFullDb 9 "r2" sampleBob
        { comment := some "Hi", parentCommentId := .string "c9" } =
      ({ status := 404, error := some "Parent comment not found", timestamp := 9 },
       sampleFullDb) ∧
    validateComment { comment := some "Hi", parentCommentId := .number true "0" } = true ∧
    (∀ c ∈ sampleFullDb.recipe_comments, c.id ≠ "0") ∧
    (createComment "n1" sampleFullDb 9 "r2" sampleBob
        { comment := some "Hi", parentCommentId := .number true "0" }).1.status = 201 ∧
    (createComment "n1" sampleFullDb 9 "r2" sampleBob
        { comment := some "Hi", parentCommentId := .number true "0" }).2.recipe_comments =
      sampleFullDb.recipe_comments ++
        [{ id := "n1", recipe_id := "r2", user_id := "u2", comment := "Hi",
           parent_comment_id := none, created_at := 9, updated_at := 9 }] := by
  decide

/-- C18, amended: for a recipe the requester may access and a valid `createComment`
request whose `parentCommentId` is truthy in JavaScript (a non-empty string, a number
other than 0, or `true`) and reaches the database as the id `pid`, the request is refused
and the database is unchanged (no comment is created): with 404 "Parent comment not found"
when no comment has the id `pid`, and with 400 when the comment `pid` is on another
recipe. -/
theorem createComment_parent_check (commentId : String) (db : Db) (now : Nat) (r : RecipeRow)
    (user : AuthUser) (body : CommentBody) (pid : String)
    (hr : r ∈ db.recipes) (hrpk : RecipesPK db) (hcpk : CommentsPK db)
    (hacc : r.is_public = some true ∨ r.author_id = user.id)
    (hvalid : validateComment body = true) (htruthy : body.parentCommentId.truthy = true)
    (hpid : body.parentCommentId.sent = some pid) :
    ((∀ p ∈ db.recipe_comments, p.id ≠ pid) →
      createComment commentId db now r.id user body =
        ({ status := 404, error := some "Parent comment not found", timestamp := now }, db)) ∧
    (∀ p ∈ db.recipe_comments, p.id = pid → p.recipe_id ≠ r.id →
      createComment commentId db now r.id user body =
        ({ status := 400, error := some "Parent comment does not belong to this recipe",
           timestamp := now }, db)) := by
  obtain ⟨rest, hhead⟩ := recipesById_head db r hr hrpk
  have hgate : (!(truthyBool r.is_public) && decide (r.author_id ≠ user.id)) = false := by
    cases hacc with
    | inl h => rw [h]; rfl
    | inr h => simp [h]
  have hstart : ∀ resp : Response CommentJson,
      checkParentComment db now r.id body.parentCommentId = some resp →
      createComment commentId db now r.id user body = (resp, db) := by
    intro resp hcheck
    unfold createComment
    simp only [hvalid, Bool.not_true, Bool.false_eq_true, if_false, hhead, hgate, hcheck]
  constructor
  · intro hnone
    apply hstart
    unfold checkParentComment
    rw [if_pos htruthy]
    have hnil : (db.recipe_comments.filter
        fun c => decide (some c.id = body.parentCommentId.sent)) = [] := by
      rw [List.filter_eq_nil_iff]
      intro c hc
      rw [hpid]
      simpa using hnone c hc
    simp only [hnil]
  · intro p hp hpidp hrecp
    apply hstart
    unfold checkParentComment
    rw [if_pos htruthy]
    obtain ⟨rest1, h1⟩ := filter_head_of_unique db.recipe_comments
      (fun c => decide (some c.id = body.parentCommentId.sent)) p hp (by simp [hpid, hpidp])
      (fun x hx hpx => hcpk x hx p hp (by
        rw [hpid] at hpx
        simp only [decide_eq_true_eq, Option.some.injEq] at hpx
        rw [hpx, hpidp]))
    simp only [h1]
    rw [if_pos hrecp]

/-- C18 (amended) at the sample database: `bob` replies on the public recipe `r2` to the
unknown comment `c9`, and to `c4`, which is a comment on the recipe `r1`. -/
theorem createComment_parent_check_witness :
    createComment "n1" sampleFullDb 9 "r2" sampleBob
        { comment := some "Hi", parentCommentId := .string "c9" } =
      ({ status := 404, error := some "Parent comment not found", timestamp := 9 },
       sampleFullDb) ∧
    createComment "n1" sampleFullDb 9 "r2" sampleBob
        { comment := some "Hi", parentCommentId := .string "c4" } =
      ({ status := 400, error := some "Parent comment does not belong to this recipe",
         timestamp := 9 }, sampleFullDb) :=
  ⟨(createComment_parent_check "n1" sampleFullDb 9 samplePublicRecipe sampleBob
      { comment := some "Hi", parentCommentId := .string "c9" } "c9" (by decide) (by decide)
      (by decide) (by decide) (by decide) (by decide) rfl).1 (by decide),
   (createComment_parent_check "n1" sampleFullDb 9 samplePublicRecipe sampleBob
      { comment := some "Hi", parentCommentId := .string "c4" } "c4" (by decide) (by decide)
      (by decide) (by decide) (by decide) (by decide) rfl).2
      { id := "c4", recipe_id := "r1", user_id := "u1", comment := "Note to self" }
      (by decide) rfl (by decide)⟩

/-! ## C19: who may delete a comment, and what goes with it -/

/-- C19 as stated fails: when `bob` deletes his comment `c1`, the comment `c3` is removed
too, although its parent is `c2`, not `c1` (`c2` is the reply to `c1`). -/
theorem deleteComment_removes_indirect_reply :
    (deleteComment sampleFullDb 9 "c1" sampleBob).1.status = 200 ∧
    ({ id := "c3", recipe_id := "r2", user_id := "u2", comment := "Welcome",
       parent_comment_id := some "c2" } : CommentRow) ∈ sampleFullDb.recipe_comments ∧
    ({ id := "c3", recipe_id := "r2", user_id := "u2", comment := "Welcome",
       parent_comment_id := some "c2" } : CommentRow) ∉
      (deleteComment sampleFullDb 9 "c1" sampleBob).2.recipe_comments ∧
    (deleteComment sampleFullDb 9 "c1" sampleBob).2.recipe_comments.map (fun c => c.id) =
      ["c4"] := by
  decide

/-- C19, amended: for a stored comment `c` on the stored recipe `r`, `deleteComment`
succeeds exactly when the requester is the author of `c` or of `r`. On success only
`recipe_comments` changes: a comment is removed exactly when it is `c` or a direct or
indirect reply to `c` (`CascadeReach` from `c`: `c` itself, and every comment whose parent
is reached), so `c` and every reply whose parent is `c` are removed, and the comments
that remain are unchanged and in their order. For any other requester the response is
403 and the database is unchanged. -/
theorem deleteComment_cascade (db : Db) (now : Nat) (c : CommentRow) (r : RecipeRow)
    (user : AuthUser) (hc : c ∈ db.recipe_comments) (hr : r ∈ db.recipes)
    (hrec : r.id = c.recipe_id) (hcpk : CommentsPK db) (hrpk : RecipesPK db) :
    ((deleteComment db now c.id user).1.status = 200 ↔
      (c.user_id = user.id ∨ r.author_id = user.id)) ∧
    (¬ (c.user_id = user.id ∨ r.author_id = user.id) →
      deleteComment db now c.id user =
        ({ status := 403, error := some "Access denied",
           message := some "You can only delete your own comments or comments on your recipes",
           timestamp := now }, db)) ∧
    ((c.user_id = user.id ∨ r.author_id = user.id) →
      (deleteComment db now c.id user).2 =
        { db with recipe_comments := (deleteComment db now c.id user).2.recipe_comments } ∧
      (∀ d, d ∈ (deleteComment db now c.id user).2.recipe_comments ↔
        d ∈ db.recipe_comments ∧ ¬ CascadeReach db.recipe_comments [c.id] d.id) ∧
      c ∉ (deleteComment db now c.id user).2.recipe_comments ∧
      (∀ d ∈ db.recipe_comments, d.parent_comment_id = some c.id →
        d ∉ (deleteComment db now c.id user).2.recipe_comments) ∧
      (deleteComment db now c.id user).2.recipe_comments.Sublist db.recipe_comments) := by
  rw [deleteComment_eq db now c r user hc hr hrec hcpk hrpk]
  by_cases hperm : c.user_id = user.id ∨ r.author_id = user.id
  · have hcond : ¬ (c.user_id ≠ user.id ∧ r.author_id ≠ user.id) := by
      intro h
      cases hperm with
      | inl h1 => exact h.1 h1
      | inr h2 => exact h.2 h2
    rw [if_neg hcond]
    refine ⟨⟨fun _ => hperm, fun _ => rfl⟩, fun h => absurd hperm h, fun _ => ?_⟩
    have hmem : ∀ d, d ∈ deleteCommentsCascade db.recipe_comments [c.id] ↔
        d ∈ db.recipe_comments ∧ ¬ CascadeReach db.recipe_comments [c.id] d.id :=
      fun d => mem_deleteCommentsCascade db.recipe_comments [c.id] d
    refine ⟨rfl, hmem, ?_, ?_, ?_⟩
    · intro hin
      exact ((hmem c).mp hin).2 (CascadeReach.root c.id (List.mem_singleton.mpr rfl))
    · intro d hd hparent hin
      exact ((hmem d).mp hin).2
        (CascadeReach.reply d c.id hd hparent
          (CascadeReach.root c.id (List.mem_singleton.mpr rfl)))
    · exact List.filter_sublist _
  · have hcond : c.user_id ≠ user.id ∧ r.author_id ≠ user.id :=
      ⟨fun h => hperm (Or.inl h), fun h => hperm (Or.inr h)⟩
    rw [if_pos hcond]
    refine ⟨⟨fun h => ?_, fun h => absurd h hperm⟩, fun _ => rfl, fun h => absurd h hperm⟩
    simp at h

/-- C19 (amended) at the sample database: `alice`, the author of the recipe `r2`, deletes
`bob`'s comment `c1` with its thread, and `bob`, who wrote neither `c4` nor the recipe
`r1`, may not delete `c4`. -/
theorem deleteComment_cascade_witness :
    (deleteComment sampleFullDb 9 "c1" sampleAlice).1.status = 200 ∧
    (deleteComment sampleFullDb 9 "c4" sampleBob).1.status = 403 ∧
    (deleteComment sampleFullDb 9 "c4" sampleBob).2 = sampleFullDb :=
  ⟨(deleteComment_cascade sampleFullDb 9
      { id := "c1", recipe_id := "r2", user_id := "u2", comment := "Nice" }
      samplePublicRecipe sampleAlice (by decide) (by decide) rfl (by decide)
      (by decide)).1.mpr (by decide),
   by
    rw [(deleteComment_cascade sampleFullDb 9
      { id := "c4", recipe_id := "r1", user_id := "u1", comment := "Note to self" }
      samplePrivateRecipe sampleBob (by decide) (by decide) rfl (by decide)
      (by decide)).2.1 (by decide)],
   by
    rw [(deleteComment_cascade sampleFullDb 9
      { id := "c4", recipe_id := "r1", user_id := "u1", comment := "Note to self" }
      samplePrivateRecipe sampleBob (by decide) (by decide) rfl (by decide)
      (by decide)).2.1 (by decide)]⟩

/-! ## The invariant on replies is kept by `createComment` -/

theorem checkParentComment_none (db : Db) (now : Nat) (recipeId pid : String)
    (parent : ParentIdInput) (h : checkParentComment db now recipeId parent = none)
    (ht : parent.truthy = true) (hs : parent.sent = some pid) :
    ∃ p ∈ db.recipe_comments, p.id = pid ∧ p.recipe_id = recipeId := by
  unfold checkParentComment at h
  rw [if_pos ht, hs] at h
  cases hrows : db.recipe_comments.filter fun c => decide (some c.id = some pid) with
  | nil =>
    rw [hrows] at h
    simp at h
  | cons p rest =>
    rw [hrows] at h
    simp only at h
    have hp : p ∈ db.recipe_comments.filter fun c => decide (some c.id = some pid) := by
      rw [hrows]; exact List.mem_cons_self _ _
    rw [List.mem_filter, decide_eq_true_eq, Option.some.injEq] at hp
    refine ⟨p, hp.1, hp.2, ?_⟩
    by_contra hne
    rw [if_pos hne] at h
    exact absurd h (by simp)

theorem orNull_eq_some (o : Option String) (s : String) (h : orNull o = some s) :
    o = some s ∧ truthy s = true := by
  cases o with
  | none => simp [orNull] at h
  | some t =>
    simp only [orNull] at h
    by_cases ht : truthy t = true
    · rw [if_pos ht] at h
      cases h
      exact ⟨rfl, ht⟩
    · rw [if_neg ht] at h
      exact absurd h (by simp)

/-- What `createComment` does to the database: nothing, or it appends one comment with a
new id whose declared parent has passed the parent check. -/
theorem createComment_db (commentId : String) (db : Db) (now : Nat) (recipeId : String)
    (user : AuthUser) (body : CommentBody) :
    (createComment commentId db now recipeId user body).2 = db ∨
    (checkParentComment db now recipeId body.parentCommentId = none ∧
      (∀ c ∈ db.recipe_comments, c.id ≠ commentId) ∧
      (createComment commentId db now recipeId user body).2 =
        { db with
          recipe_comments := db.recipe_comments ++
            [{ id := commentId, recipe_id := recipeId, user_id := user.id,
               comment := jsTrim (body.comment.getD ""),
               parent_comment_id :=
                 if body.parentCommentId.truthy then body.parentCommentId.sent else none,
               created_at := now, updated_at := now }] }) := by
  unfold createComment
  simp only
  by_cases hvalid : validateComment body = true
  · simp only [hvalid, Bool.not_true, Bool.false_eq_true, if_false]
    cases recipesById db recipeId with
    | nil => exact Or.inl rfl
    | cons recipe rest =>
      simp only
      by_cases hgate : (!(truthyBool recipe.is_public) && decide (recipe.author_id ≠ user.id)) = true
      · rw [if_pos hgate]
        exact Or.inl rfl
      · rw [if_neg hgate]
        cases hcheck : checkParentComment db now recipeId body.parentCommentId with
        | some resp => exact Or.inl rfl
        | none =>
          simp only
          by_cases hclash : (db.recipe_comments.any fun c => decide (c.id = commentId)) = true
          · rw [if_pos hclash]
            exact Or.inl rfl
          · rw [if_neg hclash]
            refine Or.inr ⟨trivial, ?_, ?_⟩
            · intro c hc hid
              apply hclash
              rw [List.any_eq_true]
              exact ⟨c, hc, by simpa using hid⟩
            · cases db.users.filter fun u => decide (u.id = user.id) <;> rfl
  · simp only [hvalid, Bool.not_false, if_true]
    exact Or.inl trivial

/-- The primary key, the foreign key to the parent and the invariant that a reply is on
the recipe of its parent are kept by `createComment`. -/
theorem createComment_preserves_replies (commentId : String) (db : Db) (now : Nat)
    (recipeId : String) (user : AuthUser) (body : CommentBody)
    (hpk : CommentsPK db) (hfk : CommentsParentFK db) (hsame : RepliesSameRecipe db) :
    CommentsPK (createComment commentId db now recipeId user body).2 ∧
    CommentsParentFK (createComment commentId db now recipeId user body).2 ∧
    RepliesSameRecipe (createComment commentId db now recipeId user body).2 := by
  rcases createComment_db commentId db now recipeId user body with h | ⟨hcheck, hfresh, h⟩
  · rw [h]
    exact ⟨hpk, hfk, hsame⟩
  · rw [h]
    have hparent : ∀ pid,
        (if body.parentCommentId.truthy then body.parentCommentId.sent else none) = some pid →
        ∃ p ∈ db.recipe_comments, p.id = pid ∧ p.recipe_id = recipeId := by
      intro pid hpid
      by_cases ht : body.parentCommentId.truthy = true
      · rw [if_pos ht] at hpid
        exact checkParentComment_none db now recipeId pid _ hcheck ht hpid
      · rw [if_neg ht] at hpid
        exact absurd hpid (by simp)
    refine ⟨?_, ?_, ?_⟩
    · intro a ha b hb hab
      simp only [List.mem_append, List.mem_singleton] at ha hb
      rcases ha with ha | ha <;> rcases hb with hb | hb
      · exact hpk a ha b hb hab
      · rw [hb] at hab
        exact absurd hab (hfresh a ha)
      · rw [ha] at hab
        exact absurd hab.symm (hfresh b hb)
      · rw [ha, hb]
    · intro c hc pid hpid
      simp only [List.mem_append, List.mem_singleton] at hc ⊢
      rcases hc with hc | hc
      · obtain ⟨q, hq, hqid⟩ := hfk c hc pid hpid
        exact ⟨q, Or.inl hq, hqid⟩
      · rw [hc] at hpid
        obtain ⟨p, hp, hpidp, _⟩ := hparent pid hpid
        exact ⟨p, Or.inl hp, hpidp⟩
    · intro c hc p hp hcp
      simp only [List.mem_append, List.mem_singleton] at hc hp
      rcases hc with hc | hc <;> rcases hp with hp | hp
      · exact hsame c hc p hp hcp
      · obtain ⟨q, hq, hqid⟩ := hfk c hc p.id hcp
        rw [hp] at hqid
        exact absurd hqid (hfresh q hq)
      · rw [hc] at hcp ⊢
        obtain ⟨q, hq, hqid, hqrec⟩ := hparent p.id hcp
        have := hpk q hq p hp hqid
        subst this
        exact hqrec.symm
      · rw [hc] at hcp
        obtain ⟨q, hq, hqid, _⟩ := hparent p.id hcp
        rw [hp] at hqid
        exact absurd hqid (hfresh q hq)

/-! ## C20: following -/

theorem toggleFollow_target (db : Db) (username : String) (t : UserRow) (ht : t ∈ db.users)
    (hname : t.username = toLowerCase username) (hactive : t.is_active = some true)
    (huniq : UsernamesUnique db) :
    ∃ rest, (db.users.filter fun u =>
      decide (u.username = toLowerCase username) && decide (u.is_active = some true)) =
        t :: rest :=
  filter_head_of_unique db.users _ t ht (by simp [hname, hactive])
    (fun x hx hpx => huniq x hx t ht (by
      simp only [Bool.and_eq_true, decide_eq_true_eq] at hpx
      rw [hpx.1, hname]))

theorem existingFollow_pos (db : Db) (a b : String) :
    (db.user_followers.filter fun f =>
      decide (f.follower_id = a) && decide (f.following_id = b)).length > 0 ↔
    ∃ f ∈ db.user_followers, f.follower_id = a ∧ f.following_id = b := by
  rw [gt_iff_lt, List.length_pos_iff_exists_mem]
  simp only [List.mem_filter, Bool.and_eq_true, decide_eq_true_eq]

/-- C20: `toggleFollow` on the username of the stored active user `t` (usernames being
unique). When `t` is the requester the response is 400 and the database is unchanged.
Otherwise the response is 200 and only `user_followers` changes: the edge (requester,
`t`) is removed when it was there (every other edge kept) and appended when it was not;
`isFollowing` says whether the edge is in the table afterwards, and the counts are those
of `t` in the table afterwards. In every case an edge that is new in the table is not a
self-edge. -/
theorem toggleFollow_toggles_edge (db : Db) (now : Nat) (username : String) (user : AuthUser)
    (t : UserRow) (ht : t ∈ db.users) (hname : t.username = toLowerCase username)
    (hactive : t.is_active = some true) (huniq : UsernamesUnique db) :
    (t.id = user.id →
      toggleFollow db now username user =
        ({ status := 400, error := some "Invalid operation",
           message := some "You cannot follow yourself", timestamp := now }, db)) ∧
    (t.id ≠ user.id →
      (toggleFollow db now username user).1.status = 200 ∧
      (toggleFollow db now username user).2 =
        { db with user_followers := (toggleFollow db now username user).2.user_followers } ∧
      ((∃ f ∈ db.user_followers, f.follower_id = user.id ∧ f.following_id = t.id) →
        (toggleFollow db now username user).2.user_followers =
          db.user_followers.filter fun f =>
            !(decide (f.follower_id = user.id) && decide (f.following_id = t.id))) ∧
      ((¬ ∃ f ∈ db.user_followers, f.follower_id = user.id ∧ f.following_id = t.id) →
        (toggleFollow db now username user).2.user_followers =
          db.user_followers ++
            [{ follower_id := user.id, following_id := t.id, created_at := now }]) ∧
      ∃ data, (toggleFollow db now username user).1.data = some data ∧
        data.user.id = t.id ∧
        (data.isFollowing = true ↔
          ∃ f ∈ (toggleFollow db now username user).2.user_followers,
            f.follower_id = user.id ∧ f.following_id = t.id) ∧
        (data.isFollowing = true ↔
          ¬ ∃ f ∈ db.user_followers, f.follower_id = user.id ∧ f.following_id = t.id) ∧
        data.stats.followersCount =
          followersCountOf (toggleFollow db now username user).2 t.id ∧
        data.stats.followingCount =
          followingCountOf (toggleFollow db now username user).2 t.id) ∧
    (∀ f ∈ (toggleFollow db now username user).2.user_followers,
      f ∉ db.user_followers → f.follower_id ≠ f.following_id) := by
  obtain ⟨rest, hhead⟩ := toggleFollow_target db username t ht hname hactive huniq
  have hex := existingFollow_pos db user.id t.id
  refine ⟨?_, ?_, ?_⟩
  · intro hself
    unfold toggleFollow
    simp only [hhead, hself, if_true]
  · intro hother
    by_cases hpresent : ∃ f ∈ db.user_followers, f.follower_id = user.id ∧ f.following_id = t.id
    · have hpos := hex.mpr hpresent
      unfold toggleFollow
      simp only [hhead, if_neg hother, if_pos hpos]
      refine ⟨trivial, trivial, fun _ => trivial, fun h => absurd hpresent h, _, rfl, rfl, ?_, ?_,
        rfl, rfl⟩
      · simp only [decide_eq_true hpos, Bool.not_true, Bool.false_eq_true, false_iff]
        rintro ⟨f, hf, h1, h2⟩
        simp [List.mem_filter, h1, h2] at hf
      · simp only [decide_eq_true hpos, Bool.not_true, Bool.false_eq_true, false_iff]
        exact fun h => h hpresent
    · have hpos : ¬ (db.user_followers.filter fun f =>
          decide (f.follower_id = user.id) && decide (f.following_id = t.id)).length > 0 :=
        fun h => hpresent (hex.mp h)
      unfold toggleFollow
      simp only [hhead, if_neg hother, if_neg hpos]
      refine ⟨trivial, trivial, fun h => absurd h hpresent, fun _ => trivial, _, rfl, rfl, ?_, ?_,
        rfl, rfl⟩
      · simp only [decide_eq_false hpos, Bool.not_false, true_iff]
        exact ⟨_, List.mem_append_right _ (List.mem_singleton.mpr rfl), rfl, rfl⟩
      · simp only [decide_eq_false hpos, Bool.not_false, true_iff]
        exact hpresent
  · intro f hf hnew
    unfold toggleFollow at hf
    simp only [hhead] at hf
    by_cases hself : t.id = user.id
    · rw [if_pos hself] at hf
      exact absurd hf hnew
    · rw [if_neg hself] at hf
      by_cases hpos : (db.user_followers.filter fun f =>
          decide (f.follower_id = user.id) && decide (f.following_id = t.id)).length > 0
      · simp only [if_pos hpos] at hf
        exact absurd (List.mem_filter.mp hf).1 hnew
      · simp only [if_neg hpos] at hf
        rcases List.mem_append.mp hf with h | h
        · exact absurd h hnew
        · rw [List.mem_singleton.mp h]
          exact fun h => hself h.symm

/-- C20 at the sample database: `alice` may not follow `Alice`; `bob`, who follows
`alice`, stops following her; `alice`, who does not follow `bob`, starts to. -/
theorem toggleFollow_toggles_edge_witness :
    (toggleFollow sampleFullDb 9 "Alice" sampleAlice).1.status = 400 ∧
    (toggleFollow sampleFullDb 9 "Alice" sampleBob).2.user_followers = [] ∧
    (toggleFollow sampleFullDb 9 "Bob" sampleAlice).2.user_followers =
      [ { follower_id := "u2", following_id := "u1", created_at := 1 },
        { follower_id := "u1", following_id := "u2", created_at := 9 } ] :=
  ⟨by
    rw [(toggleFollow_toggles_edge sampleFullDb 9 "Alice" sampleAlice
      { id := "u1", username := "alice", email := "alice@example.com", password_hash := "h1",
        first_name := "Alice" } (by decide) (by decide) rfl (by decide)).1 rfl],
   by
    rw [((toggleFollow_toggles_edge sampleFullDb 9 "Alice" sampleBob
      { id := "u1", username := "alice", email := "alice@example.com", password_hash := "h1",
        first_name := "Alice" } (by decide) (by decide) rfl (by decide)).2.1
        (by decide)).2.2.1 (by decide)]
    decide,
   ((toggleFollow_toggles_edge sampleFullDb 9 "Bob" sampleAlice
      { id := "u2", username := "bob", email := "bob@example.com", password_hash := "h2",
        first_name := "Bob", last_name := some "Baker" } (by decide) (by decide) rfl
        (by decide)).2.1 (by decide)).2.2.2.1 (by decide)⟩

/-! ## C21: the flag `isFollowingBack` -/

theorem mem_followerRows (db : Db) (userId : String) (row : FollowRow × UserRow)
    (h : row ∈ followerRows db userId) :
    row.1 ∈ db.user_followers ∧ row.1.following_id = userId ∧ row.2 ∈ db.users ∧
      row.2.id = row.1.follower_id ∧ row.2.is_active = some true := by
  unfold followerRows at h
  rw [(List.perm_insertionSort _ _).mem_iff] at h
  simp only [List.mem_flatMap, List.mem_filter, List.mem_map, decide_eq_true_eq,
    Bool.and_eq_true] at h
  obtain ⟨uf, ⟨huf, hfol⟩, u, ⟨hu, hid, hact⟩, rfl⟩ := h
  exact ⟨huf, hfol, hu, hid, hact⟩

theorem isFollowingBack_iff (db : Db) (requestingUserId : Option String) (followerId : String) :
    isFollowingBack db requestingUserId followerId = true ↔
      ∃ v, requestingUserId = some v ∧
        ∃ f ∈ db.user_followers, f.follower_id = v ∧ f.following_id = followerId := by
  cases requestingUserId with
  | none => simp [isFollowingBack]
  | some v => simp [isFollowingBack]

theorem sqlCount_of_bounds (k : Int) (h0 : 0 ≤ k) (h1 : k < 2 ^ 63) :
    sqlCount (some k) = some k.toNat := by
  show (if 0 ≤ k ∧ k < 2 ^ 63 then some k.toNat else none) = _
  rw [if_pos ⟨h0, h1⟩]

/-- C21 as stated fails: `alice` and `bob` follow each other, so in the listing of
`alice`'s followers the relationship with `bob` is mutual; yet `bob` is flagged `false`
for an anonymous requester and for the requester `bob`, and `true` only for `alice`. -/
theorem getUserFollowers_flag_not_mutual :
    ({ follower_id := "u1", following_id := "u2", created_at := 2 } : FollowRow) ∈
      sampleMutualDb.user_followers ∧
    ((getUserFollowers sampleMutualDb 9 "alice" none none none).data.map fun b =>
      b.followers.map fun f => (f.id, f.isFollowingBack)) = some [("u2", false)] ∧
    ((getUserFollowers sampleMutualDb 9 "alice" none none (some sampleBob)).data.map fun b =>
      b.followers.map fun f => (f.id, f.isFollowingBack)) = some [("u2", false)] ∧
    ((getUserFollowers sampleMutualDb 9 "alice" none none (some sampleAlice)).data.map fun b =>
      b.followers.map fun f => (f.id, f.isFollowingBack)) = some [("u2", true)] := by
  decide

/-- C21, amended: in the followers listing of the stored active user `t` (usernames being
unique), for a requester permitted to see it (`t`'s profile is public, or the requester is
`t`) and a page and limit the database accepts, the response is 200, every listed
follower follows `t`, and a follower is flagged `isFollowingBack` exactly when the
requester is authenticated and follows that follower. Hence the flag says that the
relationship is mutual when the requester is `t`, and it is `false` for every follower
when the requester is anonymous. -/
theorem getUserFollowers_isFollowingBack (db : Db) (now : Nat) (username : String)
    (page limit : Option String) (reqUser : Option AuthUser) (t : UserRow) (p l : Int)
    (ht : t ∈ db.users) (hname : t.username = toLowerCase username)
    (hactive : t.is_active = some true) (huniq : UsernamesUnique db)
    (hperm : t.is_public_profile = some true ∨ reqUser.map (fun u => u.id) = some t.id)
    (hp : parseIntJs (page.getD "1") = some p) (hl : parseIntJs (limit.getD "20") = some l)
    (hp1 : 1 ≤ p) (hl0 : 0 ≤ l) (hl1 : l < 2 ^ 63) (hoff : (p - 1) * l < 2 ^ 63) :
    ∃ body, (getUserFollowers db now username page limit reqUser).status = 200 ∧
      (getUserFollowers db now username page limit reqUser).data = some body ∧
      body.user.id = t.id ∧
      (∀ item ∈ body.followers,
        (∃ f ∈ db.user_followers, f.follower_id = item.id ∧ f.following_id = t.id) ∧
        (item.isFollowingBack = true ↔
          ∃ v, reqUser.map (fun u => u.id) = some v ∧
            ∃ f ∈ db.user_followers, f.follower_id = v ∧ f.following_id = item.id)) ∧
      (reqUser.map (fun u => u.id) = some t.id →
        ∀ item ∈ body.followers,
          (item.isFollowingBack = true ↔
            ∃ f ∈ db.user_followers, f.follower_id = t.id ∧ f.following_id = item.id)) ∧
      (reqUser = none → ∀ item ∈ body.followers, item.isFollowingBack = false) := by
  obtain ⟨rest, hhead⟩ := toggleFollow_target db username t ht hname hactive huniq
  have hgate : (!(truthyBool t.is_public_profile) &&
      decide (some t.id ≠ reqUser.map fun u => u.id)) = false := by
    cases hperm with
    | inl h => rw [h]; rfl
    | inr h => simp [h]
  have hoff0 : 0 ≤ (p - 1) * l := mul_nonneg (by omega) hl0
  have hitems : ∀ item ∈ (((followerRows db t.id).drop ((p - 1) * l).toNat).take l.toNat).map
      (followerJson db (reqUser.map fun u => u.id)),
      (∃ f ∈ db.user_followers, f.follower_id = item.id ∧ f.following_id = t.id) ∧
      (item.isFollowingBack = true ↔
        ∃ v, reqUser.map (fun u => u.id) = some v ∧
          ∃ f ∈ db.user_followers, f.follower_id = v ∧ f.following_id = item.id) := by
    intro item hitem
    rw [List.mem_map] at hitem
    obtain ⟨row, hrow, rfl⟩ := hitem
    have hmem := mem_followerRows db t.id row (List.mem_of_mem_drop (List.mem_of_mem_take hrow))
    exact ⟨⟨row.1, hmem.1, hmem.2.2.2.1.symm, hmem.2.1⟩,
      isFollowingBack_iff db _ row.2.id⟩
  have hresp : getUserFollowers db now username page limit reqUser =
      { status := 200,
        data := some
          { user := { id := t.id, username := t.username },
            followers :=
              (((followerRows db t.id).drop ((p - 1) * l).toNat).take l.toNat).map
                (followerJson db (reqUser.map fun u => u.id)),
            pagination := paginationOf (some p) (some l) (followerRows db t.id).length },
        timestamp := now } := by
    unfold getUserFollowers
    simp only [hhead, hgate, hp, hl, pageOffset, sqlCount_of_bounds l hl0 hl1,
      sqlCount_of_bounds _ hoff0 hoff, Bool.false_eq_true, if_false]
  rw [hresp]
  refine ⟨_, rfl, rfl, rfl, hitems, ?_, ?_⟩
  · intro hself item hitem
    rw [(hitems item hitem).2, hself]
    constructor
    · rintro ⟨v, hv, h⟩
      cases hv
      exact h
    · intro h
      exact ⟨t.id, rfl, h⟩
  · intro hanon item hitem
    have h := (hitems item hitem).2
    rw [hanon] at h
    cases hflag : item.isFollowingBack with
    | false => rfl
    | true =>
      obtain ⟨v, hv, _⟩ := h.mp hflag
      cases hv

/-- C21 (amended) at the sample database: `alice` lists her own followers. -/
theorem getUserFollowers_isFollowingBack_witness :
    ∃ body, (getUserFollowers sampleMutualDb 9 "Alice" none none (some sampleAlice)).data =
        some body ∧
      body.followers.map (fun f => (f.id, f.isFollowingBack)) = [("u2", true)] := by
  obtain ⟨body, _, hdata, _⟩ := getUserFollowers_isFollowingBack sampleMutualDb 9 "Alice" none
    none (some sampleAlice)
    { id := "u1", username := "alice", email := "alice@example.com", password_hash := "h1",
      first_name := "Alice" } 1 20 (by decide) (by decide) rfl (by decide)
    (Or.inl rfl) (by decide) (by decide) (by decide) (by decide) (by decide) (by decide)
  refine ⟨body, hdata, ?_⟩
  have hval : (getUserFollowers sampleMutualDb 9 "Alice" none none (some sampleAlice)).data.map
      (fun b => b.followers.map fun f => (f.id, f.isFollowingBack)) = some [("u2", true)] := by
    decide
  rw [hdata] at hval
  exact Option.some.inj hval

/-! ## C22: the personal feed -/

theorem feedVisible_iff (db : Db) (userId : String) (r : RecipeRow) :
    feedVisible db userId r = true ↔
      r.is_public = some true ∧
        (r.author_id = userId ∨
          ∃ f ∈ db.user_followers, f.follower_id = userId ∧ f.following_id = r.author_id) := by
  simp [feedVisible]

/-- Under the primary key of `users` and the foreign key of `recipes.author_id`, the join
of `recipes` with `users` has exactly one row per recipe. -/
theorem recipesJoinUsers_map_fst (db : Db) (hupk : UsersPK db) (hfk : RecipesAuthorFK db) :
    (recipesJoinUsers db).map Prod.fst = db.recipes := by
  unfold recipesJoinUsers
  have hgen : ∀ rs : List RecipeRow, (∀ r ∈ rs, ∃ u ∈ db.users, u.id = r.author_id) →
      (rs.flatMap fun r =>
        (db.users.filter fun u => decide (u.id = r.author_id)).map fun u => (r, u)).map
          Prod.fst = rs := by
    intro rs
    induction rs with
    | nil => intro _; rfl
    | cons r rest ih =>
      intro hall
      obtain ⟨u, hu, hid⟩ := hall r (List.mem_cons_self _ _)
      have hlen := filter_length_le_one (fun u : UserRow => u.id)
        (fun u => decide (u.id = r.author_id)) db.users hupk
        (fun a b ha hb => by
          rw [decide_eq_true_eq] at ha hb
          show a.id = b.id
          rw [ha, hb])
      have hmem : u ∈ db.users.filter fun u => decide (u.id = r.author_id) :=
        List.mem_filter.mpr ⟨hu, by simpa using hid⟩
      have hone : ∃ v, (db.users.filter fun u => decide (u.id = r.author_id)) = [v] := by
        cases hf : db.users.filter fun u => decide (u.id = r.author_id) with
        | nil => rw [hf] at hmem; exact absurd hmem (List.not_mem_nil _)
        | cons v vs =>
          rw [hf] at hlen
          cases vs with
          | nil => exact ⟨v, rfl⟩
          | cons w ws => simp at hlen
      obtain ⟨v, hv⟩ := hone
      rw [List.flatMap_cons, List.map_append, ih (fun x hx => hall x (List.mem_cons_of_mem _ hx)),
        hv]
      rfl
  exact hgen db.recipes hfk

theorem feedRows_perm (db : Db) (userId : String) (hupk : UsersPK db)
    (hfk : RecipesAuthorFK db) :
    ((feedRows db userId).map Prod.fst).Perm
      (db.recipes.filter fun r => feedVisible db userId r) := by
  unfold feedRows
  refine ((List.perm_insertionSort _ _).map Prod.fst).trans ?_
  have h := List.filter_map (f := (Prod.fst : RecipeRow × UserRow → RecipeRow))
    (p := fun r => feedVisible db userId r) (l := recipesJoinUsers db)
  rw [recipesJoinUsers_map_fst db hupk hfk] at h
  rw [h]
  exact List.Perm.refl _

theorem mem_feedRows (db : Db) (userId : String) (p : RecipeRow × UserRow)
    (h : p ∈ feedRows db userId) :
    p.1 ∈ db.recipes ∧ p.2.id = p.1.author_id ∧ feedVisible db userId p.1 = true := by
  unfold feedRows at h
  rw [(List.perm_insertionSort _ _).mem_iff, List.mem_filter] at h
  have hj := recipesJoinUsers_mem db p h.1
  exact ⟨hj.1, hj.2, h.2⟩

theorem feedRows_sorted (db : Db) (userId : String) :
    (feedRows db userId).Sorted fun a b => b.1.created_at ≤ a.1.created_at := by
  unfold feedRows
  haveI : IsTotal (RecipeRow × UserRow) (fun a b => b.1.created_at ≤ a.1.created_at) :=
    ⟨fun a b => le_total _ _⟩
  haveI : IsTrans (RecipeRow × UserRow) (fun a b => b.1.created_at ≤ a.1.created_at) :=
    ⟨fun a b c hab hbc => le_trans hbc hab⟩
  exact List.sorted_insertionSort _ _

/-- The pages of a list, one after the other, are the list. -/
theorem flatMap_pages {α : Type} (rows : List α) (l : Nat) :
    ∀ n, ((List.range n).flatMap fun k => (rows.drop (k * l)).take l) = rows.take (n * l) := by
  intro n
  induction n with
  | zero => simp
  | succ n ih =>
    rw [List.range_succ, List.flatMap_append, ih, List.flatMap_singleton, Nat.succ_mul,
      List.take_add]

theorem getUserFeedPage_of_counts (db : Db) (now : Nat) (user : AuthUser)
    (p l : Option Int) (lim off : Nat)
    (h1 : sqlCount l = some lim) (h2 : sqlCount (pageOffset p l) = some off) :
    getUserFeedPage db now p l user =
      { status := 200,
        data := some
          { feed := (((feedRows db user.id).drop off).take lim).map (feedItem db user.id),
            pagination := paginationOf p l
              (db.recipes.filter fun r => feedVisible db user.id r).length },
        timestamp := now } := by
  unfold getUserFeedPage
  dsimp only
  rw [h1, h2]

theorem pageOffset_some (p l : Int) : pageOffset (some p) (some l) = some ((p - 1) * l) := rfl

theorem getUserFeedPage_ok (db : Db) (now : Nat) (user : AuthUser) (k l : Nat)
    (hl : (l : Int) < 2 ^ 63) (hk : ((k * l : Nat) : Int) < 2 ^ 63) :
    getUserFeedPage db now (some ((k : Int) + 1)) (some (l : Int)) user =
      { status := 200,
        data := some
          { feed := (((feedRows db user.id).drop (k * l)).take l).map (feedItem db user.id),
            pagination := paginationOf (some ((k : Int) + 1)) (some (l : Int))
              (db.recipes.filter fun r => feedVisible db user.id r).length },
        timestamp := now } := by
  have h1 : sqlCount (some (l : Int)) = some l := by
    rw [sqlCount_of_bounds (l : Int) (Int.ofNat_nonneg _) hl, Int.toNat_ofNat]
  have h2 : sqlCount (pageOffset (some ((k : Int) + 1)) (some (l : Int))) = some (k * l) := by
    have he : ((k : Int) + 1 - 1) * (l : Int) = ((k * l : Nat) : Int) := by push_cast; ring
    rw [pageOffset_some, he, sqlCount_of_bounds _ (Int.ofNat_nonneg _) hk, Int.toNat_ofNat]
  exact getUserFeedPage_of_counts db now user _ _ l (k * l) h1 h2

/-- After an unfollow the follow table has no edge from the requester to the target. -/
theorem toggleFollow_unfollow_db (db : Db) (now : Nat) (username : String) (user : AuthUser)
    (t : UserRow) (ht : t ∈ db.users) (hname : t.username = toLowerCase username)
    (hactive : t.is_active = some true) (huniq : UsernamesUnique db) (hother : t.id ≠ user.id)
    (hedge : ∃ f ∈ db.user_followers, f.follower_id = user.id ∧ f.following_id = t.id) :
    (toggleFollow db now username user).2 =
      { db with
        user_followers := db.user_followers.filter fun f =>
          !(decide (f.follower_id = user.id) && decide (f.following_id = t.id)) } := by
  obtain ⟨rest, hhead⟩ := toggleFollow_target db username t ht hname hactive huniq
  have hpos := (existingFollow_pos db user.id t.id).mpr hedge
  unfold toggleFollow
  simp only [hhead, if_neg hother, if_pos hpos]

/-- C22: the feed of the requester `u` (under the primary key of `users` and the foreign
key of `recipes.author_id`). The handler parses `page` and `limit` and returns the page
`k + 1` of `limit` rows of the feed rows; the pages 1 to `n`, one after the other, are all
the feed rows once `n * limit` reaches their number. The feed rows are, up to order, exactly
the stored recipes that are public and whose author is `u` or a user `u` follows, and they
are in descending `created_at` order; so a private recipe never appears, and after `u`
unfollows the user `t` no recipe of `t` is in the feed. -/
theorem getUserFeed_contents (db : Db) (now : Nat) (user : AuthUser) (hupk : UsersPK db)
    (hfk : RecipesAuthorFK db) :
    (∀ page limit, getUserFeed db now page limit user =
      getUserFeedPage db now (parseIntJs (page.getD "1")) (parseIntJs (limit.getD "10")) user) ∧
    (∀ k l : Nat, (l : Int) < 2 ^ 63 → ((k * l : Nat) : Int) < 2 ^ 63 →
      (getUserFeedPage db now (some ((k : Int) + 1)) (some (l : Int)) user).status = 200 ∧
      ((getUserFeedPage db now (some ((k : Int) + 1)) (some (l : Int)) user).data.map
        fun b => b.feed) =
        some ((((feedRows db user.id).drop (k * l)).take l).map (feedItem db user.id))) ∧
    (∀ n l : Nat, (l : Int) < 2 ^ 63 → ((n * l : Nat) : Int) < 2 ^ 63 →
      (feedRows db user.id).length ≤ n * l →
      ((List.range n).flatMap fun k =>
        ((getUserFeedPage db now (some ((k : Int) + 1)) (some (l : Int)) user).data.map
          fun b => b.feed).getD []) =
        (feedRows db user.id).map (feedItem db user.id)) ∧
    ((feedRows db user.id).map Prod.fst).Perm
      (db.recipes.filter fun r => feedVisible db user.id r) ∧
    (∀ r, feedVisible db user.id r = true ↔
      r.is_public = some true ∧
        (r.author_id = user.id ∨
          ∃ f ∈ db.user_followers, f.follower_id = user.id ∧ f.following_id = r.author_id)) ∧
    ((feedRows db user.id).Sorted fun a b => b.1.created_at ≤ a.1.created_at) ∧
    (∀ p ∈ feedRows db user.id,
      (feedItem db user.id p).id = p.1.id ∧ (feedItem db user.id p).createdAt = p.1.created_at ∧
      (feedItem db user.id p).author.id = p.1.author_id ∧
      (feedItem db user.id p).isPublic = some true) ∧
    (∀ username t, t ∈ db.users → t.username = toLowerCase username →
      t.is_active = some true → UsernamesUnique db → t.id ≠ user.id →
      (∃ f ∈ db.user_followers, f.follower_id = user.id ∧ f.following_id = t.id) →
      ∀ p ∈ feedRows (toggleFollow db now username user).2 user.id, p.1.author_id ≠ t.id) := by
  refine ⟨fun _ _ => rfl, ?_, ?_, feedRows_perm db user.id hupk hfk,
    feedVisible_iff db user.id, feedRows_sorted db user.id, ?_, ?_⟩
  · intro k l hl hk
    rw [getUserFeedPage_ok db now user k l hl hk]
    exact ⟨rfl, rfl⟩
  · intro n l hl hn hlen
    have hpages : ∀ k ∈ List.range n,
        ((getUserFeedPage db now (some ((k : Int) + 1)) (some (l : Int)) user).data.map
          fun b => b.feed).getD [] =
        (((feedRows db user.id).map (feedItem db user.id)).drop (k * l)).take l := by
      intro k hk
      rw [List.mem_range] at hk
      have hkl : ((k * l : Nat) : Int) < 2 ^ 63 :=
        lt_of_le_of_lt (Int.ofNat_le.mpr (Nat.mul_le_mul_right l (le_of_lt hk))) hn
      rw [getUserFeedPage_ok db now user k l hl hkl]
      simp only [Option.map_some', Option.getD_some, List.map_take, List.map_drop]
    rw [List.flatMap_congr hpages, flatMap_pages, List.take_of_length_le]
    rw [List.length_map]
    exact hlen
  · intro p hp
    obtain ⟨_, hid, hvis⟩ := mem_feedRows db user.id p hp
    refine ⟨rfl, rfl, hid, ?_⟩
    exact ((feedVisible_iff db user.id p.1).mp hvis).1
  · intro username t ht hname hactive huniq hother hedge p hp hauthor
    rw [toggleFollow_unfollow_db db now username user t ht hname hactive huniq hother hedge] at hp
    obtain ⟨_, _, hvis⟩ := mem_feedRows _ user.id p hp
    rw [feedVisible_iff] at hvis
    rcases hvis.2 with h | ⟨f, hf, h1, h2⟩
    · exact hother (hauthor.symm.trans h)
    · simp only [List.mem_filter, Bool.not_eq_true', Bool.and_eq_false_imp,
        decide_eq_true_eq, decide_eq_false_iff_not] at hf
      exact hf.2 h1 (h2.trans hauthor)

/-- C22 at the sample database: `bob` follows `alice`; his feed lists his recipe `r3` and
`alice`'s public recipe `r2`, newest first, and not her private `r1`. -/
theorem getUserFeed_contents_witness :
    ((getUserFeedPage sampleMutualDb 9 (some 1) (some 10) sampleBob).data.map fun b =>
      b.feed.map fun i => i.id) = some ["r3", "r2"] := by
  have h := ((getUserFeed_contents sampleMutualDb 9 sampleBob (by decide) (by decide)).2.1
    0 10 (by decide) (by decide)).2
  have h2 := congrArg (Option.map (List.map fun i : RecipeListItem => i.id)) h
  simp only [Option.map_map] at h2
  exact h2.trans (by decide)

/-! ## C23: `GET /search` with a short query -/

theorem dropSpaces_units_le (cs : List Char) :
    ((dropSpaces cs).map fun c => if c.toNat < 65536 then 1 else 2).sum ≤
      (cs.map fun c => if c.toNat < 65536 then 1 else 2).sum := by
  induction cs with
  | nil => exact Nat.le_refl _
  | cons c t ih =>
    unfold dropSpaces
    split_ifs
    · simp only [List.map_cons, List.sum_cons]
      omega
    · exact Nat.le_refl _

/-- Trimming does not lengthen a string. -/
theorem jsLength_jsTrim_le (s : String) : jsLength (jsTrim s) ≤ jsLength s := by
  unfold jsLength jsTrim
  simp only [List.map_reverse, List.sum_reverse]
  refine le_trans (dropSpaces_units_le _) ?_
  simp only [List.map_reverse, List.sum_reverse]
  exact dropSpaces_units_le _

/-- The guard of `globalSearch`: when `q` is missing, or its trimmed text has fewer than 2
UTF-16 code units, the handler responds 400 and does nothing with the connection pool. -/
theorem globalSearch_guard (ilike : String → String → Bool) (db : Db) (now : Nat)
    (q type page limit : Option String) (reqUser : Option AuthUser)
    (hq : q = none ∨ ∃ s, q = some s ∧ jsLength (jsTrim s) < 2) :
    globalSearch ilike db now q type page limit reqUser =
      ({ status := 400, error := some "Search query must be at least 2 characters long",
         timestamp := now }, []) := by
  have hguard : (!(truthyOpt q) || decide (jsLength (jsTrim (q.getD "")) < 2)) = true := by
    rcases hq with h | ⟨s, h, hs⟩
    · rw [h]
      rfl
    · rw [h, Bool.or_eq_true]
      right
      rw [decide_eq_true_eq]
      exact hs
  unfold globalSearch
  rw [if_pos hguard]

/-- The pool operations of `optionalAuth`, by the token of the request. -/
theorem optionalAuthCalls_spec (jwtVerify : String → VerifyResult)
    (authHeader : Option String) :
    (truthyOpt (bearerToken authHeader) = false → optionalAuthCalls jwtVerify authHeader = []) ∧
    (∀ name, jwtVerify ((bearerToken authHeader).getD "") = .error name →
      optionalAuthCalls jwtVerify authHeader = []) ∧
    (∀ userId, truthyOpt (bearerToken authHeader) = true →
      jwtVerify ((bearerToken authHeader).getD "") = .payload userId →
      optionalAuthCalls jwtVerify authHeader =
        [DbCall.connect, DbCall.query, DbCall.release]) := by
  refine ⟨?_, ?_, ?_⟩
  · intro h
    unfold optionalAuthCalls
    simp only [h, Bool.not_false, if_true]
  · intro name h
    unfold optionalAuthCalls
    simp only [h]
    split_ifs <;> rfl
  · intro userId ht h
    unfold optionalAuthCalls
    simp only [ht, h, Bool.not_true, Bool.false_eq_true, if_false]

/-- C23 as stated fails on two counts. The one-letter query `b` sent with the token of `bob`
is refused with 400, but `optionalAuth`, mounted before the handler, has acquired a
connection and looked `bob` up. And the query made of the single character U+1F600, sent
without a token, is not refused: its `length` in JavaScript is 2, the response is 200 and
the handler has sent three queries. -/
theorem searchRoute_short_query_uses_pool :
    ("b" : String).length = 1 ∧
    (searchRoute sampleVerify sampleIlike sampleFullDb 9 (some "Bearer t-u2") (some "b") none
      none none).1.status = 400 ∧
    (searchRoute sampleVerify sampleIlike sampleFullDb 9 (some "Bearer t-u2") (some "b") none
      none none).2 = [DbCall.connect, DbCall.query, DbCall.release] ∧
    sampleEmojiQuery.length = 1 ∧
    (searchRoute sampleVerify sampleIlike sampleFullDb 9 none (some sampleEmojiQuery) none
      none none).1.status = 200 ∧
    (searchRoute sampleVerify sampleIlike sampleFullDb 9 none (some sampleEmojiQuery) none
      none none).2 =
      [DbCall.connect, DbCall.query, DbCall.query, DbCall.query, DbCall.release] := by
  decide

/-- C23, amended: for a request to `GET /search` whose `q` is missing or, once trimmed, has
fewer than 2 UTF-16 code units (its `length` in JavaScript), the response is the 400 of
the guard and the handler `globalSearch` does nothing with the connection pool. All the
request does with the pool is what `optionalAuth` does before the handler: nothing when
the request carries no token or a token that `jwt.verify` rejects, and one connection with
one lookup in `users` when the token verifies. -/
theorem searchRoute_short_query (jwtVerify : String → VerifyResult)
    (ilike : String → String → Bool) (db : Db) (now : Nat)
    (authHeader q type page limit : Option String)
    (hq : q = none ∨ ∃ s, q = some s ∧ jsLength (jsTrim s) < 2) :
    (searchRoute jwtVerify ilike db now authHeader q type page limit).1 =
      { status := 400, error := some "Search query must be at least 2 characters long",
        timestamp := now } ∧
    (globalSearch ilike db now (q.map jsTrim) type page limit
      (optionalAuth jwtVerify (some db) authHeader).user).2 = [] ∧
    (searchRoute jwtVerify ilike db now authHeader q type page limit).2 =
      optionalAuthCalls jwtVerify authHeader ∧
    (truthyOpt (bearerToken authHeader) = false →
      (searchRoute jwtVerify ilike db now authHeader q type page limit).2 = []) ∧
    (∀ name, jwtVerify ((bearerToken authHeader).getD "") = .error name →
      (searchRoute jwtVerify ilike db now authHeader q type page limit).2 = []) ∧
    (∀ userId, truthyOpt (bearerToken authHeader) = true →
      jwtVerify ((bearerToken authHeader).getD "") = .payload userId →
      (searchRoute jwtVerify ilike db now authHeader q type page limit).2 =
        [DbCall.connect, DbCall.query, DbCall.release]) := by
  have hq' : q.map jsTrim = none ∨
      ∃ s, q.map jsTrim = some s ∧ jsLength (jsTrim s) < 2 := by
    rcases hq with h | ⟨s, h, hs⟩
    · left
      rw [h]
      rfl
    · right
      refine ⟨jsTrim s, ?_, lt_of_le_of_lt (jsLength_jsTrim_le (jsTrim s)) hs⟩
      rw [h]
      rfl
  have hhandler := globalSearch_guard ilike db now (q.map jsTrim) type page limit
    (optionalAuth jwtVerify (some db) authHeader).user hq'
  have hcalls : (searchRoute jwtVerify ilike db now authHeader q type page limit).2 =
      optionalAuthCalls jwtVerify authHeader := by
    unfold searchRoute
    simp only [hhandler, List.append_nil]
  obtain ⟨h1, h2, h3⟩ := optionalAuthCalls_spec jwtVerify authHeader
  refine ⟨?_, ?_, hcalls, ?_, ?_, ?_⟩
  · unfold searchRoute
    simp only [hhandler]
  · rw [hhandler]
  · intro h
    rw [hcalls, h1 h]
  · intro name h
    rw [hcalls, h2 name h]
  · intro userId ht h
    rw [hcalls, h3 userId ht h]

/-- C23 (amended) at the sample database: the one-letter query `b` without a token is
refused and the request does nothing with the pool; with the token of `bob` the only
operations are those of `optionalAuth`; the query `br` of an anonymous requester is
answered by the handler, which acquires a connection, sends the recipe query, one
category query for the recipe found, the user query and the ingredient query. -/
theorem searchRoute_short_query_witness :
    (searchRoute sampleVerify sampleIlike sampleFullDb 9 none (some "b") none none none).1 =
      { status := 400, error := some "Search query must be at least 2 characters long",
        timestamp := 9 } ∧
    (searchRoute sampleVerify sampleIlike sampleFullDb 9 none (some "b") none none none).2 =
      [] ∧
    (searchRoute sampleVerify sampleIlike sampleFullDb 9 (some "Bearer t-u2") (some " b ") none
      none none).2 = [DbCall.connect, DbCall.query, DbCall.release] ∧
    (searchRoute sampleVerify sampleIlike sampleFullDb 9 none (some "br") none none none).2 =
      [DbCall.connect, DbCall.query, DbCall.query, DbCall.query, DbCall.query,
        DbCall.release] :=
  ⟨(searchRoute_short_query sampleVerify sampleIlike sampleFullDb 9 none (some "b") none none
      none (Or.inr ⟨"b", rfl, by decide⟩)).1,
   (searchRoute_short_query sampleVerify sampleIlike sampleFullDb 9 none (some "b") none none
      none (Or.inr ⟨"b", rfl, by decide⟩)).2.2.2.1 (by decide),
   (searchRoute_short_query sampleVerify sampleIlike sampleFullDb 9 (some "Bearer t-u2")
      (some " b ") none none none (Or.inr ⟨" b ", rfl, by decide⟩)).2.2.2.2.2 (some "u2")
      (by decide) (by decide),
   by decide⟩

/-! ## C24: the history of all interactions -/

theorem recipesJoinUsers_mem_users (db : Db) (p : RecipeRow × UserRow)
    (h : p ∈ recipesJoinUsers db) : p.2 ∈ db.users := by
  simp only [recipesJoinUsers, List.mem_flatMap, List.mem_filter, List.mem_map,
    decide_eq_true_eq] at h
  obtain ⟨r, _, u, ⟨hu, _⟩, rfl⟩ := h
  exact hu

theorem mem_recipesJoinUsers (db : Db) (r : RecipeRow) (u : UserRow) (hr : r ∈ db.recipes)
    (hu : u ∈ db.users) (hid : u.id = r.author_id) : (r, u) ∈ recipesJoinUsers db := by
  simp only [recipesJoinUsers, List.mem_flatMap, List.mem_filter, List.mem_map,
    decide_eq_true_eq]
  exact ⟨r, hr, u, ⟨hu, hid⟩, rfl⟩

/-- Under the primary keys of `recipes` and `users`, a joined row is determined by the id
of its recipe. -/
theorem recipesJoinUsers_unique (db : Db) (hupk : UsersPK db) (hrpk : RecipeIdsNodup db)
    (p q : RecipeRow × UserRow) (hp : p ∈ recipesJoinUsers db) (hq : q ∈ recipesJoinUsers db)
    (hid : p.1.id = q.1.id) : p = q := by
  obtain ⟨hp1, hp2⟩ := recipesJoinUsers_mem db p hp
  obtain ⟨hq1, hq2⟩ := recipesJoinUsers_mem db q hq
  have h1 : p.1 = q.1 := List.inj_on_of_nodup_map hrpk hp1 hq1 hid
  have h2 : p.2 = q.2 :=
    List.inj_on_of_nodup_map hupk (recipesJoinUsers_mem_users db p hp)
      (recipesJoinUsers_mem_users db q hq) (by rw [hp2, hq2, h1])
  exact Prod.ext h1 h2

theorem mem_ratedHistory (db : Db) (userId : String) (a : HistoryRow) :
    a ∈ ratedHistory db userId ↔
      ∃ rr ∈ db.recipe_ratings, rr.user_id = userId ∧
        ∃ p ∈ recipesJoinUsers db, p.1.id = rr.recipe_id ∧ historyVisible userId p.1 = true ∧
          a = { recipe := p.1, author := p.2, user_rating := some rr.rating,
                interaction_date := rr.created_at, interaction_type := .rated } := by
  unfold ratedHistory
  rw [List.mem_dedup]
  simp only [List.mem_flatMap, List.mem_filter, List.mem_map, decide_eq_true_eq,
    Bool.and_eq_true]
  constructor
  · rintro ⟨rr, ⟨hrr, hu⟩, p, ⟨hp, hid, hvis⟩, rfl⟩
    exact ⟨rr, hrr, hu, p, hp, hid, hvis, rfl⟩
  · rintro ⟨rr, hrr, hu, p, hp, hid, hvis, rfl⟩
    exact ⟨rr, ⟨hrr, hu⟩, p, ⟨hp, hid, hvis⟩, rfl⟩

theorem mem_commentedHistory (db : Db) (userId : String) (withRating : Bool) (a : HistoryRow) :
    a ∈ commentedHistory db userId withRating ↔
      ∃ p ∈ recipesJoinUsers db, historyVisible userId p.1 = true ∧
        ownComments db userId p.1.id ≠ [] ∧
        a = { recipe := p.1, author := p.2,
              user_rating :=
                if withRating then
                  ((db.recipe_ratings.filter fun c =>
                    decide (c.recipe_id = p.1.id) && decide (c.user_id = userId)).head?).map
                      fun c => c.rating
                else none,
              interaction_date :=
                latestOf ((ownComments db userId p.1.id).map fun rc => rc.created_at),
              interaction_type := .commented } := by
  unfold commentedHistory
  rw [List.mem_dedup]
  simp only [List.mem_filter, List.mem_map, Bool.and_eq_true, Bool.not_eq_true',
    ← Bool.not_eq_true, List.isEmpty_iff]
  constructor
  · rintro ⟨p, ⟨hp, hvis, hc⟩, rfl⟩
    exact ⟨p, hp, hvis, hc, rfl⟩
  · rintro ⟨p, hp, hvis, hc, rfl⟩
    exact ⟨p, ⟨hp, hvis, hc⟩, rfl⟩

/-- Under the keys of `users`, `recipes` and `recipe_ratings`, a row of the union is
determined by the id of its recipe and its interaction type. -/
theorem history_key_injective (db : Db) (userId : String) (hupk : UsersPK db)
    (hrpk : RecipeIdsNodup db) (hru : RatingsUnique db) (a b : HistoryRow)
    (ha : a ∈ ratedHistory db userId ++ commentedHistory db userId true)
    (hb : b ∈ ratedHistory db userId ++ commentedHistory db userId true)
    (hid : a.recipe.id = b.recipe.id) (htype : a.interaction_type = b.interaction_type) :
    a = b := by
  rw [List.mem_append, mem_ratedHistory, mem_commentedHistory] at ha hb
  rcases ha with ⟨rr, hrr, hu, p, hp, hpid, _, rfl⟩ | ⟨p, hp, _, _, rfl⟩ <;>
    rcases hb with ⟨rr', hrr', hu', q, hq, hqid, _, rfl⟩ | ⟨q, hq, _, _, rfl⟩
  · have hpq := recipesJoinUsers_unique db hupk hrpk p q hp hq hid
    subst hpq
    have hkey : (rr.recipe_id, rr.user_id) = (rr'.recipe_id, rr'.user_id) := by
      rw [← hpid, ← hqid, hu, hu']
    have := List.inj_on_of_nodup_map hru hrr hrr' hkey
    subst this
    rfl
  · cases htype
  · cases htype
  · have hpq := recipesJoinUsers_unique db hupk hrpk p q hp hq hid
    subst hpq
    rfl

/-- C24 as stated fails: `bob` has rated the recipe `r2` and commented on it, and his
history of all interactions lists `r2` twice, once as `rated` and once as `commented`. -/
theorem getRecipeHistory_all_lists_recipe_twice :
    ((getRecipeHistory sampleFullDb 9 none none (some "all") sampleBob).data.map fun b =>
      b.recipeHistory.map fun h => (h.recipe.id, h.interactionType)) =
      some [("r2", "rated"), ("r2", "commented")] := by
  decide

/-- C24, amended: in the history of all interactions of the requester (under the keys of
`users`, `recipes` and `recipe_ratings`) the result is de-duplicated by recipe id and
interaction type: no two rows have the same recipe id and the same `interactionType`, so a
recipe id appears at most once as `rated` and at most once as `commented`; a stored recipe
the requester may see, has rated and has commented on appears once with each tag. For a
page and limit the database accepts the response is 200 and lists, in order, the rows of
that page. -/
theorem getRecipeHistory_all_dedup (db : Db) (now : Nat) (user : AuthUser) (hupk : UsersPK db)
    (hrpk : RecipeIdsNodup db) (hru : RatingsUnique db) :
    ((historyRows db user.id "all").map fun h => (h.recipe.id, h.interaction_type)).Nodup ∧
    (∀ (page limit type : Option String) (p l : Int),
      parseIntJs (page.getD "1") = some p → parseIntJs (limit.getD "10") = some l →
      type.getD "all" = "all" → 1 ≤ p → 0 ≤ l → l < 2 ^ 63 → (p - 1) * l < 2 ^ 63 →
      (getRecipeHistory db now page limit type user).status = 200 ∧
      ((getRecipeHistory db now page limit type user).data.map fun b => b.recipeHistory) =
        some ((((historyRows db user.id "all").drop ((p - 1) * l).toNat).take l.toNat).map
          (historyItem db user.id))) ∧
    (∀ h, (historyItem db user.id h).recipe.id = h.recipe.id ∧
      (historyItem db user.id h).interactionType = h.interaction_type.text) ∧
    (∀ r a g c, r ∈ db.recipes → a ∈ db.users → a.id = r.author_id →
      (r.is_public = some true ∨ r.author_id = user.id) →
      g ∈ db.recipe_ratings → g.recipe_id = r.id → g.user_id = user.id →
      c ∈ db.recipe_comments → c.recipe_id = r.id → c.user_id = user.id →
      (∃ x ∈ historyRows db user.id "all", x.recipe = r ∧ x.interaction_type = .rated) ∧
      (∃ y ∈ historyRows db user.id "all", y.recipe = r ∧ y.interaction_type = .commented)) := by
  have hrows : historyRows db user.id "all" =
      ((ratedHistory db user.id ++ commentedHistory db user.id true).dedup).insertionSort
        fun a b => b.interaction_date ≤ a.interaction_date := by
    unfold historyRows
    rw [if_neg (by decide), if_neg (by decide)]
  have hmem : ∀ x, x ∈ historyRows db user.id "all" ↔
      x ∈ ratedHistory db user.id ++ commentedHistory db user.id true := by
    intro x
    rw [hrows, (List.perm_insertionSort _ _).mem_iff, List.mem_dedup]
  refine ⟨?_, ?_, fun h => ⟨rfl, rfl⟩, ?_⟩
  · rw [hrows]
    refine ((List.perm_insertionSort _ _).map _).nodup_iff.mpr ?_
    refine List.Nodup.map_on ?_ (List.nodup_dedup _)
    intro a ha b hb hkey
    rw [List.mem_dedup] at ha hb
    exact history_key_injective db user.id hupk hrpk hru a b ha hb
      (congrArg Prod.fst hkey) (congrArg Prod.snd hkey)
  · intro page limit type p l hp hl htype hp1 hl0 hl1 hoff
    have hoff0 : 0 ≤ (p - 1) * l := mul_nonneg (by omega) hl0
    unfold getRecipeHistory
    simp only [hp, hl, htype, pageOffset_some, sqlCount_of_bounds l hl0 hl1,
      sqlCount_of_bounds _ hoff0 hoff, Option.map_some', and_self]
  · intro r a g c hr ha haid hvis hg hgr hgu hc hcr hcu
    have hjoin := mem_recipesJoinUsers db r a hr ha haid
    have hv : historyVisible user.id r = true := by
      unfold historyVisible
      rcases hvis with h | h <;> simp [h]
    constructor
    · refine ⟨_, (hmem _).mpr (List.mem_append_left _ ((mem_ratedHistory db user.id _).mpr
        ⟨g, hg, hgu, (r, a), hjoin, hgr.symm, hv, rfl⟩)), rfl, rfl⟩
    · have hne : ownComments db user.id r.id ≠ [] := by
        intro hnil
        have : c ∈ ownComments db user.id r.id := by
          unfold ownComments
          rw [List.mem_filter]
          exact ⟨hc, by simp [hcu, hcr]⟩
        rw [hnil] at this
        exact absurd this (List.not_mem_nil _)
      refine ⟨_, (hmem _).mpr (List.mem_append_right _ ((mem_commentedHistory db user.id true
        _).mpr ⟨(r, a), hjoin, hv, hne, rfl⟩)), rfl, rfl⟩

/-- C24 (amended) at the sample database: the first page of `bob`'s history of all
interactions. -/
theorem getRecipeHistory_all_dedup_witness :
    ((getRecipeHistory sampleFullDb 9 none none none sampleBob).data.map fun b =>
      b.recipeHistory.map fun h => (h.recipe.id, h.interactionType, h.userRating)) =
      some [("r2", "rated", some 5), ("r2", "commented", some 5)] := by
  have h := ((getRecipeHistory_all_dedup sampleFullDb 9 sampleBob (by decide) (by decide)
    (by decide)).2.1 none none none 1 10 (by decide) (by decide) rfl (by decide) (by decide)
    (by decide) (by decide)).2
  have h2 := congrArg (Option.map (List.map fun h : HistoryItem =>
    (h.recipe.id, h.interactionType, h.userRating))) h
  simp only [Option.map_map] at h2
  exact h2.trans (by decide)

/-! ## C25: the statistics of a user -/

/-- A join with at most one match per row keeps exactly the rows that have a match. -/
theorem flatMap_const_of_le_one {α β : Type} (l : List α) (f : α → List β)
    (h : ∀ a ∈ l, (f a).length ≤ 1) :
    (l.flatMap fun a => (f a).map fun _ => a) = l.filter fun a => !(f a).isEmpty := by
  induction l with
  | nil => rfl
  | cons a t ih =>
    rw [List.flatMap_cons, ih (fun x hx => h x (List.mem_cons_of_mem _ hx))]
    have ha := h a (List.mem_cons_self _ _)
    cases hf : f a with
    | nil => simp [List.filter_cons, hf]
    | cons b bs =>
      rw [hf] at ha
      cases bs with
      | nil => simp [List.filter_cons, hf]
      | cons c cs => simp at ha

theorem authoredRecipe_length_le_one (db : Db) (userId recipeId : String)
    (hpk : RecipeIdsNodup db) : (authoredRecipe db userId recipeId).length ≤ 1 :=
  filter_length_le_one (fun r : RecipeRow => r.id) _ db.recipes hpk
    (fun a b ha hb => by
      simp only [Bool.and_eq_true, decide_eq_true_eq] at ha hb
      show a.id = b.id
      rw [ha.1, hb.1])

theorem authoredRecipe_nonempty_iff (db : Db) (userId recipeId : String) :
    (!(authoredRecipe db userId recipeId).isEmpty) = true ↔
      ∃ r ∈ db.recipes, r.id = recipeId ∧ r.author_id = userId := by
  unfold authoredRecipe
  rw [Bool.not_eq_true', ← Bool.not_eq_true, List.isEmpty_iff, List.filter_eq_nil_iff]
  simp only [Bool.and_eq_true, decide_eq_true_eq, not_forall, Classical.not_imp, not_not]
  constructor
  · rintro ⟨r, hr, h⟩
    exact ⟨r, hr, h⟩
  · rintro ⟨r, hr, h⟩
    exact ⟨r, hr, h⟩

/-- The rounding of `roundDiv` is to a nearest integer: twice the distance of
`roundDiv a b * b` from `a` is at most `b`. -/
theorem roundDiv_nearest (a b : Int) (hb : 0 < b) :
    |2 * (roundDiv a b * b - a)| ≤ b := by
  unfold roundDiv
  have h2b : 0 < 2 * b := by omega
  by_cases ha : 0 ≤ a
  · rw [if_pos ha]
    have h1 := Int.emod_add_ediv (2 * a + b) (2 * b)
    have h2 := Int.emod_nonneg (2 * a + b) (ne_of_gt h2b)
    have h3 := Int.emod_lt_of_pos (2 * a + b) h2b
    rw [abs_le]
    constructor <;> nlinarith
  · rw [if_neg ha]
    have h1 := Int.emod_add_ediv (2 * -a + b) (2 * b)
    have h2 := Int.emod_nonneg (2 * -a + b) (ne_of_gt h2b)
    have h3 := Int.emod_lt_of_pos (2 * -a + b) h2b
    rw [abs_le]
    constructor <;> nlinarith

/-- C25: for the requester `A` (no two recipes having the same id) `getUserStatistics`
responds 200 with `likesReceived` the number of like rows whose recipe is authored by
`A`, `ratingsReceived` the number of rating rows whose recipe is authored by `A`, and
`averageRating` `null` when there is no such rating and otherwise the mean of those
ratings rounded to a nearest hundredth (ties away from zero). When `A` has exactly one
recipe, with exactly one like and exactly one rating, of 4, the three values are 1, 1 and
4.00. -/
theorem getUserStatistics_engagement (db : Db) (now : Nat) (user : AuthUser)
    (hpk : RecipeIdsNodup db) :
    ∃ body, (getUserStatistics db now user).status = 200 ∧
      (getUserStatistics db now user).data = some body ∧
      body.engagementStats.likesReceived =
        (db.recipe_likes.filter fun l =>
          decide (∃ r ∈ db.recipes, r.id = l.recipe_id ∧ r.author_id = user.id)).length ∧
      body.engagementStats.ratingsReceived =
        (db.recipe_ratings.filter fun c =>
          decide (∃ r ∈ db.recipes, r.id = c.recipe_id ∧ r.author_id = user.id)).length ∧
      (body.engagementStats.ratingsReceived = 0 → body.engagementStats.averageRating = none) ∧
      (body.engagementStats.ratingsReceived ≠ 0 →
        body.engagementStats.averageRating =
          some (roundDiv
            (((db.recipe_ratings.filter fun c =>
                decide (∃ r ∈ db.recipes, r.id = c.recipe_id ∧ r.author_id = user.id)).map
              fun c => c.rating).sum * 100)
            body.engagementStats.ratingsReceived) ∧
        ∀ a, body.engagementStats.averageRating = some a →
          |2 * (a * body.engagementStats.ratingsReceived -
            ((db.recipe_ratings.filter fun c =>
                decide (∃ r ∈ db.recipes, r.id = c.recipe_id ∧ r.author_id = user.id)).map
              fun c => c.rating).sum * 100)| ≤ body.engagementStats.ratingsReceived) ∧
      (∀ r l g, (db.recipes.filter fun x => decide (x.author_id = user.id)) = [r] →
        (db.recipe_likes.filter fun x => decide (x.recipe_id = r.id)) = [l] →
        (db.recipe_ratings.filter fun x => decide (x.recipe_id = r.id)) = [g] →
        g.rating = 4 →
        body.engagementStats.likesReceived = 1 ∧ body.engagementStats.ratingsReceived = 1 ∧
          body.engagementStats.averageRating = some 400) := by
  have hlikes : likesReceivedRows db user.id =
      db.recipe_likes.filter fun l =>
        decide (∃ r ∈ db.recipes, r.id = l.recipe_id ∧ r.author_id = user.id) := by
    unfold likesReceivedRows
    rw [flatMap_const_of_le_one _ _
      (fun a _ => authoredRecipe_length_le_one db user.id a.recipe_id hpk)]
    apply List.filter_congr
    intro l _
    rw [Bool.eq_iff_iff, authoredRecipe_nonempty_iff, decide_eq_true_eq]
  have hratings : ratingsReceivedRows db user.id =
      db.recipe_ratings.filter fun c =>
        decide (∃ r ∈ db.recipes, r.id = c.recipe_id ∧ r.author_id = user.id) := by
    unfold ratingsReceivedRows
    rw [flatMap_const_of_le_one _ _
      (fun a _ => authoredRecipe_length_le_one db user.id a.recipe_id hpk)]
    apply List.filter_congr
    intro l _
    rw [Bool.eq_iff_iff, authoredRecipe_nonempty_iff, decide_eq_true_eq]
  refine ⟨_, rfl, rfl, ?_, ?_, ?_, ?_, ?_⟩
  · show (likesReceivedRows db user.id).length = _
    rw [hlikes]
  · show (ratingsReceivedRows db user.id).length = _
    rw [hratings]
  · show (ratingsReceivedRows db user.id).length = 0 →
      averageOfRatings (ratingsReceivedRows db user.id) = none
    intro h
    rw [List.length_eq_zero] at h
    rw [h]
    rfl
  · show (ratingsReceivedRows db user.id).length ≠ 0 →
      averageOfRatings (ratingsReceivedRows db user.id) = some _ ∧
      ∀ a, averageOfRatings (ratingsReceivedRows db user.id) = some a → _
    rw [hratings]
    generalize (db.recipe_ratings.filter fun c =>
      decide (∃ r ∈ db.recipes, r.id = c.recipe_id ∧ r.author_id = user.id)) = rows
    intro hne
    have hnil : rows.isEmpty = false := by
      cases rows with
      | nil => exact absurd rfl hne
      | cons _ _ => rfl
    have havg : averageOfRatings rows =
        some (roundDiv ((rows.map fun c => c.rating).sum * 100) rows.length) := by
      unfold averageOfRatings
      rw [hnil]
      rfl
    refine ⟨havg, ?_⟩
    intro a ha
    rw [havg] at ha
    cases ha
    exact roundDiv_nearest _ _ (by
      have : 0 < rows.length := Nat.pos_of_ne_zero hne
      exact_mod_cast this)
  · intro r l g hr hl hg h4
    have hrmem : r ∈ db.recipes ∧ r.author_id = user.id := by
      have : r ∈ db.recipes.filter fun x => decide (x.author_id = user.id) := by
        rw [hr]; exact List.mem_singleton.mpr rfl
      simpa using this
    have hown : ∀ x ∈ db.recipes, x.author_id = user.id → x = r := by
      intro x hx hxa
      have : x ∈ db.recipes.filter fun x => decide (x.author_id = user.id) :=
        List.mem_filter.mpr ⟨hx, by simpa using hxa⟩
      rw [hr] at this
      exact List.mem_singleton.mp this
    have hiff : ∀ rid : String,
        (∃ x ∈ db.recipes, x.id = rid ∧ x.author_id = user.id) ↔ rid = r.id := by
      intro rid
      constructor
      · rintro ⟨x, hx, hid, hauth⟩
        rw [← hid, hown x hx hauth]
      · intro h
        exact ⟨r, hrmem.1, h.symm, hrmem.2⟩
    have hl' : likesReceivedRows db user.id = [l] := by
      rw [hlikes, ← hl]
      apply List.filter_congr
      intro x _
      rw [Bool.eq_iff_iff, decide_eq_true_eq, decide_eq_true_eq]
      exact hiff x.recipe_id
    have hg' : ratingsReceivedRows db user.id = [g] := by
      rw [hratings, ← hg]
      apply List.filter_congr
      intro x _
      rw [Bool.eq_iff_iff, decide_eq_true_eq, decide_eq_true_eq]
      exact hiff x.recipe_id
    refine ⟨?_, ?_, ?_⟩
    · show (likesReceivedRows db user.id).length = 1
      rw [hl']
      rfl
    · show (ratingsReceivedRows db user.id).length = 1
      rw [hg']
      rfl
    · show averageOfRatings (ratingsReceivedRows db user.id) = some 400
      rw [hg']
      unfold averageOfRatings
      simp only [List.isEmpty_cons, Bool.false_eq_true, if_false, List.map_cons, List.map_nil,
        List.sum_cons, List.sum_nil, h4, List.length_singleton]
      decide

/-- C25 at the scenario: `alice` has one public recipe, which `bob` liked once and rated
4. -/
theorem getUserStatistics_engagement_witness :
    ((getUserStatistics sampleStatsDb 9 sampleAlice).data.map fun b =>
      (b.engagementStats.likesReceived, b.engagementStats.ratingsReceived,
        b.engagementStats.averageRating)) = some (1, 1, some 400) := by
  obtain ⟨body, _, hdata, _, _, _, _, hscenario⟩ :=
    getUserStatistics_engagement sampleStatsDb 9 sampleAlice (by decide)
  obtain ⟨h1, h2, h3⟩ := hscenario samplePublicRecipe
    { recipe_id := "r2", user_id := "u2", created_at := 1 }
    { id := "g1", recipe_id := "r2", user_id := "u2", rating := 4, created_at := 2,
      updated_at := 2 } (by decide) (by decide) (by decide) rfl
  rw [hdata, Option.map_some', h1, h2, h3]

/-! ## C26: the `ORDER BY` clause of `getRecipes` -/

theorem mem_allowedSortColumns (s : String) :
    allowedSortColumns.contains s = true ↔
      s = "created_at" ∨ s = "title" ∨ s = "prep_time_minutes" ∨ s = "cook_time_minutes" ∨
        s = "difficulty" := by
  simp [allowedSortColumns]

/-- C26: for every `sort` and `order` (absent or any strings) the `ORDER BY` line of
`getRecipes` is one of ten fixed texts `ORDER BY r.<column> <direction>`: the column is
`sort` when `sort` is one of the five allowed names and `created_at` otherwise, the
direction is `ASC` when `order` is `asc` up to letter case and `DESC` otherwise. The line
is determined by the sort column and the direction the embedding of `getRecipes` orders
by. -/
theorem orderByText_allowlist (sort order : Option String) :
    orderByText sort order ∈
      [ "ORDER BY r.created_at ASC", "ORDER BY r.created_at DESC",
        "ORDER BY r.title ASC", "ORDER BY r.title DESC",
        "ORDER BY r.prep_time_minutes ASC", "ORDER BY r.prep_time_minutes DESC",
        "ORDER BY r.cook_time_minutes ASC", "ORDER BY r.cook_time_minutes DESC",
        "ORDER BY r.difficulty ASC", "ORDER BY r.difficulty DESC" ] ∧
    sortColumnText (sort.getD "created_at") ∈ allowedSortColumns ∧
    (sort.getD "created_at" ∈ allowedSortColumns →
      sortColumnText (sort.getD "created_at") = sort.getD "created_at") ∧
    (sort.getD "created_at" ∉ allowedSortColumns →
      sortColumnText (sort.getD "created_at") = "created_at") ∧
    (toLowerCase (order.getD "desc") = "asc" → sortOrderText (order.getD "desc") = "ASC") ∧
    (toLowerCase (order.getD "desc") ≠ "asc" → sortOrderText (order.getD "desc") = "DESC") ∧
    orderByText sort order =
      "ORDER BY r." ++ (sortColumnOf (sort.getD "created_at")).text ++ " " ++
        (if toLowerCase (order.getD "desc") = "asc" then "ASC" else "DESC") := by
  unfold orderByText
  generalize sort.getD "created_at" = s
  generalize order.getD "desc" = o
  have hcol : sortColumnText s = (sortColumnOf s).text ∧ sortColumnText s ∈ allowedSortColumns ∧
      (s ∈ allowedSortColumns → sortColumnText s = s) ∧
      (s ∉ allowedSortColumns → sortColumnText s = "created_at") := by
    by_cases hs : allowedSortColumns.contains s = true
    · have hmem : s ∈ allowedSortColumns := by simpa using hs
      have htext : sortColumnText s = s := by unfold sortColumnText; rw [if_pos hs]
      refine ⟨?_, by rw [htext]; exact hmem, fun _ => htext, fun h => absurd hmem h⟩
      rw [htext]
      rcases (mem_allowedSortColumns s).mp hs with h | h | h | h | h <;> subst h <;> decide
    · have hmem : s ∉ allowedSortColumns := by simpa using hs
      have htext : sortColumnText s = "created_at" := by unfold sortColumnText; rw [if_neg hs]
      refine ⟨?_, by rw [htext]; decide, fun h => absurd h hmem, fun _ => htext⟩
      rw [htext]
      have hne := (not_congr (mem_allowedSortColumns s)).mp hs
      simp only [not_or] at hne
      obtain ⟨h1, h2, h3, h4, h5⟩ := hne
      unfold sortColumnOf
      rw [if_neg h1, if_neg h2, if_neg h3, if_neg h4, if_neg h5]
      rfl
  have hord : sortOrderText o = (if toLowerCase o = "asc" then "ASC" else "DESC") := rfl
  obtain ⟨hc1, hc2, hc3, hc4⟩ := hcol
  refine ⟨?_, hc2, hc3, hc4, fun h => by rw [hord, if_pos h], fun h => by rw [hord, if_neg h],
    by rw [hc1, hord]⟩
  rw [hc1, hord]
  cases sortColumnOf s <;> by_cases ho : toLowerCase o = "asc" <;>
    simp only [ho, if_true, if_false] <;> decide

/-! ## C27: the global error handler in production -/

/-- C27: a body-parse error is answered with 400 and an oversized body with 413, whatever
`NODE_ENV`. With `NODE_ENV = 'production'`, for any other error whose status
(`err.status` when it is not zero, else `err.statusCode` when it is not zero, else 500) is
at least 500, the response has that status, its message is `Internal server error`
whatever the message of the error, and the body has no `stack` and no `details`. -/
theorem globalErrorHandler_production (nodeEnv : Option String) (now : Nat) (err : ErrorValue) :
    (err.type = some "entity.parse.failed" →
      (globalErrorHandler nodeEnv now err).status = 400) ∧
    (err.type = some "entity.too.large" →
      (globalErrorHandler nodeEnv now err).status = 413) ∧
    (∀ n, err.status = some n → n ≠ 0 → errorStatus err = n) ∧
    (∀ n, (err.status = none ∨ err.status = some 0) → err.statusCode = some n → n ≠ 0 →
      errorStatus err = n) ∧
    ((err.status = none ∨ err.status = some 0) →
      (err.statusCode = none ∨ err.statusCode = some 0) → errorStatus err = 500) ∧
    (err.type ≠ some "entity.parse.failed" → err.type ≠ some "entity.too.large" →
      500 ≤ errorStatus err →
      (globalErrorHandler (some "production") now err).status = errorStatus err ∧
      (globalErrorHandler (some "production") now err).message =
        some "Internal server error" ∧
      (globalErrorHandler (some "production") now err).error = some "Server error" ∧
      (globalErrorHandler (some "production") now err).data = none) := by
  refine ⟨?_, ?_, ?_, ?_, ?_, ?_⟩
  · intro h
    unfold globalErrorHandler
    rw [if_pos h]
  · intro h
    unfold globalErrorHandler
    rw [if_neg (by rw [h]; decide), if_pos h]
  · intro n h hn
    unfold errorStatus
    rw [h]
    cases n with
    | zero => exact absurd rfl hn
    | succ k => rfl
  · intro n h hc hn
    unfold errorStatus
    rw [hc]
    cases n with
    | zero => exact absurd rfl hn
    | succ k => rcases h with h | h <;> rw [h]
  · intro h hc
    unfold errorStatus
    rcases h with h | h <;> rcases hc with hc | hc <;> rw [h, hc]
  · intro h1 h2 hs
    have hlt : ¬ errorStatus err < 500 := by omega
    unfold globalErrorHandler
    simp only [if_neg h1, if_neg h2, if_neg hlt, if_true]
    exact ⟨trivial, trivial, trivial, if_neg (by decide)⟩

/-- C27 at three errors: invalid JSON, an oversized body, and an error with
`statusCode` 503 and a message of its own, in production. -/
theorem globalErrorHandler_production_witness :
    (globalErrorHandler (some "production") 7
      { type := some "entity.parse.failed", status := some 400 }).status = 400 ∧
    (globalErrorHandler (some "production") 7
      { type := some "entity.too.large", status := some 413 }).status = 413 ∧
    globalErrorHandler (some "production") 7
        { statusCode := some 503, message := some "connect ECONNREFUSED 10.0.0.5:5432",
          stack := some "Error: connect ECONNREFUSED" } =
      { status := 503, error := some "Server error", message := some "Internal server error",
        data := none, timestamp := 7 } :=
  ⟨(globalErrorHandler_production (some "production") 7
      { type := some "entity.parse.failed", status := some 400 }).1 rfl,
   (globalErrorHandler_production (some "production") 7
      { type := some "entity.too.large", status := some 413 }).2.1 rfl,
   by decide⟩

/-! ## C28: the placeholders of `searchRecipes` -/

theorem placeholdersFrom_eq (paramCount len : Nat) :
    placeholdersFrom paramCount len = List.range' paramCount len := by
  unfold placeholdersFrom
  rw [List.range'_eq_map_range]

theorem SearchState.aligned_push (parseFloat : String → Option Decimal) (q : SearchQuery)
    (uid : Option String) (st : SearchState) (fragment : Nat → SearchCond)
    (vs : List SearchValue) (h : st.Aligned parseFloat q uid)
    (hp : (fragment st.paramCount).placeholders = List.range' st.paramCount vs.length)
    (he : (fragment st.paramCount).expected parseFloat q uid = vs) :
    (st.push fragment vs).Aligned parseFloat q uid := by
  obtain ⟨h1, h2, h3, h4⟩ := h
  unfold SearchState.push
  refine ⟨?_, ?_, ?_, ?_⟩
  · simp only [List.length_append]
    omega
  · show (st.conditions ++ [fragment st.paramCount]).flatMap SearchCond.placeholders =
      List.range' 1 (st.values ++ vs).length
    rw [List.flatMap_append, List.flatMap_singleton, hp, h2, h1, List.length_append,
      Nat.add_comm st.values.length 1, List.range'_append_1, Nat.add_comm]
  · simp only [List.flatMap_append, List.flatMap_singleton, h3, he]
  · intro c hc
    simp only [List.mem_append, List.mem_singleton] at hc
    rcases hc with hc | hc
    · exact h4 c hc
    · rw [hc, hp, he, List.length_range']

theorem searchBase_aligned (parseFloat : String → Option Decimal) (q : SearchQuery)
    (uid : Option String) : (searchBase uid).Aligned parseFloat q uid := by
  have h0 : ({} : SearchState).Aligned parseFloat q uid :=
    ⟨rfl, rfl, rfl, fun c hc => absurd hc (List.not_mem_nil _)⟩
  unfold searchBase
  by_cases hu : truthyOpt uid = true
  · simp only [hu, if_true]
    exact SearchState.aligned_push parseFloat q uid _ _ _ h0 rfl rfl
  · simp only [hu, Bool.false_eq_true, if_false]
    exact ⟨rfl, rfl, rfl, fun c hc => by
      rw [List.nil_append, List.mem_singleton] at hc
      rw [hc]
      rfl⟩

theorem searchTextStep_aligned (parseFloat : String → Option Decimal) (q : SearchQuery)
    (uid : Option String) (st : SearchState) (h : st.Aligned parseFloat q uid) :
    (searchTextStep q st).Aligned parseFloat q uid := by
  unfold searchTextStep
  by_cases hc : truthy (jsTrim (q.q.getD "")) = true
  · simp only [hc, if_true]
    exact SearchState.aligned_push parseFloat q uid _ _ _ h rfl rfl
  · simp only [hc, Bool.false_eq_true, if_false]
    exact h

theorem searchIngredientsStep_aligned (parseFloat : String → Option Decimal) (q : SearchQuery)
    (uid : Option String) (st : SearchState) (h : st.Aligned parseFloat q uid) :
    (searchIngredientsStep q st).Aligned parseFloat q uid := by
  unfold searchIngredientsStep
  by_cases hc : truthy (jsTrim (q.ingredients.getD "")) = true
  · simp only [hc, if_true]
    refine SearchState.aligned_push parseFloat q uid _ _ _ h ?_ rfl
    show placeholdersFrom _ _ = _
    rw [placeholdersFrom_eq, List.length_map]
  · simp only [hc, Bool.false_eq_true, if_false]
    exact h

theorem searchCategoriesStep_aligned (parseFloat : String → Option Decimal) (q : SearchQuery)
    (uid : Option String) (st : SearchState) (h : st.Aligned parseFloat q uid) :
    (searchCategoriesStep q st).Aligned parseFloat q uid := by
  unfold searchCategoriesStep
  by_cases hc : truthy (jsTrim (q.categories.getD "")) = true
  · simp only [hc, if_true]
    refine SearchState.aligned_push parseFloat q uid _ _ _ h ?_ rfl
    show placeholdersFrom _ _ = _
    rw [placeholdersFrom_eq, List.length_map]
  · simp only [hc, Bool.false_eq_true, if_false]
    exact h

theorem searchDifficultyStep_aligned (parseFloat : String → Option Decimal) (q : SearchQuery)
    (uid : Option String) (st : SearchState) (h : st.Aligned parseFloat q uid) :
    (searchDifficultyStep q st).Aligned parseFloat q uid := by
  unfold searchDifficultyStep
  by_cases hc : truthy (jsTrim (q.difficulty.getD "")) = true
  · simp only [hc, if_true]
    exact SearchState.aligned_push parseFloat q uid _ _ _ h rfl rfl
  · simp only [hc, Bool.false_eq_true, if_false]
    exact h

theorem searchTimesStep_aligned (parseFloat : String → Option Decimal) (q : SearchQuery)
    (uid : Option String) (st : SearchState) (h : st.Aligned parseFloat q uid) :
    (searchTimesStep q st).Aligned parseFloat q uid := by
  unfold searchTimesStep
  have h1 : (if truthy (q.maxPrepTime.getD "") = true then
      st.push .maxPrepTime [.int (parseIntJs (q.maxPrepTime.getD ""))] else st).Aligned
        parseFloat q uid := by
    by_cases hc : truthy (q.maxPrepTime.getD "") = true
    · rw [if_pos hc]
      exact SearchState.aligned_push parseFloat q uid _ _ _ h rfl rfl
    · rw [if_neg hc]
      exact h
  by_cases hc : truthy (q.maxCookTime.getD "") = true
  · simp only [hc, if_true]
    exact SearchState.aligned_push parseFloat q uid _ _ _ h1 rfl rfl
  · simp only [hc, Bool.false_eq_true, if_false]
    exact h1

theorem searchRatingStep_aligned (parseFloat : String → Option Decimal) (q : SearchQuery)
    (uid : Option String) (st : SearchState) (h : st.Aligned parseFloat q uid) :
    (searchRatingStep parseFloat q st).Aligned parseFloat q uid := by
  unfold searchRatingStep
  by_cases hc : truthy (q.minRating.getD "") = true
  · simp only [hc, if_true]
    exact SearchState.aligned_push parseFloat q uid _ _ _ h rfl rfl
  · simp only [hc, Bool.false_eq_true, if_false]
    exact h

theorem searchWhere_aligned (parseFloat : String → Option Decimal) (q : SearchQuery)
    (uid : Option String) : (searchWhere parseFloat q uid).Aligned parseFloat q uid :=
  searchRatingStep_aligned parseFloat q uid _ (searchTimesStep_aligned parseFloat q uid _
    (searchDifficultyStep_aligned parseFloat q uid _ (searchCategoriesStep_aligned parseFloat q
      uid _ (searchIngredientsStep_aligned parseFloat q uid _ (searchTextStep_aligned parseFloat
        q uid _ (searchBase_aligned parseFloat q uid))))))

/-- The order block keeps the fragments and appends exactly the values the order stands
for, under the next placeholders. -/
theorem searchOrder_spec (q : SearchQuery) (st : SearchState) :
    (searchOrder q st).2.conditions = st.conditions ∧
    (searchOrder q st).2.values = st.values ++ (searchOrder q st).1.expected q ∧
    (searchOrder q st).1.placeholders =
      List.range' st.paramCount ((searchOrder q st).1.expected q).length ∧
    (searchOrder q st).2.paramCount =
      st.paramCount + ((searchOrder q st).1.expected q).length := by
  unfold searchOrder
  simp only
  split_ifs <;> simp [SearchOrder.expected, SearchOrder.placeholders]

theorem searchBase_head (uid : Option String) (h : truthyOpt uid = true) :
    ∃ rest, (searchBase uid).values = .text (uid.getD "") :: rest := by
  unfold searchBase
  simp only [h, if_true]
  exact ⟨[], rfl⟩

theorem SearchState.push_values (st : SearchState) (fragment : Nat → SearchCond)
    (vs : List SearchValue) : (st.push fragment vs).values = st.values ++ vs := rfl

/-- Every step of the builder after the first only appends to `values`. -/
theorem searchWhere_values_prefix (parseFloat : String → Option Decimal) (q : SearchQuery)
    (uid : Option String) :
    ∃ more, (searchWhere parseFloat q uid).values = (searchBase uid).values ++ more := by
  have hstep : ∀ (f : SearchState → SearchState),
      (∀ st, ∃ more, (f st).values = st.values ++ more) →
      ∀ st0 : SearchState, (∃ more, st0.values = (searchBase uid).values ++ more) →
        ∃ more, (f st0).values = (searchBase uid).values ++ more := by
    intro f hf st0 ⟨m0, h0⟩
    obtain ⟨m1, h1⟩ := hf st0
    exact ⟨m0 ++ m1, by rw [h1, h0, List.append_assoc]⟩
  have hif : ∀ (c : Prop) [Decidable c] (st : SearchState) (fragment : Nat → SearchCond)
      (vs : List SearchValue),
      ∃ more, (if c then st.push fragment vs else st).values = st.values ++ more := by
    intro c _ st fragment vs
    by_cases hc : c
    · rw [if_pos hc]; exact ⟨vs, rfl⟩
    · rw [if_neg hc]; exact ⟨[], (List.append_nil _).symm⟩
  unfold searchWhere
  refine hstep (searchRatingStep parseFloat q) (fun st => hif _ st _ _) _ ?_
  refine hstep (searchTimesStep q) (fun st => ?_) _ ?_
  · unfold searchTimesStep
    obtain ⟨m1, h1⟩ := hif (truthy (q.maxPrepTime.getD "") = true) st .maxPrepTime
      [.int (parseIntJs (q.maxPrepTime.getD ""))]
    obtain ⟨m2, h2⟩ := hif (truthy (q.maxCookTime.getD "") = true)
      (if truthy (q.maxPrepTime.getD "") = true then
        st.push .maxPrepTime [.int (parseIntJs (q.maxPrepTime.getD ""))] else st) .maxCookTime
      [.int (parseIntJs (q.maxCookTime.getD ""))]
    exact ⟨m1 ++ m2, by simp only; rw [h2, h1, List.append_assoc]⟩
  refine hstep (searchDifficultyStep q) (fun st => hif _ st _ _) _ ?_
  refine hstep (searchCategoriesStep q) (fun st => hif _ st _ _) _ ?_
  refine hstep (searchIngredientsStep q) (fun st => hif _ st _ _) _ ?_
  refine hstep (searchTextStep q) (fun st => hif _ st _ _) _ ?_
  exact ⟨[], (List.append_nil _).symm⟩

/-- C28: for every query string and requester, in the statement built by `searchRecipes`
the placeholders of the fragments, of the order and of `LIMIT` and `OFFSET`, in that order,
are exactly `$1, ..., $k` with `k` the length of `values`, and the values are, in the same
order, the values they stand for: for each fragment the values of the request it was built
from (as many as it has placeholders), then the relevance pattern if the order has a
placeholder, then the limit and the offset, which are the last two values. In the
authenticated variant `is_liked_by_user` uses `$1`, whose value is the requester id. -/
theorem searchRecipesStatement_placeholders (parseFloat : String → Option Decimal)
    (q : SearchQuery) (reqUser : Option AuthUser) :
    (searchRecipesStatement parseFloat q reqUser).conditions.flatMap SearchCond.placeholders ++
        (searchRecipesStatement parseFloat q reqUser).orderBy.placeholders ++
        [(searchRecipesStatement parseFloat q reqUser).limitParam,
         (searchRecipesStatement parseFloat q reqUser).offsetParam] =
      List.range' 1 (searchRecipesStatement parseFloat q reqUser).values.length ∧
    (searchRecipesStatement parseFloat q reqUser).conditions.flatMap
          (SearchCond.expected parseFloat q (reqUser.map fun u => u.id)) ++
        (searchRecipesStatement parseFloat q reqUser).orderBy.expected q ++
        [.int (parseIntJs (q.limit.getD "10")),
         .int (pageOffset (parseIntJs (q.page.getD "1")) (parseIntJs (q.limit.getD "10")))] =
      (searchRecipesStatement parseFloat q reqUser).values ∧
    (∀ c ∈ (searchRecipesStatement parseFloat q reqUser).conditions,
      c.placeholders.length =
        (c.expected parseFloat q (reqUser.map fun u => u.id)).length) ∧
    (searchRecipesStatement parseFloat q reqUser).orderBy.placeholders.length =
      ((searchRecipesStatement parseFloat q reqUser).orderBy.expected q).length ∧
    (searchRecipesStatement parseFloat q reqUser).limitParam + 1 =
      (searchRecipesStatement parseFloat q reqUser).values.length ∧
    (searchRecipesStatement parseFloat q reqUser).offsetParam =
      (searchRecipesStatement parseFloat q reqUser).values.length ∧
    (truthyOpt (reqUser.map fun u => u.id) = true →
      (searchRecipesStatement parseFloat q reqUser).liked = some 1 ∧
      (searchRecipesStatement parseFloat q reqUser).values.head? =
        some (.text ((reqUser.map fun u => u.id).getD ""))) ∧
    (truthyOpt (reqUser.map fun u => u.id) = false →
      (searchRecipesStatement parseFloat q reqUser).liked = none) := by
  obtain ⟨h1, h2, h3, h4⟩ := searchWhere_aligned parseFloat q (reqUser.map fun u => u.id)
  obtain ⟨o1, o2, o3, o4⟩ :=
    searchOrder_spec q (searchWhere parseFloat q (reqUser.map fun u => u.id))
  obtain ⟨more, hpre⟩ := searchWhere_values_prefix parseFloat q (reqUser.map fun u => u.id)
  unfold searchRecipesStatement
  simp only
  generalize searchWhere parseFloat q (reqUser.map fun u => u.id) = st
    at h1 h2 h3 h4 o1 o2 o3 o4 hpre
  generalize searchOrder q st = ord at o1 o2 o3 o4
  refine ⟨?_, ?_, ?_, ?_, ?_, ?_, ?_, ?_⟩
  · rw [o1, h2, o3, o4, o2, h1]
    simp only [List.length_append, List.length_cons, List.length_nil]
    rw [Nat.add_comm st.values.length 1, List.range'_append_1]
    have h5 : [1 + st.values.length + (ord.1.expected q).length,
        1 + st.values.length + (ord.1.expected q).length + 1] =
        List.range' (1 + ((ord.1.expected q).length + st.values.length)) 2 := by
      simp only [List.range', List.cons.injEq, and_true]
      omega
    rw [h5, List.range'_append_1]
    congr 1
    omega
  · rw [o1, h3, o2, List.append_assoc]
  · rw [o1]
    exact h4
  · rw [o3, List.length_range']
  · rw [o4, o2, h1]
    simp only [List.length_append, List.length_cons, List.length_nil]
    omega
  · rw [o4, o2, h1]
    simp only [List.length_append, List.length_cons, List.length_nil]
    omega
  · intro hu
    refine ⟨by rw [if_pos hu], ?_⟩
    obtain ⟨rest, hrest⟩ := searchBase_head _ hu
    rw [o2, hpre, hrest]
    rfl
  · intro hu
    rw [if_neg (by rw [hu]; decide)]

/-- C28 at a request of `bob` with a text, two ingredients, one category, a difficulty and a
minimal rating, in the relevance order: ten values under `$1` to `$10`. -/
theorem searchRecipesStatement_example :
    searchRecipesStatement (fun _ => some ⟨45, 1⟩)
        { q := some " bread ", ingredients := some "flour, salt", categories := some "Dinner",
          difficulty := some "Easy", minRating := some "4.5", page := some "2" }
        (some sampleBob) =
      { liked := some 1,
        conditions :=
          [ .publicOrAuthor 1, .searchText 2, .ingredientNames [3, 4], .categoryNames [5],
            .difficultyIs 6, .minRating 7 ],
        orderBy := .relevance 8, limitParam := 9, offsetParam := 10,
        values :=
          [ .text "u2", .text "%bread%", .text "%flour%", .text "%salt%", .text "Dinner",
            .text "Easy", .float (some ⟨45, 1⟩), .text "%bread%", .int (some 10),
            .int (some 10) ] } := by
  decide

/-! ## C29: the pagination block -/

theorem ceilDiv_bounds (t l : Int) (hl : 0 < l) :
    (-(-t / l) - 1) * l < t ∧ t ≤ -(-t / l) * l := by
  have h1 := Int.emod_add_ediv (-t) l
  have h2 := Int.emod_nonneg (-t) (ne_of_gt hl)
  have h3 := Int.emod_lt_of_pos (-t) hl
  constructor <;> nlinarith

/-- C29: for integers `page` and `limit ≥ 1` and a count `total`, the offset is
`(page - 1) * limit`, `totalPages` is the ceiling of `total / limit`, `hasPrevPage` holds
exactly when `page > 1`, and `hasNextPage` exactly when `offset + limit < total`; the
block echoes `page`, `limit` and `total`. -/
theorem paginationOf_correct (p l : Int) (total : Nat) (hl : 1 ≤ l) :
    pageOffset (some p) (some l) = some ((p - 1) * l) ∧
    (paginationOf (some p) (some l) total).totalPages = .finite ⌈(total : ℚ) / (l : ℚ)⌉ ∧
    ((paginationOf (some p) (some l) total).hasPrevPage = true ↔ 1 < p) ∧
    ((paginationOf (some p) (some l) total).hasNextPage = true ↔
      (p - 1) * l + l < (total : Int)) ∧
    (paginationOf (some p) (some l) total).currentPage = some p ∧
    (paginationOf (some p) (some l) total).limit = some l ∧
    (paginationOf (some p) (some l) total).total = total := by
  have hl0 : 0 < l := by omega
  have hne : l ≠ 0 := by omega
  obtain ⟨hb1, hb2⟩ := ceilDiv_bounds (total : Int) l hl0
  have htp : totalPagesOf total (some l) = .finite (-(-(total : Int) / l)) := by
    unfold totalPagesOf
    simp only [if_neg hne, if_pos hl0]
  have hlq : (0 : ℚ) < (l : ℚ) := by exact_mod_cast hl0
  refine ⟨rfl, ?_, ?_, ?_, rfl, rfl, rfl⟩
  · show totalPagesOf total (some l) = _
    rw [htp]
    congr 1
    symm
    rw [Int.ceil_eq_iff]
    constructor
    · rw [lt_div_iff₀ hlq]
      exact_mod_cast hb1
    · rw [div_le_iff₀ hlq]
      exact_mod_cast hb2
  · show decide (p > 1) = true ↔ _
    rw [decide_eq_true_eq]
  · show pageBelow (some p) (totalPagesOf total (some l)) = true ↔ _
    rw [htp]
    show decide (p < -(-(total : Int) / l)) = true ↔ _
    rw [decide_eq_true_eq]
    constructor
    · intro h
      nlinarith
    · intro h
      by_contra hcon
      push_neg at hcon
      nlinarith

/-- C29 at page 2 with limit 10 and 25 rows: offset 10, three pages, and both
neighbours. -/
theorem paginationOf_correct_witness :
    pageOffset (some 2) (some 10) = some 10 ∧
    paginationOf (some 2) (some 10) 25 =
      { currentPage := some 2, totalPages := .finite 3, total := 25, limit := some 10,
        hasNextPage := true, hasPrevPage := true } :=
  ⟨(paginationOf_correct 2 10 25 (by decide)).1, by decide⟩

/-- The members the pagination block of a successful `getRecipes` is computed from: the
parsed `page` and `limit` of the query string and the result of the count query. -/
theorem getRecipes_pagination_source (ilike : String → String → Bool) (db : Db) (now : Nat)
    (q : RecipesQuery) (user : Option AuthUser) (body : RecipeListBody)
    (h : (getRecipes ilike db now q user).data = some body) :
    body.pagination =
      paginationOf (parseIntJs (q.page.getD "1")) (parseIntJs (q.limit.getD "10"))
        body.totalRecipes ∧
    countRecipes ilike db (buildWhere q (user.map fun u => u.id)) = some body.totalRecipes := by
  unfold getRecipes at h
  simp only at h
  split at h
  · cases h
  · rename_i total hcount
    split at h
    · cases h
    · simp only [Option.some.injEq] at h
      subst h
      exact ⟨rfl, hcount⟩

/-! ## C30: an update that omits `isPublic` -/

/-- C30 at the failing input: `alice` updates her public recipe `r2` with a valid body
that has no `isPublic`. The update succeeds, the value bound to `is_public` is `undefined`,
stored as `NULL`, and `bob`, who got the recipe with 200 before, gets 403 afterwards. -/
theorem updateRecipe_without_isPublic_hides_recipe :
    (recipesById sampleIngredientDb "r2").map (fun r => r.is_public) = [some true] ∧
    (getRecipeById sampleIngredientDb 4 "r2" (some sampleBob)).status = 200 ∧
    (updateRecipe sampleUuid sampleIngredientDb 3 true "r2" sampleAlice
      { sampleUpdateBody with isPublic := none }).1.status = 200 ∧
    (recipesById
      (updateRecipe sampleUuid sampleIngredientDb 3 true "r2" sampleAlice
        { sampleUpdateBody with isPublic := none }).2 "r2").map (fun r => r.is_public) =
      [none] ∧
    (getRecipeById
      (updateRecipe sampleUuid sampleIngredientDb 3 true "r2" sampleAlice
        { sampleUpdateBody with isPublic := none }).2 4 "r2" (some sampleBob)).status = 403 := by
  decide

end ReciptShare
